import Mathlib

/-!
# Secret HW Vault Challenge: a shallow embedding of the badge firmware

The firmware (`HardwareHacking1/src_sanitized.c`) is an Arduino sketch for an
AVR board: `int` is 16 bits, `unsigned long` is 32 bits, `char` is a signed
byte and the machine is little-endian.  Global variables become the fields of
`Device`; every function of the sketch becomes a function on `Device`.

What the hardware decides is carried by the state as well, so that every
function stays a pure, executable function:

* `ram`   the 64 registers of the DS1307 (timekeeping 0..7, RAM 8..63);
* `bus`   what the I2C bus does on the following transfers (empty: all fine);
* `rng`   the values the following `random()` calls return;
* `junk`  the content of memory the program reads without having written it
          (uninitialised locals, bytes past the end of an array);
* `log`   everything the program emitted, in order (serial port, display,
          LEDs, `delay` calls and the I2C writes it issued).

Serial input is passed to the functions that read it (`readString`) as the
list of bytes read, each with the `millis()` value that the loop condition saw
just before the byte was read.
-/

namespace Vault

/-! ## Effects and environment -/

/-- Everything the firmware emits. -/
inductive Effect where
  /-- `Serial.print(F("..."))` -/
  | print (s : String)
  /-- `Serial.println(F("..."))` -/
  | println (s : String)
  /-- `Serial.print(n)` of a number -/
  | printNum (n : Int)
  /-- `Serial.println(n)` of a number -/
  | printlnNum (n : Int)
  /-- `Serial.print((char) c)` or `Serial.write(c)` -/
  | printChar (c : Nat)
  /-- `Serial.print(buf)` of a character buffer: the bytes before the first NUL -/
  | printStr (bs : List Nat)
  /-- `Serial.println(buf)` of a character buffer -/
  | printlnStr (bs : List Nat)
  /-- `display.clearDisplay()` -/
  | oledClear
  /-- `writeString(msg, x, y)`: the bytes of `msg` before the first NUL -/
  | oledText (bs : List Nat) (x y : Int)
  /-- `display.display()` -/
  | oledShow
  /-- `display.drawRect(x, y, w, h, color)` -/
  | oledRect (x y w h c : Int)
  /-- `display.drawFastHLine(x, y, w, color)` -/
  | oledHLine (x y w c : Int)
  /-- `display.drawFastVLine(x, y, h, color)` -/
  | oledVLine (x y h c : Int)
  /-- `digitalWrite(pin, v)` -/
  | led (pin v : Nat)
  /-- `delay(ms)` -/
  | delay (ms : Nat)
  /-- the transfer issued by `clockWrite(addr, n, buf)` -/
  | i2cWrite (addr : Nat) (bs : List Nat)
  deriving DecidableEq, Repr

/-- What the I2C bus does on one transfer.  `ok`: the transfer is performed in
full.  `fault err br data`: `Wire.endTransmission()` returns `err`, the byte
count reported by `Wire.requestFrom` (read) or `Wire.write` (write) is `br`,
and on a read the receive buffer holds `data`. -/
inductive Bus where
  | ok
  | fault (err br : Nat) (data : List Nat)
  deriving DecidableEq, Repr

/-- A cell of the snake board (`struct Point`, two `int8_t`). -/
structure Point where
  x : Int
  y : Int
  deriving DecidableEq, Repr

/-- The global variables of the sketch, the DS1307 and the environment. -/
structure Device where
  /-- `char gBgMode` -/
  gBgMode : Int
  /-- `char gIsLocked` (only ever assigned 0 and 1) -/
  gIsLocked : Bool
  /-- `uint8_t gChallengeMode` -/
  gChallengeMode : Nat
  /-- `uint8_t gLedTimer` -/
  gLedTimer : Nat
  /-- `uint8_t gOldButtonStates` -/
  gOldButtonStates : Nat
  /-- `uint8_t gFreshModeChange` -/
  gFreshModeChange : Nat
  /-- `uint16_t gCurrentPinGuess` -/
  gCurrentPinGuess : Nat
  /-- `uint8_t gCurrentPinGuessPos` -/
  gCurrentPinGuessPos : Nat
  /-- `uint8_t gSnakeDir` -/
  gSnakeDir : Nat
  /-- `uint8_t gSnakeTime` -/
  gSnakeTime : Nat
  /-- `uint8_t gSnakeBufferPos` -/
  gSnakeBufferPos : Nat
  /-- `uint8_t gSnakeLen` -/
  gSnakeLen : Nat
  /-- `uint8_t gSnakeSpeed` -/
  gSnakeSpeed : Nat
  /-- `uint16_t gSnakeScore` -/
  gSnakeScore : Nat
  /-- `Point gSnake[MAX_SNAKE_LEN]` -/
  gSnake : List Point
  /-- `Point gApples[MAX_APPLES]` -/
  gApples : List Point
  /-- the 64 registers of the DS1307 -/
  ram : List Nat
  /-- behaviour of the following I2C transfers -/
  bus : List Bus
  /-- results of the following `random()` calls -/
  rng : List Nat
  /-- content of memory read without having been written -/
  junk : List (List Nat)
  /-- what has been emitted so far -/
  log : List Effect
  deriving DecidableEq, Repr

/-! ## Assignments to the variables -/

/-- The assignment `gBgMode = v`. -/
def Device.set_gBgMode (s : Device) (v : Int) : Device := { s with gBgMode := v }

/-- The assignment `gIsLocked = v`. -/
def Device.set_gIsLocked (s : Device) (v : Bool) : Device := { s with gIsLocked := v }

/-- The assignment `gChallengeMode = v`. -/
def Device.set_gChallengeMode (s : Device) (v : Nat) : Device := { s with gChallengeMode := v }

/-- The assignment `gLedTimer = v`. -/
def Device.set_gLedTimer (s : Device) (v : Nat) : Device := { s with gLedTimer := v }

/-- The assignment `gOldButtonStates = v`. -/
def Device.set_gOldButtonStates (s : Device) (v : Nat) : Device := { s with gOldButtonStates := v }

/-- The assignment `gFreshModeChange = v`. -/
def Device.set_gFreshModeChange (s : Device) (v : Nat) : Device := { s with gFreshModeChange := v }

/-- The assignment `gCurrentPinGuess = v`. -/
def Device.set_gCurrentPinGuess (s : Device) (v : Nat) : Device := { s with gCurrentPinGuess := v }

/-- The assignment `gCurrentPinGuessPos = v`. -/
def Device.set_gCurrentPinGuessPos (s : Device) (v : Nat) : Device := { s with gCurrentPinGuessPos := v }

/-- The assignment `gSnakeDir = v`. -/
def Device.set_gSnakeDir (s : Device) (v : Nat) : Device := { s with gSnakeDir := v }

/-- The assignment `gSnakeTime = v`. -/
def Device.set_gSnakeTime (s : Device) (v : Nat) : Device := { s with gSnakeTime := v }

/-- The assignment `gSnakeBufferPos = v`. -/
def Device.set_gSnakeBufferPos (s : Device) (v : Nat) : Device := { s with gSnakeBufferPos := v }

/-- The assignment `gSnakeLen = v`. -/
def Device.set_gSnakeLen (s : Device) (v : Nat) : Device := { s with gSnakeLen := v }

/-- The assignment `gSnakeSpeed = v`. -/
def Device.set_gSnakeSpeed (s : Device) (v : Nat) : Device := { s with gSnakeSpeed := v }

/-- The assignment `gSnakeScore = v`. -/
def Device.set_gSnakeScore (s : Device) (v : Nat) : Device := { s with gSnakeScore := v }

/-- The assignment `gSnake = v`. -/
def Device.set_gSnake (s : Device) (v : List Point) : Device := { s with gSnake := v }

/-- The assignment `gApples = v`. -/
def Device.set_gApples (s : Device) (v : List Point) : Device := { s with gApples := v }

/-- The assignment `ram = v`. -/
def Device.set_ram (s : Device) (v : List Nat) : Device := { s with ram := v }

/-- The assignment `bus = v`. -/
def Device.set_bus (s : Device) (v : List Bus) : Device := { s with bus := v }

/-- The assignment `rng = v`. -/
def Device.set_rng (s : Device) (v : List Nat) : Device := { s with rng := v }

/-- The assignment `junk = v`. -/
def Device.set_junk (s : Device) (v : List (List Nat)) : Device := { s with junk := v }

/-- The assignment `log = v`. -/
def Device.set_log (s : Device) (v : List Effect) : Device := { s with log := v }

/-! ## Constants of the sketch -/

def CHAL_MODE_LEN : Nat := 1
def FLAG_LEN : Nat := 12
/-- `sizeof(unsigned long)` on AVR. -/
def PIN_CODE_LEN : Nat := 4
def PIN_CODE_DIGITS : Nat := 5
def HIGH_SCORE_LEN : Nat := 2

def CHAL_MODE_ADDR : Nat := 8
def PIN_CODE_0_ADDR : Nat := CHAL_MODE_ADDR + CHAL_MODE_LEN
def FLAG_0_ADDR : Nat := PIN_CODE_0_ADDR + PIN_CODE_LEN
def PIN_CODE_1_ADDR : Nat := FLAG_0_ADDR + FLAG_LEN
def FLAG_1_ADDR : Nat := PIN_CODE_1_ADDR + PIN_CODE_LEN
def PIN_CODE_2_ADDR : Nat := FLAG_1_ADDR + FLAG_LEN
def FLAG_2_ADDR : Nat := PIN_CODE_2_ADDR + PIN_CODE_LEN
def PIN_CODE_3_ADDR : Nat := FLAG_2_ADDR + FLAG_LEN
def HIGH_SCORE_ADDR : Nat := PIN_CODE_3_ADDR + PIN_CODE_LEN

def RED_LED : Nat := 9
def GREEN_LED : Nat := 8

def MAX_BG_MODES : Int := 6

/-! ## Machine arithmetic and strings -/

/-- Conversion to a signed byte (`char`, `int8_t`). -/
def toInt8 (x : Int) : Int := (x + 128) % 256 - 128

/-- Conversion to `int` (16 bits), as `sprintf("%d")` sees its argument. -/
def toInt16 (x : Int) : Int := (x + 32768) % 65536 - 32768

/-- The bytes of a string literal. -/
def bytes (s : String) : List Nat := s.toList.map Char.toNat

/-- The C string stored in a buffer: the bytes before the first NUL. -/
def cstr (buf : List Nat) : List Nat := buf.takeWhile (fun b => b != 0)

/-- Copy `src` over the beginning of `dst` (`dst` keeps its length when `src`
fits). -/
def overwrite (dst src : List Nat) : List Nat := src ++ dst.drop src.length

/-- Decimal digits of a natural number, as bytes. -/
def decimal (n : Nat) : List Nat := (Nat.toDigits 10 n).map Char.toNat

/-- The text `sprintf(buf, "%d", v)` produces for a 16-bit `int` argument. -/
def sprintfInt (v : Int) : List Nat :=
  if toInt16 v < 0 then 45 :: decimal (toInt16 v).natAbs else decimal (toInt16 v).natAbs

/-- Append effects to the log. -/
def emit (s : Device) (es : List Effect) : Device := s.set_log (s.log ++ es)

/-- Take the next piece of never-written memory, as `n` bytes. -/
def uninit (s : Device) (n : Nat) : Device × List Nat :=
  match s.junk with
  | [] => (s, List.replicate n 0)
  | j :: js => (s.set_junk js, (j ++ List.replicate n 0).take n)

/-- Take the bytes that lie in memory behind a buffer. -/
def beyond (s : Device) : Device × List Nat :=
  match s.junk with
  | [] => (s, [])
  | j :: js => (s.set_junk js, j)

/-- Helper `hexPrint(val)`: two lower-case hexadecimal digits. -/
def hexPrint (s : Device) (val : Nat) : Device :=
  let hi := val / 16
  let s1 := if hi ≥ 10 then emit s [.printChar (97 + hi - 10)] else emit s [.printChar (48 + hi)]
  let lo := val % 16
  if lo ≥ 10 then emit s1 [.printChar (97 + lo - 10)] else emit s1 [.printChar (48 + lo)]

/-! ## The I2C channel to the DS1307 -/

/-- Take the behaviour of the next I2C transfer. -/
def nextBus (s : Device) : Device × Bus :=
  match s.bus with
  | [] => (s, .ok)
  | b :: bs => (s.set_bus bs, b)

/-- The `n` registers the chip delivers from register `addr` on (the register
pointer wraps from 0x3F to 0x00). -/
def ramRead (ram : List Nat) (addr n : Nat) : List Nat :=
  (List.range n).map (fun i => ram.getD ((addr + i) % 64) 0)

/-- Store `bs` in the registers from `addr` on. -/
def ramWrite : List Nat → Nat → List Nat → List Nat
  | ram, _, [] => ram
  | ram, addr, b :: bs => ramWrite (ram.set (addr % 64) b) (addr + 1) bs

/-- The message `clockRead` prints for a non-zero `Wire.endTransmission()`
result. -/
def clockReadErr (err : Nat) : List Effect :=
  match err with
  | 0 => []
  | 1 => [.println "Data too long!"]
  | 2 => [.println "Received NAK on address"]
  | 3 => [.println "Received NAK on data"]
  | 4 => [.println "Other error"]
  | 5 => [.println "Timeout"]
  | e => [.println "Invalid error code", .print "Err code =", .printlnNum e]

/-- The copy loop of `clockRead` that also prints the traffic (challenge 0):
`i` bytes are copied so far, `br` is the announced count, `data` what is still
in the receive buffer.  Returns the device, the buffer and `some i` when the
function returns `i` from inside the loop. -/
def clockReadLoop0 (br : Nat) : Nat → List Nat → Nat → Device → List Nat →
    Device × List Nat × Option Nat
  | 0, _, _, s, buf => (s, buf, none)
  | fuel + 1, data, i, s, buf =>
    match data with
    | [] =>
      (emit s [.print "Error. read ", .printNum br, .print " bytes, but only ", .printNum i,
        .println " available"], buf, some i)
    | d :: ds => clockReadLoop0 br fuel ds (i + 1) (hexPrint s d) (buf.set i d)

/-- The silent copy loop of `clockRead` (challenges 1 to 3). -/
def clockReadLoop : Nat → List Nat → Nat → List Nat → List Nat × Option Nat
  | 0, _, _, buf => (buf, none)
  | fuel + 1, data, i, buf =>
    match data with
    | [] => (buf, some i)
    | d :: ds => clockReadLoop fuel ds (i + 1) (buf.set i d)

/-- Function `clockRead(clockAddr, numBytes, buf)`: returns the device, the
number of bytes read and the buffer. -/
def clockRead (s : Device) (clockAddr numBytes : Nat) (buf : List Nat) :
    Device × Nat × List Nat :=
  let (s1, b) := nextBus s
  let err := match b with
    | .ok => 0
    | .fault e _ _ => e
  -- `Wire.requestFrom` never reports more than was asked for
  let br := match b with
    | .ok => numBytes
    | .fault _ n _ => min n numBytes
  let data := match b with
    | .ok => ramRead s1.ram clockAddr numBytes
    | .fault _ _ d => d
  let s2 := emit s1 (clockReadErr err)
  if s2.gChallengeMode = 0 then
    -- Print out all the I2C traffic for challenge 1 only
    let s3 := emit s2 [.print "Read ", .printNum clockAddr, .print ": "]
    match clockReadLoop0 br br data 0 s3 buf with
    | (s4, buf1, some i) => (s4, i, buf1)
    | (s4, buf1, none) => (emit s4 [.println ""], br, buf1)
  else
    match clockReadLoop br data 0 buf with
    | (buf1, some i) => (s2, i, buf1)
    | (buf1, none) => (s2, br, buf1)

/-- Function `clockWrite(clockAddr, numBytes, buf)`: returns the device and the
result of `Wire.endTransmission()` (0 on success).  The registers change when
the transmission is acknowledged. -/
def clockWrite (s : Device) (clockAddr numBytes : Nat) (buf : List Nat) : Device × Nat :=
  let s1 := emit s [.println "clockWrite"]
  let (s2, b) := nextBus s1
  let br := match b with
    | .ok => numBytes
    | .fault _ n _ => min n numBytes
  let retVal := match b with
    | .ok => 0
    | .fault e _ _ => e
  let s3 := emit s2 [.i2cWrite clockAddr (buf.take numBytes)]
  let s4 := if br ≠ numBytes then
      emit s3 [.print "Wire.write wrote ", .printNum br, .print " bytes of expected ",
        .printlnNum numBytes]
    else s3
  let s5 := if retVal = 0 then s4.set_ram (ramWrite s4.ram clockAddr (buf.take br)) else s4
  let s6 := emit s5 [.print "Wrote ", .printNum numBytes, .print " bytes to "]
  (emit (hexPrint s6 clockAddr) [.println ""], retVal)

/-! ## Reading a line from the serial port -/

/-- Outcome of `readString`. -/
structure Line where
  /-- the return value: number of characters, or -1 on a timeout -/
  ret : Int
  /-- the caller's buffer afterwards -/
  buf : List Nat
  /-- serial input not consumed -/
  rest : List (Nat × Nat)
  /-- the echo -/
  out : List Effect
  deriving DecidableEq, Repr

/-- The deadline `readString` computes: `millis() * (timeoutVal * 1000)` in
`unsigned long` arithmetic, `t0` being the value of `millis()`. -/
def readStringDeadline (t0 timeoutVal : Nat) : Nat :=
  (t0 % 4294967296 * (timeoutVal * 1000 % 4294967296)) % 4294967296

/-- The loop of `readString`.  An input item `(t, c)` is the byte `c` read in
an iteration whose loop condition saw `millis() = t`; iterations that find
nothing available only wait.  When no input is left the loop ends by the
clock. -/
def readStringLoop (len deadline : Nat) :
    List (Nat × Nat) → List Nat → Nat → List Effect → Line
  | [], strBuf, _, out => ⟨-1, strBuf, [], out ++ [.println "\nTIMEOUT"]⟩
  | (t, c) :: rest, strBuf, pos, out =>
    if t < deadline then
      let strBuf1 := strBuf.set pos c
      let out1 := out ++ [.printChar c]
      if c = 10 ∨ c = 13 then
        ⟨pos, strBuf1.set pos 0, rest, out1⟩
      else
        let pos1 := (pos + 1) % 256
        if pos1 = len then
          -- Can't overwrite the null at the end
          ⟨(pos1 : Int) - 1, strBuf1, rest, out1⟩
        else readStringLoop len deadline rest strBuf1 pos1 out1
    else ⟨-1, strBuf, (t, c) :: rest, out ++ [.println "\nTIMEOUT"]⟩

/-- Function `readString(len, strBuf, timeoutVal)` called when `millis()` is
`t0`, with the serial input `input`. -/
def readString (len : Nat) (timeoutVal t0 : Nat) (input : List (Nat × Nat)) : Line :=
  readStringLoop len (readStringDeadline t0 timeoutVal) input (List.replicate len 0) 0 []

/-! ## `strtoul(s, 0, 10)` of the C library -/

/-- C `isspace` in the "C" locale. -/
def isspace (c : Nat) : Bool := c == 32 || (9 ≤ c && c ≤ 13)

/-- The digit loop of `strtoul` in base 10: accumulator and overflow mark. -/
def strtoulLoop : List Nat → Nat → Bool → Nat × Bool
  | [], acc, ovf => (acc, ovf)
  | c :: cs, acc, ovf =>
    if 48 ≤ c ∧ c ≤ 57 then
      if ovf then strtoulLoop cs acc true
      else if acc > 429496729 ∨ (acc = 429496729 ∧ c - 48 > 5) then strtoulLoop cs acc true
      else strtoulLoop cs (acc * 10 + (c - 48)) false
    else (acc, ovf)

/-- `strtoul(s, 0, 10)` on the bytes `s` (the end of the list stands for a
NUL): white space, an optional sign, decimal digits; `ULONG_MAX` on overflow. -/
def strtoul (s : List Nat) : Nat :=
  let body := (cstr s).dropWhile isspace
  let neg := body.head? = some 45
  let digits := if body.head? = some 45 ∨ body.head? = some 43 then body.drop 1 else body
  match strtoulLoop digits 0 false with
  | (_, true) => 4294967295
  | (acc, false) => if neg then (4294967296 - acc) % 4294967296 else acc

/-! ## The secret vault: flags and PIN codes -/

/-- The compiled-in flag of challenge 3 (`flag_4`, as the shared source has it). -/
def flag_4 : List Nat := bytes "********"

/-- Function `getFlag(flagNum, flagBuf)`: returns the device and the buffer. -/
def getFlag (s : Device) (flagNum : Nat) (flagBuf : List Nat) : Device × List Nat :=
  if flagNum ≥ 3 then
    (s, overwrite flagBuf (flag_4 ++ [0]))
  else
    let flagNum1 := flagNum % 3
    let flagBuf1 := overwrite flagBuf (List.replicate (FLAG_LEN + 1) 0)
    let addr := FLAG_0_ADDR + (FLAG_LEN + PIN_CODE_LEN) * flagNum1
    let (s1, _, flagBuf2) := clockRead s addr FLAG_LEN flagBuf1
    (s1, flagBuf2)

/-- Function `getFlagMyChalMode(flagBuf)`. -/
def getFlagMyChalMode (s : Device) (flagBuf : List Nat) : Device × List Nat :=
  getFlag s s.gChallengeMode flagBuf

/-- Function `printFlagToSerial(flagNum)`. -/
def printFlagToSerial (s : Device) (flagNum : Nat) : Device :=
  let (s1, flag0) := uninit s (FLAG_LEN + 1)
  let (s2, flag) := getFlag s1 flagNum flag0
  -- Need to make sure we have a null terminator before printing
  if (flag.take FLAG_LEN).any (fun b => b == 0) then
    emit s2 [.print "Flag ", .printNum flagNum, .print ": wildcat\x7b", .printStr (cstr flag),
      .println "\x7d"]
  else
    emit s2 [.println "Error. Flag data lacks null terminator"]

/-- Function `commandGetFlags()`. -/
def commandGetFlags (s : Device) : Device :=
  if s.gIsLocked = false then
    printFlagToSerial s s.gChallengeMode
  else
    emit s [.println "Must unlock device first!"]

/-- The value of an `unsigned long` stored in four bytes (little-endian). -/
def le32 (bs : List Nat) : Nat :=
  bs.getD 0 0 + 256 * bs.getD 1 0 + 65536 * bs.getD 2 0 + 16777216 * bs.getD 3 0

/-- Function `readPinFromRam(pinStoreNum)`: returns the device and the PIN. -/
def readPinFromRam (s : Device) (pinStoreNum : Nat) : Device × Nat :=
  let pinStoreNum1 := pinStoreNum % 4
  let addr := PIN_CODE_0_ADDR + (PIN_CODE_LEN + FLAG_LEN) * pinStoreNum1
  -- the local `retVal` is used only after all of its four bytes are assigned
  let (s1, n, retVal) := clockRead s addr 4 (List.replicate 4 0)
  if n ≠ 4 then
    -- retVal = -1
    (emit s1 [.println "Error reading the pin code"], 4294967295)
  else
    -- If somehow large pin goes in, unlock is only uint16_t
    (s1, le32 retVal % 65536)

/-! ## Provisioning: writing PIN codes and flags -/

/-- The four bytes of an `unsigned long` in memory (little-endian). -/
def bytes32 (v : Nat) : List Nat :=
  [v % 256, v / 256 % 256, v / 65536 % 256, v / 16777216 % 256]

/-- Function `writePinToRam(pinStoreNum, pinVal)`. -/
def writePinToRam (s : Device) (pinStoreNum : Nat) (pinVal : Nat) : Device :=
  let pinStoreNum1 := pinStoreNum % 4
  let addr := PIN_CODE_0_ADDR + (PIN_CODE_LEN + FLAG_LEN) * pinStoreNum1
  let (s1, r) := clockWrite s addr 4 (bytes32 pinVal)
  if r ≠ 0 then emit s1 [.println "Error save the pin code"]
  else emit s1 [.print "Wrote pin ", .printNum pinVal, .println " to external RAM"]

/-- Function `writeFlag(flagNum)`, called when `millis()` is `t0` with the
serial input `input`; returns the device and the input left over.  The local
`flag` has `FLAG_LEN + 1` bytes, of which `readString` uses the first
`FLAG_LEN`. -/
def writeFlag (s : Device) (flagNum : Nat) (t0 : Nat) (input : List (Nat × Nat)) :
    Device × List (Nat × Nat) :=
  let s1 := emit s
    [.println "Give me a flag to write (don\x27t include wildcat or curly braces)"]
  let r := readString FLAG_LEN 30 t0 input
  let flag := r.buf ++ [0]
  let s2 := emit s1 r.out
  if r.ret = -1 then
    (emit s2 [.println "Timeout reading flag from user"], r.rest)
  else
    let s3 := emit s2 [.print "Writing flag ", .printNum flagNum, .print ": wildcat\x7b",
      .printStr (cstr flag), .println "\x7d"]
    let flagNum1 := flagNum % 3
    let addr := FLAG_0_ADDR + (FLAG_LEN + PIN_CODE_LEN) * flagNum1
    let (s4, _) := clockWrite s3 addr FLAG_LEN flag
    (emit s4 [.println "Done"], r.rest)

/-! ## Version texts -/

/-- The four version texts (`ver_string_array`). -/
def ver_string_array : List String :=
  ["Flag via serial CLI", "Flag via serial pin brute force", "Flag via button brute force",
   "Flag via hardware monitoring"]

/-- Function `getVersionString(verNum)`. -/
def getVersionString (verNum : Nat) : List Nat :=
  bytes (ver_string_array.getD (verNum % 4) "")

/-- Function `commandGetVersion()` (non-debug build). -/
def commandGetVersion (s : Device) : Device :=
  emit s [.print "Version: ", .printlnNum s.gChallengeMode,
    .printlnStr (getVersionString s.gChallengeMode)]

/-! ## Shell commands of the challenge state machine -/

/-- Function `commandNextChallenge()`, called when `millis()` is `t0` with the
serial input `input`; returns the device and the input left over. -/
def commandNextChallenge (s : Device) (t0 : Nat) (input : List (Nat × Nat)) :
    Device × List (Nat × Nat) :=
  if s.gBgMode = 3 then
    (emit s [.println "Can't be on flag screen!"], input)
  else
    let s1 := emit s [.println "You really want to goto next challenge?",
      .println "Type yes to confirm"]
    let r := readString 4 30 t0 input
    let s2 := emit s1 (r.out ++ [.println ""])
    if r.ret ≠ 3 then (s2, r.rest)
    else if r.buf.getD 0 0 ≠ 121 ∨ r.buf.getD 1 0 ≠ 101 ∨ r.buf.getD 2 0 ≠ 115 then (s2, r.rest)
    else
      let m := (s2.gChallengeMode + 1) % 256
      let m1 := if m = 4 then 0 else m
      let s3 := s2.set_gChallengeMode m1
      let s4 := emit s3 [.println "Mode changed to ", .printlnNum m1,
        .printlnStr (getVersionString m1)]
      let (s5, _) := clockWrite s4 CHAL_MODE_ADDR CHAL_MODE_LEN [m1]
      (s5.set_gIsLocked true, r.rest)

/-- Function `commandLock()`. -/
def commandLock (s : Device) : Device :=
  (emit s [.println "Locking!"]).set_gIsLocked true

/-- The value `commandUnlock` parses from its line buffer: `strtoul` reads the
six bytes of `pinCode` and, when they hold no NUL, the memory behind them. -/
def parsePin (pinCode behind : List Nat) : Nat := strtoul (pinCode ++ behind)

/-- Function `commandUnlock()`, called when `millis()` is `t0` with the
serial input `input`; returns the device and the input left over. -/
def commandUnlock (s : Device) (t0 : Nat) (input : List (Nat × Nat)) :
    Device × List (Nat × Nat) :=
  let s1 := emit s [.println "Enter the pin (no mor than 5 digits)"]
  let r := readString (PIN_CODE_DIGITS + 1) 30 t0 input
  let s2 := emit s1 r.out
  if r.ret = -1 then
    (emit s2 [.println "Timeout waiting for pin code"], r.rest)
  else
    let (s3, behind) := beyond s2
    let pinRaw := parsePin r.buf behind
    let (s4, expectedPin) := readPinFromRam s3 s3.gChallengeMode
    let s5 := emit s4 [.println ""]
    if pinRaw = expectedPin then
      ((emit s5 [.println "PIN ACCEPTED!"]).set_gIsLocked false, r.rest)
    else
      let s6 := emit s5 [.print "PIN ", .printNum pinRaw, .println " INVALID"]
      if s6.gChallengeMode ≥ 2 then
        (emit s6 [.println "Brute force guard!  Wait 5 seconds", .delay 5000,
          .println "You can try again now!"], r.rest)
      else (s6, r.rest)

/-! ## Provisioning: a PIN typed on the shell -/

/-- Function `setPin(pinNum)`, called when `millis()` is `t0` with the serial
input `input`; returns the device and the input left over.  The validation
loop runs over the first `PIN_CODE_LEN` bytes of `pinCode`; a byte of 128 or
more fails the test whether `char` is signed or not.  `strtoul` reads the six
bytes of `pinCode` and, when they hold no NUL, the memory behind them. -/
def setPin (s : Device) (pinNum : Nat) (t0 : Nat) (input : List (Nat × Nat)) :
    Device × List (Nat × Nat) :=
  let s1 := emit s [.println "Give me a pin to write (no mor than 5 digits)"]
  let r := readString (PIN_CODE_DIGITS + 1) 30 t0 input
  let s2 := emit s1 r.out
  if r.ret = -1 then
    (emit s2 [.println "Timeout waiting for pin code"], r.rest)
  else if r.ret < 3 ∨ r.ret > 5 then
    (emit s2 [.print "Invalid pin length of ", .printlnNum r.ret], r.rest)
  -- Validate the pin code
  else if (List.range PIN_CODE_LEN).any
      (fun i => decide (r.buf.getD i 0 < 48 ∨ r.buf.getD i 0 > 57)) then
    (emit s2 [.println "Pin code is invalid"], r.rest)
  else
    let (s3, behind) := beyond s2
    let pinRaw := parsePin r.buf behind
    let s4 := emit s3 [.print "Writing pin #", .printNum pinNum, .print " as ",
      .printlnNum pinRaw]
    (writePinToRam s4 pinNum pinRaw, r.rest)

/-! ## Mode navigator -/

/-- Function `serialPrintMode(modeVal)`. -/
def serialPrintMode (s : Device) (modeVal : Int) : Device :=
  if modeVal = 0 then emit s [.print "clock"]
  else if modeVal = 1 then emit s [.print "unlock"]
  else if modeVal = 2 then emit s [.print "version"]
  else if modeVal = 3 then emit s [.print "get flag"]
  else if modeVal = 4 then emit s [.print "lock"]
  else emit s [.print "snake"]

/-- The six mode names (`mode_string_array`). -/
def mode_string_array : List String := ["clock", "unlock", "version", "flag", "lock", "snake"]

/-- Function `writeString(msg, x, y)`. -/
def writeString (s : Device) (msg : List Nat) (x y : Int) : Device :=
  emit s [.oledText (cstr msg) x y]

/-- Function `displayMode(modeVal, x, y)`. -/
def displayMode (s : Device) (modeVal : Int) (x y : Int) : Device :=
  if 0 ≤ modeVal ∧ modeVal ≤ 5 then
    writeString s (bytes (mode_string_array.getD modeVal.toNat "")) x y
  else
    writeString s (bytes (mode_string_array.getD 5 "")) x y

/-- Function `validateCurrentMode()`. -/
def validateCurrentMode (s : Device) : Device :=
  let s1 :=
    if s.gBgMode < 0 then
      if s.gIsLocked then s.set_gBgMode 2
      else s.set_gBgMode (MAX_BG_MODES - 1)
    else s
  if s1.gIsLocked then s1.set_gBgMode (Int.tmod s1.gBgMode 3)
  else s1.set_gBgMode (Int.tmod s1.gBgMode MAX_BG_MODES)

/-- Function `modeUp()`. -/
def modeUp (s : Device) : Device :=
  let s1 := emit (serialPrintMode (emit s [.print "Old mode = "]) s.gBgMode) [.println ""]
  let s2 := s1.set_gBgMode (toInt8 (s1.gBgMode + 1))
  let s3 := validateCurrentMode s2
  let s4 := emit (serialPrintMode (emit s3 [.print "New mode = "]) s3.gBgMode) [.println ""]
  s4.set_gFreshModeChange 20

/-- Function `modeDown()`. -/
def modeDown (s : Device) : Device :=
  let s1 := emit (serialPrintMode (emit s [.print "Old mode = "]) s.gBgMode) [.println ""]
  let s2 := s1.set_gBgMode (toInt8 (s1.gBgMode - 1))
  let s3 := validateCurrentMode s2
  let s4 := emit (serialPrintMode (emit s3 [.print "New mode = "]) s3.gBgMode) [.println ""]
  s4.set_gFreshModeChange 20

/-! ## Display modes -/

/-- Function `displayClock()`. -/
def displayClock (s : Device) : Device :=
  -- the local `curTime` is used only after its three bytes are assigned
  let (s1, n, curTime) := clockRead s 0 3 (List.replicate 3 0)
  if n ≠ 3 then emit s1 [.println "Error reading the time"]
  else
    let c0 := curTime.getD 0 0
    let c1 := curTime.getD 1 0
    let c2 := curTime.getD 2 0
    let timeStr : List Nat :=
      [48 + ((c2 &&& 0x30) >>> 4), 48 + (c2 &&& 0x0f), 58,
       48 + ((c1 &&& 0xf0) >>> 4), 48 + (c1 &&& 0x0f), 58,
       48 + ((c0 &&& 0x70) >>> 4), 48 + (c0 &&& 0x0f), 0, 0, 0, 0]
    if c2 &&& 0x40 ≠ 0 then
      -- Display 24 hr clock
      emit (writeString (emit s1 [.oledClear]) timeStr 14 25) [.oledShow]
    else
      let timeStr1 :=
        if c2 &&& 0x20 ≠ 0 then ((timeStr.set 0 (48 + ((c2 &&& 0x10) >>> 4))).set 9 80).set 10 77
        else (timeStr.set 9 65).set 10 77
      -- Display 12 hr clock
      let s2 := writeString (emit s1 [.oledClear]) timeStr1 14 12
      emit (writeString s2 (timeStr1.drop 9) 50 38) [.oledShow]

/-- The digit loop of `displayUnlock`: writes digit `i` and continues up to 4. -/
def displayUnlockLoop : Nat → Nat → Nat → Device → Device
  | 0, _, _, s => s
  | n + 1, i, curModPin, s =>
    let singleDigit := (curModPin % 10) % 256
    displayUnlockLoop n (i + 1) (curModPin / 10)
      (writeString s [(48 + singleDigit) % 256, 0] (64 - (i : Int) * 16) 20)

/-- Function `displayUnlock()`. -/
def displayUnlock (s : Device) : Device :=
  let s1 := emit s [.oledClear]
  let s2 := writeString s1 (bytes "v") ((s.gCurrentPinGuessPos : Int) * 16) 0
  let s3 := writeString s2 (bytes "^") ((s.gCurrentPinGuessPos : Int) * 16) 40
  emit (displayUnlockLoop 5 0 s.gCurrentPinGuess s3) [.oledShow]

/-- Function `displayVersion()` (non-debug build). -/
def displayVersion (s : Device) : Device :=
  let s1 := emit s [.oledClear]
  let versionNum := bytes "Ver 1." ++ sprintfInt s.gChallengeMode
  let s2 := writeString s1 versionNum 0 10
  emit (writeString s2 (getVersionString s.gChallengeMode) 0 25) [.oledShow]

/-- Function `displayFlag()`.  The buffer `flagStr` has `FLAG_LEN + 0x10` bytes
and starts uninitialised; the text the display shows runs to the first NUL. -/
def displayFlag (s : Device) : Device :=
  let (s1, flagStr0) := uninit s (FLAG_LEN + 0x10)
  let (s2, behind) := beyond s1
  let flagStr1 := overwrite flagStr0 (bytes "wildcat\x7b" ++ [0])
  let at8 := (cstr flagStr1).length
  let (s3, tail) := getFlagMyChalMode s2 (flagStr1.drop at8)
  let flagStr2 := flagStr1.take at8 ++ tail
  let flagStr3 := flagStr2.set (cstr (flagStr2 ++ behind)).length 125
  -- `flagStr[strlen(flagStr)] = 0` stores a NUL where the first NUL already is
  let s4 := emit s3 [.oledClear]
  emit (writeString s4 (flagStr3 ++ behind) 0 0) [.oledShow]

/-- Function `displayLock()`. -/
def displayLock (s : Device) : Device :=
  let s1 := emit s [.oledClear]
  let s2 := writeString s1 (bytes "Vault\nSecured") 0 10
  (emit s2 [.oledShow]).set_gIsLocked true

/-- Function `displayChangeModes()`. -/
def displayChangeModes (s : Device) : Device :=
  emit (displayMode (emit s [.oledClear]) s.gBgMode 10 20) [.oledShow]

/-! ## Unlock protocol: button entry -/

/-- The place value `unlockUpHandler` and `unlockDownHandler` compute:
`curPosVal` multiplied by 10 once for every `i < 4 - gCurrentPinGuessPos`, in
`uint16_t`. -/
def curPosVal (s : Device) : Nat :=
  (List.range (4 - s.gCurrentPinGuessPos)).foldl (fun v _ => v * 10 % 65536) 1

/-- Function `unlockUpHandler()`. -/
def unlockUpHandler (s : Device) : Device :=
  let s1 := s.set_gCurrentPinGuess ((s.gCurrentPinGuess + curPosVal s) % 65536)
  emit s1 [.print "gCurrentPinGuess: ", .printlnNum s1.gCurrentPinGuess]

/-- Function `unlockDownHandler()`. -/
def unlockDownHandler (s : Device) : Device :=
  let s1 := s.set_gCurrentPinGuess ((s.gCurrentPinGuess + 65536 - curPosVal s) % 65536)
  emit s1 [.print "gCurrentPinGuess: ", .printlnNum s1.gCurrentPinGuess]

/-- Function `unlockLeftHandler()`. -/
def unlockLeftHandler (s : Device) : Device :=
  if s.gCurrentPinGuessPos = 0 then s
  else
    let s1 := s.set_gCurrentPinGuessPos (s.gCurrentPinGuessPos - 1)
    emit s1 [.print "gCurrentPinGuessPos: ", .printlnNum s1.gCurrentPinGuessPos]

/-- Function `unlockRightHandler()`. -/
def unlockRightHandler (s : Device) : Device :=
  if s.gCurrentPinGuessPos ≥ 4 then s
  else s.set_gCurrentPinGuessPos (s.gCurrentPinGuessPos + 1)

/-- Function `unlockAHandler()`. -/
def unlockAHandler (s : Device) : Device :=
  s.set_gFreshModeChange 20

/-- The countdown `unlockBHandler` shows at challenge 3, for `i` from 20 down
to 0. -/
def wrongCountdown : Nat → Device → Device
  | 0, s =>
    let s1 := writeString (emit s [.oledClear]) (bytes "WRONG") 30 10
    emit (writeString s1 (sprintfInt 0) 60 40) [.oledShow, .delay 1000]
  | i + 1, s =>
    let s1 := writeString (emit s [.oledClear]) (bytes "WRONG") 30 10
    wrongCountdown i (emit (writeString s1 (sprintfInt (i + 1 : Nat)) 60 40)
      [.oledShow, .delay 1000])

/-- Function `unlockBHandler()`. -/
def unlockBHandler (s : Device) : Device :=
  let (s1, expectedPin) := readPinFromRam s s.gChallengeMode
  if s1.gCurrentPinGuess = expectedPin then
    ((emit s1 [.println "Valid Pin", .led GREEN_LED 1, .led RED_LED 0]).set_gLedTimer 20).set_gIsLocked
      false
  else
    let s2 := (emit s1 [.println "Invalid pin", .led GREEN_LED 0, .led RED_LED 1]).set_gLedTimer 20
    if s2.gChallengeMode = 3 then wrongCountdown 20 s2 else s2

/-! ## Snake session -/

def MAX_APPLES : Nat := 8
def MAX_SNAKE_LEN : Nat := 16
def SNAKE_LEN_MAX : Nat := 16
def SNAKE_UP : Nat := 0
def SNAKE_DOWN : Nat := 1
def SNAKE_LEFT : Nat := 2
def SNAKE_RIGHT : Nat := 3
def SNAKE_SCREEN_WIDTH : Int := 64
def SNAKE_SCREEN_HEIGHT : Int := 32
def SCREEN_WIDTH : Int := 128
def SCREEN_HEIGHT : Int := 64

/-- Function `snakeDrawPixel(p)`. -/
def snakeDrawPixel (s : Device) (p : Point) : Device :=
  emit s [.oledRect (p.x * 2) (p.y * 2) 2 2 1]

/-- Function `snakeClearPixel(p)`. -/
def snakeClearPixel (s : Device) (p : Point) : Device :=
  emit s [.oledRect (p.x * 2) (p.y * 2) 2 2 0]

/-- Function `snakeDrawApples()`. -/
def snakeDrawApples (s : Device) : Device :=
  (s.gApples.take MAX_APPLES).foldl (fun d a => if a.x ≠ -1 then snakeDrawPixel d a else d) s

/-- The element `gSnake[i]`. -/
def snakeAt (s : Device) (i : Nat) : Point := s.gSnake.getD i ⟨0, 0⟩

/-- The loop of `snakeDrawSnake`: `n` segments remain, `snakeIndex` is the
index before the wrap-around test. -/
def snakeDrawSnakeLoop : Nat → Int → Device → Device
  | 0, _, s => s
  | n + 1, snakeIndex, s =>
    let idx := if snakeIndex = -1 then (MAX_SNAKE_LEN : Int) - 1 else snakeIndex
    snakeDrawSnakeLoop n (idx - 1) (snakeDrawPixel s (snakeAt s idx.toNat))

/-- Function `snakeDrawSnake()`. -/
def snakeDrawSnake (s : Device) : Device :=
  snakeDrawSnakeLoop s.gSnakeLen s.gSnakeBufferPos s

/-- Function `snakeRedrawDisplay()`. -/
def snakeRedrawDisplay (s : Device) : Device :=
  let s1 := emit s [.oledClear, .oledHLine 0 0 SCREEN_WIDTH 1, .oledHLine 0 1 SCREEN_WIDTH 1,
    .oledHLine 0 (SCREEN_HEIGHT - 1) SCREEN_WIDTH 1, .oledHLine 0 (SCREEN_HEIGHT - 2) SCREEN_WIDTH 1,
    .oledVLine 0 0 SCREEN_HEIGHT 1, .oledVLine 1 0 SCREEN_HEIGHT 1,
    .oledVLine (SCREEN_WIDTH - 2) 0 SCREEN_HEIGHT 1, .oledVLine (SCREEN_WIDTH - 1) 0 SCREEN_HEIGHT 1]
  emit (snakeDrawSnake (snakeDrawApples s1)) [.oledShow]

/-- The first loop of `snakeInit`: all eight apple slots become (-1, -1). -/
def snakeInitApples (apples : List Point) : List Point :=
  (List.range 8).foldl (fun a i => a.set i ⟨-1, -1⟩) apples

/-- Function `snakeInit()`. -/
def snakeInit (s : Device) : Device :=
  let s1 := emit s [.println "SnakeInit"]
  let snake := ((s1.gSnake.set 0 ⟨32, 16⟩).set 1 ⟨33, 16⟩).set 2 ⟨34, 16⟩
  (((((((s1.set_gApples (snakeInitApples s1.gApples)).set_gSnake snake).set_gSnakeLen 3).set_gSnakeBufferPos
    2).set_gSnakeDir SNAKE_RIGHT).set_gSnakeTime 0).set_gSnakeScore 0).set_gSnakeSpeed 0x5

/-- One of the five rounds of the loop of `snakeReset`. -/
def snakeResetRound (draw_apples : Bool) (i : Nat) (s : Device) : Device :=
  let s1 := emit s [.oledClear]
  let s2 := if i < 3 ∧ draw_apples then snakeDrawApples s1 else s1
  let s3 := writeString s2 (bytes "Game Over") 5 5
  let s4 := writeString s3 (sprintfInt s3.gSnakeScore) 5 20
  -- `uint16_t hs` is not initialised
  let (s5, hs0) := uninit s4 2
  let (s6, _, hsBytes) := clockRead s5 HIGH_SCORE_ADDR HIGH_SCORE_LEN hs0
  let hs := hsBytes.getD 0 0 + 256 * hsBytes.getD 1 0
  let (s7, hs1) :=
    if s6.gSnakeScore > hs then
      let s6a := emit s6 [.println "New High Score", .println "wildcat\x7b**************\x7d"]
      let hsNew := s6a.gSnakeScore
      ((clockWrite s6a HIGH_SCORE_ADDR HIGH_SCORE_LEN [hsNew % 256, hsNew / 256 % 256]).1, hsNew)
    else (s6, hs)
  let s8 := writeString s7 (bytes "HighScore") 5 35
  let s9 := writeString s8 (sprintfInt hs1) 5 50
  emit s9 [.oledShow, .delay 1000]

/-- Function `snakeReset(draw_apples)`. -/
def snakeReset (s : Device) (draw_apples : Bool) : Device :=
  snakeInit ((List.range 5).foldl (fun d i => snakeResetRound draw_apples i d) s)

/-- Take the result of the next `random(max)` call. -/
def random (s : Device) (max : Nat) : Device × Nat :=
  match s.rng with
  | [] => (s, 0)
  | r :: rs => (s.set_rng rs, r % max)

/-- The apple loop of `snakeBgMode`: the first free slot from `i` on receives
an apple; returns the device and `too_many_apples`. -/
def snakeAddApple : Nat → Nat → Device → Device × Bool
  | 0, _, s => (s, true)
  | n + 1, i, s =>
    if (s.gApples.getD i ⟨0, 0⟩).x = -1 then
      let (s1, rx) := random s SNAKE_SCREEN_WIDTH.toNat
      let (s2, ry) := random s1 SNAKE_SCREEN_HEIGHT.toNat
      let a : Point := ⟨toInt8 rx, toInt8 ry⟩
      let s3 := s2.set_gApples (s2.gApples.set i a)
      (emit s3 [.print "Added an apple ", .printNum a.x, .print " x ", .printNum a.y,
        .print " , i =", .printlnNum i, .delay 100], false)
    else snakeAddApple n (i + 1) s

/-- The self-collision loop of `snakeBgMode` for `i` from 1 below `gSnakeLen`:
`n` rounds remain, `snakeIndexToCheck` is the index before the wrap-around test.
Returns whether the head hit the body, and the index after the loop. -/
def snakeHitLoop (s : Device) (nextPos : Point) : Nat → Int → Bool × Int
  | 0, snakeIndexToCheck => (false, snakeIndexToCheck)
  | n + 1, snakeIndexToCheck =>
    let idx := if snakeIndexToCheck = -1 then (MAX_SNAKE_LEN : Int) - 1 else snakeIndexToCheck
    if nextPos = snakeAt s idx.toNat then (true, idx)
    else snakeHitLoop s nextPos n (idx - 1)

/-- The apple-eating loop of `snakeBgMode` over the slots from `i` on. -/
def snakeEatLoop (nextPos : Point) : Nat → Nat → Device → Device
  | 0, _, s => s
  | n + 1, i, s =>
    let a := s.gApples.getD i ⟨0, 0⟩
    if a.x ≠ -1 ∧ nextPos = a then
      let s1 := emit s [.println "Yummy!!"]
      let s2 := (s1.set_gApples (s1.gApples.set i ⟨-1, a.y⟩)).set_gSnakeLen
        ((s1.gSnakeLen + 1) % 256)
      let s3 : Device := if s2.gSnakeLen = SNAKE_LEN_MAX then
          (emit s2 [.println "ANACONDA!!"]).set_gSnakeLen ((s2.gSnakeLen + 255) % 256)
        else s2
      let s4 : Device := s3.set_gSnakeScore ((s3.gSnakeScore + 1) % 65536)
      let s5 : Device := if s4.gSnakeScore > 10 then s4.set_gSnakeSpeed 0x3 else s4
      let s6 : Device := if s5.gSnakeScore > 25 then s5.set_gSnakeSpeed 0x1 else s5
      snakeEatLoop nextPos n (i + 1) s6
    else snakeEatLoop nextPos n (i + 1) s

/-- What follows the `switch` of `snakeBgMode` when no wall is hit: the
self-collision test, the head advance and the apples.  Returns the device and
whether the function returned from inside (no redraw). -/
def snakeMoved (s3 : Device) (nextBufferPos : Nat) : Device × Bool :=
  let nextPos := snakeAt s3 nextBufferPos
  match snakeHitLoop s3 nextPos (s3.gSnakeLen - 1) ((s3.gSnakeBufferPos : Int) - 1) with
  | (true, _) => (snakeReset (emit s3 [.println "Snake hit"]) false, true)
  | (false, snakeIndexToCheck) =>
    -- If we got here, we didn't hit anything
    let s4 := snakeDrawPixel s3 nextPos
    -- `gSnake[-1]` is the memory in front of the array
    let (s5, old) :=
      if snakeIndexToCheck < 0 then
        let (d, j) := uninit s4 2
        (d, (⟨toInt8 (j.getD 0 0), toInt8 (j.getD 1 0)⟩ : Point))
      else (s4, snakeAt s4 snakeIndexToCheck.toNat)
    let s6 := snakeClearPixel s5 old
    let s7 : Device := s6.set_gSnakeBufferPos nextBufferPos
    (snakeEatLoop nextPos 8 0 s7, false)

/-- The assignment through `nextPos`, which points to `gSnake[nextBufferPos]`. -/
def snakePut (s : Device) (nextBufferPos : Nat) (p : Point) : Device :=
  s.set_gSnake (s.gSnake.set nextBufferPos p)

/-- The movement part of `snakeBgMode`; returns the device and whether the
function returned from inside (no redraw). -/
def snakeMove (s : Device) : Device × Bool :=
  let s1 := emit s [.println "Move the snake"]
  let curPos := snakeAt s1 s1.gSnakeBufferPos
  let nextBufferPos := if s1.gSnakeBufferPos + 1 = MAX_SNAKE_LEN then 0 else s1.gSnakeBufferPos + 1
  let s2 := snakePut s1 nextBufferPos curPos
  if s2.gSnakeDir = SNAKE_UP then
    let s3 := snakePut (emit s2 [.print " [UP] "]) nextBufferPos ⟨curPos.x, toInt8 (curPos.y - 1)⟩
    if (snakeAt s3 nextBufferPos).y < 0 then
      (emit (snakeReset s3 false) [.println "Top hit!"], true)
    else snakeMoved s3 nextBufferPos
  else if s2.gSnakeDir = SNAKE_DOWN then
    let s3 := snakePut (emit s2 [.print " [DOWN] "]) nextBufferPos ⟨curPos.x, toInt8 (curPos.y + 1)⟩
    if (snakeAt s3 nextBufferPos).y ≥ SNAKE_SCREEN_HEIGHT then
      (snakeReset (emit s3 [.println "Bottom hit!"]) false, true)
    else snakeMoved s3 nextBufferPos
  else if s2.gSnakeDir = SNAKE_LEFT then
    let s3 := snakePut (emit s2 [.print " [LEFT] "]) nextBufferPos ⟨toInt8 (curPos.x - 1), curPos.y⟩
    if (snakeAt s3 nextBufferPos).x ≤ 0 then
      (snakeReset (emit s3 [.println "Left wall hit!"]) false, true)
    else snakeMoved s3 nextBufferPos
  else if s2.gSnakeDir = SNAKE_RIGHT then
    let s3 := snakePut (emit s2 [.print " [RIGHT] "]) nextBufferPos ⟨toInt8 (curPos.x + 1), curPos.y⟩
    if (snakeAt s3 nextBufferPos).x ≥ SNAKE_SCREEN_WIDTH - 1 then
      (snakeReset (emit s3 [.println "Right wall hit!"]) false, true)
    else snakeMoved s3 nextBufferPos
  else (emit s2 [.print " [ERROR] "], true)

/-- Function `snakeBgMode()`. -/
def snakeBgMode (s : Device) : Device :=
  let curTime := (s.gSnakeTime + 1) % 256
  let s1 := s.set_gSnakeTime curTime
  -- At some large time interval, add an apple on the map
  let (s2, returned) :=
    if curTime &&& 0x3f = 0x3f then
      let s1a := (emit s1 [.println "Add an apple", .led GREEN_LED 1]).set_gLedTimer 2
      match snakeAddApple 8 0 s1a with
      | (s1b, true) =>
        (snakeReset (emit s1b [.println "Too many apples!", .led RED_LED 1]) true, true)
      | (s1b, false) => (s1b, false)
    else (s1, false)
  if returned then s2
  else
    -- At a shorter time interval, lets move the snake
    let (s3, returned1) :=
      if curTime &&& s2.gSnakeSpeed = 0 then snakeMove s2 else (s2, false)
    if returned1 then s3
    -- Draw everything
    else snakeRedrawDisplay s3

/-- Function `snakeUpHandler()`. -/
def snakeUpHandler (s : Device) : Device :=
  (emit s [.println "S Up"]).set_gSnakeDir SNAKE_UP

/-- Function `snakeDownHandler()`. -/
def snakeDownHandler (s : Device) : Device :=
  (emit s [.println "S Down"]).set_gSnakeDir SNAKE_DOWN

/-- Function `snakeLeftHandler()`. -/
def snakeLeftHandler (s : Device) : Device :=
  (emit s [.println "S Left"]).set_gSnakeDir SNAKE_LEFT

/-- Function `snakeRightHandler()`. -/
def snakeRightHandler (s : Device) : Device :=
  (emit s [.println "S Right"]).set_gSnakeDir SNAKE_RIGHT

/-- Function `snakeAButtonHandler()`. -/
def snakeAButtonHandler (s : Device) : Device :=
  (emit s [.println "SA"]).set_gFreshModeChange 20

/-- Function `snakeBButtonHandler()`. -/
def snakeBButtonHandler (s : Device) : Device :=
  snakeInit (emit s [.println "SB"])

/-! ## Buttons, background task and main loop -/

/-- Function `defaultUpHandler()`. -/
def defaultUpHandler (s : Device) : Device := modeUp (emit s [.println "Up"])

/-- Function `defaultDownHandler()`. -/
def defaultDownHandler (s : Device) : Device := modeDown (emit s [.println "Down"])

/-- Function `defaultLeftHandler()`. -/
def defaultLeftHandler (s : Device) : Device := emit s [.println "Left"]

/-- Function `defaultRightHandler()`. -/
def defaultRightHandler (s : Device) : Device := emit s [.println "Right"]

/-- Function `defaultAButtonHandler()`. -/
def defaultAButtonHandler (s : Device) : Device := emit s [.println "A Button"]

/-- Function `defaultBButtonHandler()`. -/
def defaultBButtonHandler (s : Device) : Device := emit s [.println "B Button"]

/-- The six handlers of one mode (`struct ButtonHandler`). -/
structure ButtonHandler where
  upFunc : Device → Device
  downFunc : Device → Device
  leftFunc : Device → Device
  rightFunc : Device → Device
  aButtonFunc : Device → Device
  bButtonFunc : Device → Device

def gUnlockHandlers : ButtonHandler :=
  ⟨unlockUpHandler, unlockDownHandler, unlockLeftHandler, unlockRightHandler, unlockAHandler,
   unlockBHandler⟩

def gDefaultHandlers : ButtonHandler :=
  ⟨defaultUpHandler, defaultDownHandler, defaultLeftHandler, defaultRightHandler,
   defaultAButtonHandler, defaultBButtonHandler⟩

def gSnakeHandlers : ButtonHandler :=
  ⟨snakeUpHandler, snakeDownHandler, snakeLeftHandler, snakeRightHandler, snakeAButtonHandler,
   snakeBButtonHandler⟩

/-- The table `gButtonHandlersForMode`, indexed by the mode; `none` outside
its six entries. -/
def gButtonHandlersForMode (mode : Int) : Option ButtonHandler :=
  if mode = 0 then some gDefaultHandlers      -- clock
  else if mode = 1 then some gUnlockHandlers  -- unlock
  else if mode = 2 then some gDefaultHandlers -- version
  else if mode = 3 then some gDefaultHandlers -- flag
  else if mode = 4 then some gDefaultHandlers -- lock
  else if mode = 5 then some gSnakeHandlers   -- idle
  else none

/-- The levels of the six button pins in one sample (`true`: pressed, the pin
reads 0). -/
structure Buttons where
  up : Bool
  down : Bool
  left : Bool
  right : Bool
  a : Bool
  b : Bool
  deriving DecidableEq, Repr

def OLD_BUTTON_STATE_UP : Nat := 1
def OLD_BUTTON_STATE_DOWN : Nat := 2
def OLD_BUTTON_STATE_LEFT : Nat := 4
def OLD_BUTTON_STATE_RIGHT : Nat := 8
def OLD_BUTTON_STATE_A : Nat := 16
def OLD_BUTTON_STATE_B : Nat := 32

/-- One of the six blocks of `readDigitalButtons`: edge detection for the
button with mask `bit`, the default handler `dflt` while the banner is shown,
else the handler `pick` selects from the table entry of the current mode (a
mode outside the table selects nothing). -/
def buttonBlock (pressed : Bool) (bit : Nat) (dflt : Device → Device)
    (pick : ButtonHandler → Device → Device) (s : Device) : Device :=
  if pressed then
    if s.gOldButtonStates &&& bit = 0 then
      let s1 :=
        if s.gFreshModeChange ≠ 0 then dflt s
        else match gButtonHandlersForMode s.gBgMode with
          | some h => pick h s
          | none => s
      s1.set_gOldButtonStates (s1.gOldButtonStates ||| bit)
    else s
  else s.set_gOldButtonStates (s.gOldButtonStates &&& (255 - bit))

/-- Function `readDigitalButtons()` for the pin levels `b`. -/
def readDigitalButtons (s : Device) (b : Buttons) : Device :=
  let s0 : Device :=
    if s.gLedTimer ≠ 0 then
      let d : Device := s.set_gLedTimer (s.gLedTimer - 1)
      if d.gLedTimer = 0 then emit d [.led RED_LED 0, .led GREEN_LED 0] else d
    else s
  let s1 := buttonBlock b.up OLD_BUTTON_STATE_UP defaultUpHandler (fun h => h.upFunc) s0
  let s2 := buttonBlock b.down OLD_BUTTON_STATE_DOWN defaultDownHandler (fun h => h.downFunc) s1
  let s3 := buttonBlock b.left OLD_BUTTON_STATE_LEFT defaultLeftHandler (fun h => h.leftFunc) s2
  let s4 := buttonBlock b.right OLD_BUTTON_STATE_RIGHT defaultRightHandler
    (fun h => h.rightFunc) s3
  let s5 := buttonBlock b.a OLD_BUTTON_STATE_A defaultAButtonHandler (fun h => h.aButtonFunc) s4
  buttonBlock b.b OLD_BUTTON_STATE_B defaultBButtonHandler (fun h => h.bButtonFunc) s5

/-- Function `doBGTask()`. -/
def doBGTask (s : Device) : Device :=
  if s.gFreshModeChange ≠ 0 then
    -- If the mode has just been changed, display the mode name for a second
    let s1 := displayChangeModes s
    s1.set_gFreshModeChange (s1.gFreshModeChange - 1)
  else if s.gBgMode = 0 then displayClock s
  else if s.gBgMode = 1 then displayUnlock s
  else if s.gBgMode = 2 then displayVersion s
  else if s.gBgMode = 3 then displayFlag s
  else if s.gBgMode = 4 then displayLock s
  else if s.gBgMode = 5 then snakeBgMode s
  else s

/-- The device at power-up: the initial values of the globals, the content
`ram` of the DS1307 and the environment. -/
def powerOn (ram : List Nat) (bus : List Bus) (rng : List Nat) (junk : List (List Nat)) :
    Device :=
  { gBgMode := 0, gIsLocked := true, gChallengeMode := 0, gLedTimer := 0,
    gOldButtonStates := 0, gFreshModeChange := 0, gCurrentPinGuess := 0,
    gCurrentPinGuessPos := 0, gSnakeDir := 0, gSnakeTime := 0, gSnakeBufferPos := 0,
    gSnakeLen := 0, gSnakeSpeed := 0x5, gSnakeScore := 0,
    gSnake := List.replicate 16 ⟨0, 0⟩, gApples := List.replicate 8 ⟨0, 0⟩,
    ram := ram, bus := bus, rng := rng, junk := junk, log := [] }

/-- Function `setup()` up to its endless loop, for a display that starts. -/
def setup (s : Device) : Device :=
  let s1 := snakeInit (emit s [.oledShow, .delay 50])
  -- Read the challenge mode
  let (s2, _, m) := clockRead s1 CHAL_MODE_ADDR CHAL_MODE_LEN [s1.gChallengeMode]
  let s3 : Device := s2.set_gChallengeMode (m.getD 0 0 &&& 0xff)
  let s4 : Device :=
    if s3.gChallengeMode > 3 then
      (emit s3 [.println "Error reading version at boot"]).set_gChallengeMode 0
    else s3
  emit s4 [.oledClear]

/-- The commands of the serial shell that act on the challenge state machine
(non-debug build). -/
inductive Command where
  | nxtchl
  | lock
  | unlock
  | getflg
  | ver
  deriving DecidableEq, Repr

/-- What the endless loop of `setup` does, one piece at a time: sample the
buttons, run the background task, or run the handler of a command the shell
received (called when `millis()` is `t0`, with the serial input that follows
the command line). -/
inductive Event where
  | buttons (b : Buttons)
  | bgTask
  | shell (c : Command) (t0 : Nat) (input : List (Nat × Nat))
  deriving DecidableEq, Repr

/-- The handler `interpretCommand` calls for a command (`CMD_LIST`). -/
def runCommand (s : Device) (c : Command) (t0 : Nat) (input : List (Nat × Nat)) : Device :=
  match c with
  | .nxtchl => (commandNextChallenge s t0 input).1
  | .lock => commandLock s
  | .unlock => (commandUnlock s t0 input).1
  | .getflg => commandGetFlags s
  | .ver => commandGetVersion s

/-- One event of the main loop. -/
def step (s : Device) (e : Event) : Device :=
  match e with
  | .buttons b => readDigitalButtons s b
  | .bgTask => doBGTask s
  | .shell c t0 input => runCommand s c t0 input

/-- A sequence of events. -/
def run (s : Device) (es : List Event) : Device := es.foldl step s

/-- The states the main loop can be in: those reached from a power-up by
`setup` and a sequence of events. -/
def Reachable (s : Device) : Prop :=
  ∃ ram bus rng junk es, s = run (setup (powerOn ram bus rng junk)) es

/-- No button pressed. -/
def noButtons : Buttons := ⟨false, false, false, false, false, false⟩


/-! ## Views of the state used in the proofs -/

/-- The program's variables and the DS1307, without the environment: two
devices with the same `core` differ at most in `bus`, `rng`, `junk`, `log`. -/
def core (s : Device) : Device := { s with bus := [], rng := [], junk := [], log := [] }

/-- What the snake session cannot touch: `core` without the snake's variables,
the LED timer and the registers of the DS1307. -/
def apart (s : Device) : Device :=
  { core s with gLedTimer := 0, gSnakeDir := 0, gSnakeTime := 0, gSnakeBufferPos := 0,
                gSnakeLen := 0, gSnakeSpeed := 0, gSnakeScore := 0, gSnake := [], gApples := [],
                ram := [] }

/-- The pure content of `clockRead`: the count it returns and the buffer it
leaves, for the bus behaviour `b` and the registers `ram`. -/
def busRead (b : Bus) (ram : List Nat) (clockAddr numBytes : Nat) (buf : List Nat) :
    Nat × List Nat :=
  let br := match b with
    | .ok => numBytes
    | .fault _ n _ => min n numBytes
  let data := match b with
    | .ok => ramRead ram clockAddr numBytes
    | .fault _ _ d => d
  match clockReadLoop br data 0 buf with
  | (buf1, some i) => (i, buf1)
  | (buf1, none) => (br, buf1)

/-- The two characters `hexPrint(val)` writes. -/
def hexChars (val : Nat) : List Effect :=
  [.printChar (if val / 16 ≥ 10 then 97 + val / 16 - 10 else 48 + val / 16),
   .printChar (if val % 16 ≥ 10 then 97 + val % 16 - 10 else 48 + val % 16)]

/-- The characters `hexPrint` writes for a sequence of bytes. -/
def hexDump : List Nat → List Effect
  | [] => []
  | b :: bs => hexChars b ++ hexDump bs

/-- The pure content of `readPinFromRam`: the value it returns for the bus
behaviour `b` and the registers `ram`. -/
def pinRead (b : Bus) (ram : List Nat) (pinStoreNum : Nat) : Nat :=
  let r := busRead b ram (PIN_CODE_0_ADDR + (PIN_CODE_LEN + FLAG_LEN) * (pinStoreNum % 4)) 4
    (List.replicate 4 0)
  if r.1 ≠ 4 then 4294967295 else le32 r.2 % 65536

/-- What the spec calls the PIN of a slot: the low 16 bits of the 4-byte
field of slot `slot` in the registers. -/
def pinField (ram : List Nat) (slot : Nat) : Nat :=
  le32 (ramRead ram (PIN_CODE_0_ADDR + 16 * slot) 4) % 65536

/-- Serial input typed at once: every byte of `text` read when `millis()` is `t`. -/
def typed (t : Nat) (text : String) : List (Nat × Nat) := (bytes text).map (fun c => (t, c))

/-- Registers of a provisioned badge: challenge 0, PINs 1234, 4242, 777 and
31337, flags "alpha", "bravo" and "charlie", high score 0. -/
def demoRam : List Nat :=
  ramWrite (ramWrite (ramWrite (ramWrite (ramWrite (ramWrite (ramWrite (List.replicate 64 0)
    PIN_CODE_0_ADDR [0xd2, 0x04, 0, 0])
    PIN_CODE_1_ADDR [0x92, 0x10, 0, 0]) PIN_CODE_2_ADDR [0x09, 0x03, 0, 0])
    PIN_CODE_3_ADDR [0x69, 0x7a, 0, 0]) FLAG_0_ADDR (bytes "alpha"))
    FLAG_1_ADDR (bytes "bravo")) FLAG_2_ADDR (bytes "charlie")

/-- The provisioned badge after `setup`, with a faultless bus. -/
def demoDevice : Device := setup (powerOn demoRam [] [] [])

/-- The 12-byte flag field of slot `slot` in the registers. -/
def flagField (ram : List Nat) (slot : Nat) : List Nat :=
  ramRead ram (FLAG_0_ADDR + (FLAG_LEN + PIN_CODE_LEN) * slot) FLAG_LEN

/-- What the spec calls the flag text of a challenge mode: the compiled-in
flag for mode 3, else the text of the slot's field up to its terminator. -/
def flagText (ram : List Nat) (mode : Nat) : List Nat :=
  if mode ≥ 3 then flag_4 else cstr (flagField ram mode)

/-- The I2C traffic `clockRead` prints at challenge 0 for `n` registers from
`addr` on. -/
def readTraffic (ram : List Nat) (mode addr n : Nat) : List Effect :=
  if mode = 0 then
    [.print "Read ", .printNum addr, .print ": "] ++ hexDump (ramRead ram addr n) ++ [.println ""]
  else []

/-- The display mode is one of the six modes, Clock(0) to Snake(5). -/
def ModeOk (s : Device) : Prop := 0 ≤ s.gBgMode ∧ s.gBgMode ≤ 5

/-- What the first five blocks of `readDigitalButtons` keep: the lock, the
challenge mode and the registers. -/
def Kept (s d : Device) : Prop :=
  d.gIsLocked = s.gIsLocked ∧ d.gChallengeMode = s.gChallengeMode ∧ d.ram = s.ram

/-- Idle loop rounds: `n` times a button sample with nothing pressed and a run
of the background task. -/
def idle : Nat → List Event
  | 0 => []
  | n + 1 => .buttons noButtons :: .bgTask :: idle n

/-- Only Up pressed. -/
def upPressed : Buttons := ⟨true, false, false, false, false, false⟩

/-- Only Down pressed. -/
def downPressed : Buttons := ⟨false, true, false, false, false, false⟩

/-- Rounds of the main loop (buttons, background task, shell) that unlock the
provisioned badge with its PIN 1234, step down from Clock over Snake to the Lock
display and wait until the banner is over and the Lock display has run. -/
def lockScreenTrace : List Event :=
  [.buttons noButtons, .bgTask, .shell .unlock 5000 (typed 5001 "1234\n"),
   .buttons downPressed, .bgTask,
   .buttons noButtons, .bgTask,
   .buttons downPressed, .bgTask] ++ idle 20

/-- Rounds of the main loop that unlock the provisioned badge with its PIN 1234,
step up from Clock to the Flag display, give the `lock` command there and wait
until the banner is over. -/
def lockOnFlagTrace : List Event :=
  [.buttons noButtons, .bgTask, .shell .unlock 5000 (typed 5001 "1234\n"),
   .buttons upPressed, .bgTask,
   .buttons noButtons, .bgTask,
   .buttons upPressed, .bgTask,
   .buttons noButtons, .bgTask,
   .buttons upPressed, .bgTask, .shell .lock 9000 []] ++ idle 19

/-- The time the program spends in the `delay` calls of a piece of output, in
milliseconds. -/
def delayOf : List Effect → Nat
  | [] => 0
  | .delay ms :: es => ms + delayOf es
  | _ :: es => delayOf es

/-- The provisioned badge at challenge 2 (stored PIN 777) after `setup`; the
assembled guess is still 0. -/
def buttonsDevice : Device := setup (powerOn (ramWrite demoRam CHAL_MODE_ADDR [2]) [] [] [])

/-- Serial input typed at once, given as bytes: every byte of `bs` read when
`millis()` is `t`. -/
def typedBytes (t : Nat) (bs : List Nat) : List (Nat × Nat) := bs.map (fun c => (t, c))

/-- What the spec calls a well-formed PIN line: a non-empty string of at most
5 decimal digits. -/
def wellFormedPin (line : List Nat) : Bool :=
  !line.isEmpty && decide (line.length ≤ 5) && line.all (fun c => decide (48 ≤ c ∧ c ≤ 57))

/-- A badge whose registers are all zero (every PIN 0, every flag empty),
after `setup`. -/
def blankDevice : Device := setup (powerOn (List.replicate 64 0) [] [] [])

/-- The decimal digit of `v` with place value `10 ^ i`: what the `i`-th round
of the digit loop of `displayUnlock` prints. -/
def digitAt (v i : Nat) : Nat := v / 10 ^ i % 10

/-- A bus that performs every transfer. -/
@[reducible]
def Faultless (bus : List Bus) : Prop := ∀ b ∈ bus, b = Bus.ok

/-- The fields of the register layout, as (address, length), in address
order: mode, pin0, flag0, pin1, flag1, pin2, flag2, pin3, high score. -/
def storeFields : List (Nat × Nat) :=
  [(CHAL_MODE_ADDR, CHAL_MODE_LEN), (PIN_CODE_0_ADDR, PIN_CODE_LEN), (FLAG_0_ADDR, FLAG_LEN),
   (PIN_CODE_1_ADDR, PIN_CODE_LEN), (FLAG_1_ADDR, FLAG_LEN), (PIN_CODE_2_ADDR, PIN_CODE_LEN),
   (FLAG_2_ADDR, FLAG_LEN), (PIN_CODE_3_ADDR, PIN_CODE_LEN), (HIGH_SCORE_ADDR, HIGH_SCORE_LEN)]

/-- The persisted high score: the `uint16_t` in the two registers at
`HIGH_SCORE_ADDR` (little-endian). -/
def highScore (ram : List Nat) : Nat :=
  ram.getD HIGH_SCORE_ADDR 0 + 256 * ram.getD (HIGH_SCORE_ADDR + 1) 0

/-- The provisioned badge (challenge 0) whose flag field 0 holds twelve
letters "A" and no terminator. -/
def unterminatedDevice : Device :=
  setup (powerOn (ramWrite demoRam FLAG_0_ADDR (List.replicate 12 65)) [] [] [])

/-- What the spec says `writeFlag` stores for a text: its first 12 bytes when
it is longer than 12 bytes, the text followed by zero padding when shorter. -/
def fitFlag (txt : List Nat) : List Nat :=
  if FLAG_LEN ≤ txt.length then txt.take FLAG_LEN
  else txt ++ List.replicate (FLAG_LEN - txt.length) 0

/-- What one eaten apple does to `gSnakeLen` in `snakeBgMode`: `gSnakeLen += 1`
in `uint8_t`, taken back when the result is `SNAKE_LEN_MAX`. -/
def growLen (len : Nat) : Nat :=
  if (len + 1) % 256 = SNAKE_LEN_MAX then ((len + 1) % 256 + 255) % 256 else (len + 1) % 256

/-- The number of apples at `p` among the `n` apple slots from `i` on: the
apples the snake eats when its head arrives at `p`. -/
def applesAt (p : Point) : Nat → Nat → List Point → Nat
  | 0, _, _ => 0
  | n + 1, i, apples =>
    (if (apples.getD i ⟨0, 0⟩).x ≠ -1 ∧ p = apples.getD i ⟨0, 0⟩ then 1 else 0)
      + applesAt p n (i + 1) apples

/-- The apple slots with one apple, at (5, 5), and seven free slots. -/
def oneApple : List Point := ⟨5, 5⟩ :: List.replicate 7 ⟨-1, -1⟩

/-! ## Views for the snake session, the cursor and the banner -/

/-- The provisioned badge with a bus whose next transfer delivers only two of
the bytes asked for. -/
def shortReadDevice : Device := demoDevice.set_bus [.fault 0 2 [0xd2, 0x04]]

/-- What only the PIN entry and the snake session change: the state without
the environment, the display mode, the lock, the challenge mode, the banner
counter, the LED timer, the remembered buttons and the registers.  Left are the
assembled guess, the cursor and the snake's variables. -/
def play (s : Device) : Device :=
  { core s with gBgMode := 0, gIsLocked := false, gChallengeMode := 0, gLedTimer := 0,
                gOldButtonStates := 0, gFreshModeChange := 0, ram := [] }

/-- Only Right pressed. -/
def rightPressed : Buttons := ⟨false, false, false, true, false, false⟩

/-- Only Left pressed. -/
def leftPressed : Buttons := ⟨false, false, true, false, false, false⟩

/-- `n` presses of Right, each followed by its release and a run of the
background task. -/
def rightPresses : Nat → List Event
  | 0 => []
  | n + 1 => .buttons rightPressed :: .buttons noButtons :: .bgTask :: rightPresses n

/-- Rounds of the main loop that step up to the Unlock screen, let the banner
run out and press Right six times. -/
def cursorTrace : List Event :=
  [.buttons upPressed, .bgTask, .buttons noButtons, .bgTask] ++ idle 20 ++ rightPresses 6

/-- The snake's head: `gSnake[gSnakeBufferPos]`. -/
def snakeHead (s : Device) : Point := snakeAt s s.gSnakeBufferPos

/-- The ring slot of the segment `j` places behind the head. -/
def bodySlot (s : Device) (j : Nat) : Nat := (s.gSnakeBufferPos + 16 - j) % 16

/-- The cells of the live body, head first: the `gSnakeLen` segments that
`snakeDrawSnake` draws. -/
def body (s : Device) : List Point :=
  (List.range s.gSnakeLen).map (fun j => snakeAt s (bodySlot s j))

/-- The ring slot a movement advance writes the new head into
(`nextBufferPos`). -/
def nextSlot (s : Device) : Nat :=
  if s.gSnakeBufferPos + 1 = MAX_SNAKE_LEN then 0 else s.gSnakeBufferPos + 1

/-- The cell next to the head in the facing direction. -/
def newHead (s : Device) : Point :=
  if s.gSnakeDir = SNAKE_UP then ⟨(snakeHead s).x, (snakeHead s).y - 1⟩
  else if s.gSnakeDir = SNAKE_DOWN then ⟨(snakeHead s).x, (snakeHead s).y + 1⟩
  else if s.gSnakeDir = SNAKE_LEFT then ⟨(snakeHead s).x - 1, (snakeHead s).y⟩
  else ⟨(snakeHead s).x + 1, (snakeHead s).y⟩

/-- The cells a head can move to without ending the session: columns 1 to 62
and rows 0 to 31 of the 64 x 32 board. -/
@[reducible]
def playable (p : Point) : Prop := 1 ≤ p.x ∧ p.x ≤ 62 ∧ 0 ≤ p.y ∧ p.y ≤ 31

/-- The shape of a snake state: length 3 to 15, the head slot inside the ring
of 16, the two arrays at their sizes and a direction 0 to 3. -/
@[reducible]
def SnakeOk (s : Device) : Prop :=
  3 ≤ s.gSnakeLen ∧ s.gSnakeLen ≤ 15 ∧ s.gSnakeBufferPos < 16 ∧ s.gSnake.length = 16 ∧
  s.gApples.length = 8 ∧ s.gSnakeDir ≤ 3

/-- The start state of a session: what `snakeInit` leaves. -/
@[reducible]
def StartState (d : Device) : Prop :=
  d.gSnakeLen = 3 ∧ d.gSnakeBufferPos = 2 ∧ snakeAt d 0 = ⟨32, 16⟩ ∧ snakeAt d 1 = ⟨33, 16⟩ ∧
  snakeAt d 2 = ⟨34, 16⟩ ∧ d.gSnakeDir = SNAKE_RIGHT ∧ d.gSnakeSpeed = 5 ∧ d.gSnakeScore = 0 ∧
  d.gSnakeTime = 0 ∧ d.gApples = List.replicate 8 ⟨-1, -1⟩

/-- What happens to a snake session: a run of `snakeBgMode` (a tick) or a
press of a direction button. -/
inductive SnakeInput where
  | tick
  | up
  | down
  | left
  | right
  deriving DecidableEq, Repr

/-- One input of a snake session. -/
def snakeStep (s : Device) (i : SnakeInput) : Device :=
  match i with
  | .tick => snakeBgMode s
  | .up => snakeUpHandler s
  | .down => snakeDownHandler s
  | .left => snakeLeftHandler s
  | .right => snakeRightHandler s

/-- A sequence of inputs of a snake session. -/
def snakeRun (s : Device) (is : List SnakeInput) : Device := is.foldl snakeStep s

/-- The speed mask the spec gives for a score. -/
def speedOf (score : Nat) : Nat := if score > 25 then 1 else if score > 10 then 3 else 5

/-- What one eaten apple does to the score and the speed mask in
`snakeBgMode`: `gSnakeScore += 1` in `uint16_t`, then the two threshold tests. -/
def eatScore (v : Nat × Nat) : Nat × Nat :=
  ((v.1 + 1) % 65536,
   if (v.1 + 1) % 65536 > 25 then 1 else if (v.1 + 1) % 65536 > 10 then 3 else v.2)

/-- The lowest empty apple slot among the `n` slots from `i` on. -/
def freeSlot (apples : List Point) : Nat → Nat → Option Nat
  | 0, _ => none
  | n + 1, i => if (apples.getD i ⟨0, 0⟩).x = -1 then some i else freeSlot apples n (i + 1)

/-- One more eat: an apple is put at (5, 5) and the apple loop runs with the
head at (5, 5). -/
def eatAgain (d : Device) : Device := snakeEatLoop ⟨5, 5⟩ 8 0 (d.set_gApples oneApple)

/-- The body of the apple loop of `snakeBgMode` for an apple that is eaten, in
slot `i` (the same text as in `snakeEatLoop`). -/
def eatApple (i : Nat) (s : Device) : Device :=
  let a := s.gApples.getD i ⟨0, 0⟩
  let s1 := emit s [.println "Yummy!!"]
  let s2 := (s1.set_gApples (s1.gApples.set i ⟨-1, a.y⟩)).set_gSnakeLen
    ((s1.gSnakeLen + 1) % 256)
  let s3 : Device := if s2.gSnakeLen = SNAKE_LEN_MAX then
      (emit s2 [.println "ANACONDA!!"]).set_gSnakeLen ((s2.gSnakeLen + 255) % 256)
    else s2
  let s4 : Device := s3.set_gSnakeScore ((s3.gSnakeScore + 1) % 65536)
  let s5 : Device := if s4.gSnakeScore > 10 then s4.set_gSnakeSpeed 0x3 else s4
  if s5.gSnakeScore > 25 then s5.set_gSnakeSpeed 0x1 else s5

/-- The counter value of a tick: `curTime = ++gSnakeTime` in `uint8_t`. -/
def curTime (s : Device) : Nat := (s.gSnakeTime + 1) % 256

/-- The device when the apple loop of a spawn tick starts: counter advanced,
"Add an apple" printed, green LED on. -/
def spawnStart (s : Device) : Device :=
  (emit (s.set_gSnakeTime (curTime s)) [.println "Add an apple", .led GREEN_LED 1]).set_gLedTimer 2

/-- Device `d` has the snake variables of `s` (the ring apart), its apples,
its registers, its bus and its random numbers. -/
@[reducible]
def SameGame (d s : Device) : Prop :=
  d.gSnakeLen = s.gSnakeLen ∧ d.gSnakeBufferPos = s.gSnakeBufferPos ∧ d.gSnakeDir = s.gSnakeDir ∧
  d.gSnakeTime = s.gSnakeTime ∧ d.gSnakeScore = s.gSnakeScore ∧ d.gSnakeSpeed = s.gSnakeSpeed ∧
  d.gApples = s.gApples ∧ d.ram = s.ram ∧ d.bus = s.bus ∧ d.rng = s.rng

/-- The invariant of a snake session: the shape `SnakeOk` and the head on the
board. -/
@[reducible]
def SnakeInv (s : Device) : Prop := SnakeOk s ∧ playable (snakeHead s)

/-- The apple slots after the apple loop of `snakeBgMode` over the `n` slots
from `i` on, with the head at `p`: the slots of the apples at `p` are emptied. -/
def clearApples (p : Point) : Nat → Nat → List Point → List Point
  | 0, _, apples => apples
  | n + 1, i, apples =>
    if (apples.getD i ⟨0, 0⟩).x ≠ -1 ∧ p = apples.getD i ⟨0, 0⟩ then
      clearApples p n (i + 1) (apples.set i ⟨-1, (apples.getD i ⟨0, 0⟩).y⟩)
    else clearApples p n (i + 1) apples

/-! ## Views for the ring invariant and for typed PIN codes -/

/-- The number of movement advances at mask 5 up to counter value `t`: the
values `c` in `1..t` with `c AND 5 = 0`. -/
def movesBy : Nat → Nat
  | 0 => 0
  | t + 1 => movesBy t + (if (t + 1) &&& 5 = 0 then 1 else 0)

/-- A session in its first 55 ticks: mask 5, length 3, no apple yet, the head
slot `2 + movesBy time` not yet wrapped, and every ring slot up to the head
slot holds a cell of the board. -/
@[reducible]
def Young (s : Device) : Prop :=
  s.gSnakeTime ≤ 55 ∧ s.gSnakeSpeed = 5 ∧ s.gSnakeLen = 3 ∧
  (∀ i, i < 8 → (s.gApples.getD i ⟨0, 0⟩).x = -1) ∧
  s.gSnakeBufferPos = 2 + movesBy s.gSnakeTime ∧
  (∀ i, i ≤ s.gSnakeBufferPos → playable (snakeAt s i))

/-- A session after the head slot has gone round the ring once: all 16 ring
slots hold cells of the board. -/
@[reducible]
def Mature (s : Device) : Prop := ∀ i, i < 16 → playable (snakeAt s i)

/-- The invariant behind "the body is on the board": `SnakeInv`, and the ring
is `Young` or `Mature`. -/
@[reducible]
def BodyInv (s : Device) : Prop := SnakeInv s ∧ (Young s ∨ Mature s)

/-- The number a string of decimal digits (bytes "0" to "9") writes. -/
def digitsValue (txt : List Nat) : Nat := txt.foldl (fun a c => a * 10 + (c - 48)) 0

/-! ## Views for the button sample, the banner and the apples of a session -/

/-- The state in which `readDigitalButtons` enters its last block, the block
of button B: the LED timer counted down and the blocks of Up, Down, Left,
Right and A done (the same text as in `readDigitalButtons`). -/
def beforeButtonB (s : Device) (b : Buttons) : Device :=
  let s0 : Device :=
    if s.gLedTimer ≠ 0 then
      let d : Device := s.set_gLedTimer (s.gLedTimer - 1)
      if d.gLedTimer = 0 then emit d [.led RED_LED 0, .led GREEN_LED 0] else d
    else s
  let s1 := buttonBlock b.up OLD_BUTTON_STATE_UP defaultUpHandler (fun h => h.upFunc) s0
  let s2 := buttonBlock b.down OLD_BUTTON_STATE_DOWN defaultDownHandler (fun h => h.downFunc) s1
  let s3 := buttonBlock b.left OLD_BUTTON_STATE_LEFT defaultLeftHandler (fun h => h.leftFunc) s2
  let s4 := buttonBlock b.right OLD_BUTTON_STATE_RIGHT defaultRightHandler
    (fun h => h.rightFunc) s3
  buttonBlock b.a OLD_BUTTON_STATE_A defaultAButtonHandler (fun h => h.aButtonFunc) s4

/-- The provisioned badge after `setup` on a bus whose second transfer gets no
answer (NAK on the address, no byte delivered): the read of the challenge mode
in `setup` is performed, the next transfer fails. -/
def silentBusDevice : Device := setup (powerOn demoRam [.ok, .fault 2 0 []] [] [])

/-- What `k` runs of `displayChangeModes` in display mode `mode` (0 to 5) put
on the display: each clears it, writes the name of the mode at (10, 20) and
shows it. -/
def bannerLog (mode : Int) : Nat → List Effect
  | 0 => []
  | k + 1 => bannerLog mode k ++
      [.oledClear, .oledText (bytes (mode_string_array.getD mode.toNat "")) 10 20, .oledShow]

/-- The apple a spawn makes from the `random` results still to come: its
column is `random(64)`, its row the following `random(32)`. -/
def spawnApple (rng : List Nat) : Point :=
  ⟨toInt8 ((rng.headD 0 % 64 : Nat) : Int), toInt8 ((rng.tail.headD 0 % 32 : Nat) : Int)⟩

/-- Whether an apple is in column 0 or column 63, the two columns of the
64 x 32 apple area that the wall tests keep the head out of. -/
def inEdgeColumn (a : Point) : Bool := a.x == 0 || a.x == 63

/-- Among the `k` spawns from the `m`-th on, the number of those that put
their apple into column 0 or 63, for the `random` results `rng` (two per spawn;
`random` gives 0 when the list is used up). -/
def edgeSpawns (rng : List Nat) (m : Nat) : Nat → Nat
  | 0 => 0
  | k + 1 => edgeSpawns rng m k + (if inEdgeColumn (spawnApple (rng.drop (2 * (m + k)))) then 1 else 0)

/-- The `random` results put an apple into column 0 or 63 at least 8 times in
every `w` spawns in a row. -/
@[reducible]
def EdgeDense (w : Nat) (rng : List Nat) : Prop := ∀ m, 8 ≤ edgeSpawns rng m w

/-- The number of occupied apple slots. -/
def occupied (apples : List Point) : Nat :=
  Finset.sum (Finset.range 8) (fun i => if (apples.getD i ⟨0, 0⟩).x ≠ -1 then 1 else 0)

/-- The number of apple slots that hold an apple in column 0 or 63. -/
def edgeApples (apples : List Point) : Nat :=
  Finset.sum (Finset.range 8) (fun i => if inEdgeColumn (apples.getD i ⟨0, 0⟩) then 1 else 0)

/-- A session seen against the `random` results `rng` of the power-up: the
results still to come are those from spawn `m + k` on, where the session began
before spawn `m` and has seen `k` spawns, at most `w`; each of its spawns into
column 0 or 63 is still in its slot; every apple of the session is in a slot
or in the score; and the mask is the one the thresholds give for the score. -/
@[reducible]
def InSession (rng : List Nat) (w : Nat) (s : Device) : Prop :=
  ∃ m k, s.rng = rng.drop (2 * (m + k)) ∧ k ≤ w ∧
    edgeSpawns rng m k ≤ edgeApples s.gApples ∧
    s.gSnakeScore + occupied s.gApples ≤ k ∧
    s.gSnakeSpeed = speedOf s.gSnakeScore

/-- The provisioned badge with the first two results of the C library's
`random` for its default seed, 16807 and 282475249, which put the first apple
at (39, 17); the results are used up after them. -/
def oneAppleDevice : Device := demoDevice.set_rng [16807, 282475249]


/-! ## Reading a variable after an assignment -/

theorem set_gBgMode_gBgMode (s : Device) (v : Int) :
    (s.set_gBgMode v).gBgMode = v := rfl
theorem set_gBgMode_gIsLocked (s : Device) (v : Int) :
    (s.set_gBgMode v).gIsLocked = s.gIsLocked := rfl
theorem set_gBgMode_gChallengeMode (s : Device) (v : Int) :
    (s.set_gBgMode v).gChallengeMode = s.gChallengeMode := rfl
theorem set_gBgMode_gLedTimer (s : Device) (v : Int) :
    (s.set_gBgMode v).gLedTimer = s.gLedTimer := rfl
theorem set_gBgMode_gOldButtonStates (s : Device) (v : Int) :
    (s.set_gBgMode v).gOldButtonStates = s.gOldButtonStates := rfl
theorem set_gBgMode_gFreshModeChange (s : Device) (v : Int) :
    (s.set_gBgMode v).gFreshModeChange = s.gFreshModeChange := rfl
theorem set_gBgMode_gCurrentPinGuess (s : Device) (v : Int) :
    (s.set_gBgMode v).gCurrentPinGuess = s.gCurrentPinGuess := rfl
theorem set_gBgMode_gCurrentPinGuessPos (s : Device) (v : Int) :
    (s.set_gBgMode v).gCurrentPinGuessPos = s.gCurrentPinGuessPos := rfl
theorem set_gBgMode_gSnakeDir (s : Device) (v : Int) :
    (s.set_gBgMode v).gSnakeDir = s.gSnakeDir := rfl
theorem set_gBgMode_gSnakeTime (s : Device) (v : Int) :
    (s.set_gBgMode v).gSnakeTime = s.gSnakeTime := rfl
theorem set_gBgMode_gSnakeBufferPos (s : Device) (v : Int) :
    (s.set_gBgMode v).gSnakeBufferPos = s.gSnakeBufferPos := rfl
theorem set_gBgMode_gSnakeLen (s : Device) (v : Int) :
    (s.set_gBgMode v).gSnakeLen = s.gSnakeLen := rfl
theorem set_gBgMode_gSnakeSpeed (s : Device) (v : Int) :
    (s.set_gBgMode v).gSnakeSpeed = s.gSnakeSpeed := rfl
theorem set_gBgMode_gSnakeScore (s : Device) (v : Int) :
    (s.set_gBgMode v).gSnakeScore = s.gSnakeScore := rfl
theorem set_gBgMode_gSnake (s : Device) (v : Int) :
    (s.set_gBgMode v).gSnake = s.gSnake := rfl
theorem set_gBgMode_gApples (s : Device) (v : Int) :
    (s.set_gBgMode v).gApples = s.gApples := rfl
theorem set_gBgMode_ram (s : Device) (v : Int) :
    (s.set_gBgMode v).ram = s.ram := rfl
theorem set_gBgMode_bus (s : Device) (v : Int) :
    (s.set_gBgMode v).bus = s.bus := rfl
theorem set_gBgMode_rng (s : Device) (v : Int) :
    (s.set_gBgMode v).rng = s.rng := rfl
theorem set_gBgMode_junk (s : Device) (v : Int) :
    (s.set_gBgMode v).junk = s.junk := rfl
theorem set_gBgMode_log (s : Device) (v : Int) :
    (s.set_gBgMode v).log = s.log := rfl
theorem set_gIsLocked_gBgMode (s : Device) (v : Bool) :
    (s.set_gIsLocked v).gBgMode = s.gBgMode := rfl
theorem set_gIsLocked_gIsLocked (s : Device) (v : Bool) :
    (s.set_gIsLocked v).gIsLocked = v := rfl
theorem set_gIsLocked_gChallengeMode (s : Device) (v : Bool) :
    (s.set_gIsLocked v).gChallengeMode = s.gChallengeMode := rfl
theorem set_gIsLocked_gLedTimer (s : Device) (v : Bool) :
    (s.set_gIsLocked v).gLedTimer = s.gLedTimer := rfl
theorem set_gIsLocked_gOldButtonStates (s : Device) (v : Bool) :
    (s.set_gIsLocked v).gOldButtonStates = s.gOldButtonStates := rfl
theorem set_gIsLocked_gFreshModeChange (s : Device) (v : Bool) :
    (s.set_gIsLocked v).gFreshModeChange = s.gFreshModeChange := rfl
theorem set_gIsLocked_gCurrentPinGuess (s : Device) (v : Bool) :
    (s.set_gIsLocked v).gCurrentPinGuess = s.gCurrentPinGuess := rfl
theorem set_gIsLocked_gCurrentPinGuessPos (s : Device) (v : Bool) :
    (s.set_gIsLocked v).gCurrentPinGuessPos = s.gCurrentPinGuessPos := rfl
theorem set_gIsLocked_gSnakeDir (s : Device) (v : Bool) :
    (s.set_gIsLocked v).gSnakeDir = s.gSnakeDir := rfl
theorem set_gIsLocked_gSnakeTime (s : Device) (v : Bool) :
    (s.set_gIsLocked v).gSnakeTime = s.gSnakeTime := rfl
theorem set_gIsLocked_gSnakeBufferPos (s : Device) (v : Bool) :
    (s.set_gIsLocked v).gSnakeBufferPos = s.gSnakeBufferPos := rfl
theorem set_gIsLocked_gSnakeLen (s : Device) (v : Bool) :
    (s.set_gIsLocked v).gSnakeLen = s.gSnakeLen := rfl
theorem set_gIsLocked_gSnakeSpeed (s : Device) (v : Bool) :
    (s.set_gIsLocked v).gSnakeSpeed = s.gSnakeSpeed := rfl
theorem set_gIsLocked_gSnakeScore (s : Device) (v : Bool) :
    (s.set_gIsLocked v).gSnakeScore = s.gSnakeScore := rfl
theorem set_gIsLocked_gSnake (s : Device) (v : Bool) :
    (s.set_gIsLocked v).gSnake = s.gSnake := rfl
theorem set_gIsLocked_gApples (s : Device) (v : Bool) :
    (s.set_gIsLocked v).gApples = s.gApples := rfl
theorem set_gIsLocked_ram (s : Device) (v : Bool) :
    (s.set_gIsLocked v).ram = s.ram := rfl
theorem set_gIsLocked_bus (s : Device) (v : Bool) :
    (s.set_gIsLocked v).bus = s.bus := rfl
theorem set_gIsLocked_rng (s : Device) (v : Bool) :
    (s.set_gIsLocked v).rng = s.rng := rfl
theorem set_gIsLocked_junk (s : Device) (v : Bool) :
    (s.set_gIsLocked v).junk = s.junk := rfl
theorem set_gIsLocked_log (s : Device) (v : Bool) :
    (s.set_gIsLocked v).log = s.log := rfl
theorem set_gChallengeMode_gBgMode (s : Device) (v : Nat) :
    (s.set_gChallengeMode v).gBgMode = s.gBgMode := rfl
theorem set_gChallengeMode_gIsLocked (s : Device) (v : Nat) :
    (s.set_gChallengeMode v).gIsLocked = s.gIsLocked := rfl
theorem set_gChallengeMode_gChallengeMode (s : Device) (v : Nat) :
    (s.set_gChallengeMode v).gChallengeMode = v := rfl
theorem set_gChallengeMode_gLedTimer (s : Device) (v : Nat) :
    (s.set_gChallengeMode v).gLedTimer = s.gLedTimer := rfl
theorem set_gChallengeMode_gOldButtonStates (s : Device) (v : Nat) :
    (s.set_gChallengeMode v).gOldButtonStates = s.gOldButtonStates := rfl
theorem set_gChallengeMode_gFreshModeChange (s : Device) (v : Nat) :
    (s.set_gChallengeMode v).gFreshModeChange = s.gFreshModeChange := rfl
theorem set_gChallengeMode_gCurrentPinGuess (s : Device) (v : Nat) :
    (s.set_gChallengeMode v).gCurrentPinGuess = s.gCurrentPinGuess := rfl
theorem set_gChallengeMode_gCurrentPinGuessPos (s : Device) (v : Nat) :
    (s.set_gChallengeMode v).gCurrentPinGuessPos = s.gCurrentPinGuessPos := rfl
theorem set_gChallengeMode_gSnakeDir (s : Device) (v : Nat) :
    (s.set_gChallengeMode v).gSnakeDir = s.gSnakeDir := rfl
theorem set_gChallengeMode_gSnakeTime (s : Device) (v : Nat) :
    (s.set_gChallengeMode v).gSnakeTime = s.gSnakeTime := rfl
theorem set_gChallengeMode_gSnakeBufferPos (s : Device) (v : Nat) :
    (s.set_gChallengeMode v).gSnakeBufferPos = s.gSnakeBufferPos := rfl
theorem set_gChallengeMode_gSnakeLen (s : Device) (v : Nat) :
    (s.set_gChallengeMode v).gSnakeLen = s.gSnakeLen := rfl
theorem set_gChallengeMode_gSnakeSpeed (s : Device) (v : Nat) :
    (s.set_gChallengeMode v).gSnakeSpeed = s.gSnakeSpeed := rfl
theorem set_gChallengeMode_gSnakeScore (s : Device) (v : Nat) :
    (s.set_gChallengeMode v).gSnakeScore = s.gSnakeScore := rfl
theorem set_gChallengeMode_gSnake (s : Device) (v : Nat) :
    (s.set_gChallengeMode v).gSnake = s.gSnake := rfl
theorem set_gChallengeMode_gApples (s : Device) (v : Nat) :
    (s.set_gChallengeMode v).gApples = s.gApples := rfl
theorem set_gChallengeMode_ram (s : Device) (v : Nat) :
    (s.set_gChallengeMode v).ram = s.ram := rfl
theorem set_gChallengeMode_bus (s : Device) (v : Nat) :
    (s.set_gChallengeMode v).bus = s.bus := rfl
theorem set_gChallengeMode_rng (s : Device) (v : Nat) :
    (s.set_gChallengeMode v).rng = s.rng := rfl
theorem set_gChallengeMode_junk (s : Device) (v : Nat) :
    (s.set_gChallengeMode v).junk = s.junk := rfl
theorem set_gChallengeMode_log (s : Device) (v : Nat) :
    (s.set_gChallengeMode v).log = s.log := rfl
theorem set_gLedTimer_gBgMode (s : Device) (v : Nat) :
    (s.set_gLedTimer v).gBgMode = s.gBgMode := rfl
theorem set_gLedTimer_gIsLocked (s : Device) (v : Nat) :
    (s.set_gLedTimer v).gIsLocked = s.gIsLocked := rfl
theorem set_gLedTimer_gChallengeMode (s : Device) (v : Nat) :
    (s.set_gLedTimer v).gChallengeMode = s.gChallengeMode := rfl
theorem set_gLedTimer_gLedTimer (s : Device) (v : Nat) :
    (s.set_gLedTimer v).gLedTimer = v := rfl
theorem set_gLedTimer_gOldButtonStates (s : Device) (v : Nat) :
    (s.set_gLedTimer v).gOldButtonStates = s.gOldButtonStates := rfl
theorem set_gLedTimer_gFreshModeChange (s : Device) (v : Nat) :
    (s.set_gLedTimer v).gFreshModeChange = s.gFreshModeChange := rfl
theorem set_gLedTimer_gCurrentPinGuess (s : Device) (v : Nat) :
    (s.set_gLedTimer v).gCurrentPinGuess = s.gCurrentPinGuess := rfl
theorem set_gLedTimer_gCurrentPinGuessPos (s : Device) (v : Nat) :
    (s.set_gLedTimer v).gCurrentPinGuessPos = s.gCurrentPinGuessPos := rfl
theorem set_gLedTimer_gSnakeDir (s : Device) (v : Nat) :
    (s.set_gLedTimer v).gSnakeDir = s.gSnakeDir := rfl
theorem set_gLedTimer_gSnakeTime (s : Device) (v : Nat) :
    (s.set_gLedTimer v).gSnakeTime = s.gSnakeTime := rfl
theorem set_gLedTimer_gSnakeBufferPos (s : Device) (v : Nat) :
    (s.set_gLedTimer v).gSnakeBufferPos = s.gSnakeBufferPos := rfl
theorem set_gLedTimer_gSnakeLen (s : Device) (v : Nat) :
    (s.set_gLedTimer v).gSnakeLen = s.gSnakeLen := rfl
theorem set_gLedTimer_gSnakeSpeed (s : Device) (v : Nat) :
    (s.set_gLedTimer v).gSnakeSpeed = s.gSnakeSpeed := rfl
theorem set_gLedTimer_gSnakeScore (s : Device) (v : Nat) :
    (s.set_gLedTimer v).gSnakeScore = s.gSnakeScore := rfl
theorem set_gLedTimer_gSnake (s : Device) (v : Nat) :
    (s.set_gLedTimer v).gSnake = s.gSnake := rfl
theorem set_gLedTimer_gApples (s : Device) (v : Nat) :
    (s.set_gLedTimer v).gApples = s.gApples := rfl
theorem set_gLedTimer_ram (s : Device) (v : Nat) :
    (s.set_gLedTimer v).ram = s.ram := rfl
theorem set_gLedTimer_bus (s : Device) (v : Nat) :
    (s.set_gLedTimer v).bus = s.bus := rfl
theorem set_gLedTimer_rng (s : Device) (v : Nat) :
    (s.set_gLedTimer v).rng = s.rng := rfl
theorem set_gLedTimer_junk (s : Device) (v : Nat) :
    (s.set_gLedTimer v).junk = s.junk := rfl
theorem set_gLedTimer_log (s : Device) (v : Nat) :
    (s.set_gLedTimer v).log = s.log := rfl
theorem set_gOldButtonStates_gBgMode (s : Device) (v : Nat) :
    (s.set_gOldButtonStates v).gBgMode = s.gBgMode := rfl
theorem set_gOldButtonStates_gIsLocked (s : Device) (v : Nat) :
    (s.set_gOldButtonStates v).gIsLocked = s.gIsLocked := rfl
theorem set_gOldButtonStates_gChallengeMode (s : Device) (v : Nat) :
    (s.set_gOldButtonStates v).gChallengeMode = s.gChallengeMode := rfl
theorem set_gOldButtonStates_gLedTimer (s : Device) (v : Nat) :
    (s.set_gOldButtonStates v).gLedTimer = s.gLedTimer := rfl
theorem set_gOldButtonStates_gOldButtonStates (s : Device) (v : Nat) :
    (s.set_gOldButtonStates v).gOldButtonStates = v := rfl
theorem set_gOldButtonStates_gFreshModeChange (s : Device) (v : Nat) :
    (s.set_gOldButtonStates v).gFreshModeChange = s.gFreshModeChange := rfl
theorem set_gOldButtonStates_gCurrentPinGuess (s : Device) (v : Nat) :
    (s.set_gOldButtonStates v).gCurrentPinGuess = s.gCurrentPinGuess := rfl
theorem set_gOldButtonStates_gCurrentPinGuessPos (s : Device) (v : Nat) :
    (s.set_gOldButtonStates v).gCurrentPinGuessPos = s.gCurrentPinGuessPos := rfl
theorem set_gOldButtonStates_gSnakeDir (s : Device) (v : Nat) :
    (s.set_gOldButtonStates v).gSnakeDir = s.gSnakeDir := rfl
theorem set_gOldButtonStates_gSnakeTime (s : Device) (v : Nat) :
    (s.set_gOldButtonStates v).gSnakeTime = s.gSnakeTime := rfl
theorem set_gOldButtonStates_gSnakeBufferPos (s : Device) (v : Nat) :
    (s.set_gOldButtonStates v).gSnakeBufferPos = s.gSnakeBufferPos := rfl
theorem set_gOldButtonStates_gSnakeLen (s : Device) (v : Nat) :
    (s.set_gOldButtonStates v).gSnakeLen = s.gSnakeLen := rfl
theorem set_gOldButtonStates_gSnakeSpeed (s : Device) (v : Nat) :
    (s.set_gOldButtonStates v).gSnakeSpeed = s.gSnakeSpeed := rfl
theorem set_gOldButtonStates_gSnakeScore (s : Device) (v : Nat) :
    (s.set_gOldButtonStates v).gSnakeScore = s.gSnakeScore := rfl
theorem set_gOldButtonStates_gSnake (s : Device) (v : Nat) :
    (s.set_gOldButtonStates v).gSnake = s.gSnake := rfl
theorem set_gOldButtonStates_gApples (s : Device) (v : Nat) :
    (s.set_gOldButtonStates v).gApples = s.gApples := rfl
theorem set_gOldButtonStates_ram (s : Device) (v : Nat) :
    (s.set_gOldButtonStates v).ram = s.ram := rfl
theorem set_gOldButtonStates_bus (s : Device) (v : Nat) :
    (s.set_gOldButtonStates v).bus = s.bus := rfl
theorem set_gOldButtonStates_rng (s : Device) (v : Nat) :
    (s.set_gOldButtonStates v).rng = s.rng := rfl
theorem set_gOldButtonStates_junk (s : Device) (v : Nat) :
    (s.set_gOldButtonStates v).junk = s.junk := rfl
theorem set_gOldButtonStates_log (s : Device) (v : Nat) :
    (s.set_gOldButtonStates v).log = s.log := rfl
theorem set_gFreshModeChange_gBgMode (s : Device) (v : Nat) :
    (s.set_gFreshModeChange v).gBgMode = s.gBgMode := rfl
theorem set_gFreshModeChange_gIsLocked (s : Device) (v : Nat) :
    (s.set_gFreshModeChange v).gIsLocked = s.gIsLocked := rfl
theorem set_gFreshModeChange_gChallengeMode (s : Device) (v : Nat) :
    (s.set_gFreshModeChange v).gChallengeMode = s.gChallengeMode := rfl
theorem set_gFreshModeChange_gLedTimer (s : Device) (v : Nat) :
    (s.set_gFreshModeChange v).gLedTimer = s.gLedTimer := rfl
theorem set_gFreshModeChange_gOldButtonStates (s : Device) (v : Nat) :
    (s.set_gFreshModeChange v).gOldButtonStates = s.gOldButtonStates := rfl
theorem set_gFreshModeChange_gFreshModeChange (s : Device) (v : Nat) :
    (s.set_gFreshModeChange v).gFreshModeChange = v := rfl
theorem set_gFreshModeChange_gCurrentPinGuess (s : Device) (v : Nat) :
    (s.set_gFreshModeChange v).gCurrentPinGuess = s.gCurrentPinGuess := rfl
theorem set_gFreshModeChange_gCurrentPinGuessPos (s : Device) (v : Nat) :
    (s.set_gFreshModeChange v).gCurrentPinGuessPos = s.gCurrentPinGuessPos := rfl
theorem set_gFreshModeChange_gSnakeDir (s : Device) (v : Nat) :
    (s.set_gFreshModeChange v).gSnakeDir = s.gSnakeDir := rfl
theorem set_gFreshModeChange_gSnakeTime (s : Device) (v : Nat) :
    (s.set_gFreshModeChange v).gSnakeTime = s.gSnakeTime := rfl
theorem set_gFreshModeChange_gSnakeBufferPos (s : Device) (v : Nat) :
    (s.set_gFreshModeChange v).gSnakeBufferPos = s.gSnakeBufferPos := rfl
theorem set_gFreshModeChange_gSnakeLen (s : Device) (v : Nat) :
    (s.set_gFreshModeChange v).gSnakeLen = s.gSnakeLen := rfl
theorem set_gFreshModeChange_gSnakeSpeed (s : Device) (v : Nat) :
    (s.set_gFreshModeChange v).gSnakeSpeed = s.gSnakeSpeed := rfl
theorem set_gFreshModeChange_gSnakeScore (s : Device) (v : Nat) :
    (s.set_gFreshModeChange v).gSnakeScore = s.gSnakeScore := rfl
theorem set_gFreshModeChange_gSnake (s : Device) (v : Nat) :
    (s.set_gFreshModeChange v).gSnake = s.gSnake := rfl
theorem set_gFreshModeChange_gApples (s : Device) (v : Nat) :
    (s.set_gFreshModeChange v).gApples = s.gApples := rfl
theorem set_gFreshModeChange_ram (s : Device) (v : Nat) :
    (s.set_gFreshModeChange v).ram = s.ram := rfl
theorem set_gFreshModeChange_bus (s : Device) (v : Nat) :
    (s.set_gFreshModeChange v).bus = s.bus := rfl
theorem set_gFreshModeChange_rng (s : Device) (v : Nat) :
    (s.set_gFreshModeChange v).rng = s.rng := rfl
theorem set_gFreshModeChange_junk (s : Device) (v : Nat) :
    (s.set_gFreshModeChange v).junk = s.junk := rfl
theorem set_gFreshModeChange_log (s : Device) (v : Nat) :
    (s.set_gFreshModeChange v).log = s.log := rfl
theorem set_gCurrentPinGuess_gBgMode (s : Device) (v : Nat) :
    (s.set_gCurrentPinGuess v).gBgMode = s.gBgMode := rfl
theorem set_gCurrentPinGuess_gIsLocked (s : Device) (v : Nat) :
    (s.set_gCurrentPinGuess v).gIsLocked = s.gIsLocked := rfl
theorem set_gCurrentPinGuess_gChallengeMode (s : Device) (v : Nat) :
    (s.set_gCurrentPinGuess v).gChallengeMode = s.gChallengeMode := rfl
theorem set_gCurrentPinGuess_gLedTimer (s : Device) (v : Nat) :
    (s.set_gCurrentPinGuess v).gLedTimer = s.gLedTimer := rfl
theorem set_gCurrentPinGuess_gOldButtonStates (s : Device) (v : Nat) :
    (s.set_gCurrentPinGuess v).gOldButtonStates = s.gOldButtonStates := rfl
theorem set_gCurrentPinGuess_gFreshModeChange (s : Device) (v : Nat) :
    (s.set_gCurrentPinGuess v).gFreshModeChange = s.gFreshModeChange := rfl
theorem set_gCurrentPinGuess_gCurrentPinGuess (s : Device) (v : Nat) :
    (s.set_gCurrentPinGuess v).gCurrentPinGuess = v := rfl
theorem set_gCurrentPinGuess_gCurrentPinGuessPos (s : Device) (v : Nat) :
    (s.set_gCurrentPinGuess v).gCurrentPinGuessPos = s.gCurrentPinGuessPos := rfl
theorem set_gCurrentPinGuess_gSnakeDir (s : Device) (v : Nat) :
    (s.set_gCurrentPinGuess v).gSnakeDir = s.gSnakeDir := rfl
theorem set_gCurrentPinGuess_gSnakeTime (s : Device) (v : Nat) :
    (s.set_gCurrentPinGuess v).gSnakeTime = s.gSnakeTime := rfl
theorem set_gCurrentPinGuess_gSnakeBufferPos (s : Device) (v : Nat) :
    (s.set_gCurrentPinGuess v).gSnakeBufferPos = s.gSnakeBufferPos := rfl
theorem set_gCurrentPinGuess_gSnakeLen (s : Device) (v : Nat) :
    (s.set_gCurrentPinGuess v).gSnakeLen = s.gSnakeLen := rfl
theorem set_gCurrentPinGuess_gSnakeSpeed (s : Device) (v : Nat) :
    (s.set_gCurrentPinGuess v).gSnakeSpeed = s.gSnakeSpeed := rfl
theorem set_gCurrentPinGuess_gSnakeScore (s : Device) (v : Nat) :
    (s.set_gCurrentPinGuess v).gSnakeScore = s.gSnakeScore := rfl
theorem set_gCurrentPinGuess_gSnake (s : Device) (v : Nat) :
    (s.set_gCurrentPinGuess v).gSnake = s.gSnake := rfl
theorem set_gCurrentPinGuess_gApples (s : Device) (v : Nat) :
    (s.set_gCurrentPinGuess v).gApples = s.gApples := rfl
theorem set_gCurrentPinGuess_ram (s : Device) (v : Nat) :
    (s.set_gCurrentPinGuess v).ram = s.ram := rfl
theorem set_gCurrentPinGuess_bus (s : Device) (v : Nat) :
    (s.set_gCurrentPinGuess v).bus = s.bus := rfl
theorem set_gCurrentPinGuess_rng (s : Device) (v : Nat) :
    (s.set_gCurrentPinGuess v).rng = s.rng := rfl
theorem set_gCurrentPinGuess_junk (s : Device) (v : Nat) :
    (s.set_gCurrentPinGuess v).junk = s.junk := rfl
theorem set_gCurrentPinGuess_log (s : Device) (v : Nat) :
    (s.set_gCurrentPinGuess v).log = s.log := rfl
theorem set_gCurrentPinGuessPos_gBgMode (s : Device) (v : Nat) :
    (s.set_gCurrentPinGuessPos v).gBgMode = s.gBgMode := rfl
theorem set_gCurrentPinGuessPos_gIsLocked (s : Device) (v : Nat) :
    (s.set_gCurrentPinGuessPos v).gIsLocked = s.gIsLocked := rfl
theorem set_gCurrentPinGuessPos_gChallengeMode (s : Device) (v : Nat) :
    (s.set_gCurrentPinGuessPos v).gChallengeMode = s.gChallengeMode := rfl
theorem set_gCurrentPinGuessPos_gLedTimer (s : Device) (v : Nat) :
    (s.set_gCurrentPinGuessPos v).gLedTimer = s.gLedTimer := rfl
theorem set_gCurrentPinGuessPos_gOldButtonStates (s : Device) (v : Nat) :
    (s.set_gCurrentPinGuessPos v).gOldButtonStates = s.gOldButtonStates := rfl
theorem set_gCurrentPinGuessPos_gFreshModeChange (s : Device) (v : Nat) :
    (s.set_gCurrentPinGuessPos v).gFreshModeChange = s.gFreshModeChange := rfl
theorem set_gCurrentPinGuessPos_gCurrentPinGuess (s : Device) (v : Nat) :
    (s.set_gCurrentPinGuessPos v).gCurrentPinGuess = s.gCurrentPinGuess := rfl
theorem set_gCurrentPinGuessPos_gCurrentPinGuessPos (s : Device) (v : Nat) :
    (s.set_gCurrentPinGuessPos v).gCurrentPinGuessPos = v := rfl
theorem set_gCurrentPinGuessPos_gSnakeDir (s : Device) (v : Nat) :
    (s.set_gCurrentPinGuessPos v).gSnakeDir = s.gSnakeDir := rfl
theorem set_gCurrentPinGuessPos_gSnakeTime (s : Device) (v : Nat) :
    (s.set_gCurrentPinGuessPos v).gSnakeTime = s.gSnakeTime := rfl
theorem set_gCurrentPinGuessPos_gSnakeBufferPos (s : Device) (v : Nat) :
    (s.set_gCurrentPinGuessPos v).gSnakeBufferPos = s.gSnakeBufferPos := rfl
theorem set_gCurrentPinGuessPos_gSnakeLen (s : Device) (v : Nat) :
    (s.set_gCurrentPinGuessPos v).gSnakeLen = s.gSnakeLen := rfl
theorem set_gCurrentPinGuessPos_gSnakeSpeed (s : Device) (v : Nat) :
    (s.set_gCurrentPinGuessPos v).gSnakeSpeed = s.gSnakeSpeed := rfl
theorem set_gCurrentPinGuessPos_gSnakeScore (s : Device) (v : Nat) :
    (s.set_gCurrentPinGuessPos v).gSnakeScore = s.gSnakeScore := rfl
theorem set_gCurrentPinGuessPos_gSnake (s : Device) (v : Nat) :
    (s.set_gCurrentPinGuessPos v).gSnake = s.gSnake := rfl
theorem set_gCurrentPinGuessPos_gApples (s : Device) (v : Nat) :
    (s.set_gCurrentPinGuessPos v).gApples = s.gApples := rfl
theorem set_gCurrentPinGuessPos_ram (s : Device) (v : Nat) :
    (s.set_gCurrentPinGuessPos v).ram = s.ram := rfl
theorem set_gCurrentPinGuessPos_bus (s : Device) (v : Nat) :
    (s.set_gCurrentPinGuessPos v).bus = s.bus := rfl
theorem set_gCurrentPinGuessPos_rng (s : Device) (v : Nat) :
    (s.set_gCurrentPinGuessPos v).rng = s.rng := rfl
theorem set_gCurrentPinGuessPos_junk (s : Device) (v : Nat) :
    (s.set_gCurrentPinGuessPos v).junk = s.junk := rfl
theorem set_gCurrentPinGuessPos_log (s : Device) (v : Nat) :
    (s.set_gCurrentPinGuessPos v).log = s.log := rfl
theorem set_gSnakeDir_gBgMode (s : Device) (v : Nat) :
    (s.set_gSnakeDir v).gBgMode = s.gBgMode := rfl
theorem set_gSnakeDir_gIsLocked (s : Device) (v : Nat) :
    (s.set_gSnakeDir v).gIsLocked = s.gIsLocked := rfl
theorem set_gSnakeDir_gChallengeMode (s : Device) (v : Nat) :
    (s.set_gSnakeDir v).gChallengeMode = s.gChallengeMode := rfl
theorem set_gSnakeDir_gLedTimer (s : Device) (v : Nat) :
    (s.set_gSnakeDir v).gLedTimer = s.gLedTimer := rfl
theorem set_gSnakeDir_gOldButtonStates (s : Device) (v : Nat) :
    (s.set_gSnakeDir v).gOldButtonStates = s.gOldButtonStates := rfl
theorem set_gSnakeDir_gFreshModeChange (s : Device) (v : Nat) :
    (s.set_gSnakeDir v).gFreshModeChange = s.gFreshModeChange := rfl
theorem set_gSnakeDir_gCurrentPinGuess (s : Device) (v : Nat) :
    (s.set_gSnakeDir v).gCurrentPinGuess = s.gCurrentPinGuess := rfl
theorem set_gSnakeDir_gCurrentPinGuessPos (s : Device) (v : Nat) :
    (s.set_gSnakeDir v).gCurrentPinGuessPos = s.gCurrentPinGuessPos := rfl
theorem set_gSnakeDir_gSnakeDir (s : Device) (v : Nat) :
    (s.set_gSnakeDir v).gSnakeDir = v := rfl
theorem set_gSnakeDir_gSnakeTime (s : Device) (v : Nat) :
    (s.set_gSnakeDir v).gSnakeTime = s.gSnakeTime := rfl
theorem set_gSnakeDir_gSnakeBufferPos (s : Device) (v : Nat) :
    (s.set_gSnakeDir v).gSnakeBufferPos = s.gSnakeBufferPos := rfl
theorem set_gSnakeDir_gSnakeLen (s : Device) (v : Nat) :
    (s.set_gSnakeDir v).gSnakeLen = s.gSnakeLen := rfl
theorem set_gSnakeDir_gSnakeSpeed (s : Device) (v : Nat) :
    (s.set_gSnakeDir v).gSnakeSpeed = s.gSnakeSpeed := rfl
theorem set_gSnakeDir_gSnakeScore (s : Device) (v : Nat) :
    (s.set_gSnakeDir v).gSnakeScore = s.gSnakeScore := rfl
theorem set_gSnakeDir_gSnake (s : Device) (v : Nat) :
    (s.set_gSnakeDir v).gSnake = s.gSnake := rfl
theorem set_gSnakeDir_gApples (s : Device) (v : Nat) :
    (s.set_gSnakeDir v).gApples = s.gApples := rfl
theorem set_gSnakeDir_ram (s : Device) (v : Nat) :
    (s.set_gSnakeDir v).ram = s.ram := rfl
theorem set_gSnakeDir_bus (s : Device) (v : Nat) :
    (s.set_gSnakeDir v).bus = s.bus := rfl
theorem set_gSnakeDir_rng (s : Device) (v : Nat) :
    (s.set_gSnakeDir v).rng = s.rng := rfl
theorem set_gSnakeDir_junk (s : Device) (v : Nat) :
    (s.set_gSnakeDir v).junk = s.junk := rfl
theorem set_gSnakeDir_log (s : Device) (v : Nat) :
    (s.set_gSnakeDir v).log = s.log := rfl
theorem set_gSnakeTime_gBgMode (s : Device) (v : Nat) :
    (s.set_gSnakeTime v).gBgMode = s.gBgMode := rfl
theorem set_gSnakeTime_gIsLocked (s : Device) (v : Nat) :
    (s.set_gSnakeTime v).gIsLocked = s.gIsLocked := rfl
theorem set_gSnakeTime_gChallengeMode (s : Device) (v : Nat) :
    (s.set_gSnakeTime v).gChallengeMode = s.gChallengeMode := rfl
theorem set_gSnakeTime_gLedTimer (s : Device) (v : Nat) :
    (s.set_gSnakeTime v).gLedTimer = s.gLedTimer := rfl
theorem set_gSnakeTime_gOldButtonStates (s : Device) (v : Nat) :
    (s.set_gSnakeTime v).gOldButtonStates = s.gOldButtonStates := rfl
theorem set_gSnakeTime_gFreshModeChange (s : Device) (v : Nat) :
    (s.set_gSnakeTime v).gFreshModeChange = s.gFreshModeChange := rfl
theorem set_gSnakeTime_gCurrentPinGuess (s : Device) (v : Nat) :
    (s.set_gSnakeTime v).gCurrentPinGuess = s.gCurrentPinGuess := rfl
theorem set_gSnakeTime_gCurrentPinGuessPos (s : Device) (v : Nat) :
    (s.set_gSnakeTime v).gCurrentPinGuessPos = s.gCurrentPinGuessPos := rfl
theorem set_gSnakeTime_gSnakeDir (s : Device) (v : Nat) :
    (s.set_gSnakeTime v).gSnakeDir = s.gSnakeDir := rfl
theorem set_gSnakeTime_gSnakeTime (s : Device) (v : Nat) :
    (s.set_gSnakeTime v).gSnakeTime = v := rfl
theorem set_gSnakeTime_gSnakeBufferPos (s : Device) (v : Nat) :
    (s.set_gSnakeTime v).gSnakeBufferPos = s.gSnakeBufferPos := rfl
theorem set_gSnakeTime_gSnakeLen (s : Device) (v : Nat) :
    (s.set_gSnakeTime v).gSnakeLen = s.gSnakeLen := rfl
theorem set_gSnakeTime_gSnakeSpeed (s : Device) (v : Nat) :
    (s.set_gSnakeTime v).gSnakeSpeed = s.gSnakeSpeed := rfl
theorem set_gSnakeTime_gSnakeScore (s : Device) (v : Nat) :
    (s.set_gSnakeTime v).gSnakeScore = s.gSnakeScore := rfl
theorem set_gSnakeTime_gSnake (s : Device) (v : Nat) :
    (s.set_gSnakeTime v).gSnake = s.gSnake := rfl
theorem set_gSnakeTime_gApples (s : Device) (v : Nat) :
    (s.set_gSnakeTime v).gApples = s.gApples := rfl
theorem set_gSnakeTime_ram (s : Device) (v : Nat) :
    (s.set_gSnakeTime v).ram = s.ram := rfl
theorem set_gSnakeTime_bus (s : Device) (v : Nat) :
    (s.set_gSnakeTime v).bus = s.bus := rfl
theorem set_gSnakeTime_rng (s : Device) (v : Nat) :
    (s.set_gSnakeTime v).rng = s.rng := rfl
theorem set_gSnakeTime_junk (s : Device) (v : Nat) :
    (s.set_gSnakeTime v).junk = s.junk := rfl
theorem set_gSnakeTime_log (s : Device) (v : Nat) :
    (s.set_gSnakeTime v).log = s.log := rfl
theorem set_gSnakeBufferPos_gBgMode (s : Device) (v : Nat) :
    (s.set_gSnakeBufferPos v).gBgMode = s.gBgMode := rfl
theorem set_gSnakeBufferPos_gIsLocked (s : Device) (v : Nat) :
    (s.set_gSnakeBufferPos v).gIsLocked = s.gIsLocked := rfl
theorem set_gSnakeBufferPos_gChallengeMode (s : Device) (v : Nat) :
    (s.set_gSnakeBufferPos v).gChallengeMode = s.gChallengeMode := rfl
theorem set_gSnakeBufferPos_gLedTimer (s : Device) (v : Nat) :
    (s.set_gSnakeBufferPos v).gLedTimer = s.gLedTimer := rfl
theorem set_gSnakeBufferPos_gOldButtonStates (s : Device) (v : Nat) :
    (s.set_gSnakeBufferPos v).gOldButtonStates = s.gOldButtonStates := rfl
theorem set_gSnakeBufferPos_gFreshModeChange (s : Device) (v : Nat) :
    (s.set_gSnakeBufferPos v).gFreshModeChange = s.gFreshModeChange := rfl
theorem set_gSnakeBufferPos_gCurrentPinGuess (s : Device) (v : Nat) :
    (s.set_gSnakeBufferPos v).gCurrentPinGuess = s.gCurrentPinGuess := rfl
theorem set_gSnakeBufferPos_gCurrentPinGuessPos (s : Device) (v : Nat) :
    (s.set_gSnakeBufferPos v).gCurrentPinGuessPos = s.gCurrentPinGuessPos := rfl
theorem set_gSnakeBufferPos_gSnakeDir (s : Device) (v : Nat) :
    (s.set_gSnakeBufferPos v).gSnakeDir = s.gSnakeDir := rfl
theorem set_gSnakeBufferPos_gSnakeTime (s : Device) (v : Nat) :
    (s.set_gSnakeBufferPos v).gSnakeTime = s.gSnakeTime := rfl
theorem set_gSnakeBufferPos_gSnakeBufferPos (s : Device) (v : Nat) :
    (s.set_gSnakeBufferPos v).gSnakeBufferPos = v := rfl
theorem set_gSnakeBufferPos_gSnakeLen (s : Device) (v : Nat) :
    (s.set_gSnakeBufferPos v).gSnakeLen = s.gSnakeLen := rfl
theorem set_gSnakeBufferPos_gSnakeSpeed (s : Device) (v : Nat) :
    (s.set_gSnakeBufferPos v).gSnakeSpeed = s.gSnakeSpeed := rfl
theorem set_gSnakeBufferPos_gSnakeScore (s : Device) (v : Nat) :
    (s.set_gSnakeBufferPos v).gSnakeScore = s.gSnakeScore := rfl
theorem set_gSnakeBufferPos_gSnake (s : Device) (v : Nat) :
    (s.set_gSnakeBufferPos v).gSnake = s.gSnake := rfl
theorem set_gSnakeBufferPos_gApples (s : Device) (v : Nat) :
    (s.set_gSnakeBufferPos v).gApples = s.gApples := rfl
theorem set_gSnakeBufferPos_ram (s : Device) (v : Nat) :
    (s.set_gSnakeBufferPos v).ram = s.ram := rfl
theorem set_gSnakeBufferPos_bus (s : Device) (v : Nat) :
    (s.set_gSnakeBufferPos v).bus = s.bus := rfl
theorem set_gSnakeBufferPos_rng (s : Device) (v : Nat) :
    (s.set_gSnakeBufferPos v).rng = s.rng := rfl
theorem set_gSnakeBufferPos_junk (s : Device) (v : Nat) :
    (s.set_gSnakeBufferPos v).junk = s.junk := rfl
theorem set_gSnakeBufferPos_log (s : Device) (v : Nat) :
    (s.set_gSnakeBufferPos v).log = s.log := rfl
theorem set_gSnakeLen_gBgMode (s : Device) (v : Nat) :
    (s.set_gSnakeLen v).gBgMode = s.gBgMode := rfl
theorem set_gSnakeLen_gIsLocked (s : Device) (v : Nat) :
    (s.set_gSnakeLen v).gIsLocked = s.gIsLocked := rfl
theorem set_gSnakeLen_gChallengeMode (s : Device) (v : Nat) :
    (s.set_gSnakeLen v).gChallengeMode = s.gChallengeMode := rfl
theorem set_gSnakeLen_gLedTimer (s : Device) (v : Nat) :
    (s.set_gSnakeLen v).gLedTimer = s.gLedTimer := rfl
theorem set_gSnakeLen_gOldButtonStates (s : Device) (v : Nat) :
    (s.set_gSnakeLen v).gOldButtonStates = s.gOldButtonStates := rfl
theorem set_gSnakeLen_gFreshModeChange (s : Device) (v : Nat) :
    (s.set_gSnakeLen v).gFreshModeChange = s.gFreshModeChange := rfl
theorem set_gSnakeLen_gCurrentPinGuess (s : Device) (v : Nat) :
    (s.set_gSnakeLen v).gCurrentPinGuess = s.gCurrentPinGuess := rfl
theorem set_gSnakeLen_gCurrentPinGuessPos (s : Device) (v : Nat) :
    (s.set_gSnakeLen v).gCurrentPinGuessPos = s.gCurrentPinGuessPos := rfl
theorem set_gSnakeLen_gSnakeDir (s : Device) (v : Nat) :
    (s.set_gSnakeLen v).gSnakeDir = s.gSnakeDir := rfl
theorem set_gSnakeLen_gSnakeTime (s : Device) (v : Nat) :
    (s.set_gSnakeLen v).gSnakeTime = s.gSnakeTime := rfl
theorem set_gSnakeLen_gSnakeBufferPos (s : Device) (v : Nat) :
    (s.set_gSnakeLen v).gSnakeBufferPos = s.gSnakeBufferPos := rfl
theorem set_gSnakeLen_gSnakeLen (s : Device) (v : Nat) :
    (s.set_gSnakeLen v).gSnakeLen = v := rfl
theorem set_gSnakeLen_gSnakeSpeed (s : Device) (v : Nat) :
    (s.set_gSnakeLen v).gSnakeSpeed = s.gSnakeSpeed := rfl
theorem set_gSnakeLen_gSnakeScore (s : Device) (v : Nat) :
    (s.set_gSnakeLen v).gSnakeScore = s.gSnakeScore := rfl
theorem set_gSnakeLen_gSnake (s : Device) (v : Nat) :
    (s.set_gSnakeLen v).gSnake = s.gSnake := rfl
theorem set_gSnakeLen_gApples (s : Device) (v : Nat) :
    (s.set_gSnakeLen v).gApples = s.gApples := rfl
theorem set_gSnakeLen_ram (s : Device) (v : Nat) :
    (s.set_gSnakeLen v).ram = s.ram := rfl
theorem set_gSnakeLen_bus (s : Device) (v : Nat) :
    (s.set_gSnakeLen v).bus = s.bus := rfl
theorem set_gSnakeLen_rng (s : Device) (v : Nat) :
    (s.set_gSnakeLen v).rng = s.rng := rfl
theorem set_gSnakeLen_junk (s : Device) (v : Nat) :
    (s.set_gSnakeLen v).junk = s.junk := rfl
theorem set_gSnakeLen_log (s : Device) (v : Nat) :
    (s.set_gSnakeLen v).log = s.log := rfl
theorem set_gSnakeSpeed_gBgMode (s : Device) (v : Nat) :
    (s.set_gSnakeSpeed v).gBgMode = s.gBgMode := rfl
theorem set_gSnakeSpeed_gIsLocked (s : Device) (v : Nat) :
    (s.set_gSnakeSpeed v).gIsLocked = s.gIsLocked := rfl
theorem set_gSnakeSpeed_gChallengeMode (s : Device) (v : Nat) :
    (s.set_gSnakeSpeed v).gChallengeMode = s.gChallengeMode := rfl
theorem set_gSnakeSpeed_gLedTimer (s : Device) (v : Nat) :
    (s.set_gSnakeSpeed v).gLedTimer = s.gLedTimer := rfl
theorem set_gSnakeSpeed_gOldButtonStates (s : Device) (v : Nat) :
    (s.set_gSnakeSpeed v).gOldButtonStates = s.gOldButtonStates := rfl
theorem set_gSnakeSpeed_gFreshModeChange (s : Device) (v : Nat) :
    (s.set_gSnakeSpeed v).gFreshModeChange = s.gFreshModeChange := rfl
theorem set_gSnakeSpeed_gCurrentPinGuess (s : Device) (v : Nat) :
    (s.set_gSnakeSpeed v).gCurrentPinGuess = s.gCurrentPinGuess := rfl
theorem set_gSnakeSpeed_gCurrentPinGuessPos (s : Device) (v : Nat) :
    (s.set_gSnakeSpeed v).gCurrentPinGuessPos = s.gCurrentPinGuessPos := rfl
theorem set_gSnakeSpeed_gSnakeDir (s : Device) (v : Nat) :
    (s.set_gSnakeSpeed v).gSnakeDir = s.gSnakeDir := rfl
theorem set_gSnakeSpeed_gSnakeTime (s : Device) (v : Nat) :
    (s.set_gSnakeSpeed v).gSnakeTime = s.gSnakeTime := rfl
theorem set_gSnakeSpeed_gSnakeBufferPos (s : Device) (v : Nat) :
    (s.set_gSnakeSpeed v).gSnakeBufferPos = s.gSnakeBufferPos := rfl
theorem set_gSnakeSpeed_gSnakeLen (s : Device) (v : Nat) :
    (s.set_gSnakeSpeed v).gSnakeLen = s.gSnakeLen := rfl
theorem set_gSnakeSpeed_gSnakeSpeed (s : Device) (v : Nat) :
    (s.set_gSnakeSpeed v).gSnakeSpeed = v := rfl
theorem set_gSnakeSpeed_gSnakeScore (s : Device) (v : Nat) :
    (s.set_gSnakeSpeed v).gSnakeScore = s.gSnakeScore := rfl
theorem set_gSnakeSpeed_gSnake (s : Device) (v : Nat) :
    (s.set_gSnakeSpeed v).gSnake = s.gSnake := rfl
theorem set_gSnakeSpeed_gApples (s : Device) (v : Nat) :
    (s.set_gSnakeSpeed v).gApples = s.gApples := rfl
theorem set_gSnakeSpeed_ram (s : Device) (v : Nat) :
    (s.set_gSnakeSpeed v).ram = s.ram := rfl
theorem set_gSnakeSpeed_bus (s : Device) (v : Nat) :
    (s.set_gSnakeSpeed v).bus = s.bus := rfl
theorem set_gSnakeSpeed_rng (s : Device) (v : Nat) :
    (s.set_gSnakeSpeed v).rng = s.rng := rfl
theorem set_gSnakeSpeed_junk (s : Device) (v : Nat) :
    (s.set_gSnakeSpeed v).junk = s.junk := rfl
theorem set_gSnakeSpeed_log (s : Device) (v : Nat) :
    (s.set_gSnakeSpeed v).log = s.log := rfl
theorem set_gSnakeScore_gBgMode (s : Device) (v : Nat) :
    (s.set_gSnakeScore v).gBgMode = s.gBgMode := rfl
theorem set_gSnakeScore_gIsLocked (s : Device) (v : Nat) :
    (s.set_gSnakeScore v).gIsLocked = s.gIsLocked := rfl
theorem set_gSnakeScore_gChallengeMode (s : Device) (v : Nat) :
    (s.set_gSnakeScore v).gChallengeMode = s.gChallengeMode := rfl
theorem set_gSnakeScore_gLedTimer (s : Device) (v : Nat) :
    (s.set_gSnakeScore v).gLedTimer = s.gLedTimer := rfl
theorem set_gSnakeScore_gOldButtonStates (s : Device) (v : Nat) :
    (s.set_gSnakeScore v).gOldButtonStates = s.gOldButtonStates := rfl
theorem set_gSnakeScore_gFreshModeChange (s : Device) (v : Nat) :
    (s.set_gSnakeScore v).gFreshModeChange = s.gFreshModeChange := rfl
theorem set_gSnakeScore_gCurrentPinGuess (s : Device) (v : Nat) :
    (s.set_gSnakeScore v).gCurrentPinGuess = s.gCurrentPinGuess := rfl
theorem set_gSnakeScore_gCurrentPinGuessPos (s : Device) (v : Nat) :
    (s.set_gSnakeScore v).gCurrentPinGuessPos = s.gCurrentPinGuessPos := rfl
theorem set_gSnakeScore_gSnakeDir (s : Device) (v : Nat) :
    (s.set_gSnakeScore v).gSnakeDir = s.gSnakeDir := rfl
theorem set_gSnakeScore_gSnakeTime (s : Device) (v : Nat) :
    (s.set_gSnakeScore v).gSnakeTime = s.gSnakeTime := rfl
theorem set_gSnakeScore_gSnakeBufferPos (s : Device) (v : Nat) :
    (s.set_gSnakeScore v).gSnakeBufferPos = s.gSnakeBufferPos := rfl
theorem set_gSnakeScore_gSnakeLen (s : Device) (v : Nat) :
    (s.set_gSnakeScore v).gSnakeLen = s.gSnakeLen := rfl
theorem set_gSnakeScore_gSnakeSpeed (s : Device) (v : Nat) :
    (s.set_gSnakeScore v).gSnakeSpeed = s.gSnakeSpeed := rfl
theorem set_gSnakeScore_gSnakeScore (s : Device) (v : Nat) :
    (s.set_gSnakeScore v).gSnakeScore = v := rfl
theorem set_gSnakeScore_gSnake (s : Device) (v : Nat) :
    (s.set_gSnakeScore v).gSnake = s.gSnake := rfl
theorem set_gSnakeScore_gApples (s : Device) (v : Nat) :
    (s.set_gSnakeScore v).gApples = s.gApples := rfl
theorem set_gSnakeScore_ram (s : Device) (v : Nat) :
    (s.set_gSnakeScore v).ram = s.ram := rfl
theorem set_gSnakeScore_bus (s : Device) (v : Nat) :
    (s.set_gSnakeScore v).bus = s.bus := rfl
theorem set_gSnakeScore_rng (s : Device) (v : Nat) :
    (s.set_gSnakeScore v).rng = s.rng := rfl
theorem set_gSnakeScore_junk (s : Device) (v : Nat) :
    (s.set_gSnakeScore v).junk = s.junk := rfl
theorem set_gSnakeScore_log (s : Device) (v : Nat) :
    (s.set_gSnakeScore v).log = s.log := rfl
theorem set_gSnake_gBgMode (s : Device) (v : List Point) :
    (s.set_gSnake v).gBgMode = s.gBgMode := rfl
theorem set_gSnake_gIsLocked (s : Device) (v : List Point) :
    (s.set_gSnake v).gIsLocked = s.gIsLocked := rfl
theorem set_gSnake_gChallengeMode (s : Device) (v : List Point) :
    (s.set_gSnake v).gChallengeMode = s.gChallengeMode := rfl
theorem set_gSnake_gLedTimer (s : Device) (v : List Point) :
    (s.set_gSnake v).gLedTimer = s.gLedTimer := rfl
theorem set_gSnake_gOldButtonStates (s : Device) (v : List Point) :
    (s.set_gSnake v).gOldButtonStates = s.gOldButtonStates := rfl
theorem set_gSnake_gFreshModeChange (s : Device) (v : List Point) :
    (s.set_gSnake v).gFreshModeChange = s.gFreshModeChange := rfl
theorem set_gSnake_gCurrentPinGuess (s : Device) (v : List Point) :
    (s.set_gSnake v).gCurrentPinGuess = s.gCurrentPinGuess := rfl
theorem set_gSnake_gCurrentPinGuessPos (s : Device) (v : List Point) :
    (s.set_gSnake v).gCurrentPinGuessPos = s.gCurrentPinGuessPos := rfl
theorem set_gSnake_gSnakeDir (s : Device) (v : List Point) :
    (s.set_gSnake v).gSnakeDir = s.gSnakeDir := rfl
theorem set_gSnake_gSnakeTime (s : Device) (v : List Point) :
    (s.set_gSnake v).gSnakeTime = s.gSnakeTime := rfl
theorem set_gSnake_gSnakeBufferPos (s : Device) (v : List Point) :
    (s.set_gSnake v).gSnakeBufferPos = s.gSnakeBufferPos := rfl
theorem set_gSnake_gSnakeLen (s : Device) (v : List Point) :
    (s.set_gSnake v).gSnakeLen = s.gSnakeLen := rfl
theorem set_gSnake_gSnakeSpeed (s : Device) (v : List Point) :
    (s.set_gSnake v).gSnakeSpeed = s.gSnakeSpeed := rfl
theorem set_gSnake_gSnakeScore (s : Device) (v : List Point) :
    (s.set_gSnake v).gSnakeScore = s.gSnakeScore := rfl
theorem set_gSnake_gSnake (s : Device) (v : List Point) :
    (s.set_gSnake v).gSnake = v := rfl
theorem set_gSnake_gApples (s : Device) (v : List Point) :
    (s.set_gSnake v).gApples = s.gApples := rfl
theorem set_gSnake_ram (s : Device) (v : List Point) :
    (s.set_gSnake v).ram = s.ram := rfl
theorem set_gSnake_bus (s : Device) (v : List Point) :
    (s.set_gSnake v).bus = s.bus := rfl
theorem set_gSnake_rng (s : Device) (v : List Point) :
    (s.set_gSnake v).rng = s.rng := rfl
theorem set_gSnake_junk (s : Device) (v : List Point) :
    (s.set_gSnake v).junk = s.junk := rfl
theorem set_gSnake_log (s : Device) (v : List Point) :
    (s.set_gSnake v).log = s.log := rfl
theorem set_gApples_gBgMode (s : Device) (v : List Point) :
    (s.set_gApples v).gBgMode = s.gBgMode := rfl
theorem set_gApples_gIsLocked (s : Device) (v : List Point) :
    (s.set_gApples v).gIsLocked = s.gIsLocked := rfl
theorem set_gApples_gChallengeMode (s : Device) (v : List Point) :
    (s.set_gApples v).gChallengeMode = s.gChallengeMode := rfl
theorem set_gApples_gLedTimer (s : Device) (v : List Point) :
    (s.set_gApples v).gLedTimer = s.gLedTimer := rfl
theorem set_gApples_gOldButtonStates (s : Device) (v : List Point) :
    (s.set_gApples v).gOldButtonStates = s.gOldButtonStates := rfl
theorem set_gApples_gFreshModeChange (s : Device) (v : List Point) :
    (s.set_gApples v).gFreshModeChange = s.gFreshModeChange := rfl
theorem set_gApples_gCurrentPinGuess (s : Device) (v : List Point) :
    (s.set_gApples v).gCurrentPinGuess = s.gCurrentPinGuess := rfl
theorem set_gApples_gCurrentPinGuessPos (s : Device) (v : List Point) :
    (s.set_gApples v).gCurrentPinGuessPos = s.gCurrentPinGuessPos := rfl
theorem set_gApples_gSnakeDir (s : Device) (v : List Point) :
    (s.set_gApples v).gSnakeDir = s.gSnakeDir := rfl
theorem set_gApples_gSnakeTime (s : Device) (v : List Point) :
    (s.set_gApples v).gSnakeTime = s.gSnakeTime := rfl
theorem set_gApples_gSnakeBufferPos (s : Device) (v : List Point) :
    (s.set_gApples v).gSnakeBufferPos = s.gSnakeBufferPos := rfl
theorem set_gApples_gSnakeLen (s : Device) (v : List Point) :
    (s.set_gApples v).gSnakeLen = s.gSnakeLen := rfl
theorem set_gApples_gSnakeSpeed (s : Device) (v : List Point) :
    (s.set_gApples v).gSnakeSpeed = s.gSnakeSpeed := rfl
theorem set_gApples_gSnakeScore (s : Device) (v : List Point) :
    (s.set_gApples v).gSnakeScore = s.gSnakeScore := rfl
theorem set_gApples_gSnake (s : Device) (v : List Point) :
    (s.set_gApples v).gSnake = s.gSnake := rfl
theorem set_gApples_gApples (s : Device) (v : List Point) :
    (s.set_gApples v).gApples = v := rfl
theorem set_gApples_ram (s : Device) (v : List Point) :
    (s.set_gApples v).ram = s.ram := rfl
theorem set_gApples_bus (s : Device) (v : List Point) :
    (s.set_gApples v).bus = s.bus := rfl
theorem set_gApples_rng (s : Device) (v : List Point) :
    (s.set_gApples v).rng = s.rng := rfl
theorem set_gApples_junk (s : Device) (v : List Point) :
    (s.set_gApples v).junk = s.junk := rfl
theorem set_gApples_log (s : Device) (v : List Point) :
    (s.set_gApples v).log = s.log := rfl
theorem set_ram_gBgMode (s : Device) (v : List Nat) :
    (s.set_ram v).gBgMode = s.gBgMode := rfl
theorem set_ram_gIsLocked (s : Device) (v : List Nat) :
    (s.set_ram v).gIsLocked = s.gIsLocked := rfl
theorem set_ram_gChallengeMode (s : Device) (v : List Nat) :
    (s.set_ram v).gChallengeMode = s.gChallengeMode := rfl
theorem set_ram_gLedTimer (s : Device) (v : List Nat) :
    (s.set_ram v).gLedTimer = s.gLedTimer := rfl
theorem set_ram_gOldButtonStates (s : Device) (v : List Nat) :
    (s.set_ram v).gOldButtonStates = s.gOldButtonStates := rfl
theorem set_ram_gFreshModeChange (s : Device) (v : List Nat) :
    (s.set_ram v).gFreshModeChange = s.gFreshModeChange := rfl
theorem set_ram_gCurrentPinGuess (s : Device) (v : List Nat) :
    (s.set_ram v).gCurrentPinGuess = s.gCurrentPinGuess := rfl
theorem set_ram_gCurrentPinGuessPos (s : Device) (v : List Nat) :
    (s.set_ram v).gCurrentPinGuessPos = s.gCurrentPinGuessPos := rfl
theorem set_ram_gSnakeDir (s : Device) (v : List Nat) :
    (s.set_ram v).gSnakeDir = s.gSnakeDir := rfl
theorem set_ram_gSnakeTime (s : Device) (v : List Nat) :
    (s.set_ram v).gSnakeTime = s.gSnakeTime := rfl
theorem set_ram_gSnakeBufferPos (s : Device) (v : List Nat) :
    (s.set_ram v).gSnakeBufferPos = s.gSnakeBufferPos := rfl
theorem set_ram_gSnakeLen (s : Device) (v : List Nat) :
    (s.set_ram v).gSnakeLen = s.gSnakeLen := rfl
theorem set_ram_gSnakeSpeed (s : Device) (v : List Nat) :
    (s.set_ram v).gSnakeSpeed = s.gSnakeSpeed := rfl
theorem set_ram_gSnakeScore (s : Device) (v : List Nat) :
    (s.set_ram v).gSnakeScore = s.gSnakeScore := rfl
theorem set_ram_gSnake (s : Device) (v : List Nat) :
    (s.set_ram v).gSnake = s.gSnake := rfl
theorem set_ram_gApples (s : Device) (v : List Nat) :
    (s.set_ram v).gApples = s.gApples := rfl
theorem set_ram_ram (s : Device) (v : List Nat) :
    (s.set_ram v).ram = v := rfl
theorem set_ram_bus (s : Device) (v : List Nat) :
    (s.set_ram v).bus = s.bus := rfl
theorem set_ram_rng (s : Device) (v : List Nat) :
    (s.set_ram v).rng = s.rng := rfl
theorem set_ram_junk (s : Device) (v : List Nat) :
    (s.set_ram v).junk = s.junk := rfl
theorem set_ram_log (s : Device) (v : List Nat) :
    (s.set_ram v).log = s.log := rfl
theorem set_bus_gBgMode (s : Device) (v : List Bus) :
    (s.set_bus v).gBgMode = s.gBgMode := rfl
theorem set_bus_gIsLocked (s : Device) (v : List Bus) :
    (s.set_bus v).gIsLocked = s.gIsLocked := rfl
theorem set_bus_gChallengeMode (s : Device) (v : List Bus) :
    (s.set_bus v).gChallengeMode = s.gChallengeMode := rfl
theorem set_bus_gLedTimer (s : Device) (v : List Bus) :
    (s.set_bus v).gLedTimer = s.gLedTimer := rfl
theorem set_bus_gOldButtonStates (s : Device) (v : List Bus) :
    (s.set_bus v).gOldButtonStates = s.gOldButtonStates := rfl
theorem set_bus_gFreshModeChange (s : Device) (v : List Bus) :
    (s.set_bus v).gFreshModeChange = s.gFreshModeChange := rfl
theorem set_bus_gCurrentPinGuess (s : Device) (v : List Bus) :
    (s.set_bus v).gCurrentPinGuess = s.gCurrentPinGuess := rfl
theorem set_bus_gCurrentPinGuessPos (s : Device) (v : List Bus) :
    (s.set_bus v).gCurrentPinGuessPos = s.gCurrentPinGuessPos := rfl
theorem set_bus_gSnakeDir (s : Device) (v : List Bus) :
    (s.set_bus v).gSnakeDir = s.gSnakeDir := rfl
theorem set_bus_gSnakeTime (s : Device) (v : List Bus) :
    (s.set_bus v).gSnakeTime = s.gSnakeTime := rfl
theorem set_bus_gSnakeBufferPos (s : Device) (v : List Bus) :
    (s.set_bus v).gSnakeBufferPos = s.gSnakeBufferPos := rfl
theorem set_bus_gSnakeLen (s : Device) (v : List Bus) :
    (s.set_bus v).gSnakeLen = s.gSnakeLen := rfl
theorem set_bus_gSnakeSpeed (s : Device) (v : List Bus) :
    (s.set_bus v).gSnakeSpeed = s.gSnakeSpeed := rfl
theorem set_bus_gSnakeScore (s : Device) (v : List Bus) :
    (s.set_bus v).gSnakeScore = s.gSnakeScore := rfl
theorem set_bus_gSnake (s : Device) (v : List Bus) :
    (s.set_bus v).gSnake = s.gSnake := rfl
theorem set_bus_gApples (s : Device) (v : List Bus) :
    (s.set_bus v).gApples = s.gApples := rfl
theorem set_bus_ram (s : Device) (v : List Bus) :
    (s.set_bus v).ram = s.ram := rfl
theorem set_bus_bus (s : Device) (v : List Bus) :
    (s.set_bus v).bus = v := rfl
theorem set_bus_rng (s : Device) (v : List Bus) :
    (s.set_bus v).rng = s.rng := rfl
theorem set_bus_junk (s : Device) (v : List Bus) :
    (s.set_bus v).junk = s.junk := rfl
theorem set_bus_log (s : Device) (v : List Bus) :
    (s.set_bus v).log = s.log := rfl
theorem set_rng_gBgMode (s : Device) (v : List Nat) :
    (s.set_rng v).gBgMode = s.gBgMode := rfl
theorem set_rng_gIsLocked (s : Device) (v : List Nat) :
    (s.set_rng v).gIsLocked = s.gIsLocked := rfl
theorem set_rng_gChallengeMode (s : Device) (v : List Nat) :
    (s.set_rng v).gChallengeMode = s.gChallengeMode := rfl
theorem set_rng_gLedTimer (s : Device) (v : List Nat) :
    (s.set_rng v).gLedTimer = s.gLedTimer := rfl
theorem set_rng_gOldButtonStates (s : Device) (v : List Nat) :
    (s.set_rng v).gOldButtonStates = s.gOldButtonStates := rfl
theorem set_rng_gFreshModeChange (s : Device) (v : List Nat) :
    (s.set_rng v).gFreshModeChange = s.gFreshModeChange := rfl
theorem set_rng_gCurrentPinGuess (s : Device) (v : List Nat) :
    (s.set_rng v).gCurrentPinGuess = s.gCurrentPinGuess := rfl
theorem set_rng_gCurrentPinGuessPos (s : Device) (v : List Nat) :
    (s.set_rng v).gCurrentPinGuessPos = s.gCurrentPinGuessPos := rfl
theorem set_rng_gSnakeDir (s : Device) (v : List Nat) :
    (s.set_rng v).gSnakeDir = s.gSnakeDir := rfl
theorem set_rng_gSnakeTime (s : Device) (v : List Nat) :
    (s.set_rng v).gSnakeTime = s.gSnakeTime := rfl
theorem set_rng_gSnakeBufferPos (s : Device) (v : List Nat) :
    (s.set_rng v).gSnakeBufferPos = s.gSnakeBufferPos := rfl
theorem set_rng_gSnakeLen (s : Device) (v : List Nat) :
    (s.set_rng v).gSnakeLen = s.gSnakeLen := rfl
theorem set_rng_gSnakeSpeed (s : Device) (v : List Nat) :
    (s.set_rng v).gSnakeSpeed = s.gSnakeSpeed := rfl
theorem set_rng_gSnakeScore (s : Device) (v : List Nat) :
    (s.set_rng v).gSnakeScore = s.gSnakeScore := rfl
theorem set_rng_gSnake (s : Device) (v : List Nat) :
    (s.set_rng v).gSnake = s.gSnake := rfl
theorem set_rng_gApples (s : Device) (v : List Nat) :
    (s.set_rng v).gApples = s.gApples := rfl
theorem set_rng_ram (s : Device) (v : List Nat) :
    (s.set_rng v).ram = s.ram := rfl
theorem set_rng_bus (s : Device) (v : List Nat) :
    (s.set_rng v).bus = s.bus := rfl
theorem set_rng_rng (s : Device) (v : List Nat) :
    (s.set_rng v).rng = v := rfl
theorem set_rng_junk (s : Device) (v : List Nat) :
    (s.set_rng v).junk = s.junk := rfl
theorem set_rng_log (s : Device) (v : List Nat) :
    (s.set_rng v).log = s.log := rfl
theorem set_junk_gBgMode (s : Device) (v : List (List Nat)) :
    (s.set_junk v).gBgMode = s.gBgMode := rfl
theorem set_junk_gIsLocked (s : Device) (v : List (List Nat)) :
    (s.set_junk v).gIsLocked = s.gIsLocked := rfl
theorem set_junk_gChallengeMode (s : Device) (v : List (List Nat)) :
    (s.set_junk v).gChallengeMode = s.gChallengeMode := rfl
theorem set_junk_gLedTimer (s : Device) (v : List (List Nat)) :
    (s.set_junk v).gLedTimer = s.gLedTimer := rfl
theorem set_junk_gOldButtonStates (s : Device) (v : List (List Nat)) :
    (s.set_junk v).gOldButtonStates = s.gOldButtonStates := rfl
theorem set_junk_gFreshModeChange (s : Device) (v : List (List Nat)) :
    (s.set_junk v).gFreshModeChange = s.gFreshModeChange := rfl
theorem set_junk_gCurrentPinGuess (s : Device) (v : List (List Nat)) :
    (s.set_junk v).gCurrentPinGuess = s.gCurrentPinGuess := rfl
theorem set_junk_gCurrentPinGuessPos (s : Device) (v : List (List Nat)) :
    (s.set_junk v).gCurrentPinGuessPos = s.gCurrentPinGuessPos := rfl
theorem set_junk_gSnakeDir (s : Device) (v : List (List Nat)) :
    (s.set_junk v).gSnakeDir = s.gSnakeDir := rfl
theorem set_junk_gSnakeTime (s : Device) (v : List (List Nat)) :
    (s.set_junk v).gSnakeTime = s.gSnakeTime := rfl
theorem set_junk_gSnakeBufferPos (s : Device) (v : List (List Nat)) :
    (s.set_junk v).gSnakeBufferPos = s.gSnakeBufferPos := rfl
theorem set_junk_gSnakeLen (s : Device) (v : List (List Nat)) :
    (s.set_junk v).gSnakeLen = s.gSnakeLen := rfl
theorem set_junk_gSnakeSpeed (s : Device) (v : List (List Nat)) :
    (s.set_junk v).gSnakeSpeed = s.gSnakeSpeed := rfl
theorem set_junk_gSnakeScore (s : Device) (v : List (List Nat)) :
    (s.set_junk v).gSnakeScore = s.gSnakeScore := rfl
theorem set_junk_gSnake (s : Device) (v : List (List Nat)) :
    (s.set_junk v).gSnake = s.gSnake := rfl
theorem set_junk_gApples (s : Device) (v : List (List Nat)) :
    (s.set_junk v).gApples = s.gApples := rfl
theorem set_junk_ram (s : Device) (v : List (List Nat)) :
    (s.set_junk v).ram = s.ram := rfl
theorem set_junk_bus (s : Device) (v : List (List Nat)) :
    (s.set_junk v).bus = s.bus := rfl
theorem set_junk_rng (s : Device) (v : List (List Nat)) :
    (s.set_junk v).rng = s.rng := rfl
theorem set_junk_junk (s : Device) (v : List (List Nat)) :
    (s.set_junk v).junk = v := rfl
theorem set_junk_log (s : Device) (v : List (List Nat)) :
    (s.set_junk v).log = s.log := rfl
theorem set_log_gBgMode (s : Device) (v : List Effect) :
    (s.set_log v).gBgMode = s.gBgMode := rfl
theorem set_log_gIsLocked (s : Device) (v : List Effect) :
    (s.set_log v).gIsLocked = s.gIsLocked := rfl
theorem set_log_gChallengeMode (s : Device) (v : List Effect) :
    (s.set_log v).gChallengeMode = s.gChallengeMode := rfl
theorem set_log_gLedTimer (s : Device) (v : List Effect) :
    (s.set_log v).gLedTimer = s.gLedTimer := rfl
theorem set_log_gOldButtonStates (s : Device) (v : List Effect) :
    (s.set_log v).gOldButtonStates = s.gOldButtonStates := rfl
theorem set_log_gFreshModeChange (s : Device) (v : List Effect) :
    (s.set_log v).gFreshModeChange = s.gFreshModeChange := rfl
theorem set_log_gCurrentPinGuess (s : Device) (v : List Effect) :
    (s.set_log v).gCurrentPinGuess = s.gCurrentPinGuess := rfl
theorem set_log_gCurrentPinGuessPos (s : Device) (v : List Effect) :
    (s.set_log v).gCurrentPinGuessPos = s.gCurrentPinGuessPos := rfl
theorem set_log_gSnakeDir (s : Device) (v : List Effect) :
    (s.set_log v).gSnakeDir = s.gSnakeDir := rfl
theorem set_log_gSnakeTime (s : Device) (v : List Effect) :
    (s.set_log v).gSnakeTime = s.gSnakeTime := rfl
theorem set_log_gSnakeBufferPos (s : Device) (v : List Effect) :
    (s.set_log v).gSnakeBufferPos = s.gSnakeBufferPos := rfl
theorem set_log_gSnakeLen (s : Device) (v : List Effect) :
    (s.set_log v).gSnakeLen = s.gSnakeLen := rfl
theorem set_log_gSnakeSpeed (s : Device) (v : List Effect) :
    (s.set_log v).gSnakeSpeed = s.gSnakeSpeed := rfl
theorem set_log_gSnakeScore (s : Device) (v : List Effect) :
    (s.set_log v).gSnakeScore = s.gSnakeScore := rfl
theorem set_log_gSnake (s : Device) (v : List Effect) :
    (s.set_log v).gSnake = s.gSnake := rfl
theorem set_log_gApples (s : Device) (v : List Effect) :
    (s.set_log v).gApples = s.gApples := rfl
theorem set_log_ram (s : Device) (v : List Effect) :
    (s.set_log v).ram = s.ram := rfl
theorem set_log_bus (s : Device) (v : List Effect) :
    (s.set_log v).bus = s.bus := rfl
theorem set_log_rng (s : Device) (v : List Effect) :
    (s.set_log v).rng = s.rng := rfl
theorem set_log_junk (s : Device) (v : List Effect) :
    (s.set_log v).junk = s.junk := rfl
theorem set_log_log (s : Device) (v : List Effect) :
    (s.set_log v).log = v := rfl
theorem core_set_gBgMode (s : Device) (v : Int) :
    core (s.set_gBgMode v) = (core s).set_gBgMode v := rfl
theorem core_set_gIsLocked (s : Device) (v : Bool) :
    core (s.set_gIsLocked v) = (core s).set_gIsLocked v := rfl
theorem core_set_gChallengeMode (s : Device) (v : Nat) :
    core (s.set_gChallengeMode v) = (core s).set_gChallengeMode v := rfl
theorem core_set_gLedTimer (s : Device) (v : Nat) :
    core (s.set_gLedTimer v) = (core s).set_gLedTimer v := rfl
theorem core_set_gOldButtonStates (s : Device) (v : Nat) :
    core (s.set_gOldButtonStates v) = (core s).set_gOldButtonStates v := rfl
theorem core_set_gFreshModeChange (s : Device) (v : Nat) :
    core (s.set_gFreshModeChange v) = (core s).set_gFreshModeChange v := rfl
theorem core_set_gCurrentPinGuess (s : Device) (v : Nat) :
    core (s.set_gCurrentPinGuess v) = (core s).set_gCurrentPinGuess v := rfl
theorem core_set_gCurrentPinGuessPos (s : Device) (v : Nat) :
    core (s.set_gCurrentPinGuessPos v) = (core s).set_gCurrentPinGuessPos v := rfl
theorem core_set_gSnakeDir (s : Device) (v : Nat) :
    core (s.set_gSnakeDir v) = (core s).set_gSnakeDir v := rfl
theorem core_set_gSnakeTime (s : Device) (v : Nat) :
    core (s.set_gSnakeTime v) = (core s).set_gSnakeTime v := rfl
theorem core_set_gSnakeBufferPos (s : Device) (v : Nat) :
    core (s.set_gSnakeBufferPos v) = (core s).set_gSnakeBufferPos v := rfl
theorem core_set_gSnakeLen (s : Device) (v : Nat) :
    core (s.set_gSnakeLen v) = (core s).set_gSnakeLen v := rfl
theorem core_set_gSnakeSpeed (s : Device) (v : Nat) :
    core (s.set_gSnakeSpeed v) = (core s).set_gSnakeSpeed v := rfl
theorem core_set_gSnakeScore (s : Device) (v : Nat) :
    core (s.set_gSnakeScore v) = (core s).set_gSnakeScore v := rfl
theorem core_set_gSnake (s : Device) (v : List Point) :
    core (s.set_gSnake v) = (core s).set_gSnake v := rfl
theorem core_set_gApples (s : Device) (v : List Point) :
    core (s.set_gApples v) = (core s).set_gApples v := rfl
theorem core_set_ram (s : Device) (v : List Nat) :
    core (s.set_ram v) = (core s).set_ram v := rfl
theorem core_set_bus (s : Device) (v : List Bus) :
    core (s.set_bus v) = core s := rfl
theorem core_set_rng (s : Device) (v : List Nat) :
    core (s.set_rng v) = core s := rfl
theorem core_set_junk (s : Device) (v : List (List Nat)) :
    core (s.set_junk v) = core s := rfl
theorem core_set_log (s : Device) (v : List Effect) :
    core (s.set_log v) = core s := rfl
theorem apart_set_gLedTimer (s : Device) (v : Nat) :
    apart (s.set_gLedTimer v) = apart s := rfl
theorem apart_set_gSnakeDir (s : Device) (v : Nat) :
    apart (s.set_gSnakeDir v) = apart s := rfl
theorem apart_set_gSnakeTime (s : Device) (v : Nat) :
    apart (s.set_gSnakeTime v) = apart s := rfl
theorem apart_set_gSnakeBufferPos (s : Device) (v : Nat) :
    apart (s.set_gSnakeBufferPos v) = apart s := rfl
theorem apart_set_gSnakeLen (s : Device) (v : Nat) :
    apart (s.set_gSnakeLen v) = apart s := rfl
theorem apart_set_gSnakeSpeed (s : Device) (v : Nat) :
    apart (s.set_gSnakeSpeed v) = apart s := rfl
theorem apart_set_gSnakeScore (s : Device) (v : Nat) :
    apart (s.set_gSnakeScore v) = apart s := rfl
theorem apart_set_gSnake (s : Device) (v : List Point) :
    apart (s.set_gSnake v) = apart s := rfl
theorem apart_set_gApples (s : Device) (v : List Point) :
    apart (s.set_gApples v) = apart s := rfl
theorem apart_set_ram (s : Device) (v : List Nat) :
    apart (s.set_ram v) = apart s := rfl
theorem apart_set_bus (s : Device) (v : List Bus) :
    apart (s.set_bus v) = apart s := rfl
theorem apart_set_rng (s : Device) (v : List Nat) :
    apart (s.set_rng v) = apart s := rfl
theorem apart_set_junk (s : Device) (v : List (List Nat)) :
    apart (s.set_junk v) = apart s := rfl
theorem apart_set_log (s : Device) (v : List Effect) :
    apart (s.set_log v) = apart s := rfl

attribute [simp] set_gBgMode_gBgMode set_gBgMode_gIsLocked set_gBgMode_gChallengeMode
  set_gBgMode_gLedTimer set_gBgMode_gOldButtonStates set_gBgMode_gFreshModeChange
  set_gBgMode_gCurrentPinGuess set_gBgMode_gCurrentPinGuessPos set_gBgMode_gSnakeDir
  set_gBgMode_gSnakeTime set_gBgMode_gSnakeBufferPos set_gBgMode_gSnakeLen set_gBgMode_gSnakeSpeed
  set_gBgMode_gSnakeScore set_gBgMode_gSnake set_gBgMode_gApples set_gBgMode_ram set_gBgMode_bus
  set_gBgMode_rng set_gBgMode_junk set_gBgMode_log set_gIsLocked_gBgMode set_gIsLocked_gIsLocked
  set_gIsLocked_gChallengeMode set_gIsLocked_gLedTimer set_gIsLocked_gOldButtonStates
  set_gIsLocked_gFreshModeChange set_gIsLocked_gCurrentPinGuess set_gIsLocked_gCurrentPinGuessPos
  set_gIsLocked_gSnakeDir set_gIsLocked_gSnakeTime set_gIsLocked_gSnakeBufferPos
  set_gIsLocked_gSnakeLen set_gIsLocked_gSnakeSpeed set_gIsLocked_gSnakeScore set_gIsLocked_gSnake
  set_gIsLocked_gApples set_gIsLocked_ram set_gIsLocked_bus set_gIsLocked_rng set_gIsLocked_junk
  set_gIsLocked_log set_gChallengeMode_gBgMode set_gChallengeMode_gIsLocked
  set_gChallengeMode_gChallengeMode set_gChallengeMode_gLedTimer
  set_gChallengeMode_gOldButtonStates set_gChallengeMode_gFreshModeChange
  set_gChallengeMode_gCurrentPinGuess set_gChallengeMode_gCurrentPinGuessPos
  set_gChallengeMode_gSnakeDir set_gChallengeMode_gSnakeTime set_gChallengeMode_gSnakeBufferPos
  set_gChallengeMode_gSnakeLen set_gChallengeMode_gSnakeSpeed set_gChallengeMode_gSnakeScore
  set_gChallengeMode_gSnake set_gChallengeMode_gApples set_gChallengeMode_ram
  set_gChallengeMode_bus set_gChallengeMode_rng set_gChallengeMode_junk set_gChallengeMode_log
  set_gLedTimer_gBgMode set_gLedTimer_gIsLocked set_gLedTimer_gChallengeMode
  set_gLedTimer_gLedTimer set_gLedTimer_gOldButtonStates set_gLedTimer_gFreshModeChange
  set_gLedTimer_gCurrentPinGuess set_gLedTimer_gCurrentPinGuessPos set_gLedTimer_gSnakeDir
  set_gLedTimer_gSnakeTime set_gLedTimer_gSnakeBufferPos set_gLedTimer_gSnakeLen
  set_gLedTimer_gSnakeSpeed set_gLedTimer_gSnakeScore set_gLedTimer_gSnake set_gLedTimer_gApples
  set_gLedTimer_ram set_gLedTimer_bus set_gLedTimer_rng set_gLedTimer_junk set_gLedTimer_log
  set_gOldButtonStates_gBgMode set_gOldButtonStates_gIsLocked set_gOldButtonStates_gChallengeMode
  set_gOldButtonStates_gLedTimer set_gOldButtonStates_gOldButtonStates
  set_gOldButtonStates_gFreshModeChange set_gOldButtonStates_gCurrentPinGuess
  set_gOldButtonStates_gCurrentPinGuessPos set_gOldButtonStates_gSnakeDir
  set_gOldButtonStates_gSnakeTime set_gOldButtonStates_gSnakeBufferPos
  set_gOldButtonStates_gSnakeLen set_gOldButtonStates_gSnakeSpeed set_gOldButtonStates_gSnakeScore
  set_gOldButtonStates_gSnake set_gOldButtonStates_gApples set_gOldButtonStates_ram
  set_gOldButtonStates_bus set_gOldButtonStates_rng set_gOldButtonStates_junk
  set_gOldButtonStates_log set_gFreshModeChange_gBgMode set_gFreshModeChange_gIsLocked
  set_gFreshModeChange_gChallengeMode set_gFreshModeChange_gLedTimer
  set_gFreshModeChange_gOldButtonStates set_gFreshModeChange_gFreshModeChange
  set_gFreshModeChange_gCurrentPinGuess set_gFreshModeChange_gCurrentPinGuessPos
  set_gFreshModeChange_gSnakeDir set_gFreshModeChange_gSnakeTime
  set_gFreshModeChange_gSnakeBufferPos set_gFreshModeChange_gSnakeLen
  set_gFreshModeChange_gSnakeSpeed set_gFreshModeChange_gSnakeScore set_gFreshModeChange_gSnake
  set_gFreshModeChange_gApples set_gFreshModeChange_ram set_gFreshModeChange_bus
  set_gFreshModeChange_rng set_gFreshModeChange_junk set_gFreshModeChange_log
  set_gCurrentPinGuess_gBgMode set_gCurrentPinGuess_gIsLocked set_gCurrentPinGuess_gChallengeMode
  set_gCurrentPinGuess_gLedTimer set_gCurrentPinGuess_gOldButtonStates
  set_gCurrentPinGuess_gFreshModeChange set_gCurrentPinGuess_gCurrentPinGuess
  set_gCurrentPinGuess_gCurrentPinGuessPos set_gCurrentPinGuess_gSnakeDir
  set_gCurrentPinGuess_gSnakeTime set_gCurrentPinGuess_gSnakeBufferPos
  set_gCurrentPinGuess_gSnakeLen set_gCurrentPinGuess_gSnakeSpeed set_gCurrentPinGuess_gSnakeScore
  set_gCurrentPinGuess_gSnake set_gCurrentPinGuess_gApples set_gCurrentPinGuess_ram
  set_gCurrentPinGuess_bus set_gCurrentPinGuess_rng set_gCurrentPinGuess_junk
  set_gCurrentPinGuess_log set_gCurrentPinGuessPos_gBgMode set_gCurrentPinGuessPos_gIsLocked
  set_gCurrentPinGuessPos_gChallengeMode set_gCurrentPinGuessPos_gLedTimer
  set_gCurrentPinGuessPos_gOldButtonStates set_gCurrentPinGuessPos_gFreshModeChange
  set_gCurrentPinGuessPos_gCurrentPinGuess set_gCurrentPinGuessPos_gCurrentPinGuessPos
  set_gCurrentPinGuessPos_gSnakeDir set_gCurrentPinGuessPos_gSnakeTime
  set_gCurrentPinGuessPos_gSnakeBufferPos set_gCurrentPinGuessPos_gSnakeLen
  set_gCurrentPinGuessPos_gSnakeSpeed set_gCurrentPinGuessPos_gSnakeScore
  set_gCurrentPinGuessPos_gSnake set_gCurrentPinGuessPos_gApples set_gCurrentPinGuessPos_ram
  set_gCurrentPinGuessPos_bus set_gCurrentPinGuessPos_rng set_gCurrentPinGuessPos_junk
  set_gCurrentPinGuessPos_log set_gSnakeDir_gBgMode set_gSnakeDir_gIsLocked
  set_gSnakeDir_gChallengeMode set_gSnakeDir_gLedTimer set_gSnakeDir_gOldButtonStates
  set_gSnakeDir_gFreshModeChange set_gSnakeDir_gCurrentPinGuess set_gSnakeDir_gCurrentPinGuessPos
  set_gSnakeDir_gSnakeDir set_gSnakeDir_gSnakeTime set_gSnakeDir_gSnakeBufferPos
  set_gSnakeDir_gSnakeLen set_gSnakeDir_gSnakeSpeed set_gSnakeDir_gSnakeScore set_gSnakeDir_gSnake
  set_gSnakeDir_gApples set_gSnakeDir_ram set_gSnakeDir_bus set_gSnakeDir_rng set_gSnakeDir_junk
  set_gSnakeDir_log set_gSnakeTime_gBgMode set_gSnakeTime_gIsLocked set_gSnakeTime_gChallengeMode
  set_gSnakeTime_gLedTimer set_gSnakeTime_gOldButtonStates set_gSnakeTime_gFreshModeChange
  set_gSnakeTime_gCurrentPinGuess set_gSnakeTime_gCurrentPinGuessPos set_gSnakeTime_gSnakeDir
  set_gSnakeTime_gSnakeTime set_gSnakeTime_gSnakeBufferPos set_gSnakeTime_gSnakeLen
  set_gSnakeTime_gSnakeSpeed set_gSnakeTime_gSnakeScore set_gSnakeTime_gSnake
  set_gSnakeTime_gApples set_gSnakeTime_ram set_gSnakeTime_bus set_gSnakeTime_rng
  set_gSnakeTime_junk set_gSnakeTime_log set_gSnakeBufferPos_gBgMode set_gSnakeBufferPos_gIsLocked
  set_gSnakeBufferPos_gChallengeMode set_gSnakeBufferPos_gLedTimer
  set_gSnakeBufferPos_gOldButtonStates set_gSnakeBufferPos_gFreshModeChange
  set_gSnakeBufferPos_gCurrentPinGuess set_gSnakeBufferPos_gCurrentPinGuessPos
  set_gSnakeBufferPos_gSnakeDir set_gSnakeBufferPos_gSnakeTime set_gSnakeBufferPos_gSnakeBufferPos
  set_gSnakeBufferPos_gSnakeLen set_gSnakeBufferPos_gSnakeSpeed set_gSnakeBufferPos_gSnakeScore
  set_gSnakeBufferPos_gSnake set_gSnakeBufferPos_gApples set_gSnakeBufferPos_ram
  set_gSnakeBufferPos_bus set_gSnakeBufferPos_rng set_gSnakeBufferPos_junk set_gSnakeBufferPos_log
  set_gSnakeLen_gBgMode set_gSnakeLen_gIsLocked set_gSnakeLen_gChallengeMode
  set_gSnakeLen_gLedTimer set_gSnakeLen_gOldButtonStates set_gSnakeLen_gFreshModeChange
  set_gSnakeLen_gCurrentPinGuess set_gSnakeLen_gCurrentPinGuessPos set_gSnakeLen_gSnakeDir
  set_gSnakeLen_gSnakeTime set_gSnakeLen_gSnakeBufferPos set_gSnakeLen_gSnakeLen
  set_gSnakeLen_gSnakeSpeed set_gSnakeLen_gSnakeScore set_gSnakeLen_gSnake set_gSnakeLen_gApples
  set_gSnakeLen_ram set_gSnakeLen_bus set_gSnakeLen_rng set_gSnakeLen_junk set_gSnakeLen_log
  set_gSnakeSpeed_gBgMode set_gSnakeSpeed_gIsLocked set_gSnakeSpeed_gChallengeMode
  set_gSnakeSpeed_gLedTimer set_gSnakeSpeed_gOldButtonStates set_gSnakeSpeed_gFreshModeChange
  set_gSnakeSpeed_gCurrentPinGuess set_gSnakeSpeed_gCurrentPinGuessPos set_gSnakeSpeed_gSnakeDir
  set_gSnakeSpeed_gSnakeTime set_gSnakeSpeed_gSnakeBufferPos set_gSnakeSpeed_gSnakeLen
  set_gSnakeSpeed_gSnakeSpeed set_gSnakeSpeed_gSnakeScore set_gSnakeSpeed_gSnake
  set_gSnakeSpeed_gApples set_gSnakeSpeed_ram set_gSnakeSpeed_bus set_gSnakeSpeed_rng
  set_gSnakeSpeed_junk set_gSnakeSpeed_log set_gSnakeScore_gBgMode set_gSnakeScore_gIsLocked
  set_gSnakeScore_gChallengeMode set_gSnakeScore_gLedTimer set_gSnakeScore_gOldButtonStates
  set_gSnakeScore_gFreshModeChange set_gSnakeScore_gCurrentPinGuess
  set_gSnakeScore_gCurrentPinGuessPos set_gSnakeScore_gSnakeDir set_gSnakeScore_gSnakeTime
  set_gSnakeScore_gSnakeBufferPos set_gSnakeScore_gSnakeLen set_gSnakeScore_gSnakeSpeed
  set_gSnakeScore_gSnakeScore set_gSnakeScore_gSnake set_gSnakeScore_gApples set_gSnakeScore_ram
  set_gSnakeScore_bus set_gSnakeScore_rng set_gSnakeScore_junk set_gSnakeScore_log
  set_gSnake_gBgMode set_gSnake_gIsLocked set_gSnake_gChallengeMode set_gSnake_gLedTimer
  set_gSnake_gOldButtonStates set_gSnake_gFreshModeChange set_gSnake_gCurrentPinGuess
  set_gSnake_gCurrentPinGuessPos set_gSnake_gSnakeDir set_gSnake_gSnakeTime
  set_gSnake_gSnakeBufferPos set_gSnake_gSnakeLen set_gSnake_gSnakeSpeed set_gSnake_gSnakeScore
  set_gSnake_gSnake set_gSnake_gApples set_gSnake_ram set_gSnake_bus set_gSnake_rng
  set_gSnake_junk set_gSnake_log set_gApples_gBgMode set_gApples_gIsLocked
  set_gApples_gChallengeMode set_gApples_gLedTimer set_gApples_gOldButtonStates
  set_gApples_gFreshModeChange set_gApples_gCurrentPinGuess set_gApples_gCurrentPinGuessPos
  set_gApples_gSnakeDir set_gApples_gSnakeTime set_gApples_gSnakeBufferPos set_gApples_gSnakeLen
  set_gApples_gSnakeSpeed set_gApples_gSnakeScore set_gApples_gSnake set_gApples_gApples
  set_gApples_ram set_gApples_bus set_gApples_rng set_gApples_junk set_gApples_log set_ram_gBgMode
  set_ram_gIsLocked set_ram_gChallengeMode set_ram_gLedTimer set_ram_gOldButtonStates
  set_ram_gFreshModeChange set_ram_gCurrentPinGuess set_ram_gCurrentPinGuessPos set_ram_gSnakeDir
  set_ram_gSnakeTime set_ram_gSnakeBufferPos set_ram_gSnakeLen set_ram_gSnakeSpeed
  set_ram_gSnakeScore set_ram_gSnake set_ram_gApples set_ram_ram set_ram_bus set_ram_rng
  set_ram_junk set_ram_log set_bus_gBgMode set_bus_gIsLocked set_bus_gChallengeMode
  set_bus_gLedTimer set_bus_gOldButtonStates set_bus_gFreshModeChange set_bus_gCurrentPinGuess
  set_bus_gCurrentPinGuessPos set_bus_gSnakeDir set_bus_gSnakeTime set_bus_gSnakeBufferPos
  set_bus_gSnakeLen set_bus_gSnakeSpeed set_bus_gSnakeScore set_bus_gSnake set_bus_gApples
  set_bus_ram set_bus_bus set_bus_rng set_bus_junk set_bus_log set_rng_gBgMode set_rng_gIsLocked
  set_rng_gChallengeMode set_rng_gLedTimer set_rng_gOldButtonStates set_rng_gFreshModeChange
  set_rng_gCurrentPinGuess set_rng_gCurrentPinGuessPos set_rng_gSnakeDir set_rng_gSnakeTime
  set_rng_gSnakeBufferPos set_rng_gSnakeLen set_rng_gSnakeSpeed set_rng_gSnakeScore set_rng_gSnake
  set_rng_gApples set_rng_ram set_rng_bus set_rng_rng set_rng_junk set_rng_log set_junk_gBgMode
  set_junk_gIsLocked set_junk_gChallengeMode set_junk_gLedTimer set_junk_gOldButtonStates
  set_junk_gFreshModeChange set_junk_gCurrentPinGuess set_junk_gCurrentPinGuessPos
  set_junk_gSnakeDir set_junk_gSnakeTime set_junk_gSnakeBufferPos set_junk_gSnakeLen
  set_junk_gSnakeSpeed set_junk_gSnakeScore set_junk_gSnake set_junk_gApples set_junk_ram
  set_junk_bus set_junk_rng set_junk_junk set_junk_log set_log_gBgMode set_log_gIsLocked
  set_log_gChallengeMode set_log_gLedTimer set_log_gOldButtonStates set_log_gFreshModeChange
  set_log_gCurrentPinGuess set_log_gCurrentPinGuessPos set_log_gSnakeDir set_log_gSnakeTime
  set_log_gSnakeBufferPos set_log_gSnakeLen set_log_gSnakeSpeed set_log_gSnakeScore set_log_gSnake
  set_log_gApples set_log_ram set_log_bus set_log_rng set_log_junk set_log_log core_set_gBgMode
  core_set_gIsLocked core_set_gChallengeMode core_set_gLedTimer core_set_gOldButtonStates
  core_set_gFreshModeChange core_set_gCurrentPinGuess core_set_gCurrentPinGuessPos
  core_set_gSnakeDir core_set_gSnakeTime core_set_gSnakeBufferPos core_set_gSnakeLen
  core_set_gSnakeSpeed core_set_gSnakeScore core_set_gSnake core_set_gApples core_set_ram
  core_set_bus core_set_rng core_set_junk core_set_log apart_set_gLedTimer apart_set_gSnakeDir
  apart_set_gSnakeTime apart_set_gSnakeBufferPos apart_set_gSnakeLen apart_set_gSnakeSpeed
  apart_set_gSnakeScore apart_set_gSnake apart_set_gApples apart_set_ram apart_set_bus
  apart_set_rng apart_set_junk apart_set_log

/-! ## Frame lemmas: what each function leaves alone -/

theorem core_gIsLocked {s t : Device} (h : core t = core s) : t.gIsLocked = s.gIsLocked :=
  show (core t).gIsLocked = (core s).gIsLocked from by rw [h]

theorem core_gBgMode {s t : Device} (h : core t = core s) : t.gBgMode = s.gBgMode :=
  show (core t).gBgMode = (core s).gBgMode from by rw [h]

theorem core_gChallengeMode {s t : Device} (h : core t = core s) :
    t.gChallengeMode = s.gChallengeMode :=
  show (core t).gChallengeMode = (core s).gChallengeMode from by rw [h]

theorem core_ram {s t : Device} (h : core t = core s) : t.ram = s.ram :=
  show (core t).ram = (core s).ram from by rw [h]

theorem apart_of_core {s t : Device} (h : core t = core s) : apart t = apart s := by
  unfold apart; rw [h]

@[simp]
theorem emit_gIsLocked (s : Device) (es : List Effect) :
    (emit s es).gIsLocked = s.gIsLocked := rfl

@[simp]
theorem emit_gBgMode (s : Device) (es : List Effect) :
    (emit s es).gBgMode = s.gBgMode := rfl

@[simp]
theorem emit_gChallengeMode (s : Device) (es : List Effect) :
    (emit s es).gChallengeMode = s.gChallengeMode := rfl

@[simp]
theorem emit_ram (s : Device) (es : List Effect) : (emit s es).ram = s.ram := rfl

@[simp]
theorem emit_bus (s : Device) (es : List Effect) : (emit s es).bus = s.bus := rfl

@[simp]
theorem emit_junk (s : Device) (es : List Effect) : (emit s es).junk = s.junk := rfl

@[simp]
theorem emit_log (s : Device) (es : List Effect) : (emit s es).log = s.log ++ es := rfl

@[simp]
theorem core_emit (s : Device) (es : List Effect) : core (emit s es) = core s := rfl

@[simp]
theorem core_hexPrint (s : Device) (v : Nat) : core (hexPrint s v) = core s := by
  simp only [hexPrint]; split_ifs <;> rfl

@[simp]
theorem core_nextBus (s : Device) : core (nextBus s).1 = core s := by
  unfold nextBus; split <;> rfl

@[simp]
theorem core_uninit (s : Device) (n : Nat) : core (uninit s n).1 = core s := by
  unfold uninit; split <;> rfl

@[simp]
theorem core_beyond (s : Device) : core (beyond s).1 = core s := by
  unfold beyond; split <;> rfl

@[simp]
theorem core_clockReadLoop0 (br fuel : Nat) (data : List Nat) (i : Nat) (s : Device)
    (buf : List Nat) : core (clockReadLoop0 br fuel data i s buf).1 = core s := by
  induction fuel generalizing data i s buf with
  | zero => rfl
  | succ n ih =>
    cases data with
    | nil => rfl
    | cons d ds => simp only [clockReadLoop0, ih, core_hexPrint]

theorem clockReadLoop0_snd (br fuel : Nat) (data : List Nat) (i : Nat) (s : Device)
    (buf : List Nat) :
    (clockReadLoop0 br fuel data i s buf).2 = clockReadLoop fuel data i buf := by
  induction fuel generalizing data i s buf with
  | zero => rfl
  | succ n ih =>
    cases data with
    | nil => rfl
    | cons d ds => simp only [clockReadLoop0, clockReadLoop, ih]

@[simp]
theorem core_clockRead (s : Device) (a n : Nat) (buf : List Nat) :
    core (clockRead s a n buf).1 = core s := by
  unfold clockRead
  simp only []
  split_ifs
  · split
    · rename_i h
      have := core_clockReadLoop0 _ _ _ _ _ _ ▸ congrArg (fun x : Device × List Nat × Option Nat => core x.1) h
      simpa using this.symm
    · rename_i h
      have := core_clockReadLoop0 _ _ _ _ _ _ ▸ congrArg (fun x : Device × List Nat × Option Nat => core x.1) h
      simpa using this.symm
  · split <;> simp

theorem nextBus_snd (s : Device) : (nextBus s).2 = s.bus.headD .ok := by
  unfold nextBus; split <;> simp_all

theorem clockRead_snd (s : Device) (a n : Nat) (buf : List Nat) :
    (clockRead s a n buf).2 = busRead (s.bus.headD .ok) s.ram a n buf := by
  have hr : (nextBus s).1.ram = s.ram := core_ram (core_nextBus s)
  unfold clockRead busRead
  simp only [nextBus_snd, hr]
  split_ifs
  · generalize hb : s.bus.headD .ok = b
    cases b <;> simp only [] <;> split <;> rename_i h <;>
      have h2 := congrArg Prod.snd h <;> rw [clockReadLoop0_snd] at h2 <;> simp [h2]
  · split <;> simp_all

@[simp]
theorem core_readPinFromRam (s : Device) (n : Nat) :
    core (readPinFromRam s n).1 = core s := by
  unfold readPinFromRam
  simp only []
  split_ifs <;> simp

theorem readPinFromRam_snd (s : Device) (n : Nat) :
    (readPinFromRam s n).2 = pinRead (s.bus.headD .ok) s.ram n := by
  unfold readPinFromRam pinRead
  simp only [← clockRead_snd]
  split_ifs <;> rfl

theorem pinRead_ok (ram : List Nat) (n : Nat) (hn : n ≤ 3) :
    pinRead .ok ram n = pinField ram n := by
  have h4 : n % 4 = n := Nat.mod_eq_of_lt (by omega)
  simp [pinRead, pinField, busRead, h4, ramRead, List.range, List.range.loop, clockReadLoop,
    PIN_CODE_LEN, FLAG_LEN]

theorem readPinFromRam_gIsLocked (s : Device) (n : Nat) :
    (readPinFromRam s n).1.gIsLocked = s.gIsLocked := core_gIsLocked (core_readPinFromRam s n)

theorem readPinFromRam_gChallengeMode (s : Device) (n : Nat) :
    (readPinFromRam s n).1.gChallengeMode = s.gChallengeMode :=
  core_gChallengeMode (core_readPinFromRam s n)

theorem readPinFromRam_gCurrentPinGuess (s : Device) (n : Nat) :
    (readPinFromRam s n).1.gCurrentPinGuess = s.gCurrentPinGuess :=
  show (core (readPinFromRam s n).1).gCurrentPinGuess = (core s).gCurrentPinGuess from by
    rw [core_readPinFromRam]

@[simp]
theorem core_writeString (s : Device) (msg : List Nat) (x y : Int) :
    core (writeString s msg x y) = core s := rfl

@[simp]
theorem core_wrongCountdown (n : Nat) (s : Device) :
    core (wrongCountdown n s) = core s := by
  induction n generalizing s with
  | zero => simp only [wrongCountdown, core_emit, core_writeString]
  | succ n ih => simp only [wrongCountdown, ih, core_emit, core_writeString]

/-- The lock state `unlockBHandler` leaves. -/
theorem unlockBHandler_gIsLocked (s : Device) :
    (unlockBHandler s).gIsLocked =
      if s.gCurrentPinGuess = (readPinFromRam s s.gChallengeMode).2 then false else s.gIsLocked := by
  unfold unlockBHandler
  simp only [readPinFromRam_gCurrentPinGuess]
  split_ifs with h1 h2
  · rfl
  · rw [core_gIsLocked (core_wrongCountdown _ _)]
    exact readPinFromRam_gIsLocked s _
  · exact readPinFromRam_gIsLocked s _

theorem beyond_snd_emit (s : Device) (es : List Effect) :
    (beyond (emit s es)).2 = (beyond s).2 := by
  unfold beyond; simp only [emit_junk]; split <;> rfl

@[simp]
theorem beyond_bus (s : Device) : (beyond s).1.bus = s.bus := by
  unfold beyond; split <;> rfl

@[simp]
theorem beyond_ram (s : Device) : (beyond s).1.ram = s.ram := core_ram (core_beyond s)

@[simp]
theorem beyond_gChallengeMode (s : Device) :
    (beyond s).1.gChallengeMode = s.gChallengeMode := core_gChallengeMode (core_beyond s)

@[simp]
theorem beyond_gIsLocked (s : Device) : (beyond s).1.gIsLocked = s.gIsLocked :=
  core_gIsLocked (core_beyond s)

/-- The lock state `commandUnlock` leaves. -/
theorem commandUnlock_gIsLocked (s : Device) (t0 : Nat) (input : List (Nat × Nat)) :
    (commandUnlock s t0 input).1.gIsLocked =
      if (readString 6 30 t0 input).ret = -1 then s.gIsLocked
      else if parsePin (readString 6 30 t0 input).buf (beyond s).2
          = (readPinFromRam s s.gChallengeMode).2 then false
      else s.gIsLocked := by
  unfold commandUnlock
  generalize hr : readString (PIN_CODE_DIGITS + 1) 30 t0 input = r
  have hr2 : readString 6 30 t0 input = r := hr
  rw [hr2]
  simp only []
  by_cases h1 : r.ret = -1
  · rw [if_pos h1, if_pos h1]; rfl
  · rw [if_neg h1, if_neg h1]
    simp only [readPinFromRam_snd, beyond_bus, beyond_ram, beyond_gChallengeMode,
      emit_bus, emit_ram, emit_gChallengeMode, beyond_snd_emit]
    split_ifs with h2 h3
    · rfl
    · simp only [emit_gIsLocked, readPinFromRam_gIsLocked, beyond_gIsLocked]
    · simp only [emit_gIsLocked, readPinFromRam_gIsLocked, beyond_gIsLocked]

@[simp]
theorem core_getFlag (s : Device) (n : Nat) (buf : List Nat) :
    core (getFlag s n buf).1 = core s := by
  unfold getFlag
  split_ifs
  · rfl
  · exact core_clockRead _ _ _ _

@[simp]
theorem core_getFlagMyChalMode (s : Device) (buf : List Nat) :
    core (getFlagMyChalMode s buf).1 = core s := core_getFlag _ _ _

@[simp]
theorem core_printFlagToSerial (s : Device) (n : Nat) : core (printFlagToSerial s n) = core s := by
  unfold printFlagToSerial
  simp only []
  split_ifs <;> simp only [core_emit, core_getFlag, core_uninit]

@[simp]
theorem core_commandGetFlags (s : Device) : core (commandGetFlags s) = core s := by
  unfold commandGetFlags
  split_ifs <;> simp only [core_emit, core_printFlagToSerial]

@[simp]
theorem core_commandGetVersion (s : Device) : core (commandGetVersion s) = core s := rfl

@[simp]
theorem core_serialPrintMode (s : Device) (m : Int) : core (serialPrintMode s m) = core s := by
  unfold serialPrintMode
  split_ifs <;> rfl

@[simp]
theorem core_displayMode (s : Device) (m x y : Int) : core (displayMode s m x y) = core s := by
  unfold displayMode
  split_ifs <;> rfl

@[simp]
theorem core_displayClock (s : Device) : core (displayClock s) = core s := by
  unfold displayClock
  simp only []
  split_ifs <;> simp only [core_emit, core_writeString, core_clockRead]

@[simp]
theorem core_displayUnlockLoop (n i p : Nat) (s : Device) :
    core (displayUnlockLoop n i p s) = core s := by
  induction n generalizing i p s with
  | zero => rfl
  | succ n ih => simp only [displayUnlockLoop, ih, core_writeString]

@[simp]
theorem core_displayUnlock (s : Device) : core (displayUnlock s) = core s := by
  unfold displayUnlock
  simp only [core_emit, core_displayUnlockLoop, core_writeString]

@[simp]
theorem core_displayVersion (s : Device) : core (displayVersion s) = core s := by
  unfold displayVersion
  simp only [core_emit, core_writeString]

@[simp]
theorem core_displayFlag (s : Device) : core (displayFlag s) = core s := by
  unfold displayFlag
  simp only [core_emit, core_writeString, core_getFlagMyChalMode, core_beyond, core_uninit]

@[simp]
theorem core_displayChangeModes (s : Device) : core (displayChangeModes s) = core s := by
  unfold displayChangeModes
  simp only [core_emit, core_displayMode]

@[simp]
theorem core_random (s : Device) (max : Nat) : core (random s max).1 = core s := by
  unfold random; split <;> rfl

@[simp]
theorem core_snakeDrawPixel (s : Device) (p : Point) : core (snakeDrawPixel s p) = core s := rfl

@[simp]
theorem core_snakeClearPixel (s : Device) (p : Point) : core (snakeClearPixel s p) = core s := rfl

theorem core_foldl {α : Type} (f : Device → α → Device) (h : ∀ d a, core (f d a) = core d)
    (l : List α) (s : Device) : core (l.foldl f s) = core s := by
  induction l generalizing s with
  | nil => rfl
  | cons a l ih => rw [List.foldl_cons, ih, h]

@[simp]
theorem core_snakeDrawApples (s : Device) : core (snakeDrawApples s) = core s := by
  unfold snakeDrawApples
  apply core_foldl
  intro d a
  split_ifs <;> simp only [core_snakeDrawPixel]

@[simp]
theorem core_snakeDrawSnakeLoop (n : Nat) (i : Int) (s : Device) :
    core (snakeDrawSnakeLoop n i s) = core s := by
  induction n generalizing i s with
  | zero => rfl
  | succ n ih => simp only [snakeDrawSnakeLoop, ih, core_snakeDrawPixel]

@[simp]
theorem core_snakeDrawSnake (s : Device) : core (snakeDrawSnake s) = core s :=
  core_snakeDrawSnakeLoop _ _ _

@[simp]
theorem core_snakeRedrawDisplay (s : Device) : core (snakeRedrawDisplay s) = core s := by
  unfold snakeRedrawDisplay
  simp only [core_emit, core_snakeDrawSnake, core_snakeDrawApples]

@[simp]
theorem core_defaultLeftHandler (s : Device) : core (defaultLeftHandler s) = core s := rfl

@[simp]
theorem core_defaultRightHandler (s : Device) : core (defaultRightHandler s) = core s := rfl

@[simp]
theorem core_defaultAButtonHandler (s : Device) : core (defaultAButtonHandler s) = core s := rfl

@[simp]
theorem core_defaultBButtonHandler (s : Device) : core (defaultBButtonHandler s) = core s := rfl

/-! ## What the snake session leaves alone -/

@[simp]
theorem apart_emit (s : Device) (es : List Effect) :
    apart (emit s es) = apart s :=
  apart_of_core (core_emit ..)

@[simp]
theorem apart_hexPrint (s : Device) (v : Nat) :
    apart (hexPrint s v) = apart s :=
  apart_of_core (core_hexPrint ..)

@[simp]
theorem apart_uninit (s : Device) (n : Nat) :
    apart (uninit s n).1 = apart s :=
  apart_of_core (core_uninit ..)

@[simp]
theorem apart_beyond (s : Device) :
    apart (beyond s).1 = apart s :=
  apart_of_core (core_beyond ..)

@[simp]
theorem apart_nextBus (s : Device) :
    apart (nextBus s).1 = apart s :=
  apart_of_core (core_nextBus ..)

@[simp]
theorem apart_clockRead (s : Device) (a n : Nat) (buf : List Nat) :
    apart (clockRead s a n buf).1 = apart s :=
  apart_of_core (core_clockRead ..)

@[simp]
theorem apart_writeString (s : Device) (msg : List Nat) (x y : Int) :
    apart (writeString s msg x y) = apart s :=
  apart_of_core (core_writeString ..)

@[simp]
theorem apart_random (s : Device) (max : Nat) :
    apart (random s max).1 = apart s :=
  apart_of_core (core_random ..)

@[simp]
theorem apart_snakeDrawPixel (s : Device) (p : Point) :
    apart (snakeDrawPixel s p) = apart s :=
  apart_of_core (core_snakeDrawPixel ..)

@[simp]
theorem apart_snakeClearPixel (s : Device) (p : Point) :
    apart (snakeClearPixel s p) = apart s :=
  apart_of_core (core_snakeClearPixel ..)

@[simp]
theorem apart_snakeDrawApples (s : Device) :
    apart (snakeDrawApples s) = apart s :=
  apart_of_core (core_snakeDrawApples ..)

@[simp]
theorem apart_snakeRedrawDisplay (s : Device) :
    apart (snakeRedrawDisplay s) = apart s :=
  apart_of_core (core_snakeRedrawDisplay ..)

theorem apart_gIsLocked {s t : Device} (h : apart t = apart s) : t.gIsLocked = s.gIsLocked :=
  show (apart t).gIsLocked = (apart s).gIsLocked from by rw [h]

theorem apart_gBgMode {s t : Device} (h : apart t = apart s) : t.gBgMode = s.gBgMode :=
  show (apart t).gBgMode = (apart s).gBgMode from by rw [h]

theorem apart_gChallengeMode {s t : Device} (h : apart t = apart s) :
    t.gChallengeMode = s.gChallengeMode :=
  show (apart t).gChallengeMode = (apart s).gChallengeMode from by rw [h]

theorem apart_gFreshModeChange {s t : Device} (h : apart t = apart s) :
    t.gFreshModeChange = s.gFreshModeChange :=
  show (apart t).gFreshModeChange = (apart s).gFreshModeChange from by rw [h]

theorem apart_foldl {α : Type} (f : Device → α → Device) (h : ∀ d a, apart (f d a) = apart d)
    (l : List α) (s : Device) : apart (l.foldl f s) = apart s := by
  induction l generalizing s with
  | nil => rfl
  | cons a l ih => rw [List.foldl_cons, ih, h]

@[simp]
theorem apart_clockWrite (s : Device) (a n : Nat) (buf : List Nat) :
    apart (clockWrite s a n buf).1 = apart s := by
  unfold clockWrite
  simp only []
  split_ifs <;> simp only [apart_emit, apart_hexPrint, apart_nextBus, apart_set_ram]

@[simp]
theorem apart_snakeInit (s : Device) : apart (snakeInit s) = apart s := by
  unfold snakeInit
  simp only [apart_set_gApples, apart_set_gSnake, apart_set_gSnakeLen, apart_set_gSnakeBufferPos,
    apart_set_gSnakeDir, apart_set_gSnakeTime, apart_set_gSnakeScore, apart_set_gSnakeSpeed,
    apart_emit]

@[simp]
theorem apart_snakeResetRound (b : Bool) (i : Nat) (s : Device) :
    apart (snakeResetRound b i s) = apart s := by
  unfold snakeResetRound
  simp only []
  split_ifs <;>
    simp only [apart_emit, apart_writeString, apart_clockWrite, apart_clockRead, apart_uninit,
      apart_snakeDrawApples]

@[simp]
theorem apart_snakeReset (s : Device) (b : Bool) : apart (snakeReset s b) = apart s := by
  unfold snakeReset
  rw [apart_snakeInit]
  exact apart_foldl _ (fun d a => apart_snakeResetRound b a d) _ _

@[simp]
theorem apart_snakeAddApple (n i : Nat) (s : Device) :
    apart (snakeAddApple n i s).1 = apart s := by
  induction n generalizing i s with
  | zero => rfl
  | succ n ih =>
    unfold snakeAddApple
    split_ifs
    · simp only [apart_emit, apart_set_gApples, apart_random]
    · exact ih _ _

@[simp]
theorem apart_snakeEatLoop (p : Point) (n i : Nat) (s : Device) :
    apart (snakeEatLoop p n i s) = apart s := by
  induction n generalizing i s with
  | zero => rfl
  | succ n ih =>
    unfold snakeEatLoop
    simp only []
    split_ifs <;>
      simp only [ih, apart_emit, apart_set_gApples, apart_set_gSnakeLen, apart_set_gSnakeScore,
        apart_set_gSnakeSpeed]

@[simp]
theorem apart_snakePut (s : Device) (n : Nat) (p : Point) : apart (snakePut s n p) = apart s := rfl

@[simp]
theorem apart_snakeMoved (s : Device) (n : Nat) : apart (snakeMoved s n).1 = apart s := by
  unfold snakeMoved
  simp only []
  split
  · simp only [apart_snakeReset, apart_emit]
  · split_ifs <;>
      simp only [apart_snakeEatLoop, apart_set_gSnakeBufferPos, apart_snakeClearPixel,
        apart_uninit, apart_snakeDrawPixel]

@[simp]
theorem apart_snakeMove (s : Device) : apart (snakeMove s).1 = apart s := by
  unfold snakeMove
  simp only []
  split_ifs <;>
    simp only [apart_snakeMoved, apart_snakeReset, apart_snakePut, apart_emit]

@[simp]
theorem apart_snakeBgMode (s : Device) : apart (snakeBgMode s) = apart s := by
  unfold snakeBgMode
  simp only []
  have hA := apart_snakeAddApple 8 0
    ((emit (s.set_gSnakeTime ((s.gSnakeTime + 1) % 256))
      [.println "Add an apple", .led GREEN_LED 1]).set_gLedTimer 2)
  generalize snakeAddApple 8 0 _ = r at hA ⊢
  obtain ⟨d, b⟩ := r
  simp only [apart_set_gLedTimer, apart_emit, apart_set_gSnakeTime] at hA
  cases b <;> simp only [] <;> split_ifs <;>
    simp only [apart_snakeMove, apart_snakeReset, apart_emit, apart_set_gSnakeTime,
      apart_snakeRedrawDisplay, hA]

/-! ## Variables read after a function that only touches the environment -/

theorem emit_gFreshModeChange (s : Device) (es : List Effect) :
    (emit s es).gFreshModeChange = s.gFreshModeChange :=
  show (core (emit s es)).gFreshModeChange = (core s).gFreshModeChange from by rw [core_emit]

theorem hexPrint_gIsLocked (s : Device) (v : Nat) :
    (hexPrint s v).gIsLocked = s.gIsLocked :=
  core_gIsLocked (core_hexPrint ..)

theorem hexPrint_gBgMode (s : Device) (v : Nat) :
    (hexPrint s v).gBgMode = s.gBgMode :=
  core_gBgMode (core_hexPrint ..)

theorem hexPrint_gChallengeMode (s : Device) (v : Nat) :
    (hexPrint s v).gChallengeMode = s.gChallengeMode :=
  core_gChallengeMode (core_hexPrint ..)

theorem hexPrint_gFreshModeChange (s : Device) (v : Nat) :
    (hexPrint s v).gFreshModeChange = s.gFreshModeChange :=
  show (core (hexPrint s v)).gFreshModeChange = (core s).gFreshModeChange from by rw [core_hexPrint]

theorem hexPrint_ram (s : Device) (v : Nat) :
    (hexPrint s v).ram = s.ram :=
  core_ram (core_hexPrint ..)

theorem uninit_gIsLocked (s : Device) (n : Nat) :
    (uninit s n).1.gIsLocked = s.gIsLocked :=
  core_gIsLocked (core_uninit ..)

theorem uninit_gBgMode (s : Device) (n : Nat) :
    (uninit s n).1.gBgMode = s.gBgMode :=
  core_gBgMode (core_uninit ..)

theorem uninit_gChallengeMode (s : Device) (n : Nat) :
    (uninit s n).1.gChallengeMode = s.gChallengeMode :=
  core_gChallengeMode (core_uninit ..)

theorem uninit_gFreshModeChange (s : Device) (n : Nat) :
    (uninit s n).1.gFreshModeChange = s.gFreshModeChange :=
  show (core (uninit s n).1).gFreshModeChange = (core s).gFreshModeChange from by rw [core_uninit]

theorem uninit_ram (s : Device) (n : Nat) :
    (uninit s n).1.ram = s.ram :=
  core_ram (core_uninit ..)

theorem beyond_gBgMode (s : Device) :
    (beyond s).1.gBgMode = s.gBgMode :=
  core_gBgMode (core_beyond ..)

theorem beyond_gFreshModeChange (s : Device) :
    (beyond s).1.gFreshModeChange = s.gFreshModeChange :=
  show (core (beyond s).1).gFreshModeChange = (core s).gFreshModeChange from by rw [core_beyond]

theorem nextBus_gIsLocked (s : Device) :
    (nextBus s).1.gIsLocked = s.gIsLocked :=
  core_gIsLocked (core_nextBus ..)

theorem nextBus_gBgMode (s : Device) :
    (nextBus s).1.gBgMode = s.gBgMode :=
  core_gBgMode (core_nextBus ..)

theorem nextBus_gChallengeMode (s : Device) :
    (nextBus s).1.gChallengeMode = s.gChallengeMode :=
  core_gChallengeMode (core_nextBus ..)

theorem nextBus_gFreshModeChange (s : Device) :
    (nextBus s).1.gFreshModeChange = s.gFreshModeChange :=
  show (core (nextBus s).1).gFreshModeChange = (core s).gFreshModeChange from by rw [core_nextBus]

theorem nextBus_ram (s : Device) :
    (nextBus s).1.ram = s.ram :=
  core_ram (core_nextBus ..)

theorem clockRead_gIsLocked (s : Device) (a n : Nat) (buf : List Nat) :
    (clockRead s a n buf).1.gIsLocked = s.gIsLocked :=
  core_gIsLocked (core_clockRead ..)

theorem clockRead_gBgMode (s : Device) (a n : Nat) (buf : List Nat) :
    (clockRead s a n buf).1.gBgMode = s.gBgMode :=
  core_gBgMode (core_clockRead ..)

theorem clockRead_gChallengeMode (s : Device) (a n : Nat) (buf : List Nat) :
    (clockRead s a n buf).1.gChallengeMode = s.gChallengeMode :=
  core_gChallengeMode (core_clockRead ..)

theorem clockRead_gFreshModeChange (s : Device) (a n : Nat) (buf : List Nat) :
    (clockRead s a n buf).1.gFreshModeChange = s.gFreshModeChange :=
  show (core (clockRead s a n buf).1).gFreshModeChange = (core s).gFreshModeChange from by rw [core_clockRead]

theorem clockRead_ram (s : Device) (a n : Nat) (buf : List Nat) :
    (clockRead s a n buf).1.ram = s.ram :=
  core_ram (core_clockRead ..)

theorem readPinFromRam_gBgMode (s : Device) (n : Nat) :
    (readPinFromRam s n).1.gBgMode = s.gBgMode :=
  core_gBgMode (core_readPinFromRam ..)

theorem readPinFromRam_gFreshModeChange (s : Device) (n : Nat) :
    (readPinFromRam s n).1.gFreshModeChange = s.gFreshModeChange :=
  show (core (readPinFromRam s n).1).gFreshModeChange = (core s).gFreshModeChange from by rw [core_readPinFromRam]

theorem readPinFromRam_ram (s : Device) (n : Nat) :
    (readPinFromRam s n).1.ram = s.ram :=
  core_ram (core_readPinFromRam ..)

theorem writeString_gIsLocked (s : Device) (msg : List Nat) (x y : Int) :
    (writeString s msg x y).gIsLocked = s.gIsLocked :=
  core_gIsLocked (core_writeString ..)

theorem writeString_gBgMode (s : Device) (msg : List Nat) (x y : Int) :
    (writeString s msg x y).gBgMode = s.gBgMode :=
  core_gBgMode (core_writeString ..)

theorem writeString_gChallengeMode (s : Device) (msg : List Nat) (x y : Int) :
    (writeString s msg x y).gChallengeMode = s.gChallengeMode :=
  core_gChallengeMode (core_writeString ..)

theorem writeString_gFreshModeChange (s : Device) (msg : List Nat) (x y : Int) :
    (writeString s msg x y).gFreshModeChange = s.gFreshModeChange :=
  show (core (writeString s msg x y)).gFreshModeChange = (core s).gFreshModeChange from by rw [core_writeString]

theorem writeString_ram (s : Device) (msg : List Nat) (x y : Int) :
    (writeString s msg x y).ram = s.ram :=
  core_ram (core_writeString ..)

theorem wrongCountdown_gIsLocked (n : Nat) (s : Device) :
    (wrongCountdown n s).gIsLocked = s.gIsLocked :=
  core_gIsLocked (core_wrongCountdown ..)

theorem wrongCountdown_gBgMode (n : Nat) (s : Device) :
    (wrongCountdown n s).gBgMode = s.gBgMode :=
  core_gBgMode (core_wrongCountdown ..)

theorem wrongCountdown_gChallengeMode (n : Nat) (s : Device) :
    (wrongCountdown n s).gChallengeMode = s.gChallengeMode :=
  core_gChallengeMode (core_wrongCountdown ..)

theorem wrongCountdown_gFreshModeChange (n : Nat) (s : Device) :
    (wrongCountdown n s).gFreshModeChange = s.gFreshModeChange :=
  show (core (wrongCountdown n s)).gFreshModeChange = (core s).gFreshModeChange from by rw [core_wrongCountdown]

theorem wrongCountdown_ram (n : Nat) (s : Device) :
    (wrongCountdown n s).ram = s.ram :=
  core_ram (core_wrongCountdown ..)

theorem getFlag_gIsLocked (s : Device) (n : Nat) (buf : List Nat) :
    (getFlag s n buf).1.gIsLocked = s.gIsLocked :=
  core_gIsLocked (core_getFlag ..)

theorem getFlag_gBgMode (s : Device) (n : Nat) (buf : List Nat) :
    (getFlag s n buf).1.gBgMode = s.gBgMode :=
  core_gBgMode (core_getFlag ..)

theorem getFlag_gChallengeMode (s : Device) (n : Nat) (buf : List Nat) :
    (getFlag s n buf).1.gChallengeMode = s.gChallengeMode :=
  core_gChallengeMode (core_getFlag ..)

theorem getFlag_gFreshModeChange (s : Device) (n : Nat) (buf : List Nat) :
    (getFlag s n buf).1.gFreshModeChange = s.gFreshModeChange :=
  show (core (getFlag s n buf).1).gFreshModeChange = (core s).gFreshModeChange from by rw [core_getFlag]

theorem getFlag_ram (s : Device) (n : Nat) (buf : List Nat) :
    (getFlag s n buf).1.ram = s.ram :=
  core_ram (core_getFlag ..)

theorem getFlagMyChalMode_gIsLocked (s : Device) (buf : List Nat) :
    (getFlagMyChalMode s buf).1.gIsLocked = s.gIsLocked :=
  core_gIsLocked (core_getFlagMyChalMode ..)

theorem getFlagMyChalMode_gBgMode (s : Device) (buf : List Nat) :
    (getFlagMyChalMode s buf).1.gBgMode = s.gBgMode :=
  core_gBgMode (core_getFlagMyChalMode ..)

theorem getFlagMyChalMode_gChallengeMode (s : Device) (buf : List Nat) :
    (getFlagMyChalMode s buf).1.gChallengeMode = s.gChallengeMode :=
  core_gChallengeMode (core_getFlagMyChalMode ..)

theorem getFlagMyChalMode_gFreshModeChange (s : Device) (buf : List Nat) :
    (getFlagMyChalMode s buf).1.gFreshModeChange = s.gFreshModeChange :=
  show (core (getFlagMyChalMode s buf).1).gFreshModeChange = (core s).gFreshModeChange from by rw [core_getFlagMyChalMode]

theorem getFlagMyChalMode_ram (s : Device) (buf : List Nat) :
    (getFlagMyChalMode s buf).1.ram = s.ram :=
  core_ram (core_getFlagMyChalMode ..)

theorem printFlagToSerial_gIsLocked (s : Device) (n : Nat) :
    (printFlagToSerial s n).gIsLocked = s.gIsLocked :=
  core_gIsLocked (core_printFlagToSerial ..)

theorem printFlagToSerial_gBgMode (s : Device) (n : Nat) :
    (printFlagToSerial s n).gBgMode = s.gBgMode :=
  core_gBgMode (core_printFlagToSerial ..)

theorem printFlagToSerial_gChallengeMode (s : Device) (n : Nat) :
    (printFlagToSerial s n).gChallengeMode = s.gChallengeMode :=
  core_gChallengeMode (core_printFlagToSerial ..)

theorem printFlagToSerial_gFreshModeChange (s : Device) (n : Nat) :
    (printFlagToSerial s n).gFreshModeChange = s.gFreshModeChange :=
  show (core (printFlagToSerial s n)).gFreshModeChange = (core s).gFreshModeChange from by rw [core_printFlagToSerial]

theorem printFlagToSerial_ram (s : Device) (n : Nat) :
    (printFlagToSerial s n).ram = s.ram :=
  core_ram (core_printFlagToSerial ..)

theorem commandGetFlags_gIsLocked (s : Device) :
    (commandGetFlags s).gIsLocked = s.gIsLocked :=
  core_gIsLocked (core_commandGetFlags ..)

theorem commandGetFlags_gBgMode (s : Device) :
    (commandGetFlags s).gBgMode = s.gBgMode :=
  core_gBgMode (core_commandGetFlags ..)

theorem commandGetFlags_gChallengeMode (s : Device) :
    (commandGetFlags s).gChallengeMode = s.gChallengeMode :=
  core_gChallengeMode (core_commandGetFlags ..)

theorem commandGetFlags_gFreshModeChange (s : Device) :
    (commandGetFlags s).gFreshModeChange = s.gFreshModeChange :=
  show (core (commandGetFlags s)).gFreshModeChange = (core s).gFreshModeChange from by rw [core_commandGetFlags]

theorem commandGetFlags_ram (s : Device) :
    (commandGetFlags s).ram = s.ram :=
  core_ram (core_commandGetFlags ..)

theorem commandGetVersion_gIsLocked (s : Device) :
    (commandGetVersion s).gIsLocked = s.gIsLocked :=
  core_gIsLocked (core_commandGetVersion ..)

theorem commandGetVersion_gBgMode (s : Device) :
    (commandGetVersion s).gBgMode = s.gBgMode :=
  core_gBgMode (core_commandGetVersion ..)

theorem commandGetVersion_gChallengeMode (s : Device) :
    (commandGetVersion s).gChallengeMode = s.gChallengeMode :=
  core_gChallengeMode (core_commandGetVersion ..)

theorem commandGetVersion_gFreshModeChange (s : Device) :
    (commandGetVersion s).gFreshModeChange = s.gFreshModeChange :=
  show (core (commandGetVersion s)).gFreshModeChange = (core s).gFreshModeChange from by rw [core_commandGetVersion]

theorem commandGetVersion_ram (s : Device) :
    (commandGetVersion s).ram = s.ram :=
  core_ram (core_commandGetVersion ..)

theorem serialPrintMode_gIsLocked (s : Device) (m : Int) :
    (serialPrintMode s m).gIsLocked = s.gIsLocked :=
  core_gIsLocked (core_serialPrintMode ..)

theorem serialPrintMode_gBgMode (s : Device) (m : Int) :
    (serialPrintMode s m).gBgMode = s.gBgMode :=
  core_gBgMode (core_serialPrintMode ..)

theorem serialPrintMode_gChallengeMode (s : Device) (m : Int) :
    (serialPrintMode s m).gChallengeMode = s.gChallengeMode :=
  core_gChallengeMode (core_serialPrintMode ..)

theorem serialPrintMode_gFreshModeChange (s : Device) (m : Int) :
    (serialPrintMode s m).gFreshModeChange = s.gFreshModeChange :=
  show (core (serialPrintMode s m)).gFreshModeChange = (core s).gFreshModeChange from by rw [core_serialPrintMode]

theorem serialPrintMode_ram (s : Device) (m : Int) :
    (serialPrintMode s m).ram = s.ram :=
  core_ram (core_serialPrintMode ..)

theorem displayMode_gIsLocked (s : Device) (m x y : Int) :
    (displayMode s m x y).gIsLocked = s.gIsLocked :=
  core_gIsLocked (core_displayMode ..)

theorem displayMode_gBgMode (s : Device) (m x y : Int) :
    (displayMode s m x y).gBgMode = s.gBgMode :=
  core_gBgMode (core_displayMode ..)

theorem displayMode_gChallengeMode (s : Device) (m x y : Int) :
    (displayMode s m x y).gChallengeMode = s.gChallengeMode :=
  core_gChallengeMode (core_displayMode ..)

theorem displayMode_gFreshModeChange (s : Device) (m x y : Int) :
    (displayMode s m x y).gFreshModeChange = s.gFreshModeChange :=
  show (core (displayMode s m x y)).gFreshModeChange = (core s).gFreshModeChange from by rw [core_displayMode]

theorem displayMode_ram (s : Device) (m x y : Int) :
    (displayMode s m x y).ram = s.ram :=
  core_ram (core_displayMode ..)

theorem displayClock_gIsLocked (s : Device) :
    (displayClock s).gIsLocked = s.gIsLocked :=
  core_gIsLocked (core_displayClock ..)

theorem displayClock_gBgMode (s : Device) :
    (displayClock s).gBgMode = s.gBgMode :=
  core_gBgMode (core_displayClock ..)

theorem displayClock_gChallengeMode (s : Device) :
    (displayClock s).gChallengeMode = s.gChallengeMode :=
  core_gChallengeMode (core_displayClock ..)

theorem displayClock_gFreshModeChange (s : Device) :
    (displayClock s).gFreshModeChange = s.gFreshModeChange :=
  show (core (displayClock s)).gFreshModeChange = (core s).gFreshModeChange from by rw [core_displayClock]

theorem displayClock_ram (s : Device) :
    (displayClock s).ram = s.ram :=
  core_ram (core_displayClock ..)

theorem displayUnlock_gIsLocked (s : Device) :
    (displayUnlock s).gIsLocked = s.gIsLocked :=
  core_gIsLocked (core_displayUnlock ..)

theorem displayUnlock_gBgMode (s : Device) :
    (displayUnlock s).gBgMode = s.gBgMode :=
  core_gBgMode (core_displayUnlock ..)

theorem displayUnlock_gChallengeMode (s : Device) :
    (displayUnlock s).gChallengeMode = s.gChallengeMode :=
  core_gChallengeMode (core_displayUnlock ..)

theorem displayUnlock_gFreshModeChange (s : Device) :
    (displayUnlock s).gFreshModeChange = s.gFreshModeChange :=
  show (core (displayUnlock s)).gFreshModeChange = (core s).gFreshModeChange from by rw [core_displayUnlock]

theorem displayUnlock_ram (s : Device) :
    (displayUnlock s).ram = s.ram :=
  core_ram (core_displayUnlock ..)

theorem displayVersion_gIsLocked (s : Device) :
    (displayVersion s).gIsLocked = s.gIsLocked :=
  core_gIsLocked (core_displayVersion ..)

theorem displayVersion_gBgMode (s : Device) :
    (displayVersion s).gBgMode = s.gBgMode :=
  core_gBgMode (core_displayVersion ..)

theorem displayVersion_gChallengeMode (s : Device) :
    (displayVersion s).gChallengeMode = s.gChallengeMode :=
  core_gChallengeMode (core_displayVersion ..)

theorem displayVersion_gFreshModeChange (s : Device) :
    (displayVersion s).gFreshModeChange = s.gFreshModeChange :=
  show (core (displayVersion s)).gFreshModeChange = (core s).gFreshModeChange from by rw [core_displayVersion]

theorem displayVersion_ram (s : Device) :
    (displayVersion s).ram = s.ram :=
  core_ram (core_displayVersion ..)

theorem displayFlag_gIsLocked (s : Device) :
    (displayFlag s).gIsLocked = s.gIsLocked :=
  core_gIsLocked (core_displayFlag ..)

theorem displayFlag_gBgMode (s : Device) :
    (displayFlag s).gBgMode = s.gBgMode :=
  core_gBgMode (core_displayFlag ..)

theorem displayFlag_gChallengeMode (s : Device) :
    (displayFlag s).gChallengeMode = s.gChallengeMode :=
  core_gChallengeMode (core_displayFlag ..)

theorem displayFlag_gFreshModeChange (s : Device) :
    (displayFlag s).gFreshModeChange = s.gFreshModeChange :=
  show (core (displayFlag s)).gFreshModeChange = (core s).gFreshModeChange from by rw [core_displayFlag]

theorem displayFlag_ram (s : Device) :
    (displayFlag s).ram = s.ram :=
  core_ram (core_displayFlag ..)

theorem displayChangeModes_gIsLocked (s : Device) :
    (displayChangeModes s).gIsLocked = s.gIsLocked :=
  core_gIsLocked (core_displayChangeModes ..)

theorem displayChangeModes_gBgMode (s : Device) :
    (displayChangeModes s).gBgMode = s.gBgMode :=
  core_gBgMode (core_displayChangeModes ..)

theorem displayChangeModes_gChallengeMode (s : Device) :
    (displayChangeModes s).gChallengeMode = s.gChallengeMode :=
  core_gChallengeMode (core_displayChangeModes ..)

theorem displayChangeModes_gFreshModeChange (s : Device) :
    (displayChangeModes s).gFreshModeChange = s.gFreshModeChange :=
  show (core (displayChangeModes s)).gFreshModeChange = (core s).gFreshModeChange from by rw [core_displayChangeModes]

theorem displayChangeModes_ram (s : Device) :
    (displayChangeModes s).ram = s.ram :=
  core_ram (core_displayChangeModes ..)

theorem defaultLeftHandler_gIsLocked (s : Device) :
    (defaultLeftHandler s).gIsLocked = s.gIsLocked :=
  core_gIsLocked (core_defaultLeftHandler ..)

theorem defaultLeftHandler_gBgMode (s : Device) :
    (defaultLeftHandler s).gBgMode = s.gBgMode :=
  core_gBgMode (core_defaultLeftHandler ..)

theorem defaultLeftHandler_gChallengeMode (s : Device) :
    (defaultLeftHandler s).gChallengeMode = s.gChallengeMode :=
  core_gChallengeMode (core_defaultLeftHandler ..)

theorem defaultLeftHandler_gFreshModeChange (s : Device) :
    (defaultLeftHandler s).gFreshModeChange = s.gFreshModeChange :=
  show (core (defaultLeftHandler s)).gFreshModeChange = (core s).gFreshModeChange from by rw [core_defaultLeftHandler]

theorem defaultLeftHandler_ram (s : Device) :
    (defaultLeftHandler s).ram = s.ram :=
  core_ram (core_defaultLeftHandler ..)

theorem defaultRightHandler_gIsLocked (s : Device) :
    (defaultRightHandler s).gIsLocked = s.gIsLocked :=
  core_gIsLocked (core_defaultRightHandler ..)

theorem defaultRightHandler_gBgMode (s : Device) :
    (defaultRightHandler s).gBgMode = s.gBgMode :=
  core_gBgMode (core_defaultRightHandler ..)

theorem defaultRightHandler_gChallengeMode (s : Device) :
    (defaultRightHandler s).gChallengeMode = s.gChallengeMode :=
  core_gChallengeMode (core_defaultRightHandler ..)

theorem defaultRightHandler_gFreshModeChange (s : Device) :
    (defaultRightHandler s).gFreshModeChange = s.gFreshModeChange :=
  show (core (defaultRightHandler s)).gFreshModeChange = (core s).gFreshModeChange from by rw [core_defaultRightHandler]

theorem defaultRightHandler_ram (s : Device) :
    (defaultRightHandler s).ram = s.ram :=
  core_ram (core_defaultRightHandler ..)

theorem defaultAButtonHandler_gIsLocked (s : Device) :
    (defaultAButtonHandler s).gIsLocked = s.gIsLocked :=
  core_gIsLocked (core_defaultAButtonHandler ..)

theorem defaultAButtonHandler_gBgMode (s : Device) :
    (defaultAButtonHandler s).gBgMode = s.gBgMode :=
  core_gBgMode (core_defaultAButtonHandler ..)

theorem defaultAButtonHandler_gChallengeMode (s : Device) :
    (defaultAButtonHandler s).gChallengeMode = s.gChallengeMode :=
  core_gChallengeMode (core_defaultAButtonHandler ..)

theorem defaultAButtonHandler_gFreshModeChange (s : Device) :
    (defaultAButtonHandler s).gFreshModeChange = s.gFreshModeChange :=
  show (core (defaultAButtonHandler s)).gFreshModeChange = (core s).gFreshModeChange from by rw [core_defaultAButtonHandler]

theorem defaultAButtonHandler_ram (s : Device) :
    (defaultAButtonHandler s).ram = s.ram :=
  core_ram (core_defaultAButtonHandler ..)

theorem defaultBButtonHandler_gIsLocked (s : Device) :
    (defaultBButtonHandler s).gIsLocked = s.gIsLocked :=
  core_gIsLocked (core_defaultBButtonHandler ..)

theorem defaultBButtonHandler_gBgMode (s : Device) :
    (defaultBButtonHandler s).gBgMode = s.gBgMode :=
  core_gBgMode (core_defaultBButtonHandler ..)

theorem defaultBButtonHandler_gChallengeMode (s : Device) :
    (defaultBButtonHandler s).gChallengeMode = s.gChallengeMode :=
  core_gChallengeMode (core_defaultBButtonHandler ..)

theorem defaultBButtonHandler_gFreshModeChange (s : Device) :
    (defaultBButtonHandler s).gFreshModeChange = s.gFreshModeChange :=
  show (core (defaultBButtonHandler s)).gFreshModeChange = (core s).gFreshModeChange from by rw [core_defaultBButtonHandler]

theorem defaultBButtonHandler_ram (s : Device) :
    (defaultBButtonHandler s).ram = s.ram :=
  core_ram (core_defaultBButtonHandler ..)

theorem clockWrite_gIsLocked (s : Device) (a n : Nat) (buf : List Nat) :
    (clockWrite s a n buf).1.gIsLocked = s.gIsLocked :=
  apart_gIsLocked (apart_clockWrite ..)

theorem clockWrite_gBgMode (s : Device) (a n : Nat) (buf : List Nat) :
    (clockWrite s a n buf).1.gBgMode = s.gBgMode :=
  apart_gBgMode (apart_clockWrite ..)

theorem clockWrite_gChallengeMode (s : Device) (a n : Nat) (buf : List Nat) :
    (clockWrite s a n buf).1.gChallengeMode = s.gChallengeMode :=
  apart_gChallengeMode (apart_clockWrite ..)

theorem clockWrite_gFreshModeChange (s : Device) (a n : Nat) (buf : List Nat) :
    (clockWrite s a n buf).1.gFreshModeChange = s.gFreshModeChange :=
  apart_gFreshModeChange (apart_clockWrite ..)

theorem snakeInit_gIsLocked (s : Device) :
    (snakeInit s).gIsLocked = s.gIsLocked :=
  apart_gIsLocked (apart_snakeInit ..)

theorem snakeInit_gBgMode (s : Device) :
    (snakeInit s).gBgMode = s.gBgMode :=
  apart_gBgMode (apart_snakeInit ..)

theorem snakeInit_gChallengeMode (s : Device) :
    (snakeInit s).gChallengeMode = s.gChallengeMode :=
  apart_gChallengeMode (apart_snakeInit ..)

theorem snakeInit_gFreshModeChange (s : Device) :
    (snakeInit s).gFreshModeChange = s.gFreshModeChange :=
  apart_gFreshModeChange (apart_snakeInit ..)

theorem snakeReset_gIsLocked (s : Device) (b : Bool) :
    (snakeReset s b).gIsLocked = s.gIsLocked :=
  apart_gIsLocked (apart_snakeReset ..)

theorem snakeReset_gBgMode (s : Device) (b : Bool) :
    (snakeReset s b).gBgMode = s.gBgMode :=
  apart_gBgMode (apart_snakeReset ..)

theorem snakeReset_gChallengeMode (s : Device) (b : Bool) :
    (snakeReset s b).gChallengeMode = s.gChallengeMode :=
  apart_gChallengeMode (apart_snakeReset ..)

theorem snakeReset_gFreshModeChange (s : Device) (b : Bool) :
    (snakeReset s b).gFreshModeChange = s.gFreshModeChange :=
  apart_gFreshModeChange (apart_snakeReset ..)

theorem snakeBgMode_gIsLocked (s : Device) :
    (snakeBgMode s).gIsLocked = s.gIsLocked :=
  apart_gIsLocked (apart_snakeBgMode ..)

theorem snakeBgMode_gBgMode (s : Device) :
    (snakeBgMode s).gBgMode = s.gBgMode :=
  apart_gBgMode (apart_snakeBgMode ..)

theorem snakeBgMode_gChallengeMode (s : Device) :
    (snakeBgMode s).gChallengeMode = s.gChallengeMode :=
  apart_gChallengeMode (apart_snakeBgMode ..)

theorem snakeBgMode_gFreshModeChange (s : Device) :
    (snakeBgMode s).gFreshModeChange = s.gFreshModeChange :=
  apart_gFreshModeChange (apart_snakeBgMode ..)

attribute [simp] emit_gFreshModeChange hexPrint_gIsLocked hexPrint_gBgMode hexPrint_gChallengeMode
  hexPrint_gFreshModeChange hexPrint_ram uninit_gIsLocked uninit_gBgMode uninit_gChallengeMode
  uninit_gFreshModeChange uninit_ram beyond_gBgMode beyond_gFreshModeChange nextBus_gIsLocked
  nextBus_gBgMode nextBus_gChallengeMode nextBus_gFreshModeChange nextBus_ram clockRead_gIsLocked
  clockRead_gBgMode clockRead_gChallengeMode clockRead_gFreshModeChange clockRead_ram
  readPinFromRam_gBgMode readPinFromRam_gFreshModeChange readPinFromRam_ram writeString_gIsLocked
  writeString_gBgMode writeString_gChallengeMode writeString_gFreshModeChange writeString_ram
  wrongCountdown_gIsLocked wrongCountdown_gBgMode wrongCountdown_gChallengeMode
  wrongCountdown_gFreshModeChange wrongCountdown_ram getFlag_gIsLocked getFlag_gBgMode
  getFlag_gChallengeMode getFlag_gFreshModeChange getFlag_ram getFlagMyChalMode_gIsLocked
  getFlagMyChalMode_gBgMode getFlagMyChalMode_gChallengeMode getFlagMyChalMode_gFreshModeChange
  getFlagMyChalMode_ram printFlagToSerial_gIsLocked printFlagToSerial_gBgMode
  printFlagToSerial_gChallengeMode printFlagToSerial_gFreshModeChange printFlagToSerial_ram
  commandGetFlags_gIsLocked commandGetFlags_gBgMode commandGetFlags_gChallengeMode
  commandGetFlags_gFreshModeChange commandGetFlags_ram commandGetVersion_gIsLocked
  commandGetVersion_gBgMode commandGetVersion_gChallengeMode commandGetVersion_gFreshModeChange
  commandGetVersion_ram serialPrintMode_gIsLocked serialPrintMode_gBgMode
  serialPrintMode_gChallengeMode serialPrintMode_gFreshModeChange serialPrintMode_ram
  displayMode_gIsLocked displayMode_gBgMode displayMode_gChallengeMode
  displayMode_gFreshModeChange displayMode_ram displayClock_gIsLocked displayClock_gBgMode
  displayClock_gChallengeMode displayClock_gFreshModeChange displayClock_ram
  displayUnlock_gIsLocked displayUnlock_gBgMode displayUnlock_gChallengeMode
  displayUnlock_gFreshModeChange displayUnlock_ram displayVersion_gIsLocked displayVersion_gBgMode
  displayVersion_gChallengeMode displayVersion_gFreshModeChange displayVersion_ram
  displayFlag_gIsLocked displayFlag_gBgMode displayFlag_gChallengeMode
  displayFlag_gFreshModeChange displayFlag_ram displayChangeModes_gIsLocked
  displayChangeModes_gBgMode displayChangeModes_gChallengeMode displayChangeModes_gFreshModeChange
  displayChangeModes_ram defaultLeftHandler_gIsLocked defaultLeftHandler_gBgMode
  defaultLeftHandler_gChallengeMode defaultLeftHandler_gFreshModeChange defaultLeftHandler_ram
  defaultRightHandler_gIsLocked defaultRightHandler_gBgMode defaultRightHandler_gChallengeMode
  defaultRightHandler_gFreshModeChange defaultRightHandler_ram defaultAButtonHandler_gIsLocked
  defaultAButtonHandler_gBgMode defaultAButtonHandler_gChallengeMode
  defaultAButtonHandler_gFreshModeChange defaultAButtonHandler_ram defaultBButtonHandler_gIsLocked
  defaultBButtonHandler_gBgMode defaultBButtonHandler_gChallengeMode
  defaultBButtonHandler_gFreshModeChange defaultBButtonHandler_ram clockWrite_gIsLocked
  clockWrite_gBgMode clockWrite_gChallengeMode clockWrite_gFreshModeChange snakeInit_gIsLocked
  snakeInit_gBgMode snakeInit_gChallengeMode snakeInit_gFreshModeChange snakeReset_gIsLocked
  snakeReset_gBgMode snakeReset_gChallengeMode snakeReset_gFreshModeChange snakeBgMode_gIsLocked
  snakeBgMode_gBgMode snakeBgMode_gChallengeMode snakeBgMode_gFreshModeChange

attribute [simp] readPinFromRam_gIsLocked readPinFromRam_gChallengeMode
  readPinFromRam_gCurrentPinGuess

/-! ## Mode navigation -/

theorem validateCurrentMode_gIsLocked (s : Device) :
    (validateCurrentMode s).gIsLocked = s.gIsLocked := by
  unfold validateCurrentMode
  simp only []
  split_ifs <;> simp_all

theorem validateCurrentMode_gBgMode (s : Device) :
    (validateCurrentMode s).gBgMode =
      if s.gIsLocked then Int.tmod (if s.gBgMode < 0 then 2 else s.gBgMode) 3
      else Int.tmod (if s.gBgMode < 0 then 5 else s.gBgMode) 6 := by
  unfold validateCurrentMode
  simp only []
  split_ifs <;> simp_all [MAX_BG_MODES]

theorem validateCurrentMode_apart (s : Device) :
    apart ((validateCurrentMode s).set_gBgMode 0) = apart (s.set_gBgMode 0) := by
  unfold validateCurrentMode
  simp only []
  split_ifs <;> rfl

theorem modeUp_gIsLocked (s : Device) : (modeUp s).gIsLocked = s.gIsLocked := by
  simp [modeUp, validateCurrentMode_gIsLocked]

theorem modeDown_gIsLocked (s : Device) : (modeDown s).gIsLocked = s.gIsLocked := by
  simp [modeDown, validateCurrentMode_gIsLocked]

theorem modeUp_gBgMode (s : Device) :
    (modeUp s).gBgMode =
      if s.gIsLocked then Int.tmod (if toInt8 (s.gBgMode + 1) < 0 then 2 else toInt8 (s.gBgMode + 1)) 3
      else Int.tmod (if toInt8 (s.gBgMode + 1) < 0 then 5 else toInt8 (s.gBgMode + 1)) 6 := by
  simp [modeUp, validateCurrentMode_gBgMode]

theorem modeDown_gBgMode (s : Device) :
    (modeDown s).gBgMode =
      if s.gIsLocked then Int.tmod (if toInt8 (s.gBgMode - 1) < 0 then 2 else toInt8 (s.gBgMode - 1)) 3
      else Int.tmod (if toInt8 (s.gBgMode - 1) < 0 then 5 else toInt8 (s.gBgMode - 1)) 6 := by
  simp [modeDown, validateCurrentMode_gBgMode]

/-! ## Button handlers and commands: lock state and display mode -/

theorem unlockUpHandler_gIsLocked (s : Device) :
    (unlockUpHandler s).gIsLocked = s.gIsLocked := by
  simp [unlockUpHandler]

theorem unlockUpHandler_gBgMode (s : Device) :
    (unlockUpHandler s).gBgMode = s.gBgMode := by
  simp [unlockUpHandler]

theorem unlockUpHandler_gChallengeMode (s : Device) :
    (unlockUpHandler s).gChallengeMode = s.gChallengeMode := by
  simp [unlockUpHandler]

theorem unlockUpHandler_ram (s : Device) :
    (unlockUpHandler s).ram = s.ram := by
  simp [unlockUpHandler]

theorem unlockDownHandler_gIsLocked (s : Device) :
    (unlockDownHandler s).gIsLocked = s.gIsLocked := by
  simp [unlockDownHandler]

theorem unlockDownHandler_gBgMode (s : Device) :
    (unlockDownHandler s).gBgMode = s.gBgMode := by
  simp [unlockDownHandler]

theorem unlockDownHandler_gChallengeMode (s : Device) :
    (unlockDownHandler s).gChallengeMode = s.gChallengeMode := by
  simp [unlockDownHandler]

theorem unlockDownHandler_ram (s : Device) :
    (unlockDownHandler s).ram = s.ram := by
  simp [unlockDownHandler]

theorem unlockLeftHandler_gIsLocked (s : Device) :
    (unlockLeftHandler s).gIsLocked = s.gIsLocked := by
  unfold unlockLeftHandler
  split_ifs <;> simp

theorem unlockLeftHandler_gBgMode (s : Device) :
    (unlockLeftHandler s).gBgMode = s.gBgMode := by
  unfold unlockLeftHandler
  split_ifs <;> simp

theorem unlockLeftHandler_gChallengeMode (s : Device) :
    (unlockLeftHandler s).gChallengeMode = s.gChallengeMode := by
  unfold unlockLeftHandler
  split_ifs <;> simp

theorem unlockLeftHandler_ram (s : Device) :
    (unlockLeftHandler s).ram = s.ram := by
  unfold unlockLeftHandler
  split_ifs <;> simp

theorem unlockRightHandler_gIsLocked (s : Device) :
    (unlockRightHandler s).gIsLocked = s.gIsLocked := by
  unfold unlockRightHandler
  split_ifs <;> simp

theorem unlockRightHandler_gBgMode (s : Device) :
    (unlockRightHandler s).gBgMode = s.gBgMode := by
  unfold unlockRightHandler
  split_ifs <;> simp

theorem unlockRightHandler_gChallengeMode (s : Device) :
    (unlockRightHandler s).gChallengeMode = s.gChallengeMode := by
  unfold unlockRightHandler
  split_ifs <;> simp

theorem unlockRightHandler_ram (s : Device) :
    (unlockRightHandler s).ram = s.ram := by
  unfold unlockRightHandler
  split_ifs <;> simp

theorem unlockAHandler_gIsLocked (s : Device) :
    (unlockAHandler s).gIsLocked = s.gIsLocked := by
  simp [unlockAHandler]

theorem unlockAHandler_gBgMode (s : Device) :
    (unlockAHandler s).gBgMode = s.gBgMode := by
  simp [unlockAHandler]

theorem unlockAHandler_gChallengeMode (s : Device) :
    (unlockAHandler s).gChallengeMode = s.gChallengeMode := by
  simp [unlockAHandler]

theorem unlockAHandler_ram (s : Device) :
    (unlockAHandler s).ram = s.ram := by
  simp [unlockAHandler]

theorem snakeUpHandler_gIsLocked (s : Device) :
    (snakeUpHandler s).gIsLocked = s.gIsLocked := by
  simp [snakeUpHandler]

theorem snakeUpHandler_gBgMode (s : Device) :
    (snakeUpHandler s).gBgMode = s.gBgMode := by
  simp [snakeUpHandler]

theorem snakeUpHandler_gChallengeMode (s : Device) :
    (snakeUpHandler s).gChallengeMode = s.gChallengeMode := by
  simp [snakeUpHandler]

theorem snakeUpHandler_ram (s : Device) :
    (snakeUpHandler s).ram = s.ram := by
  simp [snakeUpHandler]

theorem snakeDownHandler_gIsLocked (s : Device) :
    (snakeDownHandler s).gIsLocked = s.gIsLocked := by
  simp [snakeDownHandler]

theorem snakeDownHandler_gBgMode (s : Device) :
    (snakeDownHandler s).gBgMode = s.gBgMode := by
  simp [snakeDownHandler]

theorem snakeDownHandler_gChallengeMode (s : Device) :
    (snakeDownHandler s).gChallengeMode = s.gChallengeMode := by
  simp [snakeDownHandler]

theorem snakeDownHandler_ram (s : Device) :
    (snakeDownHandler s).ram = s.ram := by
  simp [snakeDownHandler]

theorem snakeLeftHandler_gIsLocked (s : Device) :
    (snakeLeftHandler s).gIsLocked = s.gIsLocked := by
  simp [snakeLeftHandler]

theorem snakeLeftHandler_gBgMode (s : Device) :
    (snakeLeftHandler s).gBgMode = s.gBgMode := by
  simp [snakeLeftHandler]

theorem snakeLeftHandler_gChallengeMode (s : Device) :
    (snakeLeftHandler s).gChallengeMode = s.gChallengeMode := by
  simp [snakeLeftHandler]

theorem snakeLeftHandler_ram (s : Device) :
    (snakeLeftHandler s).ram = s.ram := by
  simp [snakeLeftHandler]

theorem snakeRightHandler_gIsLocked (s : Device) :
    (snakeRightHandler s).gIsLocked = s.gIsLocked := by
  simp [snakeRightHandler]

theorem snakeRightHandler_gBgMode (s : Device) :
    (snakeRightHandler s).gBgMode = s.gBgMode := by
  simp [snakeRightHandler]

theorem snakeRightHandler_gChallengeMode (s : Device) :
    (snakeRightHandler s).gChallengeMode = s.gChallengeMode := by
  simp [snakeRightHandler]

theorem snakeRightHandler_ram (s : Device) :
    (snakeRightHandler s).ram = s.ram := by
  simp [snakeRightHandler]

theorem snakeAButtonHandler_gIsLocked (s : Device) :
    (snakeAButtonHandler s).gIsLocked = s.gIsLocked := by
  simp [snakeAButtonHandler]

theorem snakeAButtonHandler_gBgMode (s : Device) :
    (snakeAButtonHandler s).gBgMode = s.gBgMode := by
  simp [snakeAButtonHandler]

theorem snakeAButtonHandler_gChallengeMode (s : Device) :
    (snakeAButtonHandler s).gChallengeMode = s.gChallengeMode := by
  simp [snakeAButtonHandler]

theorem snakeAButtonHandler_ram (s : Device) :
    (snakeAButtonHandler s).ram = s.ram := by
  simp [snakeAButtonHandler]

theorem snakeBButtonHandler_gIsLocked (s : Device) :
    (snakeBButtonHandler s).gIsLocked = s.gIsLocked := by
  simp [snakeBButtonHandler]

theorem snakeBButtonHandler_gBgMode (s : Device) :
    (snakeBButtonHandler s).gBgMode = s.gBgMode := by
  simp [snakeBButtonHandler]

theorem snakeBButtonHandler_gChallengeMode (s : Device) :
    (snakeBButtonHandler s).gChallengeMode = s.gChallengeMode := by
  simp [snakeBButtonHandler]

theorem defaultUpHandler_gIsLocked (s : Device) :
    (defaultUpHandler s).gIsLocked = s.gIsLocked := by
  simp [defaultUpHandler, modeUp_gIsLocked]

theorem defaultDownHandler_gIsLocked (s : Device) :
    (defaultDownHandler s).gIsLocked = s.gIsLocked := by
  simp [defaultDownHandler, modeDown_gIsLocked]

theorem displayLock_gIsLocked (s : Device) :
    (displayLock s).gIsLocked = true := by
  simp [displayLock]

theorem displayLock_gBgMode (s : Device) :
    (displayLock s).gBgMode = s.gBgMode := by
  simp [displayLock]

theorem displayLock_gChallengeMode (s : Device) :
    (displayLock s).gChallengeMode = s.gChallengeMode := by
  simp [displayLock]

theorem displayLock_ram (s : Device) :
    (displayLock s).ram = s.ram := by
  simp [displayLock]

theorem commandLock_gIsLocked (s : Device) :
    (commandLock s).gIsLocked = true := by
  simp [commandLock]

theorem commandLock_gBgMode (s : Device) :
    (commandLock s).gBgMode = s.gBgMode := by
  simp [commandLock]

theorem commandLock_gChallengeMode (s : Device) :
    (commandLock s).gChallengeMode = s.gChallengeMode := by
  simp [commandLock]

theorem commandLock_ram (s : Device) :
    (commandLock s).ram = s.ram := by
  simp [commandLock]

theorem unlockBHandler_gBgMode (s : Device) :
    (unlockBHandler s).gBgMode = s.gBgMode := by
  unfold unlockBHandler
  simp only []
  split_ifs <;> simp

theorem unlockBHandler_gChallengeMode (s : Device) :
    (unlockBHandler s).gChallengeMode = s.gChallengeMode := by
  unfold unlockBHandler
  simp only []
  split_ifs <;> simp

theorem unlockBHandler_ram (s : Device) :
    (unlockBHandler s).ram = s.ram := by
  unfold unlockBHandler
  simp only []
  split_ifs <;> simp

attribute [simp] unlockUpHandler_gIsLocked unlockUpHandler_gBgMode unlockUpHandler_gChallengeMode
  unlockUpHandler_ram unlockDownHandler_gIsLocked unlockDownHandler_gBgMode
  unlockDownHandler_gChallengeMode unlockDownHandler_ram unlockLeftHandler_gIsLocked
  unlockLeftHandler_gBgMode unlockLeftHandler_gChallengeMode unlockLeftHandler_ram
  unlockRightHandler_gIsLocked unlockRightHandler_gBgMode unlockRightHandler_gChallengeMode
  unlockRightHandler_ram unlockAHandler_gIsLocked unlockAHandler_gBgMode
  unlockAHandler_gChallengeMode unlockAHandler_ram snakeUpHandler_gIsLocked snakeUpHandler_gBgMode
  snakeUpHandler_gChallengeMode snakeUpHandler_ram snakeDownHandler_gIsLocked
  snakeDownHandler_gBgMode snakeDownHandler_gChallengeMode snakeDownHandler_ram
  snakeLeftHandler_gIsLocked snakeLeftHandler_gBgMode snakeLeftHandler_gChallengeMode
  snakeLeftHandler_ram snakeRightHandler_gIsLocked snakeRightHandler_gBgMode
  snakeRightHandler_gChallengeMode snakeRightHandler_ram snakeAButtonHandler_gIsLocked
  snakeAButtonHandler_gBgMode snakeAButtonHandler_gChallengeMode snakeAButtonHandler_ram
  snakeBButtonHandler_gIsLocked snakeBButtonHandler_gBgMode snakeBButtonHandler_gChallengeMode
  defaultUpHandler_gIsLocked defaultDownHandler_gIsLocked displayLock_gIsLocked
  displayLock_gBgMode displayLock_gChallengeMode displayLock_ram commandLock_gIsLocked
  commandLock_gBgMode commandLock_gChallengeMode commandLock_ram unlockBHandler_gBgMode
  unlockBHandler_gChallengeMode unlockBHandler_ram

/-! ## The loop of `readString`, one input byte at a time -/

theorem readStringLoop_nil (len D : Nat) (buf : List Nat) (pos : Nat) (out : List Effect) :
    readStringLoop len D [] buf pos out = ⟨-1, buf, [], out ++ [.println "\nTIMEOUT"]⟩ := rfl

theorem readStringLoop_late (len D t c : Nat) (rest : List (Nat × Nat)) (buf : List Nat)
    (pos : Nat) (out : List Effect) (ht : ¬ t < D) :
    readStringLoop len D ((t, c) :: rest) buf pos out
      = ⟨-1, buf, (t, c) :: rest, out ++ [.println "\nTIMEOUT"]⟩ := by
  simp only [readStringLoop, if_neg ht]

theorem readStringLoop_eol (len D t c : Nat) (rest : List (Nat × Nat)) (buf : List Nat)
    (pos : Nat) (out : List Effect) (ht : t < D) (hc : c = 10 ∨ c = 13) :
    readStringLoop len D ((t, c) :: rest) buf pos out
      = ⟨pos, (buf.set pos c).set pos 0, rest, out ++ [.printChar c]⟩ := by
  simp only [readStringLoop, if_pos ht, if_pos hc]

theorem readStringLoop_full (len D t c : Nat) (rest : List (Nat × Nat)) (buf : List Nat)
    (pos : Nat) (out : List Effect) (ht : t < D) (hc : ¬ (c = 10 ∨ c = 13))
    (hp : (pos + 1) % 256 = len) :
    readStringLoop len D ((t, c) :: rest) buf pos out
      = ⟨(((pos + 1) % 256 : Nat) : Int) - 1, buf.set pos c, rest, out ++ [.printChar c]⟩ := by
  simp only [readStringLoop, if_pos ht, if_neg hc, if_pos hp]

theorem readStringLoop_more (len D t c : Nat) (rest : List (Nat × Nat)) (buf : List Nat)
    (pos : Nat) (out : List Effect) (ht : t < D) (hc : ¬ (c = 10 ∨ c = 13))
    (hp : (pos + 1) % 256 ≠ len) :
    readStringLoop len D ((t, c) :: rest) buf pos out
      = readStringLoop len D rest (buf.set pos c) ((pos + 1) % 256) (out ++ [.printChar c]) := by
  simp only [readStringLoop, if_pos ht, if_neg hc, if_neg hp]

/-! ## The confirmation read by `commandNextChallenge` -/

/-- What `commandNextChallenge` asks of the line: three characters, "yes". -/
theorem yes_of_ret (r : Line) (c1 c2 c3 : Nat) (b3 : Nat) (h : r.buf = [c1, c2, c3, b3])
    (hq : r.buf.getD 0 0 = 121 ∧ r.buf.getD 1 0 = 101 ∧ r.buf.getD 2 0 = 115) :
    c1 = 121 ∧ c2 = 101 ∧ c3 = 115 := by
  rw [h] at hq
  simpa using hq

/-- The two tests `commandNextChallenge` makes on what `readString` returned
hold exactly when the input starts with 'y', 'e', 's' and a fourth character,
all read before the deadline. -/
theorem readString_yes_iff (t0 : Nat) (input : List (Nat × Nat)) :
    ((readString 4 30 t0 input).ret = 3 ∧ (readString 4 30 t0 input).buf.getD 0 0 = 121 ∧
      (readString 4 30 t0 input).buf.getD 1 0 = 101 ∧
      (readString 4 30 t0 input).buf.getD 2 0 = 115) ↔
    ∃ t1 t2 t3 t4 c rest, input = (t1, 121) :: (t2, 101) :: (t3, 115) :: (t4, c) :: rest ∧
      t1 < readStringDeadline t0 30 ∧ t2 < readStringDeadline t0 30 ∧
      t3 < readStringDeadline t0 30 ∧ t4 < readStringDeadline t0 30 := by
  generalize hD : readStringDeadline t0 30 = D
  unfold readString
  rw [hD]
  constructor
  · intro h
    rcases input with _ | ⟨⟨t1, c1⟩, input⟩
    · rw [readStringLoop_nil] at h; exact absurd h.1 (by simp)
    by_cases h1 : t1 < D
    swap
    · rw [readStringLoop_late _ _ _ _ _ _ _ _ h1] at h; exact absurd h.1 (by simp)
    by_cases e1 : c1 = 10 ∨ c1 = 13
    · rw [readStringLoop_eol _ _ _ _ _ _ _ _ h1 e1] at h; exact absurd h.1 (by simp)
    rw [readStringLoop_more _ _ _ _ _ _ _ _ h1 e1 (by decide)] at h
    rcases input with _ | ⟨⟨t2, c2⟩, input⟩
    · rw [readStringLoop_nil] at h; exact absurd h.1 (by simp)
    by_cases h2 : t2 < D
    swap
    · rw [readStringLoop_late _ _ _ _ _ _ _ _ h2] at h; exact absurd h.1 (by simp)
    by_cases e2 : c2 = 10 ∨ c2 = 13
    · rw [readStringLoop_eol _ _ _ _ _ _ _ _ h2 e2] at h; exact absurd h.1 (by simp)
    rw [readStringLoop_more _ _ _ _ _ _ _ _ h2 e2 (by decide)] at h
    rcases input with _ | ⟨⟨t3, c3⟩, input⟩
    · rw [readStringLoop_nil] at h; exact absurd h.1 (by simp)
    by_cases h3 : t3 < D
    swap
    · rw [readStringLoop_late _ _ _ _ _ _ _ _ h3] at h; exact absurd h.1 (by simp)
    by_cases e3 : c3 = 10 ∨ c3 = 13
    · rw [readStringLoop_eol _ _ _ _ _ _ _ _ h3 e3] at h; exact absurd h.1 (by simp)
    rw [readStringLoop_more _ _ _ _ _ _ _ _ h3 e3 (by decide)] at h
    rcases input with _ | ⟨⟨t4, c4⟩, input⟩
    · rw [readStringLoop_nil] at h; exact absurd h.1 (by simp)
    by_cases h4 : t4 < D
    swap
    · rw [readStringLoop_late _ _ _ _ _ _ _ _ h4] at h; exact absurd h.1 (by simp)
    have hc : c1 = 121 ∧ c2 = 101 ∧ c3 = 115 := by
      by_cases e4 : c4 = 10 ∨ c4 = 13
      · rw [readStringLoop_eol _ _ _ _ _ _ _ _ h4 e4] at h
        exact yes_of_ret _ c1 c2 c3 0 rfl h.2
      · rw [readStringLoop_full _ _ _ _ _ _ _ _ h4 e4 (by decide)] at h
        exact yes_of_ret _ c1 c2 c3 c4 rfl h.2
    obtain ⟨rfl, rfl, rfl⟩ := hc
    exact ⟨t1, t2, t3, t4, c4, input, rfl, h1, h2, h3, h4⟩
  · rintro ⟨t1, t2, t3, t4, c, rest, rfl, h1, h2, h3, h4⟩
    rw [readStringLoop_more _ _ _ _ _ _ _ _ h1 (by decide) (by decide),
      readStringLoop_more _ _ _ _ _ _ _ _ h2 (by decide) (by decide),
      readStringLoop_more _ _ _ _ _ _ _ _ h3 (by decide) (by decide)]
    by_cases e4 : c = 10 ∨ c = 13
    · rw [readStringLoop_eol _ _ _ _ _ _ _ _ h4 e4]
      exact ⟨rfl, rfl, rfl, rfl⟩
    · rw [readStringLoop_full _ _ _ _ _ _ _ _ h4 e4 (by decide)]
      exact ⟨rfl, rfl, rfl, rfl⟩

/-! ## `commandNextChallenge` -/

theorem commandNextChallenge_refused (s : Device) (t0 : Nat) (input : List (Nat × Nat))
    (h : s.gBgMode = 3) :
    commandNextChallenge s t0 input = (emit s [.println "Can't be on flag screen!"], input) := by
  unfold commandNextChallenge
  rw [if_pos h]

theorem commandNextChallenge_unconfirmed (s : Device) (t0 : Nat) (input : List (Nat × Nat))
    (h : s.gBgMode ≠ 3)
    (hq : ¬ ((readString 4 30 t0 input).ret = 3 ∧ (readString 4 30 t0 input).buf.getD 0 0 = 121 ∧
      (readString 4 30 t0 input).buf.getD 1 0 = 101 ∧
      (readString 4 30 t0 input).buf.getD 2 0 = 115)) :
    (commandNextChallenge s t0 input).1 =
      emit (emit s [.println "You really want to goto next challenge?",
        .println "Type yes to confirm"]) ((readString 4 30 t0 input).out ++ [.println ""]) := by
  unfold commandNextChallenge
  rw [if_neg h]
  simp only []
  by_cases h3 : (readString 4 30 t0 input).ret = 3
  · rw [if_neg (not_not.mpr h3)]
    have : (readString 4 30 t0 input).buf.getD 0 0 ≠ 121 ∨
        (readString 4 30 t0 input).buf.getD 1 0 ≠ 101 ∨
        (readString 4 30 t0 input).buf.getD 2 0 ≠ 115 := by
      by_contra hc
      push_neg at hc
      exact hq ⟨h3, hc⟩
    rw [if_pos this]
  · rw [if_pos h3]

theorem commandNextChallenge_confirmed (s : Device) (t0 : Nat) (input : List (Nat × Nat))
    (h : s.gBgMode ≠ 3)
    (hq : (readString 4 30 t0 input).ret = 3 ∧ (readString 4 30 t0 input).buf.getD 0 0 = 121 ∧
      (readString 4 30 t0 input).buf.getD 1 0 = 101 ∧
      (readString 4 30 t0 input).buf.getD 2 0 = 115) :
    (commandNextChallenge s t0 input).1 =
      (clockWrite
        (emit ((emit (emit s [.println "You really want to goto next challenge?",
            .println "Type yes to confirm"])
            ((readString 4 30 t0 input).out ++ [.println ""])).set_gChallengeMode
              (if (s.gChallengeMode + 1) % 256 = 4 then 0 else (s.gChallengeMode + 1) % 256))
          [.println "Mode changed to ",
           .printlnNum ((if (s.gChallengeMode + 1) % 256 = 4 then 0
              else (s.gChallengeMode + 1) % 256 : Nat) : Int),
           .printlnStr (getVersionString
              (if (s.gChallengeMode + 1) % 256 = 4 then 0 else (s.gChallengeMode + 1) % 256))])
        CHAL_MODE_ADDR CHAL_MODE_LEN
        [if (s.gChallengeMode + 1) % 256 = 4 then 0 else (s.gChallengeMode + 1) % 256]).1.set_gIsLocked
        true := by
  unfold commandNextChallenge
  rw [if_neg h]
  simp only []
  rw [if_neg (not_not.mpr hq.1)]
  have : ¬ ((readString 4 30 t0 input).buf.getD 0 0 ≠ 121 ∨
      (readString 4 30 t0 input).buf.getD 1 0 ≠ 101 ∨
      (readString 4 30 t0 input).buf.getD 2 0 ≠ 115) := by
    push_neg
    exact hq.2
  rw [if_neg this]
  rfl

theorem commandNextChallenge_gBgMode (s : Device) (t0 : Nat) (input : List (Nat × Nat)) :
    (commandNextChallenge s t0 input).1.gBgMode = s.gBgMode := by
  by_cases h : s.gBgMode = 3
  · rw [commandNextChallenge_refused _ _ _ h]; rfl
  · by_cases hq : ((readString 4 30 t0 input).ret = 3 ∧
        (readString 4 30 t0 input).buf.getD 0 0 = 121 ∧
        (readString 4 30 t0 input).buf.getD 1 0 = 101 ∧
        (readString 4 30 t0 input).buf.getD 2 0 = 115)
    · rw [commandNextChallenge_confirmed _ _ _ h hq]; simp
    · rw [commandNextChallenge_unconfirmed _ _ _ h hq]; rfl

theorem commandNextChallenge_locked (s : Device) (t0 : Nat) (input : List (Nat × Nat))
    (hl : s.gIsLocked = true) : (commandNextChallenge s t0 input).1.gIsLocked = true := by
  by_cases h : s.gBgMode = 3
  · rw [commandNextChallenge_refused _ _ _ h]; exact hl
  · by_cases hq : ((readString 4 30 t0 input).ret = 3 ∧
        (readString 4 30 t0 input).buf.getD 0 0 = 121 ∧
        (readString 4 30 t0 input).buf.getD 1 0 = 101 ∧
        (readString 4 30 t0 input).buf.getD 2 0 = 115)
    · rw [commandNextChallenge_confirmed _ _ _ h hq]; rfl
    · rw [commandNextChallenge_unconfirmed _ _ _ h hq]; exact hl

/-! ## `clockWrite`: the transfer and the registers -/

theorem emit_emit (s : Device) (a b : List Effect) : emit (emit s a) b = emit s (a ++ b) := by
  simp only [emit, set_log_log, List.append_assoc]
  rfl

theorem hexPrint_eq (s : Device) (v : Nat) : hexPrint s v = emit s (hexChars v) := by
  unfold hexPrint hexChars
  simp only []
  split_ifs <;> simp only [emit_emit, List.singleton_append]

@[simp]
theorem nextBus_log (s : Device) : (nextBus s).1.log = s.log := by
  unfold nextBus; split <;> rfl

/-- Every `clockWrite` issues its transfer, acknowledged or not. -/
theorem clockWrite_log (s : Device) (a n : Nat) (buf : List Nat) :
    ∃ post, (clockWrite s a n buf).1.log
      = s.log ++ [.println "clockWrite", .i2cWrite a (buf.take n)] ++ post := by
  unfold clockWrite
  simp only [hexPrint_eq]
  split_ifs <;>
    exact ⟨_, by simp only [emit_log, set_ram_log, nextBus_log, List.append_assoc,
      List.singleton_append, List.cons_append, List.nil_append]; rfl⟩

/-- The registers after a `clockWrite` on a bus that performs it. -/
theorem clockWrite_ram_ok (s : Device) (a n : Nat) (buf : List Nat) (hb : s.bus.headD .ok = .ok) :
    (clockWrite s a n buf).1.ram = ramWrite s.ram a (buf.take n) := by
  have h2 : (nextBus (emit s [.println "clockWrite"])).2 = .ok := by
    rw [nextBus_snd]; exact hb
  unfold clockWrite
  simp only [hexPrint_eq, h2]
  simp

/-- The registers after a `clockWrite` that is not acknowledged. -/
theorem clockWrite_ram_fault (s : Device) (a n : Nat) (buf : List Nat) (e br : Nat)
    (d : List Nat) (hb : s.bus.headD .ok = .fault e br d) (he : e ≠ 0) :
    (clockWrite s a n buf).1.ram = s.ram := by
  have h2 : (nextBus (emit s [.println "clockWrite"])).2 = .fault e br d := by
    rw [nextBus_snd]; exact hb
  unfold clockWrite
  simp only [hexPrint_eq, h2]
  simp only [emit_ram, if_neg he]
  split_ifs <;> simp

/-! ## Buttons and background task -/

/-- The table of handlers has three different entries. -/
theorem gButtonHandlersForMode_cases (m : Int) (h : ButtonHandler)
    (hm : gButtonHandlersForMode m = some h) :
    (m = 1 ∧ h = gUnlockHandlers) ∨ (m = 5 ∧ h = gSnakeHandlers) ∨
      (m ≠ 1 ∧ m ≠ 5 ∧ h = gDefaultHandlers) := by
  unfold gButtonHandlersForMode at hm
  split_ifs at hm with h0 h1 h2 h3 h4 h5 <;> simp only [Option.some.injEq] at hm <;>
    subst hm <;> simp_all

/-- What one block of `readDigitalButtons` does: it runs at most one handler
(the default one, or the one of the table when the banner is off) and then
updates the remembered button states. -/
theorem buttonBlock_cases (pressed : Bool) (bit : Nat) (dflt : Device → Device)
    (pick : ButtonHandler → Device → Device) (s : Device) :
    ∃ d v, buttonBlock pressed bit dflt pick s = d.set_gOldButtonStates v ∧
      (d = s ∨ d = dflt s ∨
        ∃ h, pressed = true ∧ s.gFreshModeChange = 0 ∧
          gButtonHandlersForMode s.gBgMode = some h ∧ d = pick h s) := by
  unfold buttonBlock
  by_cases hp : pressed = true
  · rw [if_pos hp]
    by_cases he : s.gOldButtonStates &&& bit = 0
    · rw [if_pos he]
      simp only []
      by_cases hf : s.gFreshModeChange ≠ 0
      · rw [if_pos hf]
        exact ⟨dflt s, _, rfl, Or.inr (Or.inl rfl)⟩
      · rw [if_neg hf]
        cases hh : gButtonHandlersForMode s.gBgMode with
        | none => exact ⟨s, _, rfl, Or.inl rfl⟩
        | some h => exact ⟨pick h s, _, rfl, Or.inr (Or.inr ⟨h, hp, not_not.mp hf, rfl, rfl⟩)⟩
    · rw [if_neg he]
      exact ⟨s, s.gOldButtonStates, rfl, Or.inl rfl⟩
  · rw [if_neg hp]
    exact ⟨s, _, rfl, Or.inl rfl⟩

/-- A property kept by the bookkeeping and by the four handlers a block can
run is kept by the block. -/
theorem buttonBlock_inv (P : Device → Prop) (pressed : Bool) (bit : Nat)
    (dflt : Device → Device) (pick : ButtonHandler → Device → Device) (s : Device)
    (hset : ∀ d v, P d → P (d.set_gOldButtonStates v))
    (hd : ∀ d, P d → P (dflt d))
    (h1 : ∀ d, P d → P (pick gDefaultHandlers d))
    (h2 : ∀ d, P d → P (pick gUnlockHandlers d))
    (h3 : ∀ d, P d → P (pick gSnakeHandlers d))
    (hP : P s) : P (buttonBlock pressed bit dflt pick s) := by
  obtain ⟨d, v, he, hc⟩ := buttonBlock_cases pressed bit dflt pick s
  rw [he]
  apply hset
  rcases hc with rfl | rfl | ⟨h, -, -, hh, rfl⟩
  · exact hP
  · exact hd _ hP
  · rcases gButtonHandlersForMode_cases _ _ hh with ⟨-, rfl⟩ | ⟨-, rfl⟩ | ⟨-, -, rfl⟩
    · exact h2 _ hP
    · exact h3 _ hP
    · exact h1 _ hP

theorem validateCurrentMode_modeOk (s : Device) : ModeOk (validateCurrentMode s) := by
  unfold ModeOk
  rw [validateCurrentMode_gBgMode]
  split_ifs with hl hn hn
  · decide
  · exact ⟨Int.tmod_nonneg _ (by omega), by have := Int.tmod_lt_of_pos s.gBgMode (show (0 : Int) < 3 by decide); omega⟩
  · decide
  · exact ⟨Int.tmod_nonneg _ (by omega), by have := Int.tmod_lt_of_pos s.gBgMode (show (0 : Int) < 6 by decide); omega⟩

/-! ## The display mode stays one of the six modes -/

theorem modeOk_of_eq {s t : Device} (h : t.gBgMode = s.gBgMode) (hs : ModeOk s) : ModeOk t := by
  unfold ModeOk at *
  rw [h]
  exact hs

theorem modeUp_modeOk (s : Device) : ModeOk (modeUp s) := by
  unfold ModeOk
  rw [modeUp_gBgMode]
  split_ifs with hl hn hn
  · decide
  · exact ⟨Int.tmod_nonneg _ (by omega),
      by have := Int.tmod_lt_of_pos (toInt8 (s.gBgMode + 1)) (show (0 : Int) < 3 by decide); omega⟩
  · decide
  · exact ⟨Int.tmod_nonneg _ (by omega),
      by have := Int.tmod_lt_of_pos (toInt8 (s.gBgMode + 1)) (show (0 : Int) < 6 by decide); omega⟩

theorem modeDown_modeOk (s : Device) : ModeOk (modeDown s) := by
  unfold ModeOk
  rw [modeDown_gBgMode]
  split_ifs with hl hn hn
  · decide
  · exact ⟨Int.tmod_nonneg _ (by omega),
      by have := Int.tmod_lt_of_pos (toInt8 (s.gBgMode - 1)) (show (0 : Int) < 3 by decide); omega⟩
  · decide
  · exact ⟨Int.tmod_nonneg _ (by omega),
      by have := Int.tmod_lt_of_pos (toInt8 (s.gBgMode - 1)) (show (0 : Int) < 6 by decide); omega⟩

/-- While locked, `modeUp` lands in the locked subset, whatever the mode was. -/
theorem modeUp_locked_subset (s : Device) (hl : s.gIsLocked = true) :
    0 ≤ (modeUp s).gBgMode ∧ (modeUp s).gBgMode ≤ 2 := by
  rw [modeUp_gBgMode, if_pos hl]
  split_ifs with hn
  · decide
  · exact ⟨Int.tmod_nonneg _ (by omega),
      by have := Int.tmod_lt_of_pos (toInt8 (s.gBgMode + 1)) (show (0 : Int) < 3 by decide); omega⟩

/-- While locked, `modeDown` lands in the locked subset, whatever the mode was. -/
theorem modeDown_locked_subset (s : Device) (hl : s.gIsLocked = true) :
    0 ≤ (modeDown s).gBgMode ∧ (modeDown s).gBgMode ≤ 2 := by
  rw [modeDown_gBgMode, if_pos hl]
  split_ifs with hn
  · decide
  · exact ⟨Int.tmod_nonneg _ (by omega),
      by have := Int.tmod_lt_of_pos (toInt8 (s.gBgMode - 1)) (show (0 : Int) < 3 by decide); omega⟩

theorem doBGTask_gBgMode (s : Device) : (doBGTask s).gBgMode = s.gBgMode := by
  unfold doBGTask
  split_ifs <;> simp

theorem doBGTask_locked (s : Device) (hl : s.gIsLocked = true) :
    (doBGTask s).gIsLocked = true := by
  unfold doBGTask
  split_ifs <;> simp [hl]

theorem commandUnlock_gBgMode (s : Device) (t0 : Nat) (input : List (Nat × Nat)) :
    (commandUnlock s t0 input).1.gBgMode = s.gBgMode := by
  unfold commandUnlock
  simp only []
  split_ifs <;> simp

theorem readDigitalButtons_modeOk (s : Device) (b : Buttons) (hs : ModeOk s) :
    ModeOk (readDigitalButtons s b) := by
  have hset : ∀ d v, ModeOk d → ModeOk (d.set_gOldButtonStates v) := fun d v h => h
  unfold readDigitalButtons
  simp only []
  have h0 : ModeOk (if s.gLedTimer ≠ 0 then
      if (s.set_gLedTimer (s.gLedTimer - 1)).gLedTimer = 0 then
        emit (s.set_gLedTimer (s.gLedTimer - 1)) [.led RED_LED 0, .led GREEN_LED 0]
      else s.set_gLedTimer (s.gLedTimer - 1)
    else s) := by
    split_ifs <;> exact hs
  refine buttonBlock_inv ModeOk _ _ _ _ _ hset (fun d h => h) (fun d h => h)
    (fun d h => modeOk_of_eq (unlockBHandler_gBgMode d) h)
    (fun d h => modeOk_of_eq (snakeBButtonHandler_gBgMode d) h) ?_
  refine buttonBlock_inv ModeOk _ _ _ _ _ hset (fun d h => h) (fun d h => h)
    (fun d h => modeOk_of_eq (unlockAHandler_gBgMode d) h)
    (fun d h => modeOk_of_eq (snakeAButtonHandler_gBgMode d) h) ?_
  refine buttonBlock_inv ModeOk _ _ _ _ _ hset (fun d h => h) (fun d h => h)
    (fun d h => modeOk_of_eq (unlockRightHandler_gBgMode d) h)
    (fun d h => modeOk_of_eq (snakeRightHandler_gBgMode d) h) ?_
  refine buttonBlock_inv ModeOk _ _ _ _ _ hset (fun d h => h) (fun d h => h)
    (fun d h => modeOk_of_eq (unlockLeftHandler_gBgMode d) h)
    (fun d h => modeOk_of_eq (snakeLeftHandler_gBgMode d) h) ?_
  refine buttonBlock_inv ModeOk _ _ _ _ _ hset (fun d _ => modeDown_modeOk _)
    (fun d _ => modeDown_modeOk _)
    (fun d h => modeOk_of_eq (unlockDownHandler_gBgMode d) h)
    (fun d h => modeOk_of_eq (snakeDownHandler_gBgMode d) h) ?_
  exact buttonBlock_inv ModeOk _ _ _ _ _ hset (fun d _ => modeUp_modeOk _)
    (fun d _ => modeUp_modeOk _)
    (fun d h => modeOk_of_eq (unlockUpHandler_gBgMode d) h)
    (fun d h => modeOk_of_eq (snakeUpHandler_gBgMode d) h) h0

theorem step_modeOk (s : Device) (e : Event) (hs : ModeOk s) : ModeOk (step s e) := by
  cases e with
  | buttons b => exact readDigitalButtons_modeOk s b hs
  | bgTask => exact modeOk_of_eq (doBGTask_gBgMode s) hs
  | shell c t0 input =>
    cases c with
    | nxtchl => exact modeOk_of_eq (commandNextChallenge_gBgMode s t0 input) hs
    | lock => exact modeOk_of_eq (commandLock_gBgMode s) hs
    | unlock => exact modeOk_of_eq (commandUnlock_gBgMode s t0 input) hs
    | getflg => exact modeOk_of_eq (commandGetFlags_gBgMode s) hs
    | ver => exact modeOk_of_eq (commandGetVersion_gBgMode s) hs

theorem run_modeOk (es : List Event) (s : Device) (hs : ModeOk s) : ModeOk (run s es) := by
  induction es generalizing s with
  | nil => exact hs
  | cons e es ih => exact ih _ (step_modeOk s e hs)

theorem setup_gBgMode (s : Device) : (setup s).gBgMode = s.gBgMode := by
  unfold setup
  simp only []
  split_ifs <;> simp

theorem setup_gIsLocked (s : Device) : (setup s).gIsLocked = s.gIsLocked := by
  unfold setup
  simp only []
  split_ifs <;> simp

theorem reachable_modeOk (s : Device) (h : Reachable s) : ModeOk s := by
  obtain ⟨ram, bus, rng, junk, es, rfl⟩ := h
  apply run_modeOk
  apply modeOk_of_eq (setup_gBgMode _)
  exact ⟨show (0 : Int) ≤ 0 by decide, show (0 : Int) ≤ 5 by decide⟩

/-! ## The lock state across the buttons -/

theorem validateCurrentMode_gChallengeMode (s : Device) :
    (validateCurrentMode s).gChallengeMode = s.gChallengeMode := by
  unfold validateCurrentMode
  simp only []
  split_ifs <;> simp_all

theorem validateCurrentMode_ram (s : Device) : (validateCurrentMode s).ram = s.ram := by
  unfold validateCurrentMode
  simp only []
  split_ifs <;> simp_all

theorem modeUp_gChallengeMode (s : Device) : (modeUp s).gChallengeMode = s.gChallengeMode := by
  simp [modeUp, validateCurrentMode_gChallengeMode]

theorem modeUp_ram (s : Device) : (modeUp s).ram = s.ram := by
  simp [modeUp, validateCurrentMode_ram]

theorem modeDown_gChallengeMode (s : Device) :
    (modeDown s).gChallengeMode = s.gChallengeMode := by
  simp [modeDown, validateCurrentMode_gChallengeMode]

theorem modeDown_ram (s : Device) : (modeDown s).ram = s.ram := by
  simp [modeDown, validateCurrentMode_ram]

theorem snakeInit_ram (s : Device) : (snakeInit s).ram = s.ram := by
  simp [snakeInit]

theorem kept_of_eq {s d e : Device} (h1 : e.gIsLocked = d.gIsLocked)
    (h2 : e.gChallengeMode = d.gChallengeMode) (h3 : e.ram = d.ram) (h : Kept s d) :
    Kept s e :=
  ⟨h1.trans h.1, h2.trans h.2.1, h3.trans h.2.2⟩

/-- `readDigitalButtons` ends with the block of button B, entered with the
lock, the challenge mode and the registers as they were. -/
theorem readDigitalButtons_lastBlock (s : Device) (b : Buttons) :
    ∃ d, readDigitalButtons s b
        = buttonBlock b.b OLD_BUTTON_STATE_B defaultBButtonHandler (fun h => h.bButtonFunc) d ∧
      Kept s d := by
  have hset : ∀ d v, Kept s d → Kept s (d.set_gOldButtonStates v) := fun d v h => h
  refine ⟨_, rfl, ?_⟩
  have h0 : Kept s (if s.gLedTimer ≠ 0 then
      if (s.set_gLedTimer (s.gLedTimer - 1)).gLedTimer = 0 then
        emit (s.set_gLedTimer (s.gLedTimer - 1)) [.led RED_LED 0, .led GREEN_LED 0]
      else s.set_gLedTimer (s.gLedTimer - 1)
    else s) := by
    split_ifs <;> exact ⟨rfl, rfl, rfl⟩
  refine buttonBlock_inv (Kept s) _ _ _ _ _ hset (fun d h => h) (fun d h => h)
    (fun d h => kept_of_eq (unlockAHandler_gIsLocked d) (unlockAHandler_gChallengeMode d)
      (unlockAHandler_ram d) h)
    (fun d h => kept_of_eq (snakeAButtonHandler_gIsLocked d) (snakeAButtonHandler_gChallengeMode d)
      (snakeAButtonHandler_ram d) h) ?_
  refine buttonBlock_inv (Kept s) _ _ _ _ _ hset (fun d h => h) (fun d h => h)
    (fun d h => kept_of_eq (unlockRightHandler_gIsLocked d) (unlockRightHandler_gChallengeMode d)
      (unlockRightHandler_ram d) h)
    (fun d h => kept_of_eq (snakeRightHandler_gIsLocked d) (snakeRightHandler_gChallengeMode d)
      (snakeRightHandler_ram d) h) ?_
  refine buttonBlock_inv (Kept s) _ _ _ _ _ hset (fun d h => h) (fun d h => h)
    (fun d h => kept_of_eq (unlockLeftHandler_gIsLocked d) (unlockLeftHandler_gChallengeMode d)
      (unlockLeftHandler_ram d) h)
    (fun d h => kept_of_eq (snakeLeftHandler_gIsLocked d) (snakeLeftHandler_gChallengeMode d)
      (snakeLeftHandler_ram d) h) ?_
  have hdown : ∀ d, Kept s d → Kept s (defaultDownHandler d) := fun d h =>
    kept_of_eq (defaultDownHandler_gIsLocked d)
      (by simp [defaultDownHandler, modeDown_gChallengeMode])
      (by simp [defaultDownHandler, modeDown_ram]) h
  have hup : ∀ d, Kept s d → Kept s (defaultUpHandler d) := fun d h =>
    kept_of_eq (defaultUpHandler_gIsLocked d)
      (by simp [defaultUpHandler, modeUp_gChallengeMode])
      (by simp [defaultUpHandler, modeUp_ram]) h
  refine buttonBlock_inv (Kept s) _ _ _ _ _ hset hdown hdown
    (fun d h => kept_of_eq (unlockDownHandler_gIsLocked d) (unlockDownHandler_gChallengeMode d)
      (unlockDownHandler_ram d) h)
    (fun d h => kept_of_eq (snakeDownHandler_gIsLocked d) (snakeDownHandler_gChallengeMode d)
      (snakeDownHandler_ram d) h) ?_
  exact buttonBlock_inv (Kept s) _ _ _ _ _ hset hup hup
    (fun d h => kept_of_eq (unlockUpHandler_gIsLocked d) (unlockUpHandler_gChallengeMode d)
      (unlockUpHandler_ram d) h)
    (fun d h => kept_of_eq (snakeUpHandler_gIsLocked d) (snakeUpHandler_gChallengeMode d)
      (snakeUpHandler_ram d) h) h0

/-- The block of button B unlocks only by `unlockBHandler` with a matching guess. -/
theorem buttonBlockB_unlocks (pressed : Bool) (d : Device) (hl : d.gIsLocked = true)
    (h : (buttonBlock pressed OLD_BUTTON_STATE_B defaultBButtonHandler
      (fun h => h.bButtonFunc) d).gIsLocked = false) :
    pressed = true ∧ d.gFreshModeChange = 0 ∧ d.gBgMode = 1 ∧
      d.gCurrentPinGuess = (readPinFromRam d d.gChallengeMode).2 := by
  obtain ⟨e, v, he, hc⟩ := buttonBlock_cases pressed OLD_BUTTON_STATE_B defaultBButtonHandler
    (fun h => h.bButtonFunc) d
  rw [he, set_gOldButtonStates_gIsLocked] at h
  rcases hc with rfl | rfl | ⟨hh, hp, hf, htab, rfl⟩
  · rw [hl] at h; exact absurd h (by decide)
  · rw [defaultBButtonHandler_gIsLocked, hl] at h; exact absurd h (by decide)
  · rcases gButtonHandlersForMode_cases _ _ htab with ⟨hm, rfl⟩ | ⟨-, rfl⟩ | ⟨-, -, rfl⟩
    · refine ⟨hp, hf, hm, ?_⟩
      have h2 : (unlockBHandler d).gIsLocked = false := h
      rw [unlockBHandler_gIsLocked, hl] at h2
      by_contra hne
      rw [if_neg hne] at h2
      exact absurd h2 (by decide)
    · have h2 : (snakeBButtonHandler d).gIsLocked = false := h
      rw [snakeBButtonHandler_gIsLocked, hl] at h2; exact absurd h2 (by decide)
    · have h2 : (defaultBButtonHandler d).gIsLocked = false := h
      rw [defaultBButtonHandler_gIsLocked, hl] at h2; exact absurd h2 (by decide)

/-! ## What `clockRead` and `getFlag` print and return on a faultless bus -/

theorem ramRead_length (ram : List Nat) (a n : Nat) : (ramRead ram a n).length = n := by
  simp [ramRead]

theorem cstr_append_nul (l r : List Nat) : cstr (l ++ 0 :: r) = cstr l := by
  induction l with
  | nil => simp [cstr]
  | cons b l ih =>
    unfold cstr at *
    by_cases hb : b = 0
    · simp [hb]
    · simp [List.takeWhile_cons, hb, ih]

theorem clockReadLoop0_log (br fuel : Nat) (data : List Nat) (i : Nat) (s : Device)
    (buf : List Nat) (h : fuel ≤ data.length) :
    (clockReadLoop0 br fuel data i s buf).1.log = s.log ++ hexDump (data.take fuel) ∧
      (clockReadLoop0 br fuel data i s buf).2.2 = none := by
  induction fuel generalizing data i s buf with
  | zero => simp [clockReadLoop0, hexDump]
  | succ n ih =>
    cases data with
    | nil => simp at h
    | cons d ds =>
      have hle : n ≤ ds.length := by simpa using h
      simp only [clockReadLoop0, List.take_succ_cons, hexDump]
      obtain ⟨h1, h2⟩ := ih ds (i + 1) (hexPrint s d) (buf.set i d) hle
      rw [h1, h2, hexPrint_eq, emit_log, List.append_assoc]
      exact ⟨rfl, rfl⟩

/-- The serial output of `clockRead` on a bus that performs the read. -/
theorem clockRead_log_ok (s : Device) (a n : Nat) (buf : List Nat)
    (hb : s.bus.headD .ok = .ok) :
    (clockRead s a n buf).1.log = s.log ++ readTraffic s.ram s.gChallengeMode a n := by
  have h2 : (nextBus s).2 = .ok := by rw [nextBus_snd]; exact hb
  unfold clockRead readTraffic
  simp only [h2, clockReadErr, emit_gChallengeMode, nextBus_gChallengeMode, nextBus_ram]
  split_ifs with hm
  · obtain ⟨h3, h4⟩ := clockReadLoop0_log n n (ramRead s.ram a n) 0
      (emit (emit (nextBus s).1 []) [.print "Read ", .printNum a, .print ": "]) buf
      (by rw [ramRead_length])
    generalize clockReadLoop0 n n (ramRead s.ram a n) 0
      (emit (emit (nextBus s).1 []) [.print "Read ", .printNum a, .print ": "]) buf = r at h3 h4
    obtain ⟨d, bf, o⟩ := r
    simp only at h4
    subst h4
    have ht : List.take n (ramRead s.ram a n) = ramRead s.ram a n := by
      rw [List.take_of_length_le]; rw [ramRead_length]
    have h5 : d.log = s.log ++ ([.print "Read ", .printNum a, .print ": "] ++
        hexDump (ramRead s.ram a n)) := by
      have h6 : d.log = _ := h3
      rw [h6, ht]
      simp only [emit_log, nextBus_log, List.append_nil, List.append_assoc]
    simp only [emit_log, h5, List.append_assoc]
  · split <;> simp

/-- The flag field `getFlag` leaves in a zeroed buffer on a bus that performs
the read. -/
theorem busRead_flag (ram : List Nat) (a : Nat) (rest : List Nat) :
    busRead .ok ram a 12 (List.replicate 13 0 ++ rest) = (12, ramRead ram a 12 ++ 0 :: rest) := by
  simp [busRead, ramRead, List.range, List.range.loop, clockReadLoop, List.replicate]

@[simp]
theorem uninit_log (s : Device) (n : Nat) : (uninit s n).1.log = s.log := by
  unfold uninit; split <;> rfl

@[simp]
theorem uninit_bus (s : Device) (n : Nat) : (uninit s n).1.bus = s.bus := by
  unfold uninit; split <;> rfl

/-- What `getFlag` returns for a slot of the registers on a bus that performs
the read: the 12-byte field, a NUL and the untouched rest of the buffer. -/
theorem getFlag_ok (s : Device) (n : Nat) (buf : List Nat) (hn : n ≤ 2)
    (hb : s.bus.headD .ok = .ok) :
    (getFlag s n buf).2 = flagField s.ram n ++ 0 :: buf.drop 13 ∧
    (getFlag s n buf).1.log = s.log ++
      readTraffic s.ram s.gChallengeMode (FLAG_0_ADDR + (FLAG_LEN + PIN_CODE_LEN) * n) FLAG_LEN := by
  have h3 : ¬ n ≥ 3 := by omega
  have hmod : n % 3 = n := Nat.mod_eq_of_lt (by omega)
  unfold getFlag
  rw [if_neg h3]
  simp only [hmod]
  constructor
  · have := clockRead_snd s (FLAG_0_ADDR + (FLAG_LEN + PIN_CODE_LEN) * n) FLAG_LEN
      (overwrite buf (List.replicate (FLAG_LEN + 1) 0))
    rw [hb] at this
    have h4 : overwrite buf (List.replicate (FLAG_LEN + 1) 0)
        = List.replicate 13 0 ++ buf.drop 13 := by
      simp [overwrite, FLAG_LEN]
    rw [h4, show FLAG_LEN = 12 from rfl, busRead_flag] at this
    have h5 := congrArg Prod.snd this
    simp only [show FLAG_LEN = 12 from rfl, h4] at h5 ⊢
    exact h5
  · exact clockRead_log_ok s _ _ _ hb

/-- The compiled-in flag is what `getFlag` returns for slot 3 and above. -/
theorem getFlag_hard (s : Device) (n : Nat) (buf : List Nat) (hn : n ≥ 3) :
    getFlag s n buf = (s, flag_4 ++ 0 :: buf.drop 9) := by
  unfold getFlag
  rw [if_pos hn]
  simp [overwrite, flag_4, bytes]

/-- The serial output of `printFlagToSerial` for a provisioned flag. -/
theorem printFlagToSerial_log (s : Device) (n : Nat) (hn : n ≤ 3)
    (hb : s.bus.headD .ok = .ok) (hp : n = 3 ∨ 0 ∈ flagField s.ram n) :
    (printFlagToSerial s n).log = s.log ++
      (if n = 3 then [] else
        readTraffic s.ram s.gChallengeMode (FLAG_0_ADDR + (FLAG_LEN + PIN_CODE_LEN) * n) FLAG_LEN)
      ++ [.print "Flag ", .printNum n, .print ": wildcat\x7b", .printStr (flagText s.ram n),
          .println "\x7d"] := by
  unfold printFlagToSerial
  simp only []
  by_cases h3 : n = 3
  · subst h3
    rw [getFlag_hard _ _ _ (by decide)]
    simp only [if_true]
    have hany : (List.take FLAG_LEN (flag_4 ++ 0 :: List.drop 9 (uninit s (FLAG_LEN + 1)).2)).any
        (fun b => b == 0) = true := by
      simp [flag_4, bytes, FLAG_LEN]
    rw [if_pos hany]
    have hc : cstr (flag_4 ++ 0 :: List.drop 9 (uninit s (FLAG_LEN + 1)).2) = flag_4 := by
      rw [cstr_append_nul]; decide
    simp [hc, flagText]
  · have hn2 : n ≤ 2 := by omega
    have hz : 0 ∈ flagField s.ram n := by
      rcases hp with h | h
      · exact absurd h h3
      · exact h
    obtain ⟨hbuf, hlog⟩ := getFlag_ok (uninit s (FLAG_LEN + 1)).1 n (uninit s (FLAG_LEN + 1)).2 hn2
      (by rw [uninit_bus]; exact hb)
    rw [hbuf]
    have hlen : (flagField s.ram n).length = 12 := by
      unfold flagField; rw [ramRead_length]; rfl
    have hany : (List.take FLAG_LEN (flagField (uninit s (FLAG_LEN + 1)).1.ram n ++
        0 :: List.drop 13 (uninit s (FLAG_LEN + 1)).2)).any (fun b => b == 0) = true := by
      rw [uninit_ram, show FLAG_LEN = 12 from rfl, ← hlen, List.take_left]
      simp only [List.any_eq_true, beq_iff_eq]
      exact ⟨0, hz, rfl⟩
    rw [if_pos hany, emit_log, hlog, cstr_append_nul, if_neg h3]
    simp only [uninit_log, uninit_ram, uninit_gChallengeMode, List.append_assoc]
    have : flagText s.ram n = cstr (flagField s.ram n) := by
      unfold flagText; rw [if_neg (by omega)]
    rw [this]

/-! ## Time spent in `delay` -/

theorem delayOf_append (a b : List Effect) : delayOf (a ++ b) = delayOf a + delayOf b := by
  induction a with
  | nil => simp [delayOf]
  | cons e a ih =>
    cases e <;> simp [delayOf, ih, Nat.add_assoc]

theorem delayOf_emit (s : Device) (es : List Effect) :
    delayOf (emit s es).log = delayOf s.log + delayOf es := by
  rw [emit_log, delayOf_append]

theorem delayOf_hexPrint (s : Device) (v : Nat) :
    delayOf (hexPrint s v).log = delayOf s.log := by
  rw [hexPrint_eq, delayOf_emit]; rfl

theorem delayOf_writeString (s : Device) (msg : List Nat) (x y : Int) :
    delayOf (writeString s msg x y).log = delayOf s.log := by
  unfold writeString; rw [delayOf_emit]; rfl

theorem delayOf_clockReadLoop0 (br fuel : Nat) (data : List Nat) (i : Nat) (s : Device)
    (buf : List Nat) : delayOf (clockReadLoop0 br fuel data i s buf).1.log = delayOf s.log := by
  induction fuel generalizing data i s buf with
  | zero => rfl
  | succ n ih =>
    cases data with
    | nil => simp only [clockReadLoop0]; rw [delayOf_emit]; rfl
    | cons d ds => simp only [clockReadLoop0]; rw [ih, delayOf_hexPrint]

theorem delayOf_clockReadErr (e : Nat) : delayOf (clockReadErr e) = 0 := by
  unfold clockReadErr
  split <;> rfl

theorem delayOf_clockRead (s : Device) (a n : Nat) (buf : List Nat) :
    delayOf (clockRead s a n buf).1.log = delayOf s.log := by
  unfold clockRead
  simp only []
  split_ifs
  · split
    · rename_i h
      have h2 := congrArg (fun x : Device × List Nat × Option Nat => delayOf x.1.log) h
      simp only [delayOf_clockReadLoop0] at h2
      rw [← h2, delayOf_emit, delayOf_emit, delayOf_clockReadErr, nextBus_log]
      rfl
    · rename_i h
      have h2 := congrArg (fun x : Device × List Nat × Option Nat => delayOf x.1.log) h
      simp only [delayOf_clockReadLoop0] at h2
      rw [delayOf_emit, ← h2, delayOf_emit, delayOf_emit, delayOf_clockReadErr, nextBus_log]
      rfl
  · split <;> rw [delayOf_emit, delayOf_clockReadErr, nextBus_log] <;> rfl

theorem delayOf_readPinFromRam (s : Device) (n : Nat) :
    delayOf (readPinFromRam s n).1.log = delayOf s.log := by
  unfold readPinFromRam
  simp only []
  split_ifs
  · rw [delayOf_emit, delayOf_clockRead]; rfl
  · rw [delayOf_clockRead]

theorem delayOf_wrongCountdown (n : Nat) (s : Device) :
    delayOf (wrongCountdown n s).log = delayOf s.log + 1000 * (n + 1) := by
  induction n generalizing s with
  | zero =>
    simp only [wrongCountdown]
    rw [delayOf_emit, delayOf_writeString, delayOf_writeString, delayOf_emit]
    rfl
  | succ n ih =>
    simp only [wrongCountdown]
    rw [ih, delayOf_emit, delayOf_writeString, delayOf_writeString, delayOf_emit]
    simp only [delayOf]
    omega

theorem delayOf_beyond (s : Device) : delayOf (beyond s).1.log = delayOf s.log := by
  unfold beyond; split <;> rfl

theorem delayOf_readStringLoop (len deadline : Nat) (input : List (Nat × Nat))
    (buf : List Nat) (pos : Nat) (out : List Effect) :
    delayOf (readStringLoop len deadline input buf pos out).out = delayOf out := by
  induction input generalizing buf pos out with
  | nil => simp only [readStringLoop]; rw [delayOf_append]; rfl
  | cons tc rest ih =>
    obtain ⟨t, c⟩ := tc
    simp only [readStringLoop]
    split_ifs
    · rw [delayOf_append]; rfl
    · rw [delayOf_append]; rfl
    · rw [ih, delayOf_append]; rfl
    · rw [delayOf_append]; rfl

theorem delayOf_readString (len tv t0 : Nat) (input : List (Nat × Nat)) :
    delayOf (readString len tv t0 input).out = 0 := by
  unfold readString; rw [delayOf_readStringLoop]; rfl

/-- The time `unlockBHandler` spends in `delay`. -/
theorem delayOf_unlockBHandler (s : Device) :
    delayOf (unlockBHandler s).log = delayOf s.log +
      if s.gCurrentPinGuess = (readPinFromRam s s.gChallengeMode).2 then 0
      else if s.gChallengeMode = 3 then 21000 else 0 := by
  unfold unlockBHandler
  simp only [readPinFromRam_gCurrentPinGuess]
  split_ifs with h1 h2
  · show delayOf (emit _ _).log = _
    rw [delayOf_emit, delayOf_readPinFromRam]; rfl
  · rw [delayOf_wrongCountdown]
    show delayOf (emit _ _).log + _ = _
    rw [delayOf_emit, delayOf_readPinFromRam]; rfl
  · rename_i h3
    exact absurd ((readPinFromRam_gChallengeMode s s.gChallengeMode).symm.trans h2) h3
  · rename_i h3
    exact absurd ((readPinFromRam_gChallengeMode s s.gChallengeMode).trans h3) h2
  · show delayOf (emit _ _).log = _
    rw [delayOf_emit, delayOf_readPinFromRam]; rfl

/-- The time `commandUnlock` spends in `delay`. -/
theorem delayOf_commandUnlock (s : Device) (t0 : Nat) (input : List (Nat × Nat)) :
    delayOf (commandUnlock s t0 input).1.log = delayOf s.log +
      if (readString 6 30 t0 input).ret = -1 then 0
      else if parsePin (readString 6 30 t0 input).buf (beyond s).2
          = (readPinFromRam s s.gChallengeMode).2 then 0
      else if s.gChallengeMode ≥ 2 then 5000 else 0 := by
  have hp : ∀ es1 es2, (readPinFromRam (beyond (emit (emit s es1) es2)).1
      (beyond (emit (emit s es1) es2)).1.gChallengeMode).2 =
      (readPinFromRam s s.gChallengeMode).2 := by
    intro es1 es2
    simp only [readPinFromRam_snd, beyond_bus, beyond_ram, beyond_gChallengeMode, emit_bus,
      emit_ram, emit_gChallengeMode]
  have hm : ∀ es1 es2 es3 es4, (emit (emit (readPinFromRam (beyond (emit (emit s es1) es2)).1
      (beyond (emit (emit s es1) es2)).1.gChallengeMode).1 es3) es4).gChallengeMode =
      s.gChallengeMode := by
    intro es1 es2 es3 es4
    simp only [readPinFromRam_gChallengeMode, beyond_gChallengeMode, emit_gChallengeMode]
  have hd : ∀ es1 es2, delayOf (readPinFromRam (beyond (emit (emit s es1) es2)).1
      (beyond (emit (emit s es1) es2)).1.gChallengeMode).1.log =
      delayOf s.log + delayOf es1 + delayOf es2 := by
    intro es1 es2
    rw [delayOf_readPinFromRam, delayOf_beyond, delayOf_emit, delayOf_emit]
  unfold commandUnlock
  simp only [PIN_CODE_DIGITS, beyond_snd_emit, hp, hm]
  split_ifs with h1 h2 h3
  · show delayOf (emit _ _).log = _
    rw [delayOf_emit, delayOf_emit, delayOf_emit, delayOf_readString]; rfl
  · show delayOf (emit (emit _ _) _).log = _
    rw [delayOf_emit, delayOf_emit, hd, delayOf_readString]; rfl
  · show delayOf (emit (emit (emit _ _) _) _).log = _
    rw [delayOf_emit, delayOf_emit, delayOf_emit, hd, delayOf_readString]; rfl
  · show delayOf (emit (emit _ _) _).log = _
    rw [delayOf_emit, delayOf_emit, hd, delayOf_readString]; rfl

/-! ## Lines read by `readString` -/

theorem set_append_replicate (pre : List Nat) (n c : Nat) (hn : 0 < n) :
    (pre ++ List.replicate n 0).set pre.length c = (pre ++ [c]) ++ List.replicate (n - 1) 0 := by
  obtain ⟨m, rfl⟩ : ∃ m, n = m + 1 := ⟨n - 1, by omega⟩
  simp [List.replicate_succ, List.set_append_right]

/-- A run of bytes that arrive in time, hold no line end and do not fill the
buffer is stored and echoed, and the loop goes on behind it. -/
theorem readStringLoop_run (len D t : Nat) (txt : List Nat) (rest : List (Nat × Nat))
    (pre : List Nat) (n : Nat) (out : List Effect)
    (ht : t < D) (hc : ∀ c ∈ txt, c ≠ 10 ∧ c ≠ 13) (h256 : len ≤ 256)
    (hlen : pre.length + txt.length < len) (hn : txt.length ≤ n) :
    readStringLoop len D (typedBytes t txt ++ rest) (pre ++ List.replicate n 0) pre.length out
      = readStringLoop len D rest ((pre ++ txt) ++ List.replicate (n - txt.length) 0)
          (pre.length + txt.length) (out ++ txt.map .printChar) := by
  induction txt generalizing pre n out with
  | nil => simp [typedBytes]
  | cons c cs ih =>
    have hc1 := hc c (List.mem_cons_self _ _)
    simp only [List.length_cons] at hlen hn
    have hmod : (pre.length + 1) % 256 = pre.length + 1 := Nat.mod_eq_of_lt (by omega)
    have h1 : typedBytes t (c :: cs) ++ rest = (t, c) :: (typedBytes t cs ++ rest) := rfl
    rw [h1, readStringLoop_more _ _ _ _ _ _ _ _ ht (by omega) (by omega), hmod,
      set_append_replicate _ _ _ (by omega)]
    have h2 := ih (pre ++ [c]) (n - 1) (out ++ [.printChar c])
      (fun x hx => hc x (List.mem_cons_of_mem _ hx))
      (by simp only [List.length_append, List.length_singleton]; omega) (by omega)
    simp only [List.length_append, List.length_singleton] at h2
    have e1 : n - 1 - cs.length = n - (cs.length + 1) := by omega
    have e2 : pre.length + 1 + cs.length = pre.length + (cs.length + 1) := by omega
    rw [h2, e1, e2]
    simp

/-- A line of fewer than `len` bytes, typed in time and ended by a line feed:
`readString` returns its length and leaves it in the buffer, NUL padded. -/
theorem readString_line (len tv t0 t : Nat) (txt : List Nat) (rest : List (Nat × Nat))
    (ht : t < readStringDeadline t0 tv) (hc : ∀ c ∈ txt, c ≠ 10 ∧ c ≠ 13) (h256 : len ≤ 256)
    (hlen : txt.length < len) :
    readString len tv t0 (typedBytes t (txt ++ [10]) ++ rest)
      = ⟨txt.length, txt ++ List.replicate (len - txt.length) 0, rest,
          (txt ++ [10]).map .printChar⟩ := by
  have h1 : typedBytes t (txt ++ [10]) ++ rest = typedBytes t txt ++ ((t, 10) :: rest) := by
    simp [typedBytes]
  have h2 := readStringLoop_run len (readStringDeadline t0 tv) t txt ((t, 10) :: rest) [] len []
    ht hc h256 (by simpa using hlen) (by omega)
  simp only [List.nil_append, List.length_nil, Nat.zero_add] at h2
  unfold readString
  rw [h1, h2, readStringLoop_eol _ _ _ _ _ _ _ _ ht (Or.inl rfl)]
  have h3 := set_append_replicate txt (len - txt.length) 10 (by omega)
  have h4 := set_append_replicate txt (len - txt.length - 1 + 1) 0 (by omega)
  rw [h3]
  have h5 : (txt ++ [10] ++ List.replicate (len - txt.length - 1) 0).set txt.length 0
      = txt ++ List.replicate (len - txt.length) 0 := by
    have : len - txt.length = (len - txt.length - 1) + 1 := by omega
    rw [this, List.replicate_succ]
    simp [List.set_append_right]
  rw [h5]
  simp

/-- A text of at least `len` bytes typed in time, with no line end among its
first `len` bytes: `readString` returns `len - 1` and the buffer holds the
first `len` bytes, with no NUL behind them. -/
theorem readString_long (len tv t0 t : Nat) (txt : List Nat) (rest : List (Nat × Nat))
    (ht : t < readStringDeadline t0 tv) (hc : ∀ c ∈ txt.take len, c ≠ 10 ∧ c ≠ 13)
    (h256 : len < 256) (h0 : 0 < len) (hlen : len ≤ txt.length) :
    readString len tv t0 (typedBytes t txt ++ rest)
      = ⟨(len : Int) - 1, txt.take len, typedBytes t (txt.drop len) ++ rest,
          (txt.take len).map .printChar⟩ := by
  obtain ⟨m, rfl⟩ : ∃ m, len = m + 1 := ⟨len - 1, by omega⟩
  have hsplit : txt = txt.take m ++ (txt.getD m 0 :: txt.drop (m + 1)) := by
    have hm : m < txt.length := by omega
    rw [List.getD_eq_getElem _ _ hm, ← List.drop_eq_getElem_cons hm, List.take_append_drop]
  have htake : txt.take (m + 1) = txt.take m ++ [txt.getD m 0] := by
    have hm : m < txt.length := by omega
    rw [List.getD_eq_getElem _ _ hm, List.take_succ, List.getElem?_eq_getElem hm]
    rfl
  have h1 : typedBytes t txt ++ rest
      = typedBytes t (txt.take m) ++ ((t, txt.getD m 0) ::
          (typedBytes t (txt.drop (m + 1)) ++ rest)) := by
    conv_lhs => rw [hsplit]
    simp [typedBytes]
  have hl : (txt.take m).length = m := by simp; omega
  have hcm : ∀ c ∈ txt.take m, c ≠ 10 ∧ c ≠ 13 := by
    intro c hcm
    apply hc
    rw [htake]
    exact List.mem_append_left _ hcm
  have hcl : ¬ (txt.getD m 0 = 10 ∨ txt.getD m 0 = 13) := by
    have := hc (txt.getD m 0) (by rw [htake]; simp)
    omega
  have h2 := readStringLoop_run (m + 1) (readStringDeadline t0 tv) t (txt.take m)
    ((t, txt.getD m 0) :: (typedBytes t (txt.drop (m + 1)) ++ rest)) [] (m + 1) []
    ht hcm (by omega) (by simp) (by omega)
  simp only [List.nil_append, List.length_nil, Nat.zero_add, hl] at h2
  unfold readString
  rw [h1, h2, readStringLoop_full _ _ _ _ _ _ _ _ ht hcl (Nat.mod_eq_of_lt (by omega))]
  have h3 : (txt.take m ++ List.replicate (m + 1 - m) 0).set m (txt.getD m 0)
      = txt.take m ++ [txt.getD m 0] := by
    have h4 := set_append_replicate (txt.take m) 1 (txt.getD m 0) (by omega)
    rw [hl] at h4
    have : m + 1 - m = 1 := by omega
    rw [this, h4]; simp
  rw [h3, htake, Nat.mod_eq_of_lt (by omega)]
  simp

/-! ## What `strtoul` makes of a line -/

theorem strtoul_append_nul (l r : List Nat) : strtoul (l ++ 0 :: r) = strtoul l := by
  unfold strtoul; rw [cstr_append_nul]

theorem parsePin_line (txt behind : List Nat) (hlen : txt.length ≤ 5) :
    parsePin (txt ++ List.replicate (6 - txt.length) 0) behind = strtoul txt := by
  obtain ⟨k, hk⟩ : ∃ k, 6 - txt.length = k + 1 := ⟨5 - txt.length, by omega⟩
  unfold parsePin
  rw [hk, List.replicate_succ, List.append_assoc, List.cons_append, strtoul_append_nul]

theorem strtoul_nil : strtoul [] = 0 := by decide

/-- A string whose first byte is neither white space, a sign nor a digit has
the value 0. -/
theorem strtoul_no_number (c : Nat) (cs : List Nat) (hs : isspace c = false) (hp : c ≠ 43)
    (hm : c ≠ 45) (hd : ¬ (48 ≤ c ∧ c ≤ 57)) : strtoul (c :: cs) = 0 := by
  by_cases h0 : c = 0
  · subst h0
    have : cstr (0 :: cs) = [] := by simp [cstr]
    unfold strtoul
    rw [this]
    decide
  · have h1 : cstr (c :: cs) = c :: cstr cs := by
      simp [cstr, List.takeWhile_cons, h0]
    unfold strtoul
    rw [h1]
    simp [List.dropWhile_cons, hs, hp, hm, strtoulLoop, hd]

/-! ## Button PIN entry -/

theorem curPosVal_eq (s : Device) (hc : s.gCurrentPinGuessPos ≤ 4) :
    curPosVal s = 10 ^ (4 - s.gCurrentPinGuessPos) := by
  unfold curPosVal
  generalize s.gCurrentPinGuessPos = c at hc
  interval_cases c <;> rfl

theorem unlockUpHandler_guess (s : Device) :
    (unlockUpHandler s).gCurrentPinGuess = (s.gCurrentPinGuess + curPosVal s) % 65536 := rfl

theorem unlockDownHandler_guess (s : Device) :
    (unlockDownHandler s).gCurrentPinGuess
      = (s.gCurrentPinGuess + 65536 - curPosVal s) % 65536 := rfl

theorem unlockUpHandler_pos (s : Device) :
    (unlockUpHandler s).gCurrentPinGuessPos = s.gCurrentPinGuessPos := rfl

theorem unlockDownHandler_pos (s : Device) :
    (unlockDownHandler s).gCurrentPinGuessPos = s.gCurrentPinGuessPos := rfl

/-- What `displayUnlock` draws: the cursor marks at column `16 * pos` and the
five digits of the guess, the digit of place value `10 ^ i` at column
`64 - 16 * i`. -/
theorem displayUnlock_log (s : Device) :
    (displayUnlock s).log = s.log ++
      [.oledClear, .oledText (bytes "v") ((s.gCurrentPinGuessPos : Int) * 16) 0,
       .oledText (bytes "^") ((s.gCurrentPinGuessPos : Int) * 16) 40,
       .oledText [48 + digitAt s.gCurrentPinGuess 0] 64 20,
       .oledText [48 + digitAt s.gCurrentPinGuess 1] 48 20,
       .oledText [48 + digitAt s.gCurrentPinGuess 2] 32 20,
       .oledText [48 + digitAt s.gCurrentPinGuess 3] 16 20,
       .oledText [48 + digitAt s.gCurrentPinGuess 4] 0 20, .oledShow] := by
  have hd : ∀ x : Nat, (48 + x % 10 % 256) % 256 = 48 + x % 10 := by intro x; omega
  have hc : ∀ x : Nat, cstr [48 + x % 10, 0] = [48 + x % 10] := by
    intro x
    have : 48 + x % 10 ≠ 0 := by omega
    simp [cstr, List.takeWhile_cons, this]
  have h2 : s.gCurrentPinGuess / 10 / 10 = s.gCurrentPinGuess / 100 := by omega
  have h3 : s.gCurrentPinGuess / 100 / 10 = s.gCurrentPinGuess / 1000 := by omega
  have h4 : s.gCurrentPinGuess / 1000 / 10 = s.gCurrentPinGuess / 10000 := by omega
  have hv : cstr (bytes "v") = bytes "v" := by decide
  have hu : cstr (bytes "^") = bytes "^" := by decide
  simp only [displayUnlock, displayUnlockLoop, writeString, emit_log, hd, hc, h2, h3, h4, hv, hu,
    digitAt, List.append_assoc, List.cons_append, List.nil_append, pow_zero, Nat.div_one,
    pow_one]
  norm_num

theorem sub_place_mod (r p : Nat) (h : r + p < 65536) : (r + p + 65536 - p) % 65536 = r := by
  have : r + p + 65536 - p = r + 65536 := by omega
  rw [this, Nat.add_mod_right]
  exact Nat.mod_eq_of_lt (by omega)

/-! ## The registers after a write -/

theorem ramWrite_length (ram : List Nat) (a : Nat) (bs : List Nat) :
    (ramWrite ram a bs).length = ram.length := by
  induction bs generalizing ram a with
  | nil => rfl
  | cons b bs ih => simp only [ramWrite]; rw [ih, List.length_set]

theorem getD_set (ram : List Nat) (a b j : Nat) (ha : a < ram.length) :
    (ram.set a b).getD j 0 = if j = a then b else ram.getD j 0 := by
  simp only [List.getD_eq_getElem?_getD, List.getElem?_set]
  by_cases h : a = j
  · subst h; simp [ha]
  · have h2 : ¬ j = a := fun e => h e.symm
    simp [h, h2]

/-- Register `j` after a write of `bs` at `a` that stays below 0x40. -/
theorem ramWrite_getD (ram : List Nat) (a : Nat) (bs : List Nat) (j : Nat)
    (hram : ram.length = 64) (ha : a + bs.length ≤ 64) :
    (ramWrite ram a bs).getD j 0
      = if a ≤ j ∧ j < a + bs.length then bs.getD (j - a) 0 else ram.getD j 0 := by
  induction bs generalizing ram a with
  | nil =>
    have h : ¬ (a ≤ j ∧ j < a + ([] : List Nat).length) := by simp only [List.length_nil]; omega
    rw [if_neg h]; rfl
  | cons b bs ih =>
    simp only [List.length_cons] at ha
    have ha64 : a % 64 = a := Nat.mod_eq_of_lt (by omega)
    simp only [ramWrite, ha64]
    rw [ih (ram.set a b) (a + 1) (by rw [List.length_set]; exact hram) (by omega),
      getD_set _ _ _ _ (by omega)]
    by_cases h1 : j = a
    · subst h1
      simp
    · by_cases h2 : a + 1 ≤ j ∧ j < a + 1 + bs.length
      · have h3 : a ≤ j ∧ j < a + (b :: bs).length := by simp only [List.length_cons]; omega
        have h4 : j - a = (j - (a + 1)) + 1 := by omega
        rw [if_pos h2, if_pos h3, h4, List.getD_cons_succ]
      · have h3 : ¬ (a ≤ j ∧ j < a + (b :: bs).length) := by
          simp only [List.length_cons]; omega
        rw [if_neg h2, if_neg h3, if_neg h1]

theorem ramRead_eq_of_getD (ram1 ram2 : List Nat) (a n : Nat) (ha : a + n ≤ 64)
    (h : ∀ j, a ≤ j → j < a + n → ram1.getD j 0 = ram2.getD j 0) :
    ramRead ram1 a n = ramRead ram2 a n := by
  unfold ramRead
  apply List.map_congr_left
  intro i hi
  have hi2 : i < n := List.mem_range.mp hi
  rw [Nat.mod_eq_of_lt (by omega)]
  exact h _ (by omega) (by omega)

/-- Reading back what was written. -/
theorem ramRead_ramWrite_same (ram : List Nat) (a : Nat) (bs : List Nat)
    (hram : ram.length = 64) (ha : a + bs.length ≤ 64) :
    ramRead (ramWrite ram a bs) a bs.length = bs := by
  apply List.ext_getElem
  · rw [ramRead_length]
  · intro i h1 h2
    simp only [ramRead, List.getElem_map, List.getElem_range]
    rw [Nat.mod_eq_of_lt (by omega), ramWrite_getD _ _ _ _ hram ha, if_pos (by omega)]
    have : a + i - a = i := by omega
    rw [this, List.getD_eq_getElem _ _ h2]

/-- A read of registers the write did not touch. -/
theorem ramRead_ramWrite_apart (ram : List Nat) (a : Nat) (bs : List Nat) (a2 n : Nat)
    (hram : ram.length = 64) (ha : a + bs.length ≤ 64) (ha2 : a2 + n ≤ 64)
    (hd : a2 + n ≤ a ∨ a + bs.length ≤ a2) :
    ramRead (ramWrite ram a bs) a2 n = ramRead ram a2 n := by
  apply ramRead_eq_of_getD _ _ _ _ ha2
  intro j h1 h2
  rw [ramWrite_getD _ _ _ _ hram ha, if_neg (by omega)]

theorem nextBus_bus (s : Device) : (nextBus s).1.bus = s.bus.tail := by
  unfold nextBus; split <;> simp_all

theorem clockWrite_bus (s : Device) (a n : Nat) (buf : List Nat) :
    (clockWrite s a n buf).1.bus = s.bus.tail := by
  have h := nextBus_bus (emit s [.println "clockWrite"])
  rw [emit_bus] at h
  unfold clockWrite
  simp only [hexPrint_eq]
  split_ifs <;> simp [h]

theorem faultless_head (bus : List Bus) (h : Faultless bus) : bus.headD .ok = .ok := by
  cases bus with
  | nil => rfl
  | cons b bs => exact h b (List.mem_cons_self _ _)

theorem faultless_tail (bus : List Bus) (h : Faultless bus) : Faultless bus.tail := by
  intro b hb
  exact h b (List.mem_of_mem_tail hb)

theorem le32_bytes32 (v : Nat) (hv : v < 4294967296) : le32 (bytes32 v) = v := by
  simp only [le32, bytes32, List.getD_cons_zero, List.getD_cons_succ]
  omega

theorem writePinToRam_bus (s : Device) (n v : Nat) :
    (writePinToRam s n v).bus = s.bus.tail := by
  unfold writePinToRam
  simp only []
  split_ifs <;> rw [emit_bus, clockWrite_bus]

theorem writePinToRam_ram (s : Device) (n v : Nat) (hb : s.bus.headD .ok = .ok) :
    (writePinToRam s n v).ram = ramWrite s.ram (PIN_CODE_0_ADDR + 16 * (n % 4)) (bytes32 v) := by
  unfold writePinToRam
  simp only []
  split_ifs <;> rw [emit_ram, clockWrite_ram_ok _ _ _ _ hb] <;> rfl

theorem pinRead_mod (b : Bus) (ram : List Nat) (n : Nat) :
    pinRead b ram n = pinRead b ram (n % 4) := by
  unfold pinRead
  rw [Nat.mod_mod]

/-- The serial output of `printFlagToSerial` for a flag field without a
terminator. -/
theorem printFlagToSerial_log_bad (s : Device) (n : Nat) (hn : n ≤ 2)
    (hb : s.bus.headD .ok = .ok) (hp : 0 ∉ flagField s.ram n) :
    (printFlagToSerial s n).log = s.log ++
      readTraffic s.ram s.gChallengeMode (FLAG_0_ADDR + (FLAG_LEN + PIN_CODE_LEN) * n) FLAG_LEN
      ++ [.println "Error. Flag data lacks null terminator"] := by
  unfold printFlagToSerial
  simp only []
  obtain ⟨hbuf, hlog⟩ := getFlag_ok (uninit s (FLAG_LEN + 1)).1 n (uninit s (FLAG_LEN + 1)).2 hn
    (by rw [uninit_bus]; exact hb)
  rw [hbuf]
  have hlen : (flagField s.ram n).length = 12 := by
    unfold flagField; rw [ramRead_length]; rfl
  have hany : ¬ (List.take FLAG_LEN (flagField (uninit s (FLAG_LEN + 1)).1.ram n ++
      0 :: List.drop 13 (uninit s (FLAG_LEN + 1)).2)).any (fun b => b == 0) = true := by
    rw [uninit_ram, show FLAG_LEN = 12 from rfl, ← hlen, List.take_left]
    simp only [List.any_eq_true, beq_iff_eq, not_exists, not_and]
    intro x hx h0
    exact hp (h0 ▸ hx)
  rw [if_neg hany, emit_log, hlog]
  simp only [uninit_log, uninit_ram, uninit_gChallengeMode, List.append_assoc]

/-! ## Writing a flag -/

theorem fitFlag_length (txt : List Nat) : (fitFlag txt).length = 12 := by
  unfold fitFlag
  split_ifs with h
  · simp only [FLAG_LEN] at h ⊢
    rw [List.length_take]; omega
  · simp only [FLAG_LEN] at h ⊢
    rw [List.length_append, List.length_replicate]; omega

/-- The registers and the bus after `writeFlag` has read a line, on a bus that
performs the write. -/
theorem writeFlag_ram (s : Device) (n t0 : Nat) (input : List (Nat × Nat))
    (hr : (readString FLAG_LEN 30 t0 input).ret ≠ -1) (hb : s.bus.headD .ok = .ok) :
    (writeFlag s n t0 input).1.ram = ramWrite s.ram (FLAG_0_ADDR + 16 * (n % 3))
        (((readString FLAG_LEN 30 t0 input).buf ++ [0]).take FLAG_LEN) ∧
    (writeFlag s n t0 input).1.bus = s.bus.tail := by
  unfold writeFlag
  simp only [if_neg hr]
  constructor
  · rw [emit_ram, clockWrite_ram_ok _ _ _ _ (by simp only [emit_bus]; exact hb)]
    rfl
  · rw [emit_bus, clockWrite_bus]
    rfl

/-! ## The challenge mode along a run -/

theorem doBGTask_gChallengeMode (s : Device) :
    (doBGTask s).gChallengeMode = s.gChallengeMode := by
  unfold doBGTask
  split_ifs <;> simp

theorem commandUnlock_gChallengeMode (s : Device) (t0 : Nat) (input : List (Nat × Nat)) :
    (commandUnlock s t0 input).1.gChallengeMode = s.gChallengeMode := by
  unfold commandUnlock
  simp only []
  split_ifs <;> simp

theorem readDigitalButtons_gChallengeMode (s : Device) (b : Buttons) :
    (readDigitalButtons s b).gChallengeMode = s.gChallengeMode := by
  have hset : ∀ (d : Device) (v : Nat), d.gChallengeMode = s.gChallengeMode →
      (d.set_gOldButtonStates v).gChallengeMode = s.gChallengeMode := fun d v h => h
  unfold readDigitalButtons
  simp only []
  have h0 : (if s.gLedTimer ≠ 0 then
      if (s.set_gLedTimer (s.gLedTimer - 1)).gLedTimer = 0 then
        emit (s.set_gLedTimer (s.gLedTimer - 1)) [.led RED_LED 0, .led GREEN_LED 0]
      else s.set_gLedTimer (s.gLedTimer - 1)
    else s).gChallengeMode = s.gChallengeMode := by
    split_ifs <;> rfl
  refine buttonBlock_inv (fun d => d.gChallengeMode = s.gChallengeMode) _ _ _ _ _ hset
    (fun d h => h) (fun d h => h)
    (fun d h => (unlockBHandler_gChallengeMode d).trans h)
    (fun d h => (snakeBButtonHandler_gChallengeMode d).trans h) ?_
  refine buttonBlock_inv (fun d => d.gChallengeMode = s.gChallengeMode) _ _ _ _ _ hset
    (fun d h => h) (fun d h => h)
    (fun d h => (unlockAHandler_gChallengeMode d).trans h)
    (fun d h => (snakeAButtonHandler_gChallengeMode d).trans h) ?_
  refine buttonBlock_inv (fun d => d.gChallengeMode = s.gChallengeMode) _ _ _ _ _ hset
    (fun d h => h) (fun d h => h)
    (fun d h => (unlockRightHandler_gChallengeMode d).trans h)
    (fun d h => (snakeRightHandler_gChallengeMode d).trans h) ?_
  refine buttonBlock_inv (fun d => d.gChallengeMode = s.gChallengeMode) _ _ _ _ _ hset
    (fun d h => h) (fun d h => h)
    (fun d h => (unlockLeftHandler_gChallengeMode d).trans h)
    (fun d h => (snakeLeftHandler_gChallengeMode d).trans h) ?_
  refine buttonBlock_inv (fun d => d.gChallengeMode = s.gChallengeMode) _ _ _ _ _ hset
    (fun d h => (modeDown_gChallengeMode _).trans h)
    (fun d h => (modeDown_gChallengeMode _).trans h)
    (fun d h => (unlockDownHandler_gChallengeMode d).trans h)
    (fun d h => (snakeDownHandler_gChallengeMode d).trans h) ?_
  exact buttonBlock_inv (fun d => d.gChallengeMode = s.gChallengeMode) _ _ _ _ _ hset
    (fun d h => (modeUp_gChallengeMode _).trans h)
    (fun d h => (modeUp_gChallengeMode _).trans h)
    (fun d h => (unlockUpHandler_gChallengeMode d).trans h)
    (fun d h => (snakeUpHandler_gChallengeMode d).trans h) h0

/-- The challenge mode after `commandNextChallenge`: the old one, or its
successor with 4 replaced by 0. -/
theorem commandNextChallenge_gChallengeMode (s : Device) (t0 : Nat)
    (input : List (Nat × Nat)) :
    (commandNextChallenge s t0 input).1.gChallengeMode = s.gChallengeMode ∨
    (commandNextChallenge s t0 input).1.gChallengeMode
      = (if (s.gChallengeMode + 1) % 256 = 4 then 0 else (s.gChallengeMode + 1) % 256) := by
  by_cases h : s.gBgMode = 3
  · left
    rw [commandNextChallenge_refused s t0 input h]; rfl
  · by_cases hq : (readString 4 30 t0 input).ret = 3 ∧
        (readString 4 30 t0 input).buf.getD 0 0 = 121 ∧
        (readString 4 30 t0 input).buf.getD 1 0 = 101 ∧
        (readString 4 30 t0 input).buf.getD 2 0 = 115
    · right
      rw [commandNextChallenge_confirmed s t0 input h hq]
      show (clockWrite _ _ _ _).1.gChallengeMode = _
      rw [clockWrite_gChallengeMode]; rfl
    · left
      rw [commandNextChallenge_unconfirmed s t0 input h hq]; rfl

theorem commandNextChallenge_range (s : Device) (t0 : Nat) (input : List (Nat × Nat))
    (h : s.gChallengeMode ≤ 3) : (commandNextChallenge s t0 input).1.gChallengeMode ≤ 3 := by
  rcases commandNextChallenge_gChallengeMode s t0 input with h1 | h1
  · rw [h1]; exact h
  · rw [h1]
    split_ifs with h2
    · omega
    · omega

/-- Every event other than the advance-challenge command leaves the challenge
mode alone. -/
theorem step_gChallengeMode (s : Device) (e : Event)
    (he : ∀ t0 input, e ≠ .shell .nxtchl t0 input) :
    (step s e).gChallengeMode = s.gChallengeMode := by
  cases e with
  | buttons b => exact readDigitalButtons_gChallengeMode s b
  | bgTask => exact doBGTask_gChallengeMode s
  | shell c t0 input =>
    cases c with
    | nxtchl => exact absurd rfl (he t0 input)
    | lock => exact commandLock_gChallengeMode s
    | unlock => exact commandUnlock_gChallengeMode s t0 input
    | getflg => exact commandGetFlags_gChallengeMode s
    | ver => exact commandGetVersion_gChallengeMode s

theorem step_range (s : Device) (e : Event) (h : s.gChallengeMode ≤ 3) :
    (step s e).gChallengeMode ≤ 3 := by
  cases e with
  | buttons b => exact (readDigitalButtons_gChallengeMode s b).trans_le h
  | bgTask => exact (doBGTask_gChallengeMode s).trans_le h
  | shell c t0 input =>
    cases c with
    | nxtchl => exact commandNextChallenge_range s t0 input h
    | lock => exact (commandLock_gChallengeMode s).trans_le h
    | unlock => exact (commandUnlock_gChallengeMode s t0 input).trans_le h
    | getflg => exact (commandGetFlags_gChallengeMode s).trans_le h
    | ver => exact (commandGetVersion_gChallengeMode s).trans_le h

theorem run_range (es : List Event) (s : Device) (h : s.gChallengeMode ≤ 3) :
    (run s es).gChallengeMode ≤ 3 := by
  induction es generalizing s with
  | nil => exact h
  | cons e es ih => exact ih _ (step_range s e h)

theorem and_255 (x : Nat) : x &&& 0xff = x % 256 :=
  Nat.and_pow_two_sub_one_eq_mod x 8

/-- The challenge mode `setup` leaves: the byte `clockRead` put in the
variable, or 0 when it is above 3. -/
theorem setup_gChallengeMode (s : Device) :
    (setup s).gChallengeMode =
      if (busRead (s.bus.headD .ok) s.ram CHAL_MODE_ADDR CHAL_MODE_LEN
          [s.gChallengeMode]).2.getD 0 0 % 256 > 3 then 0
      else (busRead (s.bus.headD .ok) s.ram CHAL_MODE_ADDR CHAL_MODE_LEN
          [s.gChallengeMode]).2.getD 0 0 % 256 := by
  have h1 := clockRead_snd (snakeInit (emit s [.oledShow, .delay 50])) CHAL_MODE_ADDR
    CHAL_MODE_LEN [(snakeInit (emit s [.oledShow, .delay 50])).gChallengeMode]
  have hb : (snakeInit (emit s [.oledShow, .delay 50])).bus = s.bus := by
    unfold snakeInit; simp
  rw [snakeInit_ram, snakeInit_gChallengeMode, emit_ram, emit_gChallengeMode, hb] at h1
  have h2 : (clockRead (snakeInit (emit s [.oledShow, .delay 50])) CHAL_MODE_ADDR
      CHAL_MODE_LEN [(snakeInit (emit s [.oledShow, .delay 50])).gChallengeMode]).2.2
      = (busRead (s.bus.headD .ok) s.ram CHAL_MODE_ADDR CHAL_MODE_LEN
          [s.gChallengeMode]).2 := by
    rw [snakeInit_gChallengeMode, emit_gChallengeMode, h1]
  unfold setup
  simp only [h2, and_255]
  split_ifs with h3 h4 h4
  · rfl
  · exact absurd h3 h4
  · exact absurd h4 h3
  · rfl

/-! ## The high score at the end of a snake session -/

theorem uninit_snd_length (s : Device) (n : Nat) : (uninit s n).2.length = n := by
  unfold uninit
  split
  · simp
  · simp

theorem busRead_two (ram : List Nat) (a : Nat) (buf : List Nat) (h : buf.length = 2) :
    busRead .ok ram a 2 buf = (2, ramRead ram a 2) := by
  match buf, h with
  | [x, y], _ => simp [busRead, ramRead, clockReadLoop, List.range, List.range.loop]

theorem highScore_ramRead (ram : List Nat) :
    (ramRead ram HIGH_SCORE_ADDR 2).getD 0 0 + 256 * (ramRead ram HIGH_SCORE_ADDR 2).getD 1 0
      = highScore ram := by
  simp [ramRead, highScore, List.range, List.range.loop, HIGH_SCORE_ADDR, PIN_CODE_3_ADDR,
    FLAG_2_ADDR, PIN_CODE_2_ADDR, FLAG_1_ADDR, PIN_CODE_1_ADDR, FLAG_0_ADDR, PIN_CODE_0_ADDR,
    CHAL_MODE_ADDR, CHAL_MODE_LEN, PIN_CODE_LEN, FLAG_LEN]

theorem highScore_ramWrite (ram : List Nat) (v : Nat) (hram : ram.length = 64)
    (hv : v < 65536) :
    highScore (ramWrite ram HIGH_SCORE_ADDR [v % 256, v / 256 % 256]) = v := by
  unfold highScore
  have hfit : HIGH_SCORE_ADDR + [v % 256, v / 256 % 256].length ≤ 64 := by
    simp only [List.length_cons, List.length_nil]; decide
  rw [ramWrite_getD _ _ _ _ hram hfit, ramWrite_getD _ _ _ _ hram hfit]
  have h1 : HIGH_SCORE_ADDR ≤ HIGH_SCORE_ADDR ∧
      HIGH_SCORE_ADDR < HIGH_SCORE_ADDR + [v % 256, v / 256 % 256].length := by
    simp
  have h2 : HIGH_SCORE_ADDR ≤ HIGH_SCORE_ADDR + 1 ∧
      HIGH_SCORE_ADDR + 1 < HIGH_SCORE_ADDR + [v % 256, v / 256 % 256].length := by
    simp
  rw [if_pos h1, if_pos h2]
  simp only [Nat.sub_self, Nat.add_sub_cancel_left, List.getD_cons_zero, List.getD_cons_succ]
  omega

theorem clockRead_bus (s : Device) (a n : Nat) (buf : List Nat) :
    (clockRead s a n buf).1.bus = s.bus.tail := by
  have hl : ∀ (br fuel : Nat) (data : List Nat) (i : Nat) (d : Device) (bf : List Nat),
      (clockReadLoop0 br fuel data i d bf).1.bus = d.bus := by
    intro br fuel
    induction fuel with
    | zero => intro data i d bf; rfl
    | succ k ih =>
      intro data i d bf
      cases data with
      | nil => simp only [clockReadLoop0]; rfl
      | cons x xs =>
        simp only [clockReadLoop0]
        rw [ih, hexPrint_eq]; rfl
  unfold clockRead
  simp only []
  split_ifs
  · split
    · rename_i h
      have h2 := congrArg (fun x : Device × List Nat × Option Nat => x.1.bus) h
      simp only [hl] at h2
      rw [← h2]
      simp only [emit_bus, nextBus_bus]
    · rename_i h
      have h2 := congrArg (fun x : Device × List Nat × Option Nat => x.1.bus) h
      simp only [hl] at h2
      rw [emit_bus, ← h2]
      simp only [emit_bus, nextBus_bus]
  · split <;> simp only [emit_bus, nextBus_bus]

theorem snakeDrawApples_bus (s : Device) : (snakeDrawApples s).bus = s.bus := by
  unfold snakeDrawApples
  generalize s.gApples.take MAX_APPLES = l
  induction l generalizing s with
  | nil => rfl
  | cons a l ih =>
    simp only [List.foldl_cons]
    rw [ih]
    split_ifs <;> rfl

theorem core_gSnakeScore {s t : Device} (h : core t = core s) :
    t.gSnakeScore = s.gSnakeScore :=
  show (core t).gSnakeScore = (core s).gSnakeScore from by rw [h]

theorem emit_gSnakeScore (s : Device) (es : List Effect) :
    (emit s es).gSnakeScore = s.gSnakeScore := rfl

theorem clockWrite_gSnakeScore (s : Device) (a n : Nat) (buf : List Nat) :
    (clockWrite s a n buf).1.gSnakeScore = s.gSnakeScore := by
  have h : (nextBus (emit s [.println "clockWrite"])).1.gSnakeScore = s.gSnakeScore :=
    core_gSnakeScore ((core_nextBus _).trans (core_emit _ _))
  unfold clockWrite
  simp only [hexPrint_eq]
  split_ifs <;> simp only [emit_gSnakeScore, set_ram_gSnakeScore, h]

/-- The part of a round of `snakeReset` that deals with the high score, on a
bus that performs every transfer: the registers are written exactly when the
score is above the persisted high score. -/
theorem snakeReset_score_part (d : Device) (hs0 : List Nat) (h2 : hs0.length = 2)
    (hb : Faultless d.bus) :
    (if (clockRead d HIGH_SCORE_ADDR HIGH_SCORE_LEN hs0).1.gSnakeScore >
          (clockRead d HIGH_SCORE_ADDR HIGH_SCORE_LEN hs0).2.2.getD 0 0 +
            256 * (clockRead d HIGH_SCORE_ADDR HIGH_SCORE_LEN hs0).2.2.getD 1 0 then
        ((clockWrite (emit (clockRead d HIGH_SCORE_ADDR HIGH_SCORE_LEN hs0).1
            [.println "New High Score", .println "wildcat\x7b**************\x7d"])
          HIGH_SCORE_ADDR HIGH_SCORE_LEN
          [(emit (clockRead d HIGH_SCORE_ADDR HIGH_SCORE_LEN hs0).1
              [.println "New High Score",
               .println "wildcat\x7b**************\x7d"]).gSnakeScore % 256,
           (emit (clockRead d HIGH_SCORE_ADDR HIGH_SCORE_LEN hs0).1
              [.println "New High Score",
               .println "wildcat\x7b**************\x7d"]).gSnakeScore / 256 % 256]).1,
          (emit (clockRead d HIGH_SCORE_ADDR HIGH_SCORE_LEN hs0).1
              [.println "New High Score",
               .println "wildcat\x7b**************\x7d"]).gSnakeScore)
      else ((clockRead d HIGH_SCORE_ADDR HIGH_SCORE_LEN hs0).1,
          (clockRead d HIGH_SCORE_ADDR HIGH_SCORE_LEN hs0).2.2.getD 0 0 +
            256 * (clockRead d HIGH_SCORE_ADDR HIGH_SCORE_LEN hs0).2.2.getD 1 0)).1
      = (if d.gSnakeScore > highScore d.ram then
          (clockWrite (emit (clockRead d HIGH_SCORE_ADDR HIGH_SCORE_LEN hs0).1
            [.println "New High Score", .println "wildcat\x7b**************\x7d"])
            HIGH_SCORE_ADDR HIGH_SCORE_LEN [d.gSnakeScore % 256, d.gSnakeScore / 256 % 256]).1
        else (clockRead d HIGH_SCORE_ADDR HIGH_SCORE_LEN hs0).1) := by
  have hsc : (clockRead d HIGH_SCORE_ADDR HIGH_SCORE_LEN hs0).1.gSnakeScore = d.gSnakeScore :=
    core_gSnakeScore (core_clockRead _ _ _ _)
  have hrd : (clockRead d HIGH_SCORE_ADDR HIGH_SCORE_LEN hs0).2.2
      = ramRead d.ram HIGH_SCORE_ADDR 2 := by
    have := clockRead_snd d HIGH_SCORE_ADDR HIGH_SCORE_LEN hs0
    rw [faultless_head _ hb, show HIGH_SCORE_LEN = 2 from rfl, busRead_two _ _ _ h2] at this
    show (clockRead d HIGH_SCORE_ADDR 2 hs0).2.2 = _
    rw [this]
  have he : (emit (clockRead d HIGH_SCORE_ADDR HIGH_SCORE_LEN hs0).1
      [.println "New High Score", .println "wildcat\x7b**************\x7d"]).gSnakeScore
      = d.gSnakeScore := hsc
  rw [he, hsc, hrd, highScore_ramRead]
  split_ifs <;> rfl

theorem writeString_gSnakeScore (s : Device) (msg : List Nat) (x y : Int) :
    (writeString s msg x y).gSnakeScore = s.gSnakeScore := rfl

theorem writeString_bus (s : Device) (msg : List Nat) (x y : Int) :
    (writeString s msg x y).bus = s.bus := rfl

/-- One round of `snakeReset` on a bus that performs every transfer: the score
is kept, and the high score registers are written exactly when the score is
above the persisted high score. -/
theorem snakeResetRound_facts (b : Bool) (i : Nat) (s : Device) (hb : Faultless s.bus) :
    (snakeResetRound b i s).gSnakeScore = s.gSnakeScore ∧
    Faultless (snakeResetRound b i s).bus ∧
    (snakeResetRound b i s).ram =
      if s.gSnakeScore > highScore s.ram then
        ramWrite s.ram HIGH_SCORE_ADDR [s.gSnakeScore % 256, s.gSnakeScore / 256 % 256]
      else s.ram := by
  have hcore : ∀ m, core (uninit (writeString (writeString
      (if i < 3 ∧ b = true then snakeDrawApples (emit s [.oledClear]) else emit s [.oledClear])
      (bytes "Game Over") 5 5) m 5 20) 2).1 = core s := by
    intro m
    rw [core_uninit, core_writeString, core_writeString]
    split_ifs
    · rw [core_snakeDrawApples, core_emit]
    · rw [core_emit]
  have hbus : ∀ m, (uninit (writeString (writeString
      (if i < 3 ∧ b = true then snakeDrawApples (emit s [.oledClear]) else emit s [.oledClear])
      (bytes "Game Over") 5 5) m 5 20) 2).1.bus = s.bus := by
    intro m
    rw [uninit_bus, writeString_bus, writeString_bus]
    split_ifs
    · rw [snakeDrawApples_bus, emit_bus]
    · rw [emit_bus]
  have hlen : ∀ m, (uninit (writeString (writeString
      (if i < 3 ∧ b = true then snakeDrawApples (emit s [.oledClear]) else emit s [.oledClear])
      (bytes "Game Over") 5 5) m 5 20) 2).2.length = 2 := fun m => uninit_snd_length _ _
  unfold snakeResetRound
  simp only []
  generalize hm : sprintfInt ((writeString
    (if i < 3 ∧ b = true then snakeDrawApples (emit s [.oledClear]) else emit s [.oledClear])
    (bytes "Game Over") 5 5).gSnakeScore : Int) = m
  have hc := hcore m
  have hbs := hbus m
  have hl := hlen m
  generalize uninit (writeString (writeString
    (if i < 3 ∧ b = true then snakeDrawApples (emit s [.oledClear]) else emit s [.oledClear])
    (bytes "Game Over") 5 5) m 5 20) 2 = p at hc hbs hl ⊢
  have hfl : Faultless p.1.bus := by rw [hbs]; exact hb
  rw [snakeReset_score_part p.1 p.2 hl hfl]
  simp only [emit_gSnakeScore, writeString_gSnakeScore, emit_bus, writeString_bus, emit_ram,
    writeString_ram]
  rw [core_gSnakeScore hc, core_ram hc]
  have hrb : (clockRead p.1 HIGH_SCORE_ADDR HIGH_SCORE_LEN p.2).1.bus = s.bus.tail := by
    rw [clockRead_bus, hbs]
  split_ifs with h
  · refine ⟨?_, ?_, ?_⟩
    · rw [clockWrite_gSnakeScore, emit_gSnakeScore, core_gSnakeScore (core_clockRead _ _ _ _),
        core_gSnakeScore hc]
    · rw [clockWrite_bus, emit_bus, hrb]
      exact faultless_tail _ (faultless_tail _ hb)
    · have hh : (emit (clockRead p.1 HIGH_SCORE_ADDR HIGH_SCORE_LEN p.2).1
          [.println "New High Score", .println "wildcat\x7b**************\x7d"]).bus.headD .ok
          = .ok := by
        rw [emit_bus, hrb]
        exact faultless_head _ (faultless_tail _ hb)
      rw [clockWrite_ram_ok _ _ _ _ hh, emit_ram, clockRead_ram, core_ram hc]
      rfl
  · refine ⟨?_, ?_, ?_⟩
    · rw [core_gSnakeScore (core_clockRead _ _ _ _), core_gSnakeScore hc]
    · rw [hrb]
      exact faultless_tail _ hb
    · rw [clockRead_ram, core_ram hc]

/-- After the first round of `snakeReset` the later rounds find the score not
above the persisted high score and leave the registers alone. -/
theorem snakeResetRound_again (b : Bool) (i : Nat) (s d : Device)
    (hS : s.gSnakeScore < 65536) (hram : s.ram.length = 64)
    (h1 : d.gSnakeScore = s.gSnakeScore) (h2 : Faultless d.bus)
    (h3 : d.ram = if s.gSnakeScore > highScore s.ram then
        ramWrite s.ram HIGH_SCORE_ADDR [s.gSnakeScore % 256, s.gSnakeScore / 256 % 256]
      else s.ram) :
    (snakeResetRound b i d).gSnakeScore = s.gSnakeScore ∧
    Faultless (snakeResetRound b i d).bus ∧
    (snakeResetRound b i d).ram = d.ram := by
  obtain ⟨f1, f2, f3⟩ := snakeResetRound_facts b i d h2
  refine ⟨f1.trans h1, f2, ?_⟩
  have hle : ¬ d.gSnakeScore > highScore d.ram := by
    rw [h1, h3]
    split_ifs with h
    · rw [highScore_ramWrite _ _ hram hS]; omega
    · exact h
  rw [f3, if_neg hle]

/-- The registers after `snakeReset` on a bus that performs every transfer. -/
theorem snakeReset_ram (s : Device) (b : Bool) (hS : s.gSnakeScore < 65536)
    (hram : s.ram.length = 64) (hbus : Faultless s.bus) :
    (snakeReset s b).ram = if s.gSnakeScore > highScore s.ram then
        ramWrite s.ram HIGH_SCORE_ADDR [s.gSnakeScore % 256, s.gSnakeScore / 256 % 256]
      else s.ram := by
  obtain ⟨a1, a2, a3⟩ := snakeResetRound_facts b 0 s hbus
  obtain ⟨b1, b2, b3⟩ := snakeResetRound_again b 1 s _ hS hram a1 a2 a3
  obtain ⟨c1, c2, c3⟩ := snakeResetRound_again b 2 s _ hS hram b1 b2 (b3.trans a3)
  obtain ⟨d1, d2, d3⟩ := snakeResetRound_again b 3 s _ hS hram c1 c2 (c3.trans (b3.trans a3))
  obtain ⟨e1, e2, e3⟩ := snakeResetRound_again b 4 s _ hS hram d1 d2
    (d3.trans (c3.trans (b3.trans a3)))
  unfold snakeReset
  rw [snakeInit_ram]
  have hr : List.range 5 = [0, 1, 2, 3, 4] := rfl
  rw [hr]
  simp only [List.foldl_cons, List.foldl_nil]
  rw [e3, d3, c3, b3, a3]

/-! ## Eating apples -/

theorem emit_gApples (s : Device) (es : List Effect) : (emit s es).gApples = s.gApples := rfl

theorem emit_gSnakeLen (s : Device) (es : List Effect) :
    (emit s es).gSnakeLen = s.gSnakeLen := rfl

theorem applesAt_set (p q : Point) (n i j : Nat) (apples : List Point) (hj : j < i) :
    applesAt p n i (apples.set j q) = applesAt p n i apples := by
  induction n generalizing i with
  | zero => rfl
  | succ n ih =>
    simp only [applesAt]
    rw [ih (i + 1) (by omega)]
    have : (apples.set j q).getD i ⟨0, 0⟩ = apples.getD i ⟨0, 0⟩ := by
      simp only [List.getD_eq_getElem?_getD, List.getElem?_set]
      rw [if_neg (by omega)]
    rw [this]

/-- The length and the score after the apple loop: one `growLen` step and one
point for every apple at the head. -/
theorem snakeEatLoop_len (p : Point) (n i : Nat) (s : Device) :
    (snakeEatLoop p n i s).gSnakeLen = growLen^[applesAt p n i s.gApples] s.gSnakeLen ∧
    (snakeEatLoop p n i s).gSnakeScore
      = (fun v => (v + 1) % 65536)^[applesAt p n i s.gApples] s.gSnakeScore := by
  induction n generalizing i s with
  | zero => exact ⟨rfl, rfl⟩
  | succ n ih =>
    simp only [snakeEatLoop, applesAt]
    by_cases h1 : (s.gApples.getD i ⟨0, 0⟩).x ≠ -1 ∧ p = s.gApples.getD i ⟨0, 0⟩
    · rw [if_pos h1, if_pos h1]
      have hA : ∀ d : Device,
          d.gApples = s.gApples.set i ⟨-1, (s.gApples.getD i ⟨0, 0⟩).y⟩ →
          d.gSnakeLen = growLen s.gSnakeLen → d.gSnakeScore = (s.gSnakeScore + 1) % 65536 →
          (snakeEatLoop p n (i + 1) d).gSnakeLen
            = growLen^[1 + applesAt p n (i + 1) s.gApples] s.gSnakeLen ∧
          (snakeEatLoop p n (i + 1) d).gSnakeScore
            = (fun v => (v + 1) % 65536)^[1 + applesAt p n (i + 1) s.gApples] s.gSnakeScore := by
        intro d h2 h3 h4
        obtain ⟨e1, e2⟩ := ih (i + 1) d
        rw [e1, e2, Nat.add_comm 1, Function.iterate_succ_apply, Function.iterate_succ_apply,
          h2, h3, h4, applesAt_set _ _ _ _ _ _ (by omega)]
        exact ⟨rfl, rfl⟩
      apply hA
      · split_ifs <;> simp [emit_gApples]
      · unfold growLen
        split_ifs <;> simp [emit_gSnakeLen] at * <;> omega
      · split_ifs <;> simp [emit_gSnakeScore]
    · rw [if_neg h1, if_neg h1, Nat.zero_add]
      exact ih (i + 1) s

/-! ## A PIN read that fails -/

/-- The value `readPinFromRam` returns when `clockRead` does not deliver four
bytes. -/
theorem readPinFromRam_failed (s : Device) (n : Nat)
    (hf : (clockRead s (PIN_CODE_0_ADDR + (PIN_CODE_LEN + FLAG_LEN) * (n % 4)) 4
      (List.replicate 4 0)).2.1 ≠ 4) :
    (readPinFromRam s n).2 = 4294967295 := by
  unfold readPinFromRam
  simp only []
  rw [if_pos hf]

/-- The line "-1" has the `strtoul` value `0xFFFFFFFF`, the very value
`readPinFromRam` returns for a failed read: typed while the read fails, it
unlocks. -/
theorem minus_one_matches_failed_read :
    strtoul (bytes "-1") = 4294967295 ∧
    (readPinFromRam shortReadDevice shortReadDevice.gChallengeMode).2 = 4294967295 ∧
    (commandUnlock shortReadDevice 5000 (typed 5001 "-1\n")).1.gIsLocked = false := by
  decide!

/-! ## What navigation and the shell leave alone -/

theorem play_of_core {s t : Device} (h : core t = core s) : play t = play s := by
  unfold play; rw [h]

theorem play_set_gBgMode (s : Device) (v : Int) : play (s.set_gBgMode v) = play s := rfl

theorem play_set_gIsLocked (s : Device) (v : Bool) : play (s.set_gIsLocked v) = play s := rfl

theorem play_set_gChallengeMode (s : Device) (v : Nat) :
    play (s.set_gChallengeMode v) = play s := rfl

theorem play_set_gLedTimer (s : Device) (v : Nat) : play (s.set_gLedTimer v) = play s := rfl

theorem play_set_gOldButtonStates (s : Device) (v : Nat) :
    play (s.set_gOldButtonStates v) = play s := rfl

theorem play_set_gFreshModeChange (s : Device) (v : Nat) :
    play (s.set_gFreshModeChange v) = play s := rfl

theorem play_set_ram (s : Device) (v : List Nat) : play (s.set_ram v) = play s := rfl

theorem play_gCurrentPinGuess {s t : Device} (h : play t = play s) :
    t.gCurrentPinGuess = s.gCurrentPinGuess :=
  show (play t).gCurrentPinGuess = (play s).gCurrentPinGuess from by rw [h]

theorem play_gCurrentPinGuessPos {s t : Device} (h : play t = play s) :
    t.gCurrentPinGuessPos = s.gCurrentPinGuessPos :=
  show (play t).gCurrentPinGuessPos = (play s).gCurrentPinGuessPos from by rw [h]

theorem play_gSnakeDir {s t : Device} (h : play t = play s) : t.gSnakeDir = s.gSnakeDir :=
  show (play t).gSnakeDir = (play s).gSnakeDir from by rw [h]

theorem play_gSnakeLen {s t : Device} (h : play t = play s) : t.gSnakeLen = s.gSnakeLen :=
  show (play t).gSnakeLen = (play s).gSnakeLen from by rw [h]

theorem play_gSnakeBufferPos {s t : Device} (h : play t = play s) :
    t.gSnakeBufferPos = s.gSnakeBufferPos :=
  show (play t).gSnakeBufferPos = (play s).gSnakeBufferPos from by rw [h]

theorem play_gSnakeScore {s t : Device} (h : play t = play s) :
    t.gSnakeScore = s.gSnakeScore :=
  show (play t).gSnakeScore = (play s).gSnakeScore from by rw [h]

theorem play_gSnakeSpeed {s t : Device} (h : play t = play s) :
    t.gSnakeSpeed = s.gSnakeSpeed :=
  show (play t).gSnakeSpeed = (play s).gSnakeSpeed from by rw [h]

theorem play_gSnake {s t : Device} (h : play t = play s) : t.gSnake = s.gSnake :=
  show (play t).gSnake = (play s).gSnake from by rw [h]

theorem play_gApples {s t : Device} (h : play t = play s) : t.gApples = s.gApples :=
  show (play t).gApples = (play s).gApples from by rw [h]

theorem play_emit (s : Device) (es : List Effect) : play (emit s es) = play s :=
  play_of_core (core_emit ..)

theorem play_validateCurrentMode (s : Device) : play (validateCurrentMode s) = play s := by
  unfold validateCurrentMode
  simp only []
  split_ifs <;> rfl

theorem play_modeUp (s : Device) : play (modeUp s) = play s := by
  unfold modeUp
  simp only []
  rw [play_set_gFreshModeChange, play_emit, play_of_core (core_serialPrintMode ..), play_emit,
    play_validateCurrentMode, play_set_gBgMode, play_emit,
    play_of_core (core_serialPrintMode ..), play_emit]

theorem play_modeDown (s : Device) : play (modeDown s) = play s := by
  unfold modeDown
  simp only []
  rw [play_set_gFreshModeChange, play_emit, play_of_core (core_serialPrintMode ..), play_emit,
    play_validateCurrentMode, play_set_gBgMode, play_emit,
    play_of_core (core_serialPrintMode ..), play_emit]

theorem play_defaultUpHandler (s : Device) : play (defaultUpHandler s) = play s := by
  unfold defaultUpHandler; rw [play_modeUp, play_emit]

theorem play_defaultDownHandler (s : Device) : play (defaultDownHandler s) = play s := by
  unfold defaultDownHandler; rw [play_modeDown, play_emit]

theorem play_unlockAHandler (s : Device) : play (unlockAHandler s) = play s := rfl

theorem play_snakeAButtonHandler (s : Device) : play (snakeAButtonHandler s) = play s := rfl

theorem play_unlockBHandler (s : Device) : play (unlockBHandler s) = play s := by
  unfold unlockBHandler
  simp only []
  split_ifs
  · rw [play_set_gIsLocked, play_set_gLedTimer, play_emit,
      play_of_core (core_readPinFromRam ..)]
  · rw [play_of_core (core_wrongCountdown ..), play_set_gLedTimer, play_emit,
      play_of_core (core_readPinFromRam ..)]
  · rw [play_set_gLedTimer, play_emit, play_of_core (core_readPinFromRam ..)]

theorem play_displayLock (s : Device) : play (displayLock s) = play s := by
  unfold displayLock
  simp only []
  rw [play_set_gIsLocked, play_emit, play_of_core (core_writeString ..), play_emit]

theorem play_commandLock (s : Device) : play (commandLock s) = play s := rfl

theorem play_clockWrite (s : Device) (a n : Nat) (buf : List Nat) :
    play (clockWrite s a n buf).1 = play s := by
  unfold clockWrite
  simp only [hexPrint_eq]
  split_ifs <;>
    simp only [play_emit, play_set_ram, play_of_core (core_nextBus _)]

theorem play_commandUnlock (s : Device) (t0 : Nat) (input : List (Nat × Nat)) :
    play (commandUnlock s t0 input).1 = play s := by
  unfold commandUnlock
  simp only []
  split_ifs <;>
    simp only [play_emit, play_set_gIsLocked, play_of_core (core_readPinFromRam _ _),
      play_of_core (core_beyond _)]

theorem play_commandNextChallenge (s : Device) (t0 : Nat) (input : List (Nat × Nat)) :
    play (commandNextChallenge s t0 input).1 = play s := by
  by_cases h : s.gBgMode = 3
  · rw [commandNextChallenge_refused s t0 input h]; rfl
  · by_cases hq : (readString 4 30 t0 input).ret = 3 ∧
        (readString 4 30 t0 input).buf.getD 0 0 = 121 ∧
        (readString 4 30 t0 input).buf.getD 1 0 = 101 ∧
        (readString 4 30 t0 input).buf.getD 2 0 = 115
    · rw [commandNextChallenge_confirmed s t0 input h hq, play_set_gIsLocked, play_clockWrite,
        play_emit, play_set_gChallengeMode, play_emit, play_emit]
    · rw [commandNextChallenge_unconfirmed s t0 input h hq, play_emit, play_emit]

theorem play_runCommand (s : Device) (c : Command) (t0 : Nat) (input : List (Nat × Nat)) :
    play (runCommand s c t0 input) = play s := by
  cases c with
  | nxtchl => exact play_commandNextChallenge s t0 input
  | lock => exact play_commandLock s
  | unlock => exact play_commandUnlock s t0 input
  | getflg => exact play_of_core (core_commandGetFlags s)
  | ver => exact play_of_core (core_commandGetVersion s)

/-! ## The cursor of the PIN entry along a run -/

theorem apart_gCurrentPinGuessPos {s t : Device} (h : apart t = apart s) :
    t.gCurrentPinGuessPos = s.gCurrentPinGuessPos :=
  show (apart t).gCurrentPinGuessPos = (apart s).gCurrentPinGuessPos from by rw [h]

theorem apart_gCurrentPinGuess {s t : Device} (h : apart t = apart s) :
    t.gCurrentPinGuess = s.gCurrentPinGuess :=
  show (apart t).gCurrentPinGuess = (apart s).gCurrentPinGuess from by rw [h]

theorem core_gCurrentPinGuessPos {s t : Device} (h : core t = core s) :
    t.gCurrentPinGuessPos = s.gCurrentPinGuessPos :=
  show (core t).gCurrentPinGuessPos = (core s).gCurrentPinGuessPos from by rw [h]

/-- The cursor after `unlockLeftHandler`: one less, and 0 stays 0. -/
theorem unlockLeftHandler_pos (s : Device) :
    (unlockLeftHandler s).gCurrentPinGuessPos = s.gCurrentPinGuessPos - 1 := by
  unfold unlockLeftHandler
  split_ifs with h
  · rw [h]
  · rfl

/-- The cursor after `unlockRightHandler`: one more, and 4 (or more) stays. -/
theorem unlockRightHandler_pos (s : Device) :
    (unlockRightHandler s).gCurrentPinGuessPos
      = if s.gCurrentPinGuessPos ≥ 4 then s.gCurrentPinGuessPos
        else s.gCurrentPinGuessPos + 1 := by
  unfold unlockRightHandler
  split_ifs <;> rfl

theorem unlockLeftHandler_guess (s : Device) :
    (unlockLeftHandler s).gCurrentPinGuess = s.gCurrentPinGuess := by
  unfold unlockLeftHandler
  split_ifs <;> rfl

theorem unlockRightHandler_guess (s : Device) :
    (unlockRightHandler s).gCurrentPinGuess = s.gCurrentPinGuess := by
  unfold unlockRightHandler
  split_ifs <;> rfl

theorem doBGTask_gCurrentPinGuessPos (s : Device) :
    (doBGTask s).gCurrentPinGuessPos = s.gCurrentPinGuessPos := by
  unfold doBGTask
  split_ifs
  · show (displayChangeModes s).gCurrentPinGuessPos = s.gCurrentPinGuessPos
    exact core_gCurrentPinGuessPos (core_displayChangeModes s)
  · exact core_gCurrentPinGuessPos (core_displayClock s)
  · exact core_gCurrentPinGuessPos (core_displayUnlock s)
  · exact core_gCurrentPinGuessPos (core_displayVersion s)
  · exact core_gCurrentPinGuessPos (core_displayFlag s)
  · exact play_gCurrentPinGuessPos (play_displayLock s)
  · exact apart_gCurrentPinGuessPos (apart_snakeBgMode s)
  · rfl

theorem readDigitalButtons_cursor (s : Device) (b : Buttons) (hs : s.gCurrentPinGuessPos ≤ 4) :
    (readDigitalButtons s b).gCurrentPinGuessPos ≤ 4 := by
  have hset : ∀ (d : Device) (v : Nat), d.gCurrentPinGuessPos ≤ 4 →
      (d.set_gOldButtonStates v).gCurrentPinGuessPos ≤ 4 := fun d v h => h
  have hc : ∀ {d e : Device}, core e = core d → d.gCurrentPinGuessPos ≤ 4 →
      e.gCurrentPinGuessPos ≤ 4 := fun h h2 => (core_gCurrentPinGuessPos h).trans_le h2
  have hp : ∀ {d e : Device}, play e = play d → d.gCurrentPinGuessPos ≤ 4 →
      e.gCurrentPinGuessPos ≤ 4 := fun h h2 => (play_gCurrentPinGuessPos h).trans_le h2
  have ha : ∀ {d e : Device}, apart e = apart d → d.gCurrentPinGuessPos ≤ 4 →
      e.gCurrentPinGuessPos ≤ 4 := fun h h2 => (apart_gCurrentPinGuessPos h).trans_le h2
  unfold readDigitalButtons
  simp only []
  have h0 : (if s.gLedTimer ≠ 0 then
      if (s.set_gLedTimer (s.gLedTimer - 1)).gLedTimer = 0 then
        emit (s.set_gLedTimer (s.gLedTimer - 1)) [.led RED_LED 0, .led GREEN_LED 0]
      else s.set_gLedTimer (s.gLedTimer - 1)
    else s).gCurrentPinGuessPos ≤ 4 := by
    split_ifs <;> exact hs
  refine buttonBlock_inv (fun d => d.gCurrentPinGuessPos ≤ 4) _ _ _ _ _ hset
    (fun d h => hc (core_defaultBButtonHandler d) h)
    (fun d h => hc (core_defaultBButtonHandler d) h)
    (fun d h => hp (play_unlockBHandler d) h)
    (fun d h => ha (show apart (snakeBButtonHandler d) = apart d from by
      unfold snakeBButtonHandler; rw [apart_snakeInit, apart_emit]) h) ?_
  refine buttonBlock_inv (fun d => d.gCurrentPinGuessPos ≤ 4) _ _ _ _ _ hset
    (fun d h => hc (core_defaultAButtonHandler d) h)
    (fun d h => hc (core_defaultAButtonHandler d) h)
    (fun d h => hp (play_unlockAHandler d) h)
    (fun d h => hp (play_snakeAButtonHandler d) h) ?_
  refine buttonBlock_inv (fun d => d.gCurrentPinGuessPos ≤ 4) _ _ _ _ _ hset
    (fun d h => hc (core_defaultRightHandler d) h)
    (fun d h => hc (core_defaultRightHandler d) h)
    (fun d h => by
      show (unlockRightHandler d).gCurrentPinGuessPos ≤ 4
      rw [unlockRightHandler_pos]; split_ifs <;> omega)
    (fun d h => h) ?_
  refine buttonBlock_inv (fun d => d.gCurrentPinGuessPos ≤ 4) _ _ _ _ _ hset
    (fun d h => hc (core_defaultLeftHandler d) h)
    (fun d h => hc (core_defaultLeftHandler d) h)
    (fun d h => by
      show (unlockLeftHandler d).gCurrentPinGuessPos ≤ 4
      rw [unlockLeftHandler_pos]; omega)
    (fun d h => h) ?_
  refine buttonBlock_inv (fun d => d.gCurrentPinGuessPos ≤ 4) _ _ _ _ _ hset
    (fun d h => hp (play_defaultDownHandler d) h)
    (fun d h => hp (play_defaultDownHandler d) h)
    (fun d h => h) (fun d h => h) ?_
  exact buttonBlock_inv (fun d => d.gCurrentPinGuessPos ≤ 4) _ _ _ _ _ hset
    (fun d h => hp (play_defaultUpHandler d) h)
    (fun d h => hp (play_defaultUpHandler d) h)
    (fun d h => h) (fun d h => h) h0

theorem step_cursor (s : Device) (e : Event) (hs : s.gCurrentPinGuessPos ≤ 4) :
    (step s e).gCurrentPinGuessPos ≤ 4 := by
  cases e with
  | buttons b => exact readDigitalButtons_cursor s b hs
  | bgTask => exact (doBGTask_gCurrentPinGuessPos s).trans_le hs
  | shell c t0 input => exact (play_gCurrentPinGuessPos (play_runCommand s c t0 input)).trans_le hs

theorem run_cursor (es : List Event) (s : Device) (hs : s.gCurrentPinGuessPos ≤ 4) :
    (run s es).gCurrentPinGuessPos ≤ 4 := by
  induction es generalizing s with
  | nil => exact hs
  | cons e es ih => exact ih _ (step_cursor s e hs)

theorem setup_gCurrentPinGuessPos (s : Device) :
    (setup s).gCurrentPinGuessPos = s.gCurrentPinGuessPos := by
  have h1 : (snakeInit (emit s [.oledShow, .delay 50])).gCurrentPinGuessPos
      = s.gCurrentPinGuessPos :=
    apart_gCurrentPinGuessPos ((apart_snakeInit _).trans (apart_emit _ _))
  unfold setup
  simp only []
  split_ifs <;>
    simp only [core_gCurrentPinGuessPos (core_emit _ _), set_gChallengeMode_gCurrentPinGuessPos,
      core_gCurrentPinGuessPos (core_clockRead _ _ _ _), h1]

theorem reachable_cursor (s : Device) (h : Reachable s) : s.gCurrentPinGuessPos ≤ 4 := by
  obtain ⟨ram, bus, rng, junk, es, rfl⟩ := h
  apply run_cursor
  rw [setup_gCurrentPinGuessPos]
  exact Nat.zero_le 4

/-! ## The banner after a mode change -/

theorem modeUp_gFreshModeChange (s : Device) : (modeUp s).gFreshModeChange = 20 := rfl

theorem modeDown_gFreshModeChange (s : Device) : (modeDown s).gFreshModeChange = 20 := rfl

/-- A run of the background task while the banner counter is not 0: only the
banner is drawn and the counter goes down by one. -/
theorem doBGTask_banner (d : Device) (h : d.gFreshModeChange ≠ 0) :
    doBGTask d = (displayChangeModes d).set_gFreshModeChange (d.gFreshModeChange - 1) := by
  unfold doBGTask
  rw [if_pos h]
  simp only [displayChangeModes_gFreshModeChange]

theorem doBGTask_banner_count (n k : Nat) (d : Device) (hd : d.gFreshModeChange = n)
    (hk : k ≤ n) :
    (doBGTask^[k] d).gFreshModeChange = n - k ∧ (doBGTask^[k] d).gBgMode = d.gBgMode := by
  induction k with
  | zero => exact ⟨hd, rfl⟩
  | succ k ih =>
    obtain ⟨h1, h2⟩ := ih (by omega)
    rw [Function.iterate_succ_apply', doBGTask_banner _ (by rw [h1]; omega), h1]
    refine ⟨?_, ?_⟩
    · rw [set_gFreshModeChange_gFreshModeChange]; omega
    · rw [set_gFreshModeChange_gBgMode, displayChangeModes_gBgMode, h2]

/-- A pressed button whose edge is new, while the banner counter is not 0:
the default handler runs, whatever the mode. -/
theorem buttonBlock_banner (bit : Nat) (dflt : Device → Device)
    (pick : ButtonHandler → Device → Device) (d : Device) (hb : d.gFreshModeChange ≠ 0)
    (he : d.gOldButtonStates &&& bit = 0) :
    buttonBlock true bit dflt pick d
      = (dflt d).set_gOldButtonStates ((dflt d).gOldButtonStates ||| bit) := by
  unfold buttonBlock
  simp only [if_true, if_pos he, if_pos hb]

/-- While the banner counter is not 0 a block of `readDigitalButtons` whose
default handler keeps the counter off 0 leaves the PIN entry and the snake
alone. -/
theorem buttonBlock_banner_play (pressed : Bool) (bit : Nat) (dflt : Device → Device)
    (pick : ButtonHandler → Device → Device) (s d : Device)
    (hdflt : ∀ e, play (dflt e) = play e ∧ ((dflt e).gFreshModeChange ≠ 0 ∨
      (dflt e).gFreshModeChange = e.gFreshModeChange))
    (h : play d = play s ∧ d.gFreshModeChange ≠ 0) :
    play (buttonBlock pressed bit dflt pick d) = play s ∧
    (buttonBlock pressed bit dflt pick d).gFreshModeChange ≠ 0 := by
  obtain ⟨e, v, he, hc⟩ := buttonBlock_cases pressed bit dflt pick d
  rw [he, play_set_gOldButtonStates, set_gOldButtonStates_gFreshModeChange]
  rcases hc with rfl | rfl | ⟨hh, -, h0, -, -⟩
  · exact h
  · obtain ⟨h1, h2⟩ := hdflt d
    refine ⟨h1.trans h.1, ?_⟩
    rcases h2 with h2 | h2
    · exact h2
    · rw [h2]; exact h.2
  · exact absurd h0 h.2

/-- While the banner counter is not 0, a sample of the buttons leaves the PIN
entry (guess and cursor) and the snake (direction and all) unchanged, whatever
is pressed and whatever the mode is. -/
theorem readDigitalButtons_banner (s : Device) (b : Buttons) (hb : s.gFreshModeChange ≠ 0) :
    play (readDigitalButtons s b) = play s ∧ (readDigitalButtons s b).gFreshModeChange ≠ 0 := by
  unfold readDigitalButtons
  simp only []
  have h0 : play (if s.gLedTimer ≠ 0 then
      if (s.set_gLedTimer (s.gLedTimer - 1)).gLedTimer = 0 then
        emit (s.set_gLedTimer (s.gLedTimer - 1)) [.led RED_LED 0, .led GREEN_LED 0]
      else s.set_gLedTimer (s.gLedTimer - 1)
    else s) = play s ∧ (if s.gLedTimer ≠ 0 then
      if (s.set_gLedTimer (s.gLedTimer - 1)).gLedTimer = 0 then
        emit (s.set_gLedTimer (s.gLedTimer - 1)) [.led RED_LED 0, .led GREEN_LED 0]
      else s.set_gLedTimer (s.gLedTimer - 1)
    else s).gFreshModeChange ≠ 0 := by
    split_ifs <;> exact ⟨rfl, hb⟩
  have hcore : ∀ (f : Device → Device), (∀ e, core (f e) = core e) →
      ∀ e, play (f e) = play e ∧ ((f e).gFreshModeChange ≠ 0 ∨
        (f e).gFreshModeChange = e.gFreshModeChange) :=
    fun f hf e => ⟨play_of_core (hf e), Or.inr (show (core (f e)).gFreshModeChange
      = (core e).gFreshModeChange from by rw [hf e])⟩
  refine buttonBlock_banner_play _ _ _ _ s _ (hcore _ core_defaultBButtonHandler) ?_
  refine buttonBlock_banner_play _ _ _ _ s _ (hcore _ core_defaultAButtonHandler) ?_
  refine buttonBlock_banner_play _ _ _ _ s _ (hcore _ core_defaultRightHandler) ?_
  refine buttonBlock_banner_play _ _ _ _ s _ (hcore _ core_defaultLeftHandler) ?_
  refine buttonBlock_banner_play _ _ _ _ s _
    (fun e => ⟨play_defaultDownHandler e, Or.inl (by
      show (modeDown _).gFreshModeChange ≠ 0
      rw [modeDown_gFreshModeChange]; decide)⟩) ?_
  exact buttonBlock_banner_play _ _ _ _ s _
    (fun e => ⟨play_defaultUpHandler e, Or.inl (by
      show (modeUp _).gFreshModeChange ≠ 0
      rw [modeUp_gFreshModeChange]; decide)⟩) h0

theorem buttonBlock_released (bit : Nat) (dflt : Device → Device)
    (pick : ButtonHandler → Device → Device) (d : Device) :
    buttonBlock false bit dflt pick d
      = d.set_gOldButtonStates (d.gOldButtonStates &&& (255 - bit)) := by
  unfold buttonBlock
  simp

/-- An Up press whose edge is new, while the banner counter is not 0: the
display mode becomes what `modeUp` makes of it, whatever the mode. -/
theorem readDigitalButtons_banner_up (d : Device) (hb : d.gFreshModeChange ≠ 0)
    (he : d.gOldButtonStates &&& OLD_BUTTON_STATE_UP = 0) :
    (readDigitalButtons d upPressed).gBgMode = (modeUp d).gBgMode := by
  have h0 : ∀ e : Device, e.gFreshModeChange = d.gFreshModeChange →
      e.gOldButtonStates = d.gOldButtonStates → e.gBgMode = d.gBgMode →
      e.gIsLocked = d.gIsLocked →
      (buttonBlock true OLD_BUTTON_STATE_UP defaultUpHandler (fun h => h.upFunc) e).gBgMode
        = (modeUp d).gBgMode := by
    intro e h1 h2 h3 h4
    rw [buttonBlock_banner _ _ _ _ (by rw [h1]; exact hb) (by rw [h2]; exact he),
      set_gOldButtonStates_gBgMode]
    unfold defaultUpHandler
    rw [modeUp_gBgMode, modeUp_gBgMode, emit_gBgMode, emit_gIsLocked, h3, h4]
  unfold readDigitalButtons upPressed
  simp only [buttonBlock_released, set_gOldButtonStates_gBgMode]
  apply h0 <;> split_ifs <;> rfl

/-! ## The start state of a snake session -/

theorem snakeInitApples_eq (apples : List Point) (h : apples.length = 8) :
    snakeInitApples apples = List.replicate 8 ⟨-1, -1⟩ := by
  match apples, h with
  | [_, _, _, _, _, _, _, _], _ => rfl

/-- What `snakeInit` leaves, for arrays of the declared sizes. -/
theorem snakeInit_start (d : Device) (h16 : d.gSnake.length = 16) (h8 : d.gApples.length = 8) :
    StartState (snakeInit d) ∧ (snakeInit d).gSnake.length = 16 := by
  have hs : ∀ i, i < 3 → snakeAt (snakeInit d) i
      = (((d.gSnake.set 0 ⟨32, 16⟩).set 1 ⟨33, 16⟩).set 2 ⟨34, 16⟩).getD i ⟨0, 0⟩ :=
    fun i _ => rfl
  have hl : (((d.gSnake.set 0 ⟨32, 16⟩).set 1 ⟨33, 16⟩).set 2 (⟨34, 16⟩ : Point)).length = 16 := by
    simp [h16]
  refine ⟨⟨rfl, rfl, ?_, ?_, ?_, rfl, rfl, rfl, rfl, ?_⟩, hl⟩
  · rw [hs 0 (by omega)]
    match d.gSnake, h16 with
    | _ :: _ :: _ :: _, _ => rfl
  · rw [hs 1 (by omega)]
    match d.gSnake, h16 with
    | _ :: _ :: _ :: _, _ => rfl
  · rw [hs 2 (by omega)]
    match d.gSnake, h16 with
    | _ :: _ :: _ :: _, _ => rfl
  · show snakeInitApples d.gApples = _
    exact snakeInitApples_eq _ h8

theorem play_snakeResetRound (b : Bool) (i : Nat) (s : Device) :
    play (snakeResetRound b i s) = play s := by
  unfold snakeResetRound
  simp only []
  have hc : ∀ m, play (uninit (writeString (writeString
      (if i < 3 ∧ b = true then snakeDrawApples (emit s [.oledClear]) else emit s [.oledClear])
      (bytes "Game Over") 5 5) m 5 20) 2).1 = play s := by
    intro m
    apply play_of_core
    rw [core_uninit, core_writeString, core_writeString]
    split_ifs
    · rw [core_snakeDrawApples, core_emit]
    · rw [core_emit]
  generalize hm : sprintfInt ((writeString
    (if i < 3 ∧ b = true then snakeDrawApples (emit s [.oledClear]) else emit s [.oledClear])
    (bytes "Game Over") 5 5).gSnakeScore : Int) = m
  have hc2 := hc m
  generalize uninit (writeString (writeString
    (if i < 3 ∧ b = true then snakeDrawApples (emit s [.oledClear]) else emit s [.oledClear])
    (bytes "Game Over") 5 5) m 5 20) 2 = p at hc2 ⊢
  rw [play_emit, play_of_core (core_writeString ..), play_of_core (core_writeString ..)]
  split_ifs
  · rw [play_clockWrite, play_emit, play_of_core (core_clockRead ..), hc2]
  · rw [play_of_core (core_clockRead ..), hc2]

theorem snakeReset_eq (s : Device) (b : Bool) :
    ∃ d, snakeReset s b = snakeInit d ∧ play d = play s := by
  refine ⟨_, rfl, ?_⟩
  have hr : List.range 5 = [0, 1, 2, 3, 4] := rfl
  rw [hr]
  simp only [List.foldl_cons, List.foldl_nil, play_snakeResetRound]

/-- The session end leaves the start state. -/
theorem snakeReset_start (s : Device) (b : Bool) (h16 : s.gSnake.length = 16)
    (h8 : s.gApples.length = 8) :
    StartState (snakeReset s b) ∧ (snakeReset s b).gSnake.length = 16 := by
  obtain ⟨d, hd, hp⟩ := snakeReset_eq s b
  rw [hd]
  exact snakeInit_start d (by rw [play_gSnake hp]; exact h16) (by rw [play_gApples hp]; exact h8)

/-! ## Adding an apple -/

/-- `freeSlot` finds the lowest empty slot. -/
theorem freeSlot_some (apples : List Point) (n i j : Nat) (h : freeSlot apples n i = some j) :
    i ≤ j ∧ j < i + n ∧ (apples.getD j ⟨0, 0⟩).x = -1 ∧
    ∀ k, i ≤ k → k < j → (apples.getD k ⟨0, 0⟩).x ≠ -1 := by
  induction n generalizing i with
  | zero => simp [freeSlot] at h
  | succ n ih =>
    simp only [freeSlot] at h
    split_ifs at h with h1
    · simp only [Option.some.injEq] at h
      subst h
      exact ⟨le_refl _, by omega, h1, fun k hk1 hk2 => by omega⟩
    · obtain ⟨a1, a2, a3, a4⟩ := ih (i + 1) h
      refine ⟨by omega, by omega, a3, ?_⟩
      intro k hk1 hk2
      by_cases hk : k = i
      · rw [hk]; exact h1
      · exact a4 k (by omega) hk2

theorem freeSlot_none (apples : List Point) (n i : Nat) :
    freeSlot apples n i = none ↔ ∀ k, i ≤ k → k < i + n → (apples.getD k ⟨0, 0⟩).x ≠ -1 := by
  induction n generalizing i with
  | zero => simp [freeSlot]; intro k h1 h2; omega
  | succ n ih =>
    simp only [freeSlot]
    split_ifs with h1
    · simp only [false_iff, not_forall]
      exact ⟨i, le_refl _, by omega, fun h => h h1⟩
    · rw [ih (i + 1)]
      constructor
      · intro h k hk1 hk2
        by_cases hk : k = i
        · rw [hk]; exact h1
        · exact h k (by omega) (by omega)
      · intro h k hk1 hk2
        exact h k (by omega) (by omega)

theorem random_lt (s : Device) (max : Nat) (h : 0 < max) : (random s max).2 < max := by
  unfold random
  split
  · exact h
  · exact Nat.mod_lt _ h

/-- With all slots occupied the apple loop changes nothing and reports
`too_many_apples`. -/
theorem snakeAddApple_full (n i : Nat) (s : Device) (h : freeSlot s.gApples n i = none) :
    snakeAddApple n i s = (s, true) := by
  induction n generalizing i with
  | zero => rfl
  | succ n ih =>
    simp only [freeSlot] at h
    split_ifs at h with h1
    simp only [snakeAddApple]
    rw [if_neg h1]
    exact ih (i + 1) h

/-- With an empty slot the apple loop puts one apple, into the lowest empty
slot, at the two `random` results, and changes nothing else of the program's
variables. -/
theorem snakeAddApple_free (n i j : Nat) (s : Device) (h : freeSlot s.gApples n i = some j) :
    (snakeAddApple n i s).2 = false ∧
    (snakeAddApple n i s).1.gApples = s.gApples.set j
      ⟨toInt8 (random s SNAKE_SCREEN_WIDTH.toNat).2,
       toInt8 (random (random s SNAKE_SCREEN_WIDTH.toNat).1 SNAKE_SCREEN_HEIGHT.toNat).2⟩ ∧
    (∀ a, play ((snakeAddApple n i s).1.set_gApples a) = play (s.set_gApples a)) ∧
    (snakeAddApple n i s).1.gFreshModeChange = s.gFreshModeChange := by
  induction n generalizing i with
  | zero => simp [freeSlot] at h
  | succ n ih =>
    simp only [freeSlot] at h
    simp only [snakeAddApple]
    split_ifs at h with h1
    · simp only [Option.some.injEq] at h
      subst h
      rw [if_pos h1]
      have hc : core (random (random s SNAKE_SCREEN_WIDTH.toNat).1 SNAKE_SCREEN_HEIGHT.toNat).1
          = core s := by rw [core_random, core_random]
      refine ⟨rfl, ?_, ?_, ?_⟩
      · show ((random (random s SNAKE_SCREEN_WIDTH.toNat).1 SNAKE_SCREEN_HEIGHT.toNat).1.gApples).set
          i _ = _
        rw [show (random (random s SNAKE_SCREEN_WIDTH.toNat).1 SNAKE_SCREEN_HEIGHT.toNat).1.gApples
          = s.gApples from show (core _).gApples = (core s).gApples from by rw [hc]]
      · intro a
        apply play_of_core
        show core (((random (random s SNAKE_SCREEN_WIDTH.toNat).1
          SNAKE_SCREEN_HEIGHT.toNat).1).set_gApples a) = _
        rw [core_set_gApples, hc, core_set_gApples]
      · show (core (random (random s SNAKE_SCREEN_WIDTH.toNat).1
          SNAKE_SCREEN_HEIGHT.toNat).1).gFreshModeChange = (core s).gFreshModeChange
        rw [hc]
    · rw [if_neg h1]
      exact ih (i + 1) h

theorem toInt8_small (n : Nat) (h : n < 128) : toInt8 (n : Int) = (n : Int) := by
  unfold toInt8
  omega

/-! ## The apple loop: what is eaten -/

theorem emit_gSnake (s : Device) (es : List Effect) : (emit s es).gSnake = s.gSnake := rfl

theorem emit_gSnakeBufferPos (s : Device) (es : List Effect) :
    (emit s es).gSnakeBufferPos = s.gSnakeBufferPos := rfl

theorem emit_gSnakeDir (s : Device) (es : List Effect) :
    (emit s es).gSnakeDir = s.gSnakeDir := rfl

theorem emit_gSnakeTime (s : Device) (es : List Effect) :
    (emit s es).gSnakeTime = s.gSnakeTime := rfl

theorem emit_gSnakeSpeed (s : Device) (es : List Effect) :
    (emit s es).gSnakeSpeed = s.gSnakeSpeed := rfl

theorem snakeEatLoop_succ (p : Point) (n i : Nat) (s : Device) :
    snakeEatLoop p (n + 1) i s =
      if (s.gApples.getD i ⟨0, 0⟩).x ≠ -1 ∧ p = s.gApples.getD i ⟨0, 0⟩ then
        snakeEatLoop p n (i + 1) (eatApple i s)
      else snakeEatLoop p n (i + 1) s := rfl

/-- What eating the apple in slot `i` changes: the slot becomes empty, the
length takes a `growLen` step, score and speed an `eatScore` step; ring, head
slot, direction and tick counter stay. -/
theorem eatApple_fields (i : Nat) (s : Device) :
    (eatApple i s).gApples = s.gApples.set i ⟨-1, (s.gApples.getD i ⟨0, 0⟩).y⟩ ∧
    (eatApple i s).gSnakeLen = growLen s.gSnakeLen ∧
    ((eatApple i s).gSnakeScore, (eatApple i s).gSnakeSpeed)
      = eatScore (s.gSnakeScore, s.gSnakeSpeed) ∧
    (eatApple i s).gSnake = s.gSnake ∧
    (eatApple i s).gSnakeBufferPos = s.gSnakeBufferPos ∧
    (eatApple i s).gSnakeDir = s.gSnakeDir ∧
    (eatApple i s).gSnakeTime = s.gSnakeTime := by
  refine ⟨?_, ?_, ?_, ?_, ?_, ?_, ?_⟩
  · unfold eatApple; simp only []; split_ifs <;> simp [emit_gApples]
  · unfold eatApple growLen; simp only []
    split_ifs <;> simp [emit_gSnakeLen] at * <;> omega
  · unfold eatApple eatScore; simp only []
    split_ifs <;> simp [emit_gSnakeScore, emit_gSnakeSpeed] at * <;> omega
  · unfold eatApple; simp only []; split_ifs <;> simp [emit_gSnake]
  · unfold eatApple; simp only []; split_ifs <;> simp [emit_gSnakeBufferPos]
  · unfold eatApple; simp only []; split_ifs <;> simp [emit_gSnakeDir]
  · unfold eatApple; simp only []; split_ifs <;> simp [emit_gSnakeTime]

/-- The apple loop moves nothing: ring, head slot, direction and tick counter
stay, and the apple array keeps its size. -/
theorem snakeEatLoop_keeps (p : Point) (n i : Nat) (s : Device) :
    (snakeEatLoop p n i s).gSnake = s.gSnake ∧
    (snakeEatLoop p n i s).gSnakeBufferPos = s.gSnakeBufferPos ∧
    (snakeEatLoop p n i s).gSnakeDir = s.gSnakeDir ∧
    (snakeEatLoop p n i s).gSnakeTime = s.gSnakeTime ∧
    (snakeEatLoop p n i s).gApples.length = s.gApples.length := by
  induction n generalizing i s with
  | zero => exact ⟨rfl, rfl, rfl, rfl, rfl⟩
  | succ n ih =>
    rw [snakeEatLoop_succ]
    split_ifs with h1
    · obtain ⟨e1, e2, e3, e4, e5⟩ := ih (i + 1) (eatApple i s)
      obtain ⟨f1, -, -, f4, f5, f6, f7⟩ := eatApple_fields i s
      rw [e1, e2, e3, e4, e5, f1, f4, f5, f6, f7, List.length_set]
      exact ⟨rfl, rfl, rfl, rfl, rfl⟩
    · exact ih (i + 1) s

/-- Score and speed mask after the apple loop: one `eatScore` step for every
apple at the head. -/
theorem snakeEatLoop_scores (p : Point) (n i : Nat) (s : Device) :
    ((snakeEatLoop p n i s).gSnakeScore, (snakeEatLoop p n i s).gSnakeSpeed)
      = eatScore^[applesAt p n i s.gApples] (s.gSnakeScore, s.gSnakeSpeed) := by
  induction n generalizing i s with
  | zero => rfl
  | succ n ih =>
    rw [snakeEatLoop_succ]
    simp only [applesAt]
    split_ifs with h1
    · obtain ⟨f1, -, f3, -⟩ := eatApple_fields i s
      rw [ih (i + 1) (eatApple i s), f1, f3, applesAt_set _ _ _ _ _ _ (by omega),
        Nat.add_comm 1, Function.iterate_succ_apply]
    · rw [ih (i + 1) s, Nat.zero_add]

/-- The apple slots after the apple loop: a slot whose apple is at the head
becomes empty (`x = -1`), every other slot is as it was. -/
theorem snakeEatLoop_apples (p : Point) (n i : Nat) (s : Device)
    (hfit : i + n ≤ s.gApples.length) (j : Nat) :
    (snakeEatLoop p n i s).gApples.getD j ⟨0, 0⟩
      = if i ≤ j ∧ j < i + n ∧ (s.gApples.getD j ⟨0, 0⟩).x ≠ -1 ∧ p = s.gApples.getD j ⟨0, 0⟩
        then ⟨-1, (s.gApples.getD j ⟨0, 0⟩).y⟩ else s.gApples.getD j ⟨0, 0⟩ := by
  induction n generalizing i s with
  | zero =>
    rw [if_neg (by omega)]; rfl
  | succ n ih =>
    rw [snakeEatLoop_succ]
    have hset : ∀ q : Point, (s.gApples.set i q).getD j ⟨0, 0⟩
        = if j = i then q else s.gApples.getD j ⟨0, 0⟩ := by
      intro q
      simp only [List.getD_eq_getElem?_getD, List.getElem?_set]
      by_cases h : i = j
      · subst h
        have : i < s.gApples.length := by omega
        simp [this]
      · have h2 : ¬ j = i := fun e => h e.symm
        simp [h, h2]
    split_ifs with h1 h2 h3
    · -- eaten at i, and j is an eaten slot
      obtain ⟨f1, -⟩ := eatApple_fields i s
      rw [ih (i + 1) (eatApple i s) (by rw [f1, List.length_set]; omega), f1, hset]
      by_cases hj : j = i
      · subst hj
        rw [if_neg (by omega), if_pos rfl]
      · rw [if_neg hj, if_pos ⟨by omega, by omega, h2.2.2⟩]
    · obtain ⟨f1, -⟩ := eatApple_fields i s
      rw [ih (i + 1) (eatApple i s) (by rw [f1, List.length_set]; omega), f1, hset]
      by_cases hj : j = i
      · subst hj
        exact absurd ⟨le_refl _, by omega, h1⟩ h2
      · rw [if_neg hj, if_neg]
        intro h
        exact h2 ⟨by omega, by omega, h.2.2⟩
    · rw [ih (i + 1) s (by omega)]
      by_cases hj : j = i
      · subst hj
        exact absurd h3.2.2 h1
      · rw [if_pos ⟨by omega, by omega, h3.2.2⟩]
    · rw [ih (i + 1) s (by omega), if_neg]
      intro h
      exact h3 ⟨by omega, by omega, h.2.2⟩

theorem emit_rng (s : Device) (es : List Effect) : (emit s es).rng = s.rng := rfl

theorem uninit_rng (s : Device) (n : Nat) : (uninit s n).1.rng = s.rng := by
  unfold uninit; split <;> rfl

theorem eatApple_rng (i : Nat) (s : Device) : (eatApple i s).rng = s.rng := by
  unfold eatApple; simp only []; split_ifs <;> simp [emit_rng]

theorem snakeEatLoop_rng (p : Point) (n i : Nat) (s : Device) :
    (snakeEatLoop p n i s).rng = s.rng := by
  induction n generalizing i s with
  | zero => rfl
  | succ n ih =>
    rw [snakeEatLoop_succ]
    split_ifs
    · rw [ih, eatApple_rng]
    · exact ih _ _

/-- The apple slots after the apple loop. -/
theorem snakeEatLoop_clear (p : Point) (n i : Nat) (s : Device) :
    (snakeEatLoop p n i s).gApples = clearApples p n i s.gApples := by
  induction n generalizing i s with
  | zero => rfl
  | succ n ih =>
    rw [snakeEatLoop_succ]
    simp only [clearApples]
    split_ifs
    · rw [ih, (eatApple_fields i s).1]
    · exact ih _ _

/-! ## The move after the wall test -/

/-- When the self-collision loop finds a hit the session ends. -/
theorem snakeMoved_hit (s3 : Device) (nb : Nat)
    (h : (snakeHitLoop s3 (snakeAt s3 nb) (s3.gSnakeLen - 1)
      ((s3.gSnakeBufferPos : Int) - 1)).1 = true) :
    snakeMoved s3 nb = (snakeReset (emit s3 [.println "Snake hit"]) false, true) := by
  unfold snakeMoved
  simp only []
  split
  · rfl
  · rename_i hq
    rw [hq] at h
    exact absurd h (by simp)

/-- When the self-collision loop finds no hit the head slot advances and the
apple loop runs; the function does not return from inside. -/
theorem snakeMoved_clear (s3 : Device) (nb : Nat)
    (h : (snakeHitLoop s3 (snakeAt s3 nb) (s3.gSnakeLen - 1)
      ((s3.gSnakeBufferPos : Int) - 1)).1 = false) :
    ∃ d, snakeMoved s3 nb
        = (snakeEatLoop (snakeAt s3 nb) 8 0 (d.set_gSnakeBufferPos nb), false) ∧
      play d = play s3 ∧ d.rng = s3.rng := by
  unfold snakeMoved
  simp only []
  split
  · rename_i hq
    rw [hq] at h
    exact absurd h (by simp)
  · rename_i idx hq
    refine ⟨_, rfl, ?_, ?_⟩
    · apply play_of_core
      rw [core_snakeClearPixel]
      split_ifs
      · rw [core_uninit, core_snakeDrawPixel]
      · rw [core_snakeDrawPixel]
    · show (if idx < 0 then _ else _ : Device × Point).1.rng = s3.rng
      split_ifs
      · show (uninit (snakeDrawPixel s3 (snakeAt s3 nb)) 2).1.rng = s3.rng
        rw [uninit_rng]
        rfl
      · rfl

theorem eatScore_fst (k : Nat) (a b : Nat) (ha : a < 65536) :
    (eatScore^[k] (a, b)).1 = (a + k) % 65536 := by
  induction k generalizing a b with
  | zero => exact (Nat.mod_eq_of_lt ha).symm
  | succ k ih =>
    have h1 : eatScore (a, b) = ((a + 1) % 65536,
        if (a + 1) % 65536 > 25 then 1 else if (a + 1) % 65536 > 10 then 3 else b) := rfl
    rw [Function.iterate_succ_apply, h1, ih _ _ (Nat.mod_lt _ (by decide))]
    omega

/-! ## The tick of the snake session -/

theorem and_63 (c : Nat) : c &&& 0x3f = c % 64 := Nat.and_pow_two_sub_one_eq_mod c 6

/-- A tick that is no spawn tick: the apple part is skipped. -/
theorem snakeBgMode_plain (s : Device) (hc : (s.gSnakeTime + 1) % 256 % 64 ≠ 63) :
    snakeBgMode s =
      if (s.gSnakeTime + 1) % 256 &&& s.gSnakeSpeed = 0 then
        if (snakeMove (s.set_gSnakeTime ((s.gSnakeTime + 1) % 256))).2 then
          (snakeMove (s.set_gSnakeTime ((s.gSnakeTime + 1) % 256))).1
        else snakeRedrawDisplay (snakeMove (s.set_gSnakeTime ((s.gSnakeTime + 1) % 256))).1
      else snakeRedrawDisplay (s.set_gSnakeTime ((s.gSnakeTime + 1) % 256)) := by
  unfold snakeBgMode
  simp only [and_63, if_neg hc, set_gSnakeTime_gSnakeSpeed]
  split_ifs <;> simp_all

/-- A spawn tick with all eight slots occupied: the session ends, nothing
else happens. -/
theorem snakeBgMode_full (s : Device) (hc : (s.gSnakeTime + 1) % 256 % 64 = 63)
    (hf : freeSlot s.gApples 8 0 = none) :
    snakeBgMode s = snakeReset (emit ((emit (s.set_gSnakeTime ((s.gSnakeTime + 1) % 256))
      [.println "Add an apple", .led GREEN_LED 1]).set_gLedTimer 2)
      [.println "Too many apples!", .led RED_LED 1]) true := by
  have h2 := snakeAddApple_full 8 0 ((emit (s.set_gSnakeTime ((s.gSnakeTime + 1) % 256))
    [.println "Add an apple", .led GREEN_LED 1]).set_gLedTimer 2) hf
  unfold snakeBgMode
  simp only [and_63, if_pos hc]
  rw [h2]
  rfl

/-- A spawn tick with an empty slot: the apple loop has put its apple, the
tick goes on to the movement gate. -/
theorem snakeBgMode_spawn (s : Device) (hc : (s.gSnakeTime + 1) % 256 % 64 = 63) (j : Nat)
    (hf : freeSlot s.gApples 8 0 = some j) :
    snakeBgMode s =
      if (s.gSnakeTime + 1) % 256 &&& (snakeAddApple 8 0 ((emit (s.set_gSnakeTime
          ((s.gSnakeTime + 1) % 256)) [.println "Add an apple",
            .led GREEN_LED 1]).set_gLedTimer 2)).1.gSnakeSpeed = 0 then
        if (snakeMove (snakeAddApple 8 0 ((emit (s.set_gSnakeTime
          ((s.gSnakeTime + 1) % 256)) [.println "Add an apple",
            .led GREEN_LED 1]).set_gLedTimer 2)).1).2 then
          (snakeMove (snakeAddApple 8 0 ((emit (s.set_gSnakeTime
          ((s.gSnakeTime + 1) % 256)) [.println "Add an apple",
            .led GREEN_LED 1]).set_gLedTimer 2)).1).1
        else snakeRedrawDisplay (snakeMove (snakeAddApple 8 0 ((emit (s.set_gSnakeTime
          ((s.gSnakeTime + 1) % 256)) [.println "Add an apple",
            .led GREEN_LED 1]).set_gLedTimer 2)).1).1
      else snakeRedrawDisplay (snakeAddApple 8 0 ((emit (s.set_gSnakeTime
          ((s.gSnakeTime + 1) % 256)) [.println "Add an apple",
            .led GREEN_LED 1]).set_gLedTimer 2)).1 := by
  have h2 := (snakeAddApple_free 8 0 j ((emit (s.set_gSnakeTime
    ((s.gSnakeTime + 1) % 256)) [.println "Add an apple", .led GREEN_LED 1]).set_gLedTimer 2)
    hf).1
  unfold snakeBgMode
  simp only [and_63, if_pos hc]
  generalize snakeAddApple 8 0 ((emit (s.set_gSnakeTime
    ((s.gSnakeTime + 1) % 256)) [.println "Add an apple", .led GREEN_LED 1]).set_gLedTimer 2)
    = r at h2 ⊢
  obtain ⟨d, f⟩ := r
  simp only at h2
  subst h2
  simp only []
  split_ifs <;> simp_all

theorem spawn_tick_no_move : ∀ c, c < 256 → c % 64 = 63 →
    c &&& 1 ≠ 0 ∧ c &&& 3 ≠ 0 ∧ c &&& 5 ≠ 0 := by
  decide!

theorem gate_cadence : ∀ c, c < 256 →
    (c &&& 3 = 0 ↔ c % 4 = 0) ∧ (c &&& 1 = 0 ↔ c % 2 = 0) ∧
    (c &&& 5 = 0 ↔ (c % 8 = 0 ∨ c % 8 = 2)) := by
  decide!

theorem spawnStart_gSnake (s : Device) : (spawnStart s).gSnake = s.gSnake := rfl

theorem spawnStart_gApples (s : Device) : (spawnStart s).gApples = s.gApples := rfl

theorem spawnStart_gSnakeSpeed (s : Device) : (spawnStart s).gSnakeSpeed = s.gSnakeSpeed := rfl

/-! ## The self-collision scan -/

/-- The self-collision loop started at ring slot `k` (index `k`, or `-1` for
slot 15) compares `p` with the `n` slots `k, k-1, ...` (wrapping from 0 to 15)
and with no other slot. -/
theorem snakeHitLoop_iff (s : Device) (p : Point) (n : Nat) (hn : n ≤ 16) (k : Nat) (hk : k < 16)
    (v : Int) (hv : v = k ∨ (v = -1 ∧ k = 15)) :
    (snakeHitLoop s p n v).1 = true ↔ ∃ j, j < n ∧ p = snakeAt s ((k + 16 - j) % 16) := by
  induction n generalizing k v with
  | zero => simp [snakeHitLoop]
  | succ n ih =>
    have hidx : (if v = -1 then (MAX_SNAKE_LEN : Int) - 1 else v) = (k : Int) := by
      rcases hv with h | ⟨h1, h2⟩
      · rw [if_neg (by omega)]; exact h
      · rw [if_pos h1, h2]; rfl
    simp only [snakeHitLoop, hidx, Int.toNat_ofNat]
    by_cases hp : p = snakeAt s k
    · rw [if_pos hp]
      refine ⟨fun _ => ⟨0, by omega, ?_⟩, fun _ => rfl⟩
      rw [Nat.sub_zero, Nat.add_mod_right, Nat.mod_eq_of_lt hk]
      exact hp
    · rw [if_neg hp]
      have hv2 : ((k : Int) - 1 = ((k + 15) % 16 : Nat)) ∨
          ((k : Int) - 1 = -1 ∧ (k + 15) % 16 = 15) := by omega
      rw [ih (by omega) ((k + 15) % 16) (Nat.mod_lt _ (by decide)) ((k : Int) - 1) hv2]
      constructor
      · rintro ⟨j, hj, e⟩
        refine ⟨j + 1, by omega, ?_⟩
        rw [e]
        congr 1
        omega
      · rintro ⟨j, hj, e⟩
        rcases j with _ | j
        · exfalso
          apply hp
          rw [e, Nat.sub_zero, Nat.add_mod_right, Nat.mod_eq_of_lt hk]
        · refine ⟨j, by omega, ?_⟩
          rw [e]
          congr 1
          omega

/-- The scan reads only the slots it compares with: two devices whose rings
agree on the `n` slots from `k` down give the same result. -/
theorem snakeHitLoop_congr (s t : Device) (p : Point) (n : Nat) (hn : n ≤ 16) (k : Nat)
    (hk : k < 16) (v : Int) (hv : v = k ∨ (v = -1 ∧ k = 15))
    (h : ∀ j, j < n → snakeAt t ((k + 16 - j) % 16) = snakeAt s ((k + 16 - j) % 16)) :
    snakeHitLoop t p n v = snakeHitLoop s p n v := by
  induction n generalizing k v with
  | zero => rfl
  | succ n ih =>
    have hidx : (if v = -1 then (MAX_SNAKE_LEN : Int) - 1 else v) = (k : Int) := by
      rcases hv with h | ⟨h1, h2⟩
      · rw [if_neg (by omega)]; exact h
      · rw [if_pos h1, h2]; rfl
    have h0 : snakeAt t k = snakeAt s k := by
      have := h 0 (by omega)
      rwa [Nat.sub_zero, Nat.add_mod_right, Nat.mod_eq_of_lt hk] at this
    simp only [snakeHitLoop, hidx, Int.toNat_ofNat, h0]
    have hv2 : ((k : Int) - 1 = ((k + 15) % 16 : Nat)) ∨
        ((k : Int) - 1 = -1 ∧ (k + 15) % 16 = 15) := by omega
    rw [ih (by omega) ((k + 15) % 16) (Nat.mod_lt _ (by decide)) ((k : Int) - 1) hv2]
    intro j hj
    have e : ((k + 15) % 16 + 16 - j) % 16 = (k + 16 - (j + 1)) % 16 := by omega
    rw [e]
    exact h (j + 1) (by omega)

theorem snakeAt_set (s : Device) (g : List Point) (i : Nat) : snakeAt (s.set_gSnake g) i
    = g.getD i ⟨0, 0⟩ := rfl

/-- With a length of at most 15 the slot of the new head is no slot of the
live body. -/
theorem bodySlot_ne_nextSlot (s : Device) (hlen : s.gSnakeLen ≤ 15) (hbp : s.gSnakeBufferPos < 16)
    (j : Nat) (hj : j < s.gSnakeLen) : bodySlot s j ≠ nextSlot s := by
  unfold bodySlot nextSlot MAX_SNAKE_LEN
  split_ifs <;> omega

theorem nextSlot_lt (s : Device) (hbp : s.gSnakeBufferPos < 16) : nextSlot s < 16 := by
  unfold nextSlot MAX_SNAKE_LEN
  split_ifs <;> omega

theorem bodySlot_lt (s : Device) (j : Nat) : bodySlot s j < 16 := Nat.mod_lt _ (by decide)

theorem mem_body (s : Device) (p : Point) :
    p ∈ body s ↔ ∃ j, j < s.gSnakeLen ∧ p = snakeAt s (bodySlot s j) := by
  unfold body
  simp only [List.mem_map, List.mem_range]
  constructor
  · rintro ⟨j, hj, e⟩
    exact ⟨j, hj, e.symm⟩
  · rintro ⟨j, hj, e⟩
    exact ⟨j, hj, e.symm⟩

/-! ## A movement advance -/

theorem emit_nil (s : Device) : emit s [] = s := by
  cases s
  simp [emit, Device.set_log]

theorem toInt8_id (x : Int) (h1 : -128 ≤ x) (h2 : x < 128) : toInt8 x = x := by
  unfold toInt8
  omega

theorem snakeMove_up (s : Device) (h : s.gSnakeDir = SNAKE_UP) :
    snakeMove s =
      if (snakeAt (snakePut (emit (snakePut (emit s [.println "Move the snake"]) (nextSlot s)
          (snakeHead s)) [.print " [UP] "]) (nextSlot s)
          ⟨(snakeHead s).x, toInt8 ((snakeHead s).y - 1)⟩) (nextSlot s)).y < 0 then
        (emit (snakeReset (snakePut (emit (snakePut (emit s [.println "Move the snake"])
          (nextSlot s) (snakeHead s)) [.print " [UP] "]) (nextSlot s)
          ⟨(snakeHead s).x, toInt8 ((snakeHead s).y - 1)⟩) false) [.println "Top hit!"], true)
      else snakeMoved (snakePut (emit (snakePut (emit s [.println "Move the snake"]) (nextSlot s)
          (snakeHead s)) [.print " [UP] "]) (nextSlot s)
          ⟨(snakeHead s).x, toInt8 ((snakeHead s).y - 1)⟩) (nextSlot s) := by
  unfold snakeMove
  exact (if_pos h).trans rfl

theorem snakeMove_down (s : Device) (h : s.gSnakeDir = SNAKE_DOWN) :
    snakeMove s =
      if (snakeAt (snakePut (emit (snakePut (emit s [.println "Move the snake"]) (nextSlot s)
          (snakeHead s)) [.print " [DOWN] "]) (nextSlot s)
          ⟨(snakeHead s).x, toInt8 ((snakeHead s).y + 1)⟩) (nextSlot s)).y
            ≥ SNAKE_SCREEN_HEIGHT then
        (snakeReset (emit (snakePut (emit (snakePut (emit s [.println "Move the snake"])
          (nextSlot s) (snakeHead s)) [.print " [DOWN] "]) (nextSlot s)
          ⟨(snakeHead s).x, toInt8 ((snakeHead s).y + 1)⟩) [.println "Bottom hit!"]) false, true)
      else snakeMoved (snakePut (emit (snakePut (emit s [.println "Move the snake"]) (nextSlot s)
          (snakeHead s)) [.print " [DOWN] "]) (nextSlot s)
          ⟨(snakeHead s).x, toInt8 ((snakeHead s).y + 1)⟩) (nextSlot s) := by
  have h0 : ¬ s.gSnakeDir = SNAKE_UP := by rw [h]; decide
  unfold snakeMove
  exact (if_neg h0).trans ((if_pos h).trans rfl)

theorem snakeMove_left (s : Device) (h : s.gSnakeDir = SNAKE_LEFT) :
    snakeMove s =
      if (snakeAt (snakePut (emit (snakePut (emit s [.println "Move the snake"]) (nextSlot s)
          (snakeHead s)) [.print " [LEFT] "]) (nextSlot s)
          ⟨toInt8 ((snakeHead s).x - 1), (snakeHead s).y⟩) (nextSlot s)).x ≤ 0 then
        (snakeReset (emit (snakePut (emit (snakePut (emit s [.println "Move the snake"])
          (nextSlot s) (snakeHead s)) [.print " [LEFT] "]) (nextSlot s)
          ⟨toInt8 ((snakeHead s).x - 1), (snakeHead s).y⟩) [.println "Left wall hit!"]) false,
          true)
      else snakeMoved (snakePut (emit (snakePut (emit s [.println "Move the snake"]) (nextSlot s)
          (snakeHead s)) [.print " [LEFT] "]) (nextSlot s)
          ⟨toInt8 ((snakeHead s).x - 1), (snakeHead s).y⟩) (nextSlot s) := by
  have h0 : ¬ s.gSnakeDir = SNAKE_UP := by rw [h]; decide
  have h1 : ¬ s.gSnakeDir = SNAKE_DOWN := by rw [h]; decide
  unfold snakeMove
  exact (if_neg h0).trans ((if_neg h1).trans ((if_pos h).trans rfl))

theorem snakeMove_right (s : Device) (h : s.gSnakeDir = SNAKE_RIGHT) :
    snakeMove s =
      if (snakeAt (snakePut (emit (snakePut (emit s [.println "Move the snake"]) (nextSlot s)
          (snakeHead s)) [.print " [RIGHT] "]) (nextSlot s)
          ⟨toInt8 ((snakeHead s).x + 1), (snakeHead s).y⟩) (nextSlot s)).x
            ≥ SNAKE_SCREEN_WIDTH - 1 then
        (snakeReset (emit (snakePut (emit (snakePut (emit s [.println "Move the snake"])
          (nextSlot s) (snakeHead s)) [.print " [RIGHT] "]) (nextSlot s)
          ⟨toInt8 ((snakeHead s).x + 1), (snakeHead s).y⟩) [.println "Right wall hit!"]) false,
          true)
      else snakeMoved (snakePut (emit (snakePut (emit s [.println "Move the snake"]) (nextSlot s)
          (snakeHead s)) [.print " [RIGHT] "]) (nextSlot s)
          ⟨toInt8 ((snakeHead s).x + 1), (snakeHead s).y⟩) (nextSlot s) := by
  have h0 : ¬ s.gSnakeDir = SNAKE_UP := by rw [h]; decide
  have h1 : ¬ s.gSnakeDir = SNAKE_DOWN := by rw [h]; decide
  have h2 : ¬ s.gSnakeDir = SNAKE_LEFT := by rw [h]; decide
  unfold snakeMove
  exact (if_neg h0).trans ((if_neg h1).trans ((if_neg h2).trans ((if_pos h).trans rfl)))

/-- A direction that is none of the four: the function returns at once. -/
theorem snakeMove_error (s : Device) (h : 3 < s.gSnakeDir) : (snakeMove s).2 = true := by
  have h0 : ¬ s.gSnakeDir = SNAKE_UP := by unfold SNAKE_UP; omega
  have h1 : ¬ s.gSnakeDir = SNAKE_DOWN := by unfold SNAKE_DOWN; omega
  have h2 : ¬ s.gSnakeDir = SNAKE_LEFT := by unfold SNAKE_LEFT; omega
  have h3 : ¬ s.gSnakeDir = SNAKE_RIGHT := by unfold SNAKE_RIGHT; omega
  unfold snakeMove
  exact congrArg Prod.snd
    ((if_neg h0).trans ((if_neg h1).trans ((if_neg h2).trans (if_neg h3))))

/-- The ring after the two stores through `nextPos`. -/
theorem snakePut_twice (s : Device) (es fs : List Effect) (n : Nat) (c q : Point) :
    (snakePut (emit (snakePut (emit s es) n c) fs) n q).gSnake = s.gSnake.set n q := by
  show ((s.gSnake.set n c).set n q) = _
  rw [List.set_set]

theorem snakePut_head (s : Device) (es fs : List Effect) (n : Nat) (c q : Point)
    (hn : n < s.gSnake.length) :
    snakeAt (snakePut (emit (snakePut (emit s es) n c) fs) n q) n = q := by
  unfold snakeAt
  rw [snakePut_twice, List.getD_eq_getElem?_getD, List.getElem?_set]
  simp [hn]

theorem snakePut_same (s : Device) (es fs : List Effect) (n : Nat) (c q : Point) :
    SameGame (snakePut (emit (snakePut (emit s es) n c) fs) n q) s := by
  refine ⟨?_, ?_, ?_, ?_, ?_, ?_, ?_, ?_, ?_, ?_⟩ <;> rfl

theorem sameGame_emit (d s : Device) (es : List Effect) (h : SameGame d s) :
    SameGame (emit d es) s := h

/-- The shape of a movement advance: the new head is stored in the next ring
slot; then either the advance stays on the board and the function goes on with
the self-collision scan, or a wall is hit and the session ends. -/
theorem snakeMove_form (s : Device) (hd : s.gSnakeDir ≤ 3) (hbp : s.gSnakeBufferPos < 16)
    (h16 : s.gSnake.length = 16) (hp : playable (snakeHead s)) :
    ∃ d : Device, d.gSnake = s.gSnake.set (nextSlot s) (newHead s) ∧ SameGame d s ∧
      snakeAt d (nextSlot s) = newHead s ∧
      ((playable (newHead s) ∧ snakeMove s = snakeMoved d (nextSlot s)) ∨
       (¬ playable (newHead s) ∧
         ∃ es fs, snakeMove s = (emit (snakeReset (emit d es) false) fs, true))) := by
  have hn : nextSlot s < s.gSnake.length := by rw [h16]; exact nextSlot_lt s hbp
  obtain ⟨p1, p2, p3, p4⟩ := hp
  have hdir : s.gSnakeDir = SNAKE_UP ∨ s.gSnakeDir = SNAKE_DOWN ∨ s.gSnakeDir = SNAKE_LEFT ∨
      s.gSnakeDir = SNAKE_RIGHT := by
    unfold SNAKE_UP SNAKE_DOWN SNAKE_LEFT SNAKE_RIGHT; omega
  rcases hdir with h | h | h | h
  · have hq : (⟨(snakeHead s).x, toInt8 ((snakeHead s).y - 1)⟩ : Point) = newHead s := by
      unfold newHead
      rw [if_pos h, toInt8_id _ (by omega) (by omega)]
    refine ⟨snakePut (emit (snakePut (emit s [.println "Move the snake"]) (nextSlot s)
      (snakeHead s)) [.print " [UP] "]) (nextSlot s) ⟨(snakeHead s).x, toInt8 ((snakeHead s).y - 1)⟩,
      ?_, snakePut_same s _ _ _ _ _, ?_, ?_⟩
    · rw [snakePut_twice, hq]
    · rw [snakePut_head s _ _ _ _ _ hn, hq]
    rw [snakeMove_up s h, snakePut_head s _ _ _ _ _ hn, hq]
    have hy : (newHead s).y = (snakeHead s).y - 1 := by rw [← hq, toInt8_id _ (by omega) (by omega)]
    have hx : (newHead s).x = (snakeHead s).x := by rw [← hq]
    by_cases hw : (newHead s).y < 0
    · right
      rw [if_pos hw]
      refine ⟨fun hpl => by have := hpl.2.2.1; omega, [], [.println "Top hit!"], ?_⟩
      rw [emit_nil]
    · left
      rw [if_neg hw]
      exact ⟨⟨by omega, by omega, by omega, by omega⟩, rfl⟩
  · have hq : (⟨(snakeHead s).x, toInt8 ((snakeHead s).y + 1)⟩ : Point) = newHead s := by
      have h0 : ¬ s.gSnakeDir = SNAKE_UP := by rw [h]; decide
      unfold newHead
      rw [if_neg h0, if_pos h, toInt8_id _ (by omega) (by omega)]
    refine ⟨snakePut (emit (snakePut (emit s [.println "Move the snake"]) (nextSlot s)
      (snakeHead s)) [.print " [DOWN] "]) (nextSlot s) ⟨(snakeHead s).x, toInt8 ((snakeHead s).y + 1)⟩,
      ?_, snakePut_same s _ _ _ _ _, ?_, ?_⟩
    · rw [snakePut_twice, hq]
    · rw [snakePut_head s _ _ _ _ _ hn, hq]
    rw [snakeMove_down s h, snakePut_head s _ _ _ _ _ hn, hq]
    have hy : (newHead s).y = (snakeHead s).y + 1 := by rw [← hq, toInt8_id _ (by omega) (by omega)]
    have hx : (newHead s).x = (snakeHead s).x := by rw [← hq]
    by_cases hw : (newHead s).y ≥ SNAKE_SCREEN_HEIGHT
    · right
      rw [if_pos hw]
      refine ⟨fun hpl => ?_, [.println "Bottom hit!"], [], ?_⟩
      · have := hpl.2.2.2
        unfold SNAKE_SCREEN_HEIGHT at hw
        omega
      · rw [emit_nil]
    · left
      rw [if_neg hw]
      unfold SNAKE_SCREEN_HEIGHT at hw
      exact ⟨⟨by omega, by omega, by omega, by omega⟩, rfl⟩
  · have hq : (⟨toInt8 ((snakeHead s).x - 1), (snakeHead s).y⟩ : Point) = newHead s := by
      have h0 : ¬ s.gSnakeDir = SNAKE_UP := by rw [h]; decide
      have h1 : ¬ s.gSnakeDir = SNAKE_DOWN := by rw [h]; decide
      unfold newHead
      rw [if_neg h0, if_neg h1, if_pos h, toInt8_id _ (by omega) (by omega)]
    refine ⟨snakePut (emit (snakePut (emit s [.println "Move the snake"]) (nextSlot s)
      (snakeHead s)) [.print " [LEFT] "]) (nextSlot s) ⟨toInt8 ((snakeHead s).x - 1), (snakeHead s).y⟩,
      ?_, snakePut_same s _ _ _ _ _, ?_, ?_⟩
    · rw [snakePut_twice, hq]
    · rw [snakePut_head s _ _ _ _ _ hn, hq]
    rw [snakeMove_left s h, snakePut_head s _ _ _ _ _ hn, hq]
    have hx : (newHead s).x = (snakeHead s).x - 1 := by rw [← hq, toInt8_id _ (by omega) (by omega)]
    have hy : (newHead s).y = (snakeHead s).y := by rw [← hq]
    by_cases hw : (newHead s).x ≤ 0
    · right
      rw [if_pos hw]
      refine ⟨fun hpl => by have := hpl.1; omega, [.println "Left wall hit!"], [], ?_⟩
      rw [emit_nil]
    · left
      rw [if_neg hw]
      exact ⟨⟨by omega, by omega, by omega, by omega⟩, rfl⟩
  · have hq : (⟨toInt8 ((snakeHead s).x + 1), (snakeHead s).y⟩ : Point) = newHead s := by
      have h0 : ¬ s.gSnakeDir = SNAKE_UP := by rw [h]; decide
      have h1 : ¬ s.gSnakeDir = SNAKE_DOWN := by rw [h]; decide
      have h2 : ¬ s.gSnakeDir = SNAKE_LEFT := by rw [h]; decide
      unfold newHead
      rw [if_neg h0, if_neg h1, if_neg h2, toInt8_id _ (by omega) (by omega)]
    refine ⟨snakePut (emit (snakePut (emit s [.println "Move the snake"]) (nextSlot s)
      (snakeHead s)) [.print " [RIGHT] "]) (nextSlot s) ⟨toInt8 ((snakeHead s).x + 1), (snakeHead s).y⟩,
      ?_, snakePut_same s _ _ _ _ _, ?_, ?_⟩
    · rw [snakePut_twice, hq]
    · rw [snakePut_head s _ _ _ _ _ hn, hq]
    rw [snakeMove_right s h, snakePut_head s _ _ _ _ _ hn, hq]
    have hx : (newHead s).x = (snakeHead s).x + 1 := by rw [← hq, toInt8_id _ (by omega) (by omega)]
    have hy : (newHead s).y = (snakeHead s).y := by rw [← hq]
    by_cases hw : (newHead s).x ≥ SNAKE_SCREEN_WIDTH - 1
    · right
      rw [if_pos hw]
      refine ⟨fun hpl => ?_, [.println "Right wall hit!"], [], ?_⟩
      · have := hpl.2.1
        unfold SNAKE_SCREEN_WIDTH at hw
        omega
      · rw [emit_nil]
    · left
      rw [if_neg hw]
      unfold SNAKE_SCREEN_WIDTH at hw
      exact ⟨⟨by omega, by omega, by omega, by omega⟩, rfl⟩

/-! ## The outcome of a movement advance -/

theorem newHead_ne (s : Device) : newHead s ≠ snakeHead s := by
  intro e
  have ex := congrArg Point.x e
  have ey := congrArg Point.y e
  unfold newHead at ex ey
  split_ifs at ex ey <;> simp at ex ey

theorem bodySlot_zero (s : Device) (hbp : s.gSnakeBufferPos < 16) :
    bodySlot s 0 = s.gSnakeBufferPos := by
  unfold bodySlot
  omega

/-- A store into the slot of the new head leaves the cells of the live body
as they were. -/
theorem snakeAt_body_set (s d : Device) (q : Point) (hlen : s.gSnakeLen ≤ 15)
    (hbp : s.gSnakeBufferPos < 16) (hd : d.gSnake = s.gSnake.set (nextSlot s) q) (j : Nat)
    (hj : j < s.gSnakeLen) : snakeAt d (bodySlot s j) = snakeAt s (bodySlot s j) := by
  unfold snakeAt
  rw [hd, List.getD_eq_getElem?_getD, List.getD_eq_getElem?_getD, List.getElem?_set,
    if_neg (fun e => bodySlot_ne_nextSlot s hlen hbp j hj e.symm)]

/-- The self-collision scan after the new head is stored: it finds a hit
exactly when the new head is at a cell of the live body. -/
theorem scan_iff_body (s d : Device) (h3 : 1 ≤ s.gSnakeLen) (hlen : s.gSnakeLen ≤ 15)
    (hbp : s.gSnakeBufferPos < 16)
    (hd : d.gSnake = s.gSnake.set (nextSlot s) (newHead s)) (hs : SameGame d s) :
    (snakeHitLoop d (newHead s) (d.gSnakeLen - 1) ((d.gSnakeBufferPos : Int) - 1)).1 = true
      ↔ newHead s ∈ body s := by
  obtain ⟨e1, e2, -⟩ := hs
  have hv2 : ((s.gSnakeBufferPos : Int) - 1 = ((s.gSnakeBufferPos + 15) % 16 : Nat)) ∨
      ((s.gSnakeBufferPos : Int) - 1 = -1 ∧ (s.gSnakeBufferPos + 15) % 16 = 15) := by omega
  rw [e1, e2, snakeHitLoop_iff d (newHead s) (s.gSnakeLen - 1) (by omega)
    ((s.gSnakeBufferPos + 15) % 16) (Nat.mod_lt _ (by decide)) _ hv2, mem_body]
  have hslot : ∀ j, j < 16 →
      ((s.gSnakeBufferPos + 15) % 16 + 16 - j) % 16 = bodySlot s (j + 1) := by
    intro j hj
    unfold bodySlot
    omega
  constructor
  · rintro ⟨j, hj, e⟩
    refine ⟨j + 1, by omega, ?_⟩
    rw [e, hslot j (by omega), snakeAt_body_set s d _ hlen hbp hd (j + 1) (by omega)]
  · rintro ⟨j, hj, e⟩
    rcases j with _ | j
    · exfalso
      rw [bodySlot_zero s hbp] at e
      exact newHead_ne s e
    · refine ⟨j, by omega, ?_⟩
      rw [hslot j (by omega), snakeAt_body_set s d _ hlen hbp hd (j + 1) (by omega)]
      exact e

/-- The scan does not read the slot of the new head: whatever is stored
there, the result is the one on the ring before the store. -/
theorem scan_ignores_new_head (s : Device) (hlen : s.gSnakeLen ≤ 15)
    (hbp : s.gSnakeBufferPos < 16) (p q : Point) :
    snakeHitLoop (snakePut s (nextSlot s) q) p (s.gSnakeLen - 1)
        ((s.gSnakeBufferPos : Int) - 1)
      = snakeHitLoop s p (s.gSnakeLen - 1) ((s.gSnakeBufferPos : Int) - 1) := by
  have hv2 : ((s.gSnakeBufferPos : Int) - 1 = ((s.gSnakeBufferPos + 15) % 16 : Nat)) ∨
      ((s.gSnakeBufferPos : Int) - 1 = -1 ∧ (s.gSnakeBufferPos + 15) % 16 = 15) := by omega
  apply snakeHitLoop_congr s _ p (s.gSnakeLen - 1) (by omega) ((s.gSnakeBufferPos + 15) % 16)
    (Nat.mod_lt _ (by decide)) _ hv2
  intro j hj
  have hslot : ((s.gSnakeBufferPos + 15) % 16 + 16 - j) % 16 = bodySlot s (j + 1) := by
    unfold bodySlot
    omega
  rw [hslot]
  exact snakeAt_body_set s _ q hlen hbp rfl (j + 1) (by omega)

theorem growLen_iter_range (k n : Nat) (h3 : 3 ≤ n) (h15 : n ≤ 15) :
    3 ≤ growLen^[k] n ∧ growLen^[k] n ≤ 15 := by
  induction k generalizing n with
  | zero => exact ⟨h3, h15⟩
  | succ k ih =>
    rw [Function.iterate_succ_apply]
    apply ih
    · unfold growLen SNAKE_LEN_MAX; split_ifs <;> omega
    · unfold growLen SNAKE_LEN_MAX; split_ifs <;> omega

theorem startState_emit (d : Device) (fs : List Effect) (h : StartState d) :
    StartState (emit d fs) := h

/-- The session end reached from a device with the snake variables,
registers and bus of `s`: the start state, and the high score registers hold
the larger of the score and the old high score. -/
theorem ended_facts (d s : Device) (es fs : List Effect) (hs : SameGame d s)
    (h16 : d.gSnake.length = 16) (h8 : s.gApples.length = 8) :
    StartState (emit (snakeReset (emit d es) false) fs) ∧
    (emit (snakeReset (emit d es) false) fs).gSnake.length = 16 ∧
    (s.gSnakeScore < 65536 → s.ram.length = 64 → Faultless s.bus →
      highScore (emit (snakeReset (emit d es) false) fs).ram
        = max s.gSnakeScore (highScore s.ram)) := by
  obtain ⟨-, -, -, -, e5, -, e7, e8, e9, -⟩ := hs
  have hst := snakeReset_start (emit d es) false (by rw [emit_gSnake]; exact h16)
    (by rw [emit_gApples, e7]; exact h8)
  refine ⟨startState_emit _ fs hst.1, by rw [emit_gSnake]; exact hst.2, ?_⟩
  intro hS hram hbus
  have hram2 : (emit d es).ram = s.ram := (emit_ram d es).trans e8
  have hbus2 : (emit d es).bus = s.bus := (emit_bus d es).trans e9
  have hr := snakeReset_ram (emit d es) false (by rw [emit_gSnakeScore, e5]; exact hS)
    (by rw [hram2]; exact hram) (by rw [hbus2]; exact hbus)
  rw [emit_ram, hr, emit_gSnakeScore, e5, hram2]
  split_ifs with h
  · rw [highScore_ramWrite _ _ hram hS]; omega
  · omega

theorem play_gSnakeTime {s t : Device} (h : play t = play s) : t.gSnakeTime = s.gSnakeTime :=
  show (play t).gSnakeTime = (play s).gSnakeTime from by rw [h]

/-- What a movement advance does, from a snake state with its head on the
board: the session ends exactly when the new head is off the board or at a
cell of the live body; an ended session leaves the start state and has
compared the score with the high score; otherwise the new head is stored in
the next ring slot, which becomes the head slot, and every apple at the new
head is eaten. -/
theorem snakeMove_spec (s : Device) (hok : SnakeOk s) (hp : playable (snakeHead s)) :
    ((snakeMove s).2 = true ↔ ¬ playable (newHead s) ∨ newHead s ∈ body s) ∧
    ((snakeMove s).2 = true →
      StartState (snakeMove s).1 ∧ (snakeMove s).1.gSnake.length = 16 ∧
      (s.gSnakeScore < 65536 → s.ram.length = 64 → Faultless s.bus →
        highScore (snakeMove s).1.ram = max s.gSnakeScore (highScore s.ram))) ∧
    ((snakeMove s).2 = false →
      (snakeMove s).1.gSnake = s.gSnake.set (nextSlot s) (newHead s) ∧
      (snakeMove s).1.gSnakeBufferPos = nextSlot s ∧
      (snakeMove s).1.gSnakeDir = s.gSnakeDir ∧
      (snakeMove s).1.gSnakeTime = s.gSnakeTime ∧
      (snakeMove s).1.gSnakeLen = growLen^[applesAt (newHead s) 8 0 s.gApples] s.gSnakeLen ∧
      ((snakeMove s).1.gSnakeScore, (snakeMove s).1.gSnakeSpeed)
        = eatScore^[applesAt (newHead s) 8 0 s.gApples] (s.gSnakeScore, s.gSnakeSpeed) ∧
      (snakeMove s).1.gApples.length = 8 ∧
      (snakeMove s).1.gApples = clearApples (newHead s) 8 0 s.gApples ∧
      (snakeMove s).1.rng = s.rng) := by
  obtain ⟨k3, k15, kbp, k16, k8, kdir⟩ := hok
  obtain ⟨d, hd, hs, hat, hcase⟩ := snakeMove_form s kdir kbp k16 hp
  have hd16 : d.gSnake.length = 16 := by rw [hd, List.length_set]; exact k16
  rcases hcase with ⟨hpl, hm⟩ | ⟨hpl, es, fs, hm⟩
  · have hscan := scan_iff_body s d (by omega) k15 kbp hd hs
    cases hh : (snakeHitLoop d (newHead s) (d.gSnakeLen - 1) ((d.gSnakeBufferPos : Int) - 1)).1
    · -- no hit
      have hnb : ¬ newHead s ∈ body s := by
        intro hb
        rw [hscan.mpr hb] at hh
        exact Bool.noConfusion hh
      obtain ⟨d2, hm2, hp2, hr2⟩ := snakeMoved_clear d (nextSlot s) (by rw [hat]; exact hh)
      rw [hm, hm2, hat]
      obtain ⟨hs1, hs2, hs3, hs4, hs5, hs6, hs7, -, -, hs10⟩ := hs
      obtain ⟨e1, e2, e3, e4, e5⟩ := snakeEatLoop_keeps (newHead s) 8 0
        (d2.set_gSnakeBufferPos (nextSlot s))
      have e6 := (snakeEatLoop_len (newHead s) 8 0 (d2.set_gSnakeBufferPos (nextSlot s))).1
      have e7 := snakeEatLoop_scores (newHead s) 8 0 (d2.set_gSnakeBufferPos (nextSlot s))
      have e8 := snakeEatLoop_clear (newHead s) 8 0 (d2.set_gSnakeBufferPos (nextSlot s))
      have e9 : (snakeEatLoop (newHead s) 8 0 (d2.set_gSnakeBufferPos (nextSlot s))).rng
          = s.rng := by
        rw [snakeEatLoop_rng]
        show d2.rng = s.rng
        rw [hr2, hs10]
      simp only [set_gSnakeBufferPos_gSnake, set_gSnakeBufferPos_gSnakeBufferPos,
        set_gSnakeBufferPos_gSnakeDir, set_gSnakeBufferPos_gSnakeTime,
        set_gSnakeBufferPos_gApples, set_gSnakeBufferPos_gSnakeLen,
        set_gSnakeBufferPos_gSnakeScore, set_gSnakeBufferPos_gSnakeSpeed,
        play_gSnake hp2, play_gSnakeDir hp2, play_gApples hp2, play_gSnakeLen hp2,
        play_gSnakeScore hp2, play_gSnakeSpeed hp2, hs1, hs3, hs5, hs6, hs7, hd]
        at e1 e2 e3 e5 e6 e7 e8
      refine ⟨⟨fun h => Bool.noConfusion h, fun h => ?_⟩, fun h => Bool.noConfusion h,
        fun _ => ⟨e1, e2, e3, ?_, e6, e7, e5.trans k8, e8, e9⟩⟩
      · rcases h with h | h
        · exact absurd hpl h
        · exact absurd h hnb
      · rw [e4]
        show d2.gSnakeTime = s.gSnakeTime
        rw [play_gSnakeTime hp2, hs4]
    · -- the new head is at a cell of the body
      have hm2 := snakeMoved_hit d (nextSlot s) (by rw [hat]; exact hh)
      have hm3 : snakeMove s
          = (emit (snakeReset (emit d [.println "Snake hit"]) false) [], true) := by
        rw [hm, hm2, emit_nil]
      rw [hm3]
      exact ⟨⟨fun _ => Or.inr (hscan.mp hh), fun _ => rfl⟩,
        fun _ => ended_facts d s _ _ hs hd16 k8, fun h => Bool.noConfusion h⟩
  · rw [hm]
    exact ⟨⟨fun _ => Or.inl hpl, fun _ => rfl⟩,
      fun _ => ended_facts d s _ _ hs hd16 k8, fun h => Bool.noConfusion h⟩

/-! ## The invariant of a snake session -/

theorem applesAt_le (p : Point) (n i : Nat) (apples : List Point) : applesAt p n i apples ≤ n := by
  induction n generalizing i with
  | zero => exact Nat.le_refl 0
  | succ n ih =>
    simp only [applesAt]
    have := ih (i + 1)
    split_ifs <;> omega

/-- The invariant depends on the ring, the length, the head slot, the
direction and the size of the apple array only. -/
theorem snakeInv_of_fields (s t : Device) (h : SnakeInv s) (e1 : t.gSnake = s.gSnake)
    (e2 : t.gSnakeLen = s.gSnakeLen) (e3 : t.gSnakeBufferPos = s.gSnakeBufferPos)
    (e4 : t.gSnakeDir = s.gSnakeDir) (e5 : t.gApples.length = s.gApples.length) :
    SnakeInv t := by
  unfold SnakeInv SnakeOk snakeHead snakeAt at *
  rw [e1, e2, e3, e4, e5]
  exact h

theorem startState_inv (d : Device) (h : StartState d) (h16 : d.gSnake.length = 16) :
    SnakeInv d := by
  obtain ⟨a1, a2, -, -, a5, a6, -, -, -, a10⟩ := h
  refine ⟨⟨by omega, by omega, by omega, h16, by rw [a10]; rfl, by rw [a6]; decide⟩, ?_⟩
  unfold snakeHead
  rw [a2, a5]
  decide

theorem core_gSnake {s t : Device} (h : core t = core s) : t.gSnake = s.gSnake :=
  show (core t).gSnake = (core s).gSnake from by rw [h]

theorem core_gSnakeLen {s t : Device} (h : core t = core s) : t.gSnakeLen = s.gSnakeLen :=
  show (core t).gSnakeLen = (core s).gSnakeLen from by rw [h]

theorem core_gSnakeBufferPos {s t : Device} (h : core t = core s) :
    t.gSnakeBufferPos = s.gSnakeBufferPos :=
  show (core t).gSnakeBufferPos = (core s).gSnakeBufferPos from by rw [h]

theorem core_gSnakeDir {s t : Device} (h : core t = core s) : t.gSnakeDir = s.gSnakeDir :=
  show (core t).gSnakeDir = (core s).gSnakeDir from by rw [h]

theorem core_gSnakeTime {s t : Device} (h : core t = core s) : t.gSnakeTime = s.gSnakeTime :=
  show (core t).gSnakeTime = (core s).gSnakeTime from by rw [h]

theorem core_gSnakeSpeed {s t : Device} (h : core t = core s) : t.gSnakeSpeed = s.gSnakeSpeed :=
  show (core t).gSnakeSpeed = (core s).gSnakeSpeed from by rw [h]

theorem core_gApples {s t : Device} (h : core t = core s) : t.gApples = s.gApples :=
  show (core t).gApples = (core s).gApples from by rw [h]

/-- The movement gate and the redraw of a tick, from a state inside the
invariant: either the session ended and the start state is left, or the
invariant holds again, the tick counter is the one set at the start of the
tick, and score and mask took one `eatScore` step per apple eaten (at most 8,
none when the gate is closed). -/
theorem gate_facts (s2 : Device) (hinv : SnakeInv s2) (c : Nat) :
    (StartState (if c &&& s2.gSnakeSpeed = 0 then
        if (snakeMove s2).2 then (snakeMove s2).1 else snakeRedrawDisplay (snakeMove s2).1
      else snakeRedrawDisplay s2) ∧
     (if c &&& s2.gSnakeSpeed = 0 then
        if (snakeMove s2).2 then (snakeMove s2).1 else snakeRedrawDisplay (snakeMove s2).1
      else snakeRedrawDisplay s2).gSnake.length = 16) ∨
    (SnakeInv (if c &&& s2.gSnakeSpeed = 0 then
        if (snakeMove s2).2 then (snakeMove s2).1 else snakeRedrawDisplay (snakeMove s2).1
      else snakeRedrawDisplay s2) ∧
     (if c &&& s2.gSnakeSpeed = 0 then
        if (snakeMove s2).2 then (snakeMove s2).1 else snakeRedrawDisplay (snakeMove s2).1
      else snakeRedrawDisplay s2).gSnakeTime = s2.gSnakeTime ∧
     ∃ k, k ≤ 8 ∧
      ((if c &&& s2.gSnakeSpeed = 0 then
          if (snakeMove s2).2 then (snakeMove s2).1 else snakeRedrawDisplay (snakeMove s2).1
        else snakeRedrawDisplay s2).gSnakeScore,
       (if c &&& s2.gSnakeSpeed = 0 then
          if (snakeMove s2).2 then (snakeMove s2).1 else snakeRedrawDisplay (snakeMove s2).1
        else snakeRedrawDisplay s2).gSnakeSpeed)
        = eatScore^[k] (s2.gSnakeScore, s2.gSnakeSpeed)) := by
  have hc := core_snakeRedrawDisplay
  obtain ⟨ha, hb, hcc⟩ := snakeMove_spec s2 hinv.1 hinv.2
  by_cases hg : c &&& s2.gSnakeSpeed = 0
  · simp only [if_pos hg]
    cases hm : (snakeMove s2).2
    · right
      simp only [Bool.false_eq_true, if_false]
      obtain ⟨f1, f2, f3, f4, f5, f6, f7, -, -⟩ := hcc hm
      have hpl : playable (newHead s2) := by
        by_contra hn
        have := ha.mpr (Or.inl hn)
        rw [hm] at this
        exact Bool.noConfusion this
      obtain ⟨⟨k3, k15, kbp, k16, k8, kdir⟩, -⟩ := hinv
      have hr := growLen_iter_range (applesAt (newHead s2) 8 0 s2.gApples) s2.gSnakeLen k3 k15
      refine ⟨⟨⟨?_, ?_, ?_, ?_, ?_, ?_⟩, ?_⟩, ?_, applesAt (newHead s2) 8 0 s2.gApples,
        applesAt_le _ _ _ _, ?_⟩
      · rw [core_gSnakeLen (hc _), f5]; exact hr.1
      · rw [core_gSnakeLen (hc _), f5]; exact hr.2
      · rw [core_gSnakeBufferPos (hc _), f2]; exact nextSlot_lt s2 kbp
      · rw [core_gSnake (hc _), f1, List.length_set]; exact k16
      · rw [core_gApples (hc _), f7]
      · rw [core_gSnakeDir (hc _), f3]; exact kdir
      · unfold snakeHead snakeAt
        rw [core_gSnakeBufferPos (hc _), core_gSnake (hc _), f1, f2, List.getD_eq_getElem?_getD,
          List.getElem?_set]
        have : nextSlot s2 < s2.gSnake.length := by rw [k16]; exact nextSlot_lt s2 kbp
        simp only [this, if_true, Option.getD_some]
        exact hpl
      · rw [core_gSnakeTime (hc _), f4]
      · rw [core_gSnakeScore (hc _), core_gSnakeSpeed (hc _), f6]
    · left
      simp only [if_true]
      exact ⟨(hb hm).1, (hb hm).2.1⟩
  · right
    simp only [if_neg hg]
    refine ⟨snakeInv_of_fields s2 _ hinv (core_gSnake (hc _)) (core_gSnakeLen (hc _))
      (core_gSnakeBufferPos (hc _)) (core_gSnakeDir (hc _)) (by rw [core_gApples (hc _)]),
      core_gSnakeTime (hc _), 0, by omega, ?_⟩
    rw [core_gSnakeScore (hc _), core_gSnakeSpeed (hc _)]
    rfl

/-- The device after the apple loop of a spawn tick has put its apple: the
snake variables are those of the start of the tick, with the counter advanced;
only the apple array changed, keeping its size. -/
theorem spawn_fields (s : Device) (j : Nat) (hf : freeSlot s.gApples 8 0 = some j) :
    (snakeAddApple 8 0 (spawnStart s)).1.gSnake = s.gSnake ∧
    (snakeAddApple 8 0 (spawnStart s)).1.gSnakeLen = s.gSnakeLen ∧
    (snakeAddApple 8 0 (spawnStart s)).1.gSnakeBufferPos = s.gSnakeBufferPos ∧
    (snakeAddApple 8 0 (spawnStart s)).1.gSnakeDir = s.gSnakeDir ∧
    (snakeAddApple 8 0 (spawnStart s)).1.gApples.length = s.gApples.length ∧
    (snakeAddApple 8 0 (spawnStart s)).1.gSnakeTime = curTime s ∧
    (snakeAddApple 8 0 (spawnStart s)).1.gSnakeScore = s.gSnakeScore ∧
    (snakeAddApple 8 0 (spawnStart s)).1.gSnakeSpeed = s.gSnakeSpeed := by
  obtain ⟨-, b2, b3, -⟩ := snakeAddApple_free 8 0 j (spawnStart s) hf
  have h1 := play_gSnake (b3 [])
  have h2 := play_gSnakeLen (b3 [])
  have h3 := play_gSnakeBufferPos (b3 [])
  have h4 := play_gSnakeDir (b3 [])
  have h6 := play_gSnakeTime (b3 [])
  have h7 := play_gSnakeScore (b3 [])
  have h8 := play_gSnakeSpeed (b3 [])
  simp only [set_gApples_gSnake, set_gApples_gSnakeLen, set_gApples_gSnakeBufferPos,
    set_gApples_gSnakeDir, set_gApples_gSnakeTime, set_gApples_gSnakeScore,
    set_gApples_gSnakeSpeed] at h1 h2 h3 h4 h6 h7 h8
  refine ⟨h1, h2, h3, h4, ?_, h6, h7, h8⟩
  rw [b2, List.length_set]
  rfl

/-- One tick from a state inside the invariant: either the session ended
and the start state is left, or the invariant holds again, the counter
advanced by one and score and mask took one `eatScore` step per apple eaten
(at most 8). -/
theorem tick_facts (s : Device) (hinv : SnakeInv s) :
    (StartState (snakeBgMode s) ∧ (snakeBgMode s).gSnake.length = 16) ∨
    (SnakeInv (snakeBgMode s) ∧ (snakeBgMode s).gSnakeTime = curTime s ∧
     ∃ k, k ≤ 8 ∧ ((snakeBgMode s).gSnakeScore, (snakeBgMode s).gSnakeSpeed)
        = eatScore^[k] (s.gSnakeScore, s.gSnakeSpeed)) := by
  by_cases hc : (s.gSnakeTime + 1) % 256 % 64 = 63
  · cases hf : freeSlot s.gApples 8 0 with
    | none =>
      left
      rw [snakeBgMode_full s hc hf]
      exact snakeReset_start _ true (by simpa [emit_gSnake] using hinv.1.2.2.2.1)
        (by simpa [emit_gApples] using hinv.1.2.2.2.2.1)
    | some j =>
      obtain ⟨g1, g2, g3, g4, g5, g6, g7, g8⟩ := spawn_fields s j hf
      have hinv2 := snakeInv_of_fields s _ hinv g1 g2 g3 g4 g5
      have h := gate_facts (snakeAddApple 8 0 (spawnStart s)).1 hinv2 ((s.gSnakeTime + 1) % 256)
      rw [g6, g7, g8] at h
      rw [snakeBgMode_spawn s hc j hf]
      rw [← g8]
      rw [← g8] at h
      exact h
  · have hinv2 : SnakeInv (s.set_gSnakeTime ((s.gSnakeTime + 1) % 256)) :=
      snakeInv_of_fields s _ hinv rfl rfl rfl rfl rfl
    have h := gate_facts (s.set_gSnakeTime ((s.gSnakeTime + 1) % 256)) hinv2
      ((s.gSnakeTime + 1) % 256)
    simp only [set_gSnakeTime_gSnakeSpeed, set_gSnakeTime_gSnakeScore,
      set_gSnakeTime_gSnakeTime] at h
    rw [snakeBgMode_plain s hc]
    exact h

/-! ## Runs of a snake session -/

theorem snakeStep_inv (s : Device) (i : SnakeInput) (hinv : SnakeInv s) :
    SnakeInv (snakeStep s i) := by
  cases i with
  | tick =>
    rcases tick_facts s hinv with ⟨h1, h2⟩ | ⟨h1, -⟩
    · exact startState_inv _ h1 h2
    · exact h1
  | up => exact ⟨⟨hinv.1.1, hinv.1.2.1, hinv.1.2.2.1, hinv.1.2.2.2.1, hinv.1.2.2.2.2.1,
      show SNAKE_UP ≤ 3 from by decide⟩, hinv.2⟩
  | down => exact ⟨⟨hinv.1.1, hinv.1.2.1, hinv.1.2.2.1, hinv.1.2.2.2.1, hinv.1.2.2.2.2.1,
      show SNAKE_DOWN ≤ 3 from by decide⟩, hinv.2⟩
  | left => exact ⟨⟨hinv.1.1, hinv.1.2.1, hinv.1.2.2.1, hinv.1.2.2.2.1, hinv.1.2.2.2.2.1,
      show SNAKE_LEFT ≤ 3 from by decide⟩, hinv.2⟩
  | right => exact ⟨⟨hinv.1.1, hinv.1.2.1, hinv.1.2.2.1, hinv.1.2.2.2.1, hinv.1.2.2.2.2.1,
      show SNAKE_RIGHT ≤ 3 from by decide⟩, hinv.2⟩

theorem snakeRun_append (s : Device) (xs ys : List SnakeInput) :
    snakeRun s (xs ++ ys) = snakeRun (snakeRun s xs) ys := List.foldl_append ..

theorem snakeRun_cons (s : Device) (i : SnakeInput) (is : List SnakeInput) :
    snakeRun s (i :: is) = snakeRun (snakeStep s i) is := rfl

theorem snakeRun_inv (s : Device) (is : List SnakeInput) (hinv : SnakeInv s) :
    SnakeInv (snakeRun s is) := by
  induction is generalizing s with
  | nil => exact hinv
  | cons i is ih => exact ih _ (snakeStep_inv s i hinv)

theorem snakeInit_inv (d : Device) (h16 : d.gSnake.length = 16) (h8 : d.gApples.length = 8) :
    SnakeInv (snakeInit d) :=
  startState_inv _ (snakeInit_start d h16 h8).1 (snakeInit_start d h16 h8).2

/-- While the 16-bit score does not wrap, eating keeps the mask at the value
the thresholds give for the score. -/
theorem eatScore_iter (k a : Nat) (h : a + k < 65536) :
    eatScore^[k] (a, speedOf a) = (a + k, speedOf (a + k)) := by
  induction k generalizing a with
  | zero => rfl
  | succ k ih =>
    have h1 : eatScore (a, speedOf a) = (a + 1, speedOf (a + 1)) := by
      unfold eatScore speedOf
      simp only [Nat.mod_eq_of_lt (show a + 1 < 65536 by omega)]
      split_ifs <;> first | rfl | omega
    rw [Function.iterate_succ_apply, h1, ih (a + 1) (by omega), Nat.add_assoc, Nat.add_comm 1 k]

/-- The steps of a session keep the relation between mask and score while the
score does not wrap; the score grows by at most 8 per tick. -/
theorem snakeStep_speed (s : Device) (i : SnakeInput) (hinv : SnakeInv s)
    (hsp : s.gSnakeSpeed = speedOf s.gSnakeScore) (hsc : s.gSnakeScore + 8 < 65536) :
    (snakeStep s i).gSnakeSpeed = speedOf (snakeStep s i).gSnakeScore ∧
    (snakeStep s i).gSnakeScore ≤ s.gSnakeScore + 8 := by
  cases i with
  | tick =>
    rcases tick_facts s hinv with ⟨h1, -⟩ | ⟨-, -, k, hk, h3⟩
    · obtain ⟨-, -, -, -, -, -, a7, a8, -⟩ := h1
      show (snakeBgMode s).gSnakeSpeed = speedOf (snakeBgMode s).gSnakeScore ∧
        (snakeBgMode s).gSnakeScore ≤ s.gSnakeScore + 8
      rw [a7, a8]
      exact ⟨rfl, by omega⟩
    · rw [hsp, eatScore_iter k _ (by omega)] at h3
      have e1 := congrArg Prod.fst h3
      have e2 := congrArg Prod.snd h3
      simp only at e1 e2
      show (snakeBgMode s).gSnakeSpeed = speedOf (snakeBgMode s).gSnakeScore ∧
        (snakeBgMode s).gSnakeScore ≤ s.gSnakeScore + 8
      rw [e1, e2]
      exact ⟨rfl, by omega⟩
  | up => exact ⟨hsp, Nat.le_add_right _ _⟩
  | down => exact ⟨hsp, Nat.le_add_right _ _⟩
  | left => exact ⟨hsp, Nat.le_add_right _ _⟩
  | right => exact ⟨hsp, Nat.le_add_right _ _⟩

theorem snakeRun_speed (s : Device) (is : List SnakeInput) (hinv : SnakeInv s)
    (hsp : s.gSnakeSpeed = speedOf s.gSnakeScore)
    (hsc : s.gSnakeScore + 8 * is.length < 65536) :
    (snakeRun s is).gSnakeSpeed = speedOf (snakeRun s is).gSnakeScore ∧
    (snakeRun s is).gSnakeScore ≤ s.gSnakeScore + 8 * is.length := by
  induction is generalizing s with
  | nil => exact ⟨hsp, Nat.le_refl _⟩
  | cons i is ih =>
    rw [List.length_cons] at hsc
    obtain ⟨a1, a2⟩ := snakeStep_speed s i hinv hsp (by omega)
    obtain ⟨b1, b2⟩ := ih (snakeStep s i) (snakeStep_inv s i hinv) a1 (by omega)
    rw [snakeRun_cons, List.length_cons]
    exact ⟨b1, by omega⟩

/-! ## Facts for the claims about the ring and the mask -/

/-- The self-collision scan of a ring compares with the cells of the body
behind the head, `bodySlot 1` to `bodySlot (len - 1)`, and with nothing else. -/
theorem scan_iff (s : Device) (p : Point) (h1 : 1 ≤ s.gSnakeLen) (hlen : s.gSnakeLen ≤ 16)
    (hbp : s.gSnakeBufferPos < 16) :
    (snakeHitLoop s p (s.gSnakeLen - 1) ((s.gSnakeBufferPos : Int) - 1)).1 = true
      ↔ ∃ j, 1 ≤ j ∧ j < s.gSnakeLen ∧ p = snakeAt s (bodySlot s j) := by
  have hv2 : ((s.gSnakeBufferPos : Int) - 1 = ((s.gSnakeBufferPos + 15) % 16 : Nat)) ∨
      ((s.gSnakeBufferPos : Int) - 1 = -1 ∧ (s.gSnakeBufferPos + 15) % 16 = 15) := by omega
  rw [snakeHitLoop_iff s p (s.gSnakeLen - 1) (by omega)
    ((s.gSnakeBufferPos + 15) % 16) (Nat.mod_lt _ (by decide)) _ hv2]
  have hslot : ∀ j, j < 16 →
      ((s.gSnakeBufferPos + 15) % 16 + 16 - j) % 16 = bodySlot s (j + 1) := by
    intro j hj
    unfold bodySlot
    omega
  constructor
  · rintro ⟨j, hj, e⟩
    refine ⟨j + 1, by omega, by omega, ?_⟩
    rw [e, hslot j (by omega)]
  · rintro ⟨j, hj1, hj, e⟩
    rcases j with _ | j
    · omega
    · refine ⟨j, by omega, ?_⟩
      rw [hslot j (by omega)]
      exact e

/-- The store of a new head leaves the live body as it was. -/
theorem body_snakePut (s : Device) (hlen : s.gSnakeLen ≤ 15) (hbp : s.gSnakeBufferPos < 16)
    (q : Point) : body (snakePut s (nextSlot s) q) = body s := by
  unfold body
  apply List.map_congr_left
  intro j hj
  rw [List.mem_range] at hj
  exact snakeAt_body_set s (snakePut s (nextSlot s) q) q hlen hbp rfl j hj

theorem startState_body (d : Device) (h : StartState d) :
    body d = [⟨34, 16⟩, ⟨33, 16⟩, ⟨32, 16⟩] ∧ snakeHead d = ⟨34, 16⟩ := by
  obtain ⟨a1, a2, a3, a4, a5, -⟩ := h
  unfold body snakeHead bodySlot
  rw [a1, a2]
  have hr : List.range 3 = [0, 1, 2] := rfl
  rw [hr]
  simp only [List.map_cons, List.map_nil]
  exact ⟨by rw [← a3, ← a4, ← a5], a5⟩

theorem eatScore_iter_mask (k : Nat) (v : Nat × Nat) (h : v.2 = 1 ∨ v.2 = 3 ∨ v.2 = 5) :
    (eatScore^[k] v).2 = 1 ∨ (eatScore^[k] v).2 = 3 ∨ (eatScore^[k] v).2 = 5 := by
  induction k generalizing v with
  | zero => exact h
  | succ k ih =>
    rw [Function.iterate_succ_apply]
    apply ih
    unfold eatScore
    simp only []
    split_ifs
    · exact Or.inl rfl
    · exact Or.inr (Or.inl rfl)
    · exact h

/-- In every state of a session the mask is 1, 3 or 5. -/
theorem snakeRun_mask (s : Device) (is : List SnakeInput) (hinv : SnakeInv s)
    (hm : s.gSnakeSpeed = 1 ∨ s.gSnakeSpeed = 3 ∨ s.gSnakeSpeed = 5) :
    (snakeRun s is).gSnakeSpeed = 1 ∨ (snakeRun s is).gSnakeSpeed = 3 ∨
      (snakeRun s is).gSnakeSpeed = 5 := by
  induction is generalizing s with
  | nil => exact hm
  | cons i is ih =>
    rw [snakeRun_cons]
    apply ih _ (snakeStep_inv s i hinv)
    cases i with
    | tick =>
      rcases tick_facts s hinv with ⟨h1, -⟩ | ⟨-, -, k, -, h3⟩
      · exact Or.inr (Or.inr h1.2.2.2.2.2.2.1)
      · have e2 := congrArg Prod.snd h3
        have := eatScore_iter_mask k (s.gSnakeScore, s.gSnakeSpeed) hm
        rw [← e2] at this
        exact this
    | up => exact hm
    | down => exact hm
    | left => exact hm
    | right => exact hm

/-! ## The drawing and the spawn use the `random` results only for the apple -/

theorem snakeDrawPixel_rng (s : Device) (p : Point) : (snakeDrawPixel s p).rng = s.rng := rfl

theorem snakeDrawApples_rng (s : Device) : (snakeDrawApples s).rng = s.rng := by
  unfold snakeDrawApples
  generalize s.gApples.take MAX_APPLES = l
  induction l generalizing s with
  | nil => rfl
  | cons a l ih =>
    simp only [List.foldl_cons]
    rw [ih]
    split_ifs <;> rfl

theorem snakeDrawSnakeLoop_rng (n : Nat) (i : Int) (s : Device) :
    (snakeDrawSnakeLoop n i s).rng = s.rng := by
  induction n generalizing i s with
  | zero => rfl
  | succ n ih => simp only [snakeDrawSnakeLoop, ih, snakeDrawPixel_rng]

theorem snakeRedrawDisplay_rng (s : Device) : (snakeRedrawDisplay s).rng = s.rng := by
  unfold snakeRedrawDisplay snakeDrawSnake
  simp only [emit_rng, snakeDrawSnakeLoop_rng, snakeDrawApples_rng]

theorem snakeAddApple_rng (n i j : Nat) (s : Device) (h : freeSlot s.gApples n i = some j) :
    (snakeAddApple n i s).1.rng
      = (random (random s SNAKE_SCREEN_WIDTH.toNat).1 SNAKE_SCREEN_HEIGHT.toNat).1.rng := by
  induction n generalizing i with
  | zero => simp [freeSlot] at h
  | succ n ih =>
    simp only [freeSlot] at h
    simp only [snakeAddApple]
    split_ifs at h with h1
    · rw [if_pos h1]
      rfl
    · rw [if_neg h1]
      exact ih (i + 1) h

theorem spawnStart_rng (s : Device) : (spawnStart s).rng = s.rng := rfl

/-! ## Eating above score 25 -/

/-- Above score 25 and below the wrap, eating at mask 1 keeps mask 1. -/
theorem eatScore_iter_one (k a : Nat) (h25 : 25 < a) (h : a + k < 65536) :
    eatScore^[k] (a, 1) = (a + k, 1) := by
  induction k generalizing a with
  | zero => rfl
  | succ k ih =>
    have h1 : eatScore (a, 1) = (a + 1, 1) := by
      unfold eatScore
      simp only [Nat.mod_eq_of_lt (show a + 1 < 65536 by omega)]
      rw [if_pos (by omega)]
    rw [Function.iterate_succ_apply, h1, ih (a + 1) (by omega) (by omega), Nat.add_assoc,
      Nat.add_comm 1 k]

/-! ## The mask along a run, whatever the score does -/

/-- The relation between mask and score that eating keeps, the wrap of the
score included: the mask is the one the thresholds give, or it is 1 with a
score of at most 10 (after a wrap). -/
theorem eatScore_iter_rel (k : Nat) (v : Nat × Nat)
    (h : v.2 = speedOf v.1 ∨ (v.2 = 1 ∧ v.1 ≤ 10)) :
    (eatScore^[k] v).2 = speedOf (eatScore^[k] v).1 ∨
      ((eatScore^[k] v).2 = 1 ∧ (eatScore^[k] v).1 ≤ 10) := by
  induction k generalizing v with
  | zero => exact h
  | succ k ih =>
    rw [Function.iterate_succ_apply]
    apply ih
    obtain ⟨a, b⟩ := v
    simp only at h
    unfold eatScore speedOf
    simp only
    unfold speedOf at h
    have hlt : (a + 1) % 65536 < 65536 := Nat.mod_lt _ (by decide)
    by_cases h25 : (a + 1) % 65536 > 25
    · simp only [if_pos h25]
      exact Or.inl trivial
    · by_cases h10 : (a + 1) % 65536 > 10
      · simp only [if_neg h25, if_pos h10]
        exact Or.inl trivial
      · simp only [if_neg h25, if_neg h10]
        rcases h with h | ⟨h1, h2⟩
        · by_cases hw : a + 1 < 65536
          · rw [Nat.mod_eq_of_lt hw] at h10
            left
            rw [h]
            split_ifs <;> first | rfl | omega
          · right
            refine ⟨?_, by omega⟩
            rw [h]
            split_ifs <;> first | rfl | omega
        · exact Or.inr ⟨h1, by omega⟩

/-- In every state of a session the mask is the one the thresholds give for
the score, or it is 1 with a score of at most 10. -/
theorem snakeRun_rel (s : Device) (is : List SnakeInput) (hinv : SnakeInv s)
    (hm : s.gSnakeSpeed = speedOf s.gSnakeScore ∨ (s.gSnakeSpeed = 1 ∧ s.gSnakeScore ≤ 10)) :
    (snakeRun s is).gSnakeSpeed = speedOf (snakeRun s is).gSnakeScore ∨
      ((snakeRun s is).gSnakeSpeed = 1 ∧ (snakeRun s is).gSnakeScore ≤ 10) := by
  induction is generalizing s with
  | nil => exact hm
  | cons i is ih =>
    rw [snakeRun_cons]
    apply ih _ (snakeStep_inv s i hinv)
    cases i with
    | tick =>
      rcases tick_facts s hinv with ⟨h1, -⟩ | ⟨-, -, k, -, h3⟩
      · left
        show (snakeBgMode s).gSnakeSpeed = speedOf (snakeBgMode s).gSnakeScore
        rw [h1.2.2.2.2.2.2.1, h1.2.2.2.2.2.2.2.1]
        rfl
      · have e1 := congrArg Prod.fst h3
        have e2 := congrArg Prod.snd h3
        simp only at e1 e2
        have := eatScore_iter_rel k (s.gSnakeScore, s.gSnakeSpeed) hm
        rw [← e1, ← e2] at this
        exact this
    | up => exact hm
    | down => exact hm
    | left => exact hm
    | right => exact hm

/-! ## The ring holds cells of the board -/

theorem movesBy_facts : ∀ t, t ≤ 55 →
    2 + movesBy t ≤ 15 ∧ (t + 1) % 256 = t + 1 ∧ (t + 1) % 64 ≠ 63 ∧
    (t = 55 → movesBy t = 13 ∧ (t + 1) &&& 5 = 0) ∧
    (t < 55 → 2 + movesBy (t + 1) ≤ 15) := by
  decide!

theorem newHead_congr (s t : Device) (e1 : t.gSnake = s.gSnake)
    (e3 : t.gSnakeBufferPos = s.gSnakeBufferPos) (e4 : t.gSnakeDir = s.gSnakeDir) :
    newHead t = newHead s := by
  unfold newHead snakeHead snakeAt
  rw [e1, e3, e4]

theorem nextSlot_congr (s t : Device) (e3 : t.gSnakeBufferPos = s.gSnakeBufferPos) :
    nextSlot t = nextSlot s := by
  unfold nextSlot
  rw [e3]

/-- The movement gate and the redraw of a tick, from a state inside the
invariant, with the ring, the head slot, the length and the apples they
leave: the session ended, or the head advanced to a cell of the board, or the
gate was closed and nothing moved. -/
theorem gate_ring (s2 : Device) (hinv : SnakeInv s2) (c : Nat) (r : Device)
    (hr : r = if c &&& s2.gSnakeSpeed = 0 then
        if (snakeMove s2).2 then (snakeMove s2).1 else snakeRedrawDisplay (snakeMove s2).1
      else snakeRedrawDisplay s2) :
    (StartState r ∧ r.gSnake.length = 16) ∨
    (c &&& s2.gSnakeSpeed = 0 ∧ playable (newHead s2) ∧
      r.gSnake = s2.gSnake.set (nextSlot s2) (newHead s2) ∧
      r.gSnakeBufferPos = nextSlot s2 ∧
      r.gSnakeLen = growLen^[applesAt (newHead s2) 8 0 s2.gApples] s2.gSnakeLen ∧
      (r.gSnakeScore, r.gSnakeSpeed)
        = eatScore^[applesAt (newHead s2) 8 0 s2.gApples] (s2.gSnakeScore, s2.gSnakeSpeed) ∧
      r.gApples = clearApples (newHead s2) 8 0 s2.gApples ∧
      r.gSnakeTime = s2.gSnakeTime) ∨
    (¬ c &&& s2.gSnakeSpeed = 0 ∧ r.gSnake = s2.gSnake ∧
      r.gSnakeBufferPos = s2.gSnakeBufferPos ∧ r.gSnakeLen = s2.gSnakeLen ∧
      r.gSnakeScore = s2.gSnakeScore ∧ r.gSnakeSpeed = s2.gSnakeSpeed ∧
      r.gApples = s2.gApples ∧ r.gSnakeTime = s2.gSnakeTime) := by
  have hc := core_snakeRedrawDisplay
  obtain ⟨ha, hb, hcc⟩ := snakeMove_spec s2 hinv.1 hinv.2
  by_cases hg : c &&& s2.gSnakeSpeed = 0
  · rw [if_pos hg] at hr
    cases hm : (snakeMove s2).2
    · right; left
      rw [hm] at hr
      simp only [Bool.false_eq_true, if_false] at hr
      obtain ⟨f1, f2, f3, f4, f5, f6, f7, f8, f9⟩ := hcc hm
      have hpl : playable (newHead s2) := by
        by_contra hn
        have := ha.mpr (Or.inl hn)
        rw [hm] at this
        exact Bool.noConfusion this
      rw [hr]
      refine ⟨hg, hpl, ?_, ?_, ?_, ?_, ?_, ?_⟩
      · rw [core_gSnake (hc _), f1]
      · rw [core_gSnakeBufferPos (hc _), f2]
      · rw [core_gSnakeLen (hc _), f5]
      · rw [core_gSnakeScore (hc _), core_gSnakeSpeed (hc _), f6]
      · rw [core_gApples (hc _), f8]
      · rw [core_gSnakeTime (hc _), f4]
    · left
      rw [hm] at hr
      simp only [if_true] at hr
      rw [hr]
      exact ⟨(hb hm).1, (hb hm).2.1⟩
  · right; right
    rw [if_neg hg] at hr
    rw [hr]
    exact ⟨hg, core_gSnake (hc _), core_gSnakeBufferPos (hc _), core_gSnakeLen (hc _),
      core_gSnakeScore (hc _), core_gSnakeSpeed (hc _), core_gApples (hc _),
      core_gSnakeTime (hc _)⟩

/-- One tick from a state inside the invariant, with what it leaves: the
session ended; or, a spawn having put at most one apple into an empty slot
(`apples2`), the head advanced to a cell of the board and ate the apples
there, or the gate was closed and nothing moved. -/
theorem tick_ring (s : Device) (hinv : SnakeInv s) :
    (StartState (snakeBgMode s) ∧ (snakeBgMode s).gSnake.length = 16) ∨
    ∃ apples2 : List Point,
      ((curTime s % 64 ≠ 63 ∧ apples2 = s.gApples) ∨
       (curTime s % 64 = 63 ∧ ∃ j a, freeSlot s.gApples 8 0 = some j ∧
          apples2 = s.gApples.set j a)) ∧
      (snakeBgMode s).gSnakeTime = curTime s ∧
      ((curTime s &&& s.gSnakeSpeed = 0 ∧ playable (newHead s) ∧
        (snakeBgMode s).gSnake = s.gSnake.set (nextSlot s) (newHead s) ∧
        (snakeBgMode s).gSnakeBufferPos = nextSlot s ∧
        (snakeBgMode s).gSnakeLen = growLen^[applesAt (newHead s) 8 0 apples2] s.gSnakeLen ∧
        ((snakeBgMode s).gSnakeScore, (snakeBgMode s).gSnakeSpeed)
          = eatScore^[applesAt (newHead s) 8 0 apples2] (s.gSnakeScore, s.gSnakeSpeed) ∧
        (snakeBgMode s).gApples = clearApples (newHead s) 8 0 apples2) ∨
       (¬ curTime s &&& s.gSnakeSpeed = 0 ∧ (snakeBgMode s).gSnake = s.gSnake ∧
        (snakeBgMode s).gSnakeBufferPos = s.gSnakeBufferPos ∧
        (snakeBgMode s).gSnakeLen = s.gSnakeLen ∧
        (snakeBgMode s).gSnakeScore = s.gSnakeScore ∧
        (snakeBgMode s).gSnakeSpeed = s.gSnakeSpeed ∧
        (snakeBgMode s).gApples = apples2)) := by
  have hct : curTime s = (s.gSnakeTime + 1) % 256 := rfl
  by_cases hc : (s.gSnakeTime + 1) % 256 % 64 = 63
  · cases hf : freeSlot s.gApples 8 0 with
    | none =>
      left
      rw [snakeBgMode_full s hc hf]
      exact snakeReset_start _ true (by simpa [emit_gSnake] using hinv.1.2.2.2.1)
        (by simpa [emit_gApples] using hinv.1.2.2.2.2.1)
    | some j =>
      obtain ⟨g1, g2, g3, g4, g5, g6, g7, g8⟩ := spawn_fields s j hf
      obtain ⟨-, b2, -, -⟩ := snakeAddApple_free 8 0 j (spawnStart s) hf
      rw [spawnStart_gApples] at b2
      have hinv2 := snakeInv_of_fields s _ hinv g1 g2 g3 g4 g5
      have hnh := newHead_congr s _ g1 g3 g4
      have hns := nextSlot_congr s (snakeAddApple 8 0 (spawnStart s)).1 g3
      have hE : snakeBgMode s = if (s.gSnakeTime + 1) % 256 &&&
            (snakeAddApple 8 0 (spawnStart s)).1.gSnakeSpeed = 0 then
          if (snakeMove (snakeAddApple 8 0 (spawnStart s)).1).2 then
            (snakeMove (snakeAddApple 8 0 (spawnStart s)).1).1
          else snakeRedrawDisplay (snakeMove (snakeAddApple 8 0 (spawnStart s)).1).1
        else snakeRedrawDisplay (snakeAddApple 8 0 (spawnStart s)).1 :=
        snakeBgMode_spawn s hc j hf
      rcases gate_ring _ hinv2 _ _ hE with h | h | h
      · exact Or.inl h
      · right
        obtain ⟨h1, h2, h3, h4, h5, h6, h7, h8⟩ := h
        rw [hnh, hns, g1, g2, g7, g8, b2] at *
        exact ⟨_, Or.inr ⟨hc, j, _, rfl, rfl⟩, h8.trans g6, Or.inl ⟨h1, h2, h3, h4, h5, h6, h7⟩⟩
      · right
        obtain ⟨h1, h2, h3, h4, h5, h6, h7, h8⟩ := h
        rw [g1, g2, g3, g7, g8, b2] at *
        exact ⟨_, Or.inr ⟨hc, j, _, rfl, rfl⟩, h8.trans g6, Or.inr ⟨h1, h2, h3, h4, h5, h6, h7⟩⟩
  · have hinv2 : SnakeInv (s.set_gSnakeTime ((s.gSnakeTime + 1) % 256)) :=
      snakeInv_of_fields s _ hinv rfl rfl rfl rfl rfl
    have hnh : newHead (s.set_gSnakeTime ((s.gSnakeTime + 1) % 256)) = newHead s :=
      newHead_congr s _ rfl rfl rfl
    have hns : nextSlot (s.set_gSnakeTime ((s.gSnakeTime + 1) % 256)) = nextSlot s :=
      nextSlot_congr s _ rfl
    have hE := snakeBgMode_plain s hc
    have h := gate_ring (s.set_gSnakeTime ((s.gSnakeTime + 1) % 256)) hinv2
      ((s.gSnakeTime + 1) % 256) (snakeBgMode s)
      (by rw [hE]; simp only [set_gSnakeTime_gSnakeSpeed])
    simp only [set_gSnakeTime_gSnakeSpeed, set_gSnakeTime_gSnakeScore,
      set_gSnakeTime_gSnakeTime, set_gSnakeTime_gSnake, set_gSnakeTime_gSnakeBufferPos,
      set_gSnakeTime_gSnakeLen, set_gSnakeTime_gApples, hnh, hns] at h
    rcases h with h | h | h
    · exact Or.inl h
    · right
      obtain ⟨h1, h2, h3, h4, h5, h6, h7, h8⟩ := h
      exact ⟨_, Or.inl ⟨hc, rfl⟩, h8, Or.inl ⟨h1, h2, h3, h4, h5, h6, h7⟩⟩
    · right
      obtain ⟨h1, h2, h3, h4, h5, h6, h7, h8⟩ := h
      exact ⟨_, Or.inl ⟨hc, rfl⟩, h8, Or.inr ⟨h1, h2, h3, h4, h5, h6, h7⟩⟩

theorem applesAt_empty (p : Point) (n i : Nat) (apples : List Point)
    (h : ∀ k, i ≤ k → k < i + n → (apples.getD k ⟨0, 0⟩).x = -1) :
    applesAt p n i apples = 0 := by
  induction n generalizing i with
  | zero => rfl
  | succ n ih =>
    simp only [applesAt]
    rw [if_neg (fun hh => hh.1 (h i (le_refl _) (by omega))),
      ih (i + 1) (fun k h1 h2 => h k (by omega) (by omega))]

theorem clearApples_empty (p : Point) (n i : Nat) (apples : List Point)
    (h : ∀ k, i ≤ k → k < i + n → (apples.getD k ⟨0, 0⟩).x = -1) :
    clearApples p n i apples = apples := by
  induction n generalizing i with
  | zero => rfl
  | succ n ih =>
    simp only [clearApples]
    rw [if_neg (fun hh => hh.1 (h i (le_refl _) (by omega)))]
    exact ih (i + 1) (fun k h1 h2 => h k (by omega) (by omega))

/-- The slots of the apple array after the apple loop: a slot whose apple
is at `p` is emptied, every other slot is as it was. -/
theorem clearApples_getD (p : Point) (n i : Nat) (apples : List Point)
    (hfit : i + n ≤ apples.length) (j : Nat) :
    (clearApples p n i apples).getD j ⟨0, 0⟩
      = if i ≤ j ∧ j < i + n ∧ (apples.getD j ⟨0, 0⟩).x ≠ -1 ∧ p = apples.getD j ⟨0, 0⟩
        then ⟨-1, (apples.getD j ⟨0, 0⟩).y⟩ else apples.getD j ⟨0, 0⟩ := by
  have h := snakeEatLoop_apples p n i (demoDevice.set_gApples apples) hfit j
  rw [snakeEatLoop_clear] at h
  exact h

theorem snakeAt_set_ring (s r : Device) (n : Nat) (q : Point)
    (hr : r.gSnake = s.gSnake.set n q) (hn : n < s.gSnake.length) (i : Nat) :
    snakeAt r i = if i = n then q else snakeAt s i := by
  unfold snakeAt
  rw [hr, List.getD_eq_getElem?_getD, List.getD_eq_getElem?_getD, List.getElem?_set]
  by_cases h : n = i
  · subst h
    simp [hn]
  · rw [if_neg h, if_neg (fun e => h e.symm)]

theorem snakeAt_same_ring (s r : Device) (hr : r.gSnake = s.gSnake) (i : Nat) :
    snakeAt r i = snakeAt s i := by
  unfold snakeAt
  rw [hr]

/-- The cells of the live body are on the board. -/
theorem body_playable (s : Device) (h : BodyInv s) : ∀ p ∈ body s, playable p := by
  obtain ⟨⟨⟨k3, k15, kbp, -⟩, -⟩, hy⟩ := h
  intro p hp
  rw [mem_body] at hp
  obtain ⟨j, hj, rfl⟩ := hp
  rcases hy with ⟨-, -, y3, -, y5, y6⟩ | hm
  · apply y6
    unfold bodySlot
    omega
  · exact hm _ (bodySlot_lt s j)

theorem startState_young (d : Device) (h : StartState d) : Young d := by
  obtain ⟨a1, a2, a3, a4, a5, a6, a7, a8, a9, a10⟩ := h
  refine ⟨by omega, a7, a1, ?_, by rw [a2, a9]; rfl, ?_⟩
  · intro i hi
    rw [a10]
    interval_cases i <;> rfl
  · intro i hi
    rw [a2] at hi
    interval_cases i
    · rw [a3]; decide
    · rw [a4]; decide
    · rw [a5]; decide

/-- A tick keeps the invariant of the ring. -/
theorem tick_bodyInv (s : Device) (h : BodyInv s) : BodyInv (snakeBgMode s) := by
  obtain ⟨hinv, hy⟩ := h
  have hinv2 : SnakeInv (snakeBgMode s) := snakeStep_inv s .tick hinv
  refine ⟨hinv2, ?_⟩
  have k16 := hinv.1.2.2.2.1
  have kbp := hinv.1.2.2.1
  have hnl : nextSlot s < s.gSnake.length := by rw [k16]; exact nextSlot_lt s kbp
  rcases tick_ring s hinv with ⟨h1, -⟩ | ⟨apples2, hsp, htime, hmv⟩
  · exact Or.inl (startState_young _ h1)
  · rcases hy with ⟨y1, y2, y3, y4, y5, y6⟩ | hm
    · -- a young session
      obtain ⟨m1, m2, m3, m4, m5⟩ := movesBy_facts s.gSnakeTime y1
      have hct : curTime s = s.gSnakeTime + 1 := m2
      have hap : apples2 = s.gApples := by
        rcases hsp with ⟨-, e⟩ | ⟨e, -⟩
        · exact e
        · rw [hct] at e
          exact absurd e m3
      subst hap
      have he : ∀ k, 0 ≤ k → k < 0 + 8 → (s.gApples.getD k ⟨0, 0⟩).x = -1 :=
        fun k _ hk => y4 k (by omega)
      rw [hct, y2] at hmv
      rcases hmv with ⟨v1, v2, v3, v4, v5, v6, v7⟩ | ⟨v1, v2, v3, v4, v5, v6, v7⟩
      · rw [applesAt_empty _ _ _ _ he] at v5 v6
        rw [clearApples_empty _ _ _ _ he] at v7
        have hsp5 : (snakeBgMode s).gSnakeSpeed = 5 := (congrArg Prod.snd v6)
        have hmb : movesBy (s.gSnakeTime + 1) = movesBy s.gSnakeTime + 1 := by
          simp only [movesBy, if_pos v1]
        by_cases h55 : s.gSnakeTime = 55
        · right
          have hb15 : s.gSnakeBufferPos = 15 := by rw [y5, (m4 h55).1]
          have hn0 : nextSlot s = 0 := by
            unfold nextSlot MAX_SNAKE_LEN
            rw [hb15]; rfl
          intro i hi
          rw [snakeAt_set_ring s _ _ _ v3 hnl]
          split_ifs
          · exact v2
          · exact y6 i (by omega)
        · left
          have hlt : s.gSnakeTime < 55 := by omega
          have hb := m5 hlt
          have hn1 : nextSlot s = s.gSnakeBufferPos + 1 := by
            unfold nextSlot MAX_SNAKE_LEN
            rw [if_neg (by omega)]
          refine ⟨by rw [htime, hct]; omega, hsp5, v5.trans y3, ?_, ?_, ?_⟩
          · rw [v7]; exact y4
          · rw [v4, hn1, htime, hct, hmb, y5]; omega
          · intro i hi
            rw [v4, hn1] at hi
            rw [snakeAt_set_ring s _ _ _ v3 hnl]
            split_ifs with h1
            · exact v2
            · rw [hn1] at h1
              exact y6 i (by omega)
      · have hmb : movesBy (s.gSnakeTime + 1) = movesBy s.gSnakeTime := by
          simp only [movesBy, if_neg v1, Nat.add_zero]
        have hlt : s.gSnakeTime < 55 := by
          by_contra hge
          have h55 : s.gSnakeTime = 55 := by omega
          exact v1 (m4 h55).2
        left
        refine ⟨by rw [htime, hct]; omega, v6, v4.trans y3, ?_, ?_, ?_⟩
        · rw [v7]; exact y4
        · rw [v3, htime, hct, hmb, y5]
        · intro i hi
          rw [v3] at hi
          rw [snakeAt_same_ring s _ v2]
          exact y6 i hi
    · -- all ring slots hold cells of the board
      right
      rcases hmv with ⟨v1, v2, v3, -⟩ | ⟨v1, v2, -⟩
      · intro i hi
        rw [snakeAt_set_ring s _ _ _ v3 hnl]
        split_ifs
        · exact v2
        · exact hm i hi
      · intro i hi
        rw [snakeAt_same_ring s _ v2]
        exact hm i hi

theorem bodyInv_of_fields (s t : Device) (h : BodyInv s) (hinv : SnakeInv t)
    (e1 : t.gSnake = s.gSnake) (e2 : t.gSnakeLen = s.gSnakeLen)
    (e3 : t.gSnakeBufferPos = s.gSnakeBufferPos) (e5 : t.gApples = s.gApples)
    (e6 : t.gSnakeTime = s.gSnakeTime) (e7 : t.gSnakeSpeed = s.gSnakeSpeed) : BodyInv t := by
  refine ⟨hinv, ?_⟩
  unfold Young Mature snakeAt at *
  rw [e1, e2, e3, e5, e6, e7]
  exact h.2

theorem step_bodyInv (s : Device) (i : SnakeInput) (h : BodyInv s) :
    BodyInv (snakeStep s i) := by
  have hinv := snakeStep_inv s i h.1
  cases i with
  | tick => exact tick_bodyInv s h
  | up => exact bodyInv_of_fields s _ h hinv rfl rfl rfl rfl rfl rfl
  | down => exact bodyInv_of_fields s _ h hinv rfl rfl rfl rfl rfl rfl
  | left => exact bodyInv_of_fields s _ h hinv rfl rfl rfl rfl rfl rfl
  | right => exact bodyInv_of_fields s _ h hinv rfl rfl rfl rfl rfl rfl

theorem run_bodyInv (s : Device) (is : List SnakeInput) (h : BodyInv s) :
    BodyInv (snakeRun s is) := by
  induction is generalizing s with
  | nil => exact h
  | cons i is ih => exact ih _ (step_bodyInv s i h)

theorem snakeInit_bodyInv (d : Device) (h16 : d.gSnake.length = 16)
    (h8 : d.gApples.length = 8) : BodyInv (snakeInit d) :=
  ⟨snakeInit_inv d h16 h8, Or.inl (startState_young _ (snakeInit_start d h16 h8).1)⟩

/-! ## An apple in column 0 or 63 -/

/-- A tick leaves an apple in column 0 or 63 in its slot, unless the session
ends. -/
theorem apple_tick (s : Device) (hinv : SnakeInv s) (i : Nat) (hi : i < 8)
    (hx : (s.gApples.getD i ⟨0, 0⟩).x = 0 ∨ (s.gApples.getD i ⟨0, 0⟩).x = 63) :
    StartState (snakeBgMode s) ∨
      (snakeBgMode s).gApples.getD i ⟨0, 0⟩ = s.gApples.getD i ⟨0, 0⟩ := by
  have k8 := hinv.1.2.2.2.2.1
  rcases tick_ring s hinv with ⟨h1, -⟩ | ⟨apples2, hsp, -, hmv⟩
  · exact Or.inl h1
  · right
    have ha : apples2.getD i ⟨0, 0⟩ = s.gApples.getD i ⟨0, 0⟩ ∧ apples2.length = 8 := by
      rcases hsp with ⟨-, e⟩ | ⟨-, j, a, hf, e⟩
      · rw [e]; exact ⟨rfl, k8⟩
      · obtain ⟨-, -, f3, -⟩ := freeSlot_some _ _ _ _ hf
        have hne : j ≠ i := by
          rintro rfl
          rw [f3] at hx
          omega
        rw [e, List.length_set, List.getD_eq_getElem?_getD, List.getD_eq_getElem?_getD,
          List.getElem?_set, if_neg hne]
        exact ⟨rfl, k8⟩
    rcases hmv with ⟨-, v2, -, -, -, -, v7⟩ | ⟨-, -, -, -, -, -, v7⟩
    · rw [v7, clearApples_getD _ _ _ _ (by rw [ha.2]), if_neg, ha.1]
      rintro ⟨-, -, -, e⟩
      rw [ha.1] at e
      have hpx := v2.1
      have hpx2 := v2.2.1
      rw [e] at hpx hpx2
      omega
    · rw [v7, ha.1]

theorem snakeRun_nil (s : Device) : snakeRun s [] = s := rfl

/-- Through a run an apple in column 0 or 63 stays in its slot, unless the
session ends on the way. -/
theorem apple_run (is : List SnakeInput) (s : Device) (hinv : SnakeInv s) (i : Nat)
    (hi : i < 8)
    (hx : (s.gApples.getD i ⟨0, 0⟩).x = 0 ∨ (s.gApples.getD i ⟨0, 0⟩).x = 63) :
    (snakeRun s is).gApples.getD i ⟨0, 0⟩ = s.gApples.getD i ⟨0, 0⟩ ∨
      ∃ pre, pre ≠ [] ∧ pre <+: is ∧ StartState (snakeRun s pre) := by
  induction is generalizing s with
  | nil => exact Or.inl rfl
  | cons inp is ih =>
    have hinv1 := snakeStep_inv s inp hinv
    have hstep : StartState (snakeStep s inp) ∨
        (snakeStep s inp).gApples.getD i ⟨0, 0⟩ = s.gApples.getD i ⟨0, 0⟩ := by
      cases inp with
      | tick => exact apple_tick s hinv i hi hx
      | up => exact Or.inr rfl
      | down => exact Or.inr rfl
      | left => exact Or.inr rfl
      | right => exact Or.inr rfl
    rcases hstep with h1 | h1
    · exact Or.inr ⟨[inp], by simp, by simp, h1⟩
    · rcases ih (snakeStep s inp) hinv1 (by rw [h1]; exact hx) with h2 | ⟨pre, p1, p2, p3⟩
      · left
        rw [snakeRun_cons, h2, h1]
      · right
        refine ⟨inp :: pre, by simp, ?_, ?_⟩
        · obtain ⟨t, rfl⟩ := p2
          exact ⟨t, rfl⟩
        · rw [snakeRun_cons]
          exact p3

/-! ## `strtoul` of a string of digits -/

theorem strtoulLoop_digits (cs : List Nat) (acc : Nat) (hd : ∀ c ∈ cs, 48 ≤ c ∧ c ≤ 57)
    (hb : (acc + 1) * 10 ^ cs.length ≤ 1000000000) :
    strtoulLoop cs acc false = (cs.foldl (fun a c => a * 10 + (c - 48)) acc, false) ∧
    cs.foldl (fun a c => a * 10 + (c - 48)) acc < (acc + 1) * 10 ^ cs.length := by
  induction cs generalizing acc with
  | nil => exact ⟨rfl, by simp⟩
  | cons c cs ih =>
    have hc := hd c (List.mem_cons_self _ _)
    rw [List.length_cons, Nat.pow_succ] at hb ⊢
    have hp : 1 ≤ 10 ^ cs.length := Nat.one_le_pow _ _ (by decide)
    have h10 : (acc + 1) * 10 ≤ (acc + 1) * (10 ^ cs.length * 10) :=
      Nat.mul_le_mul_left _ (by omega)
    have hstep : (acc * 10 + (c - 48) + 1) * 10 ^ cs.length
        ≤ (acc + 1) * (10 ^ cs.length * 10) := by
      calc (acc * 10 + (c - 48) + 1) * 10 ^ cs.length
          ≤ ((acc + 1) * 10) * 10 ^ cs.length := Nat.mul_le_mul_right _ (by omega)
        _ = (acc + 1) * (10 ^ cs.length * 10) := by ring
    obtain ⟨i1, i2⟩ := ih (acc * 10 + (c - 48))
      (fun x hx => hd x (List.mem_cons_of_mem _ hx)) (by omega)
    simp only [strtoulLoop, List.foldl_cons]
    rw [if_pos hc]
    simp only [Bool.false_eq_true, if_false]
    rw [if_neg (by omega)]
    exact ⟨i1, by omega⟩

/-- A string of at most 9 decimal digits has the `strtoul` value it writes. -/
theorem strtoul_digits (txt : List Nat) (hd : ∀ c ∈ txt, 48 ≤ c ∧ c ≤ 57)
    (hlen : txt.length ≤ 9) :
    strtoul txt = digitsValue txt ∧ digitsValue txt < 10 ^ txt.length := by
  have hp : 10 ^ txt.length ≤ 10 ^ 9 := Nat.pow_le_pow_right (by decide) hlen
  obtain ⟨a1, a2⟩ := strtoulLoop_digits txt 0 hd (by omega)
  have hc : cstr txt = txt := by
    unfold cstr
    rw [List.takeWhile_eq_self_iff]
    intro c hc
    have := hd c hc
    simp
    omega
  refine ⟨?_, by unfold digitsValue; omega⟩
  unfold strtoul digitsValue
  rw [hc]
  cases txt with
  | nil => rfl
  | cons c cs =>
    have h1 := hd c (List.mem_cons_self _ _)
    have hs : isspace c = false := by
      unfold isspace
      simp
      omega
    have hdw : (c :: cs).dropWhile isspace = c :: cs := by
      rw [List.dropWhile_cons, hs]
      rfl
    simp only [hdw, List.head?_cons, Option.some.injEq]
    rw [if_neg (by omega), a1]
    show (if c = 45 then _ else _) = _
    rw [if_neg (by omega)]

/-! ## `setPin` on a line of digits -/

/-- The validation loop of `setPin` on the buffer `readString` leaves for a
line of digits: it looks at the first four bytes, so it fails on the NUL that
follows a line of three digits and passes a line of four or five. -/
theorem setPin_validation (txt : List Nat) (hd : ∀ c ∈ txt, 48 ≤ c ∧ c ≤ 57)
    (h3 : 3 ≤ txt.length) (h5 : txt.length ≤ 5) :
    (List.range PIN_CODE_LEN).any (fun i => decide
        ((txt ++ List.replicate (6 - txt.length) 0).getD i 0 < 48 ∨
         (txt ++ List.replicate (6 - txt.length) 0).getD i 0 > 57))
      = decide (txt.length = 3) := by
  have hr : List.range PIN_CODE_LEN = [0, 1, 2, 3] := rfl
  rw [hr]
  rcases txt with _ | ⟨a, _ | ⟨b, _ | ⟨c, _ | ⟨d, _ | ⟨e, _ | ⟨f, tl⟩⟩⟩⟩⟩⟩
  · simp at h3
  · simp at h3
  · simp at h3
  · have ha := hd a (by simp)
    have hb := hd b (by simp)
    have hc := hd c (by simp)
    simp
  · have ha := hd a (by simp)
    have hb := hd b (by simp)
    have hc := hd c (by simp)
    have hdd := hd d (by simp)
    simp
    omega
  · have ha := hd a (by simp)
    have hb := hd b (by simp)
    have hc := hd c (by simp)
    have hdd := hd d (by simp)
    simp
    omega
  · simp at h5

theorem digits_no_line_end (txt : List Nat) (hd : ∀ c ∈ txt, 48 ≤ c ∧ c ≤ 57) :
    ∀ c ∈ txt, c ≠ 10 ∧ c ≠ 13 := by
  intro c hc
  have := hd c hc
  omega

/-- A line of three digits: `setPin` prints "Pin code is invalid" and returns
without a write. -/
theorem setPin_three (s : Device) (n t0 t : Nat) (txt : List Nat) (rest : List (Nat × Nat))
    (ht : t < readStringDeadline t0 30) (hd : ∀ c ∈ txt, 48 ≤ c ∧ c ≤ 57)
    (h3 : txt.length = 3) :
    setPin s n t0 (typedBytes t (txt ++ [10]) ++ rest)
      = (emit (emit (emit s [.println "Give me a pin to write (no mor than 5 digits)"])
          ((txt ++ [10]).map .printChar)) [.println "Pin code is invalid"], rest) := by
  have hline := readString_line 6 30 t0 t txt rest ht (digits_no_line_end txt hd) (by omega)
    (by omega)
  have hv := setPin_validation txt hd (by omega) (by omega)
  rw [h3] at hv
  unfold setPin
  have h6 : PIN_CODE_DIGITS + 1 = 6 := rfl
  rw [h6, hline]
  simp only []
  rw [if_neg (by omega), if_neg (by omega), h3, hv]
  rfl

/-- A line of four or five digits: `setPin` writes the value of the line to the
PIN field of the slot. -/
theorem setPin_stored (s : Device) (n t0 t : Nat) (txt : List Nat) (rest : List (Nat × Nat))
    (ht : t < readStringDeadline t0 30) (hd : ∀ c ∈ txt, 48 ≤ c ∧ c ≤ 57)
    (h4 : 4 ≤ txt.length) (h5 : txt.length ≤ 5) :
    setPin s n t0 (typedBytes t (txt ++ [10]) ++ rest)
      = (writePinToRam (emit (beyond (emit (emit s
          [.println "Give me a pin to write (no mor than 5 digits)"])
          ((txt ++ [10]).map .printChar))).1
          [.print "Writing pin #", .printNum n, .print " as ", .printlnNum (strtoul txt)])
          n (strtoul txt), rest) := by
  have hline := readString_line 6 30 t0 t txt rest ht (digits_no_line_end txt hd) (by omega)
    (by omega)
  have hv := setPin_validation txt hd (by omega) h5
  have hne : decide (txt.length = 3) = false := by simp; omega
  rw [hne] at hv
  unfold setPin
  have h6 : PIN_CODE_DIGITS + 1 = 6 := rfl
  rw [h6, hline]
  simp only []
  rw [if_neg (by omega), if_neg (by omega), hv]
  simp only [Bool.false_eq_true, if_false, parsePin_line _ _ h5]

/-! ## Unlocking after `setPin` -/

theorem writePinToRam_gChallengeMode (s : Device) (n v : Nat) :
    (writePinToRam s n v).gChallengeMode = s.gChallengeMode := by
  unfold writePinToRam
  simp only []
  split_ifs <;> rw [emit_gChallengeMode, clockWrite_gChallengeMode]

theorem writePinToRam_gIsLocked (s : Device) (n v : Nat) :
    (writePinToRam s n v).gIsLocked = s.gIsLocked := by
  unfold writePinToRam
  simp only []
  split_ifs <;> rw [emit_gIsLocked, clockWrite_gIsLocked]

/-- The lock state `commandUnlock` leaves for a line of at most 5 bytes typed
in time. -/
theorem commandUnlock_line (s : Device) (t0 t : Nat) (txt : List Nat)
    (rest : List (Nat × Nat)) (ht : t < readStringDeadline t0 30)
    (hc : ∀ c ∈ txt, c ≠ 10 ∧ c ≠ 13) (hlen : txt.length ≤ 5) :
    (commandUnlock s t0 (typedBytes t (txt ++ [10]) ++ rest)).1.gIsLocked
      = (if strtoul txt = (readPinFromRam s s.gChallengeMode).2 then false
          else s.gIsLocked) := by
  have hline := readString_line 6 30 t0 t txt rest ht hc (by omega) (by omega)
  rw [commandUnlock_gIsLocked, hline]
  simp only []
  rw [if_neg (by omega), parsePin_line _ _ hlen]

/-- What `readPinFromRam` returns after `writePinToRam` to the same slot, on
a bus that performs every transfer. -/
theorem readPin_after_write (s : Device) (n v : Nat) (hn : n ≤ 3) (hv : v < 4294967296)
    (hram : s.ram.length = 64) (hbus : Faultless s.bus) :
    (readPinFromRam (writePinToRam s n v) n).2 = v % 65536 ∧
    (writePinToRam s n v).ram = ramWrite s.ram (PIN_CODE_0_ADDR + 16 * n) (bytes32 v) := by
  have h4 : n % 4 = n := Nat.mod_eq_of_lt (by omega)
  have hlen : (bytes32 v).length = 4 := rfl
  have hw := writePinToRam_ram s n v (faultless_head _ hbus)
  rw [h4] at hw
  refine ⟨?_, hw⟩
  rw [readPinFromRam_snd, writePinToRam_bus, faultless_head _ (faultless_tail _ hbus),
    pinRead_ok _ _ hn, hw]
  unfold pinField
  have h2 := ramRead_ramWrite_same s.ram (PIN_CODE_0_ADDR + 16 * n) (bytes32 v) hram
    (by rw [hlen]; unfold PIN_CODE_0_ADDR CHAL_MODE_ADDR CHAL_MODE_LEN; omega)
  rw [hlen] at h2
  rw [h2, le32_bytes32 v hv]

/-! ## Lines whose bytes are read at different times -/

/-- A run of bytes, each read before the deadline, that hold no line end and
do not fill the buffer is stored and echoed, and the loop goes on behind it. -/
theorem readStringLoop_stamped (len D : Nat) (inp rest : List (Nat × Nat))
    (pre : List Nat) (n : Nat) (out : List Effect)
    (ht : ∀ p ∈ inp, p.1 < D) (hc : ∀ p ∈ inp, p.2 ≠ 10 ∧ p.2 ≠ 13) (h256 : len ≤ 256)
    (hlen : pre.length + inp.length < len) (hn : inp.length ≤ n) :
    readStringLoop len D (inp ++ rest) (pre ++ List.replicate n 0) pre.length out
      = readStringLoop len D rest
          ((pre ++ inp.map Prod.snd) ++ List.replicate (n - inp.length) 0)
          (pre.length + inp.length) (out ++ (inp.map Prod.snd).map .printChar) := by
  induction inp generalizing pre n out with
  | nil => simp
  | cons p ps ih =>
    obtain ⟨t, c⟩ := p
    have hc1 := hc (t, c) (List.mem_cons_self _ _)
    have ht1 := ht (t, c) (List.mem_cons_self _ _)
    simp only [List.length_cons] at hlen hn
    simp only at hc1 ht1
    have hmod : (pre.length + 1) % 256 = pre.length + 1 := Nat.mod_eq_of_lt (by omega)
    have h1 : ((t, c) :: ps) ++ rest = (t, c) :: (ps ++ rest) := rfl
    rw [h1, readStringLoop_more _ _ _ _ _ _ _ _ ht1 (by omega) (by omega), hmod,
      set_append_replicate _ _ _ (by omega)]
    have h2 := ih (pre ++ [c]) (n - 1) (out ++ [.printChar c])
      (fun x hx => ht x (List.mem_cons_of_mem _ hx))
      (fun x hx => hc x (List.mem_cons_of_mem _ hx))
      (by simp only [List.length_append, List.length_singleton]; omega) (by omega)
    simp only [List.length_append, List.length_singleton] at h2
    have e1 : n - 1 - ps.length = n - (ps.length + 1) := by omega
    have e2 : pre.length + 1 + ps.length = pre.length + (ps.length + 1) := by omega
    rw [h2, e1, e2]
    simp

/-- A line of fewer than `len` bytes ended by a line feed, every byte read
before the deadline: `readString` returns its length and leaves it in the
buffer, NUL padded. -/
theorem readString_line_stamped (len tv t0 : Nat) (line : List (Nat × Nat)) (txt : List Nat)
    (rest : List (Nat × Nat)) (ht : ∀ p ∈ line, p.1 < readStringDeadline t0 tv)
    (hb : line.map Prod.snd = txt ++ [10]) (hc : ∀ c ∈ txt, c ≠ 10 ∧ c ≠ 13)
    (h256 : len ≤ 256) (hlen : txt.length < len) :
    readString len tv t0 (line ++ rest)
      = ⟨txt.length, txt ++ List.replicate (len - txt.length) 0, rest,
          (txt ++ [10]).map .printChar⟩ := by
  have hne : line ≠ [] := by
    intro h
    rw [h] at hb
    simp at hb
  obtain ⟨inp, q, rfl⟩ : ∃ inp q, line = inp ++ [q] :=
    ⟨line.dropLast, line.getLast hne, (List.dropLast_append_getLast hne).symm⟩
  obtain ⟨tq, cq⟩ := q
  rw [List.map_append, List.map_singleton] at hb
  have hb2 := List.append_inj' hb rfl
  obtain ⟨hb3, hb4⟩ := hb2
  simp only [List.cons.injEq, and_true] at hb4
  subst hb4
  have hli : inp.length = txt.length := by rw [← hb3, List.length_map]
  have h2 := readStringLoop_stamped len (readStringDeadline t0 tv) inp ((tq, 10) :: rest) [] len []
    (fun p hp => ht p (List.mem_append_left _ hp))
    (fun p hp => hc p.2 (by rw [← hb3]; exact List.mem_map_of_mem _ hp)) h256
    (by simpa [hli] using hlen) (by omega)
  simp only [List.nil_append, List.length_nil, Nat.zero_add, hb3, hli] at h2
  have h1 : (inp ++ [(tq, 10)]) ++ rest = inp ++ ((tq, 10) :: rest) := by simp
  unfold readString
  rw [h1, h2, readStringLoop_eol _ _ _ _ _ _ _ _
    (ht (tq, 10) (List.mem_append_right _ (List.mem_singleton_self _))) (Or.inl rfl)]
  have h3 := set_append_replicate txt (len - txt.length) 10 (by omega)
  rw [h3]
  have h5 : (txt ++ [10] ++ List.replicate (len - txt.length - 1) 0).set txt.length 0
      = txt ++ List.replicate (len - txt.length) 0 := by
    have : len - txt.length = (len - txt.length - 1) + 1 := by omega
    rw [this, List.replicate_succ]
    simp [List.set_append_right]
  rw [h5]
  simp

/-- A text of at least `len` bytes with no line end among its first `len`
bytes, each of these read before the deadline: `readString` returns `len - 1`
and the buffer holds the first `len` bytes, with no NUL behind them. -/
theorem readString_long_stamped (len tv t0 : Nat) (line rest : List (Nat × Nat))
    (ht : ∀ p ∈ line.take len, p.1 < readStringDeadline t0 tv)
    (hc : ∀ p ∈ line.take len, p.2 ≠ 10 ∧ p.2 ≠ 13)
    (h256 : len < 256) (h0 : 0 < len) (hlen : len ≤ line.length) :
    readString len tv t0 (line ++ rest)
      = ⟨(len : Int) - 1, (line.take len).map Prod.snd, line.drop len ++ rest,
          ((line.take len).map Prod.snd).map .printChar⟩ := by
  obtain ⟨m, rfl⟩ : ∃ m, len = m + 1 := ⟨len - 1, by omega⟩
  have hm : m < line.length := by omega
  have hsplit : line = line.take m ++ (line.get ⟨m, hm⟩ :: line.drop (m + 1)) := by
    rw [List.get_eq_getElem, ← List.drop_eq_getElem_cons hm, List.take_append_drop]
  have htake : line.take (m + 1) = line.take m ++ [line.get ⟨m, hm⟩] := by
    rw [List.get_eq_getElem, List.take_succ, List.getElem?_eq_getElem hm]
    rfl
  generalize hq : line.get ⟨m, hm⟩ = q at hsplit htake
  obtain ⟨tq, cq⟩ := q
  have h1 : line ++ rest = line.take m ++ ((tq, cq) :: (line.drop (m + 1) ++ rest)) := by
    conv_lhs => rw [hsplit]
    simp
  have hl : (line.take m).length = m := by simp; omega
  have htq := ht (tq, cq) (by rw [htake]; simp)
  have hcq := hc (tq, cq) (by rw [htake]; simp)
  simp only at htq hcq
  have h2 := readStringLoop_stamped (m + 1) (readStringDeadline t0 tv) (line.take m)
    ((tq, cq) :: (line.drop (m + 1) ++ rest)) [] (m + 1) []
    (fun p hp => ht p (by rw [htake]; exact List.mem_append_left _ hp))
    (fun p hp => hc p (by rw [htake]; exact List.mem_append_left _ hp))
    (by omega) (by simp) (by omega)
  simp only [List.nil_append, List.length_nil, Nat.zero_add, hl] at h2
  unfold readString
  rw [h1, h2, readStringLoop_full _ _ _ _ _ _ _ _ htq (by omega) (Nat.mod_eq_of_lt (by omega))]
  have h3 : ((line.take m).map Prod.snd ++ List.replicate (m + 1 - m) 0).set m cq
      = (line.take m).map Prod.snd ++ [cq] := by
    have h4 := set_append_replicate ((line.take m).map Prod.snd) 1 cq (by omega)
    rw [List.length_map, hl] at h4
    have : m + 1 - m = 1 := by omega
    rw [this, h4]; simp
  rw [h3, htake, Nat.mod_eq_of_lt (by omega)]
  simp

/-- What `readString` leaves in the 12-byte buffer for a flag text `txt`
typed byte by byte: the serial input holds the bytes of the text, and a line
feed behind them when the text is shorter than the field. -/
theorem readString_flag_stamped (t0 : Nat) (line rest : List (Nat × Nat)) (txt : List Nat)
    (hb : line.map Prod.snd = if FLAG_LEN ≤ txt.length then txt else txt ++ [10])
    (ht : ∀ p ∈ line.take FLAG_LEN, p.1 < readStringDeadline t0 30)
    (hc : ∀ c ∈ txt.take FLAG_LEN, c ≠ 10 ∧ c ≠ 13) :
    (readString FLAG_LEN 30 t0 (line ++ rest)).ret ≠ -1 ∧
    (readString FLAG_LEN 30 t0 (line ++ rest)).buf = fitFlag txt ∧
    (readString FLAG_LEN 30 t0 (line ++ rest)).rest = line.drop FLAG_LEN ++ rest := by
  unfold fitFlag
  split_ifs at hb ⊢ with h
  · have hl : line.length = txt.length := by rw [← hb, List.length_map]
    have hc2 : ∀ p ∈ line.take FLAG_LEN, p.2 ≠ 10 ∧ p.2 ≠ 13 := by
      intro p hp
      apply hc
      rw [← hb, ← List.map_take]
      exact List.mem_map_of_mem _ hp
    rw [readString_long_stamped FLAG_LEN 30 t0 line rest ht hc2 (by decide) (by decide)
      (by rw [hl]; exact h)]
    refine ⟨by simp only [FLAG_LEN]; decide, ?_, rfl⟩
    show (line.take FLAG_LEN).map Prod.snd = txt.take FLAG_LEN
    rw [List.map_take, hb]
  · have h2 : txt.length < 12 := by simp only [FLAG_LEN] at h; omega
    have hc2 : ∀ c ∈ txt, c ≠ 10 ∧ c ≠ 13 := by
      intro c hcm
      apply hc
      rw [List.take_of_length_le (by simp only [FLAG_LEN]; omega)]
      exact hcm
    have hl : line.length = txt.length + 1 := by
      rw [← List.length_map line Prod.snd, hb, List.length_append, List.length_singleton]
    have ht2 : ∀ p ∈ line, p.1 < readStringDeadline t0 30 := by
      intro p hp
      apply ht
      rw [List.take_of_length_le (by simp only [FLAG_LEN]; omega)]
      exact hp
    rw [readString_line_stamped FLAG_LEN 30 t0 line txt rest ht2 hb hc2 (by decide) h2]
    refine ⟨by simp only []; omega, rfl, ?_⟩
    show rest = line.drop FLAG_LEN ++ rest
    rw [List.drop_of_length_le (by simp only [FLAG_LEN]; omega), List.nil_append]

/-! ## The sample of the buttons up to the block of button B -/

theorem readDigitalButtons_beforeB (s : Device) (b : Buttons) :
    readDigitalButtons s b
      = buttonBlock b.b OLD_BUTTON_STATE_B defaultBButtonHandler (fun h => h.bButtonFunc)
          (beforeButtonB s b) := rfl

/-- A property kept by the LED countdown and by every handler of the first
five blocks holds when the block of button B is entered. -/
theorem beforeButtonB_inv (P : Device → Prop) (s : Device) (b : Buttons)
    (hset : ∀ d v, P d → P (d.set_gOldButtonStates v))
    (hled : ∀ d v, P d → P (d.set_gLedTimer v))
    (hemit : ∀ d es, P d → P (emit d es))
    (hup : ∀ d, P d → P (modeUp d)) (hdown : ∀ d, P d → P (modeDown d))
    (huu : ∀ d, P d → P (unlockUpHandler d)) (hud : ∀ d, P d → P (unlockDownHandler d))
    (hul : ∀ d, P d → P (unlockLeftHandler d)) (hur : ∀ d, P d → P (unlockRightHandler d))
    (hua : ∀ d, P d → P (unlockAHandler d))
    (hsu : ∀ d, P d → P (snakeUpHandler d)) (hsd : ∀ d, P d → P (snakeDownHandler d))
    (hsl : ∀ d, P d → P (snakeLeftHandler d)) (hsr : ∀ d, P d → P (snakeRightHandler d))
    (hsa : ∀ d, P d → P (snakeAButtonHandler d))
    (hP : P s) : P (beforeButtonB s b) := by
  have h0 : P (if s.gLedTimer ≠ 0 then
      if (s.set_gLedTimer (s.gLedTimer - 1)).gLedTimer = 0 then
        emit (s.set_gLedTimer (s.gLedTimer - 1)) [.led RED_LED 0, .led GREEN_LED 0]
      else s.set_gLedTimer (s.gLedTimer - 1)
    else s) := by
    split_ifs
    · exact hemit _ _ (hled _ _ hP)
    · exact hled _ _ hP
    · exact hP
  have hdu : ∀ d, P d → P (defaultUpHandler d) := fun d h => hup _ (hemit _ _ h)
  have hdd : ∀ d, P d → P (defaultDownHandler d) := fun d h => hdown _ (hemit _ _ h)
  have hdl : ∀ d, P d → P (defaultLeftHandler d) := fun d h => hemit _ _ h
  have hdr : ∀ d, P d → P (defaultRightHandler d) := fun d h => hemit _ _ h
  have hda : ∀ d, P d → P (defaultAButtonHandler d) := fun d h => hemit _ _ h
  unfold beforeButtonB
  refine buttonBlock_inv P _ _ _ _ _ hset hda hda hua hsa ?_
  refine buttonBlock_inv P _ _ _ _ _ hset hdr hdr hur hsr ?_
  refine buttonBlock_inv P _ _ _ _ _ hset hdl hdl hul hsl ?_
  refine buttonBlock_inv P _ _ _ _ _ hset hdd hdd hud hsd ?_
  exact buttonBlock_inv P _ _ _ _ _ hset hdu hdu huu hsu h0

theorem serialPrintMode_bus (s : Device) (m : Int) : (serialPrintMode s m).bus = s.bus := by
  unfold serialPrintMode
  split_ifs <;> rfl

theorem validateCurrentMode_bus (s : Device) : (validateCurrentMode s).bus = s.bus := by
  unfold validateCurrentMode
  simp only []
  split_ifs <;> rfl

theorem modeUp_bus (s : Device) : (modeUp s).bus = s.bus := by
  simp [modeUp, validateCurrentMode_bus, serialPrintMode_bus, emit_bus]

theorem modeDown_bus (s : Device) : (modeDown s).bus = s.bus := by
  simp [modeDown, validateCurrentMode_bus, serialPrintMode_bus, emit_bus]

/-- When the block of button B is entered the lock, the challenge mode, the
registers and the bus are as they were at the start of the sample, and the
assembled guess is still a 16-bit value. -/
theorem beforeButtonB_facts (s : Device) (b : Buttons) (hg : s.gCurrentPinGuess < 65536) :
    (beforeButtonB s b).gIsLocked = s.gIsLocked ∧
    (beforeButtonB s b).gChallengeMode = s.gChallengeMode ∧
    (beforeButtonB s b).ram = s.ram ∧ (beforeButtonB s b).bus = s.bus ∧
    (beforeButtonB s b).gCurrentPinGuess < 65536 := by
  refine beforeButtonB_inv (fun d => d.gIsLocked = s.gIsLocked ∧
    d.gChallengeMode = s.gChallengeMode ∧ d.ram = s.ram ∧ d.bus = s.bus ∧
    d.gCurrentPinGuess < 65536) s b ?_ ?_ ?_ ?_ ?_ ?_ ?_ ?_ ?_ ?_ ?_ ?_ ?_ ?_ ?_
    ⟨rfl, rfl, rfl, rfl, hg⟩
  · exact fun d v h => h
  · exact fun d v h => h
  · exact fun d es h => h
  · intro d h
    refine ⟨(modeUp_gIsLocked d).trans h.1, (modeUp_gChallengeMode d).trans h.2.1,
      (modeUp_ram d).trans h.2.2.1, ?_, ?_⟩
    · exact (modeUp_bus d).trans h.2.2.2.1
    · rw [play_gCurrentPinGuess (play_modeUp d)]; exact h.2.2.2.2
  · intro d h
    refine ⟨(modeDown_gIsLocked d).trans h.1, (modeDown_gChallengeMode d).trans h.2.1,
      (modeDown_ram d).trans h.2.2.1, ?_, ?_⟩
    · exact (modeDown_bus d).trans h.2.2.2.1
    · rw [play_gCurrentPinGuess (play_modeDown d)]; exact h.2.2.2.2
  · intro d h
    exact ⟨(unlockUpHandler_gIsLocked d).trans h.1, (unlockUpHandler_gChallengeMode d).trans h.2.1,
      (unlockUpHandler_ram d).trans h.2.2.1, h.2.2.2.1, Nat.mod_lt _ (by decide)⟩
  · intro d h
    exact ⟨(unlockDownHandler_gIsLocked d).trans h.1,
      (unlockDownHandler_gChallengeMode d).trans h.2.1,
      (unlockDownHandler_ram d).trans h.2.2.1, h.2.2.2.1, Nat.mod_lt _ (by decide)⟩
  · intro d h
    unfold unlockLeftHandler
    split_ifs
    · exact h
    · exact h
  · intro d h
    unfold unlockRightHandler
    split_ifs
    · exact h
    · exact h
  · exact fun d h => h
  · exact fun d h => h
  · exact fun d h => h
  · exact fun d h => h
  · exact fun d h => h
  · exact fun d h => h

/-- The block of button B takes a locked device to an unlocked one only by
running `unlockBHandler` (B pressed with a new edge, no banner, Unlock mode)
on a guess equal to what `readPinFromRam` returns. -/
theorem buttonBlockB_unlock_eq (pressed : Bool) (d : Device) (hl : d.gIsLocked = true)
    (h : (buttonBlock pressed OLD_BUTTON_STATE_B defaultBButtonHandler
      (fun h => h.bButtonFunc) d).gIsLocked = false) :
    pressed = true ∧ d.gFreshModeChange = 0 ∧ d.gBgMode = 1 ∧
    d.gOldButtonStates &&& OLD_BUTTON_STATE_B = 0 ∧
    buttonBlock pressed OLD_BUTTON_STATE_B defaultBButtonHandler (fun h => h.bButtonFunc) d
      = (unlockBHandler d).set_gOldButtonStates
          ((unlockBHandler d).gOldButtonStates ||| OLD_BUTTON_STATE_B) ∧
    d.gCurrentPinGuess = (readPinFromRam d d.gChallengeMode).2 := by
  obtain ⟨hp, hf, hmode, hguess⟩ := buttonBlockB_unlocks pressed d hl h
  have hedge : d.gOldButtonStates &&& OLD_BUTTON_STATE_B = 0 := by
    by_contra hne
    have : buttonBlock pressed OLD_BUTTON_STATE_B defaultBButtonHandler
        (fun h => h.bButtonFunc) d = d := by
      unfold buttonBlock
      rw [if_pos hp, if_neg hne]
    rw [this, hl] at h
    exact absurd h (by decide)
  refine ⟨hp, hf, hmode, hedge, ?_, hguess⟩
  unfold buttonBlock
  rw [if_pos hp, if_pos hedge]
  simp only [hf, ne_eq, not_true_eq_false, if_false, hmode]
  rfl

/-- A read of the PIN field that does not deliver four bytes gives the value
`0xFFFFFFFF`; a read that delivers four bytes gives a 16-bit value. -/
theorem pinRead_cases (b : Bus) (ram : List Nat) (n : Nat) :
    ((busRead b ram (PIN_CODE_0_ADDR + (PIN_CODE_LEN + FLAG_LEN) * (n % 4)) 4
        (List.replicate 4 0)).1 ≠ 4 → pinRead b ram n = 4294967295) ∧
    ((busRead b ram (PIN_CODE_0_ADDR + (PIN_CODE_LEN + FLAG_LEN) * (n % 4)) 4
        (List.replicate 4 0)).1 = 4 → pinRead b ram n < 65536) := by
  constructor
  · intro h
    unfold pinRead
    simp only []
    rw [if_pos h]
  · intro h
    unfold pinRead
    simp only []
    rw [if_neg (not_not.mpr h)]
    exact Nat.mod_lt _ (by decide)

/-! ## The assembled guess stays a 16-bit value -/

theorem core_gCurrentPinGuess {s t : Device} (h : core t = core s) :
    t.gCurrentPinGuess = s.gCurrentPinGuess := play_gCurrentPinGuess (play_of_core h)

theorem readDigitalButtons_guess (s : Device) (b : Buttons) (hg : s.gCurrentPinGuess < 65536) :
    (readDigitalButtons s b).gCurrentPinGuess < 65536 := by
  rw [readDigitalButtons_beforeB]
  refine buttonBlock_inv (fun d => d.gCurrentPinGuess < 65536) _ _ _ _ _ (fun d v h => h)
    (fun d h => (core_gCurrentPinGuess (core_defaultBButtonHandler d)).trans_lt h)
    (fun d h => (core_gCurrentPinGuess (core_defaultBButtonHandler d)).trans_lt h)
    (fun d h => (play_gCurrentPinGuess (play_unlockBHandler d)).trans_lt h)
    (fun d h => (apart_gCurrentPinGuess (show apart (snakeBButtonHandler d) = apart d from by
      unfold snakeBButtonHandler; rw [apart_snakeInit, apart_emit])).trans_lt h)
    (beforeButtonB_facts s b hg).2.2.2.2

theorem doBGTask_gCurrentPinGuess (s : Device) :
    (doBGTask s).gCurrentPinGuess = s.gCurrentPinGuess := by
  unfold doBGTask
  split_ifs
  · show (displayChangeModes s).gCurrentPinGuess = s.gCurrentPinGuess
    exact core_gCurrentPinGuess (core_displayChangeModes s)
  · exact core_gCurrentPinGuess (core_displayClock s)
  · exact core_gCurrentPinGuess (core_displayUnlock s)
  · exact core_gCurrentPinGuess (core_displayVersion s)
  · exact core_gCurrentPinGuess (core_displayFlag s)
  · exact play_gCurrentPinGuess (play_displayLock s)
  · exact apart_gCurrentPinGuess (apart_snakeBgMode s)
  · rfl

theorem step_guess (s : Device) (e : Event) (hg : s.gCurrentPinGuess < 65536) :
    (step s e).gCurrentPinGuess < 65536 := by
  cases e with
  | buttons b => exact readDigitalButtons_guess s b hg
  | bgTask => exact (doBGTask_gCurrentPinGuess s).trans_lt hg
  | shell c t0 input => exact (play_gCurrentPinGuess (play_runCommand s c t0 input)).trans_lt hg

theorem run_guess (es : List Event) (s : Device) (hg : s.gCurrentPinGuess < 65536) :
    (run s es).gCurrentPinGuess < 65536 := by
  induction es generalizing s with
  | nil => exact hg
  | cons e es ih => exact ih _ (step_guess s e hg)

theorem setup_gCurrentPinGuess (s : Device) :
    (setup s).gCurrentPinGuess = s.gCurrentPinGuess := by
  have h1 : (snakeInit (emit s [.oledShow, .delay 50])).gCurrentPinGuess
      = s.gCurrentPinGuess :=
    apart_gCurrentPinGuess ((apart_snakeInit _).trans (apart_emit _ _))
  unfold setup
  simp only []
  split_ifs <;>
    simp only [core_gCurrentPinGuess (core_emit _ _), set_gChallengeMode_gCurrentPinGuess,
      core_gCurrentPinGuess (core_clockRead _ _ _ _), h1]

theorem setup_range (s : Device) : (setup s).gChallengeMode ≤ 3 := by
  rw [setup_gChallengeMode]
  split_ifs with h
  · exact Nat.zero_le 3
  · omega

/-- In every state the main loop reaches the challenge mode is at most 3 and
the assembled guess is a 16-bit value. -/
theorem reachable_unlock_ranges (s : Device) (h : Reachable s) :
    s.gChallengeMode ≤ 3 ∧ s.gCurrentPinGuess < 65536 := by
  obtain ⟨ram, bus, rng, junk, es, rfl⟩ := h
  constructor
  · exact run_range es _ (setup_range _)
  · apply run_guess
    rw [setup_gCurrentPinGuess]
    exact Nat.zero_lt_succ _

/-! ## What the banner draws -/

/-- The name of a mode holds no NUL: the display shows all of it. -/
theorem cstr_mode_name (m : Int) (h0 : 0 ≤ m) (h5 : m ≤ 5) :
    cstr (bytes (mode_string_array.getD m.toNat "")) = bytes (mode_string_array.getD m.toNat "") := by
  obtain ⟨n, rfl⟩ : ∃ n : Nat, m = n := ⟨m.toNat, (Int.toNat_of_nonneg h0).symm⟩
  have hn : n ≤ 5 := by omega
  rw [Int.toNat_ofNat]
  interval_cases n <;> decide

/-- One run of `displayChangeModes`: the display is cleared, the name of the
current mode written at (10, 20) and the display shown; nothing else
changes. -/
theorem displayChangeModes_eq (s : Device) (h : ModeOk s) :
    displayChangeModes s = emit s (bannerLog s.gBgMode 1) := by
  unfold displayChangeModes displayMode
  rw [if_pos (show 0 ≤ s.gBgMode ∧ s.gBgMode ≤ 5 from h)]
  unfold writeString
  rw [cstr_mode_name _ h.1 h.2]
  simp only [emit, bannerLog, set_log_log, List.append_assoc, List.nil_append,
    List.singleton_append, List.cons_append]
  rfl

/-- The state after `k` of the 20 background ticks that follow a mode change:
the state of the mode change with `k` banners drawn and the counter at
`20 - k`. -/
theorem doBGTask_banner_state (k : Nat) (d : Device) (hd : d.gFreshModeChange = 20)
    (hm : ModeOk d) (hk : k ≤ 20) :
    doBGTask^[k] d = (emit d (bannerLog d.gBgMode k)).set_gFreshModeChange (20 - k) := by
  induction k with
  | zero =>
    show d = (emit d []).set_gFreshModeChange 20
    rw [← hd]
    simp only [emit, List.append_nil]
    rfl
  | succ k ih =>
    have h1 := ih (by omega)
    rw [Function.iterate_succ_apply', h1]
    have hne : ((emit d (bannerLog d.gBgMode k)).set_gFreshModeChange (20 - k)).gFreshModeChange
        ≠ 0 := by
      rw [set_gFreshModeChange_gFreshModeChange]; omega
    rw [doBGTask_banner _ hne,
      displayChangeModes_eq ((emit d (bannerLog d.gBgMode k)).set_gFreshModeChange (20 - k))
        (show ModeOk _ from hm),
      set_gFreshModeChange_gFreshModeChange]
    have e : 20 - k - 1 = 20 - (k + 1) := by omega
    rw [e]
    simp only [emit, bannerLog, set_log_log, set_gFreshModeChange_log, List.append_assoc,
      List.nil_append, List.singleton_append, List.cons_append]
    rfl

/-! ## The `random` results along a session -/

theorem nextBus_rng (s : Device) : (nextBus s).1.rng = s.rng := by
  unfold nextBus; split <;> rfl

theorem hexPrint_rng (s : Device) (v : Nat) : (hexPrint s v).rng = s.rng := by
  unfold hexPrint
  simp only []
  split_ifs <;> rfl

theorem clockReadLoop0_rng (br fuel : Nat) (data : List Nat) (i : Nat) (d : Device)
    (bf : List Nat) : (clockReadLoop0 br fuel data i d bf).1.rng = d.rng := by
  induction fuel generalizing data i d bf with
  | zero => rfl
  | succ k ih =>
    cases data with
    | nil => simp only [clockReadLoop0]; rfl
    | cons x xs =>
      simp only [clockReadLoop0]
      rw [ih, hexPrint_rng]

theorem clockRead_rng (s : Device) (a n : Nat) (buf : List Nat) :
    (clockRead s a n buf).1.rng = s.rng := by
  unfold clockRead
  simp only []
  split_ifs
  · split <;> rename_i h <;>
      · have h2 := congrArg (fun x : Device × List Nat × Option Nat => x.1.rng) h
        simp only [clockReadLoop0_rng] at h2
        simp only [emit_rng, ← h2, nextBus_rng]
  · split <;> simp only [emit_rng, nextBus_rng]

theorem clockWrite_rng (s : Device) (a n : Nat) (buf : List Nat) :
    (clockWrite s a n buf).1.rng = s.rng := by
  have h := nextBus_rng (emit s [.println "clockWrite"])
  rw [emit_rng] at h
  unfold clockWrite
  simp only [hexPrint_eq]
  split_ifs <;> simp [h, emit_rng]

theorem writeString_rng (s : Device) (m : List Nat) (x y : Int) :
    (writeString s m x y).rng = s.rng := rfl

theorem snakeInit_rng (s : Device) : (snakeInit s).rng = s.rng := by
  simp [snakeInit, emit_rng]

theorem snakeResetRound_rng (b : Bool) (i : Nat) (s : Device) :
    (snakeResetRound b i s).rng = s.rng := by
  unfold snakeResetRound
  simp only []
  split_ifs <;>
    simp only [emit_rng, writeString_rng, clockWrite_rng, clockRead_rng, uninit_rng,
      snakeDrawApples_rng]

theorem snakeReset_rng (s : Device) (b : Bool) : (snakeReset s b).rng = s.rng := by
  unfold snakeReset
  rw [snakeInit_rng]
  simp only [List.range, List.range.loop, List.foldl_cons, List.foldl_nil, snakeResetRound_rng]

theorem snakeMoved_rng (s : Device) (n : Nat) : (snakeMoved s n).1.rng = s.rng := by
  unfold snakeMoved
  simp only []
  split
  · simp only [snakeReset_rng, emit_rng]
  · rw [snakeEatLoop_rng]
    split_ifs <;> simp [snakeClearPixel, emit_rng, uninit_rng, snakeDrawPixel_rng]

theorem snakePut_rng (s : Device) (n : Nat) (p : Point) : (snakePut s n p).rng = s.rng := rfl

theorem snakeMove_rng (s : Device) : (snakeMove s).1.rng = s.rng := by
  unfold snakeMove
  simp only []
  split_ifs <;>
    simp only [snakeMoved_rng, snakeReset_rng, emit_rng, snakePut_rng]

theorem random_fst_rng (s : Device) (a : Nat) : (random s a).1.rng = s.rng.tail := by
  unfold random
  split <;> rename_i h <;> simp [h]

theorem random_snd (s : Device) (a : Nat) : (random s a).2 = s.rng.headD 0 % a := by
  unfold random
  split <;> rename_i h <;> simp [h]

theorem core_random_fst (s : Device) (a : Nat) : core (random s a).1 = core s := by
  rw [core_random]

/-- The movement gate and the redraw use no `random` result. -/
theorem gate_rng (x : Device) (c : Nat) :
    (if c &&& x.gSnakeSpeed = 0 then
        if (snakeMove x).2 then (snakeMove x).1 else snakeRedrawDisplay (snakeMove x).1
      else snakeRedrawDisplay x).rng = x.rng := by
  split_ifs <;> simp only [snakeRedrawDisplay_rng, snakeMove_rng]

/-- One tick from a state inside the invariant, with the apples and the
`random` results it leaves: the session ended; or, a spawn having put at most
one apple into an empty slot (`apples2`), made from the next two `random`
results, the head advanced to a cell of the board and ate the apples there,
or the gate was closed and nothing moved. -/
theorem tick_stream (s : Device) (hinv : SnakeInv s) :
    (StartState (snakeBgMode s) ∧ (snakeBgMode s).gSnake.length = 16 ∧
      ((snakeBgMode s).rng = s.rng ∨ (snakeBgMode s).rng = s.rng.drop 2)) ∨
    ∃ apples2 : List Point,
      ((curTime s % 64 ≠ 63 ∧ apples2 = s.gApples ∧ (snakeBgMode s).rng = s.rng) ∨
       (curTime s % 64 = 63 ∧ ∃ j, freeSlot s.gApples 8 0 = some j ∧
          apples2 = s.gApples.set j (spawnApple s.rng) ∧
          (snakeBgMode s).rng = s.rng.drop 2)) ∧
      ((playable (newHead s) ∧
        ((snakeBgMode s).gSnakeScore, (snakeBgMode s).gSnakeSpeed)
          = eatScore^[applesAt (newHead s) 8 0 apples2] (s.gSnakeScore, s.gSnakeSpeed) ∧
        (snakeBgMode s).gApples = clearApples (newHead s) 8 0 apples2) ∨
       ((snakeBgMode s).gSnakeScore = s.gSnakeScore ∧
        (snakeBgMode s).gSnakeSpeed = s.gSnakeSpeed ∧
        (snakeBgMode s).gApples = apples2)) := by
  have hct : curTime s = (s.gSnakeTime + 1) % 256 := rfl
  by_cases hc : (s.gSnakeTime + 1) % 256 % 64 = 63
  · cases hf : freeSlot s.gApples 8 0 with
    | none =>
      left
      rw [snakeBgMode_full s hc hf]
      obtain ⟨q1, q2⟩ := snakeReset_start (emit ((emit (s.set_gSnakeTime ((s.gSnakeTime + 1) % 256))
        [.println "Add an apple", .led GREEN_LED 1]).set_gLedTimer 2)
        [.println "Too many apples!", .led RED_LED 1]) true
        (by simpa [emit_gSnake] using hinv.1.2.2.2.1)
        (by simpa [emit_gApples] using hinv.1.2.2.2.2.1)
      refine ⟨q1, q2, Or.inl ?_⟩
      rw [snakeReset_rng]
      rfl
    | some j =>
      obtain ⟨g1, g2, g3, g4, g5, g6, g7, g8⟩ := spawn_fields s j hf
      obtain ⟨-, b2, -, -⟩ := snakeAddApple_free 8 0 j (spawnStart s) hf
      rw [spawnStart_gApples] at b2
      have hrng : (snakeAddApple 8 0 (spawnStart s)).1.rng = s.rng.drop 2 := by
        rw [snakeAddApple_rng 8 0 j (spawnStart s) hf, random_fst_rng, random_fst_rng,
          spawnStart_rng]
        cases s.rng with
        | nil => rfl
        | cons a t => cases t <;> rfl
      have happle : (⟨toInt8 (random (spawnStart s) SNAKE_SCREEN_WIDTH.toNat).2,
          toInt8 (random (random (spawnStart s) SNAKE_SCREEN_WIDTH.toNat).1
            SNAKE_SCREEN_HEIGHT.toNat).2⟩ : Point) = spawnApple s.rng := by
        rw [random_snd, random_snd, random_fst_rng, spawnStart_rng]
        rfl
      rw [happle] at b2
      have hinv2 := snakeInv_of_fields s _ hinv g1 g2 g3 g4 g5
      have hnh := newHead_congr s _ g1 g3 g4
      have hns := nextSlot_congr s (snakeAddApple 8 0 (spawnStart s)).1 g3
      have hE : snakeBgMode s = if (s.gSnakeTime + 1) % 256 &&&
            (snakeAddApple 8 0 (spawnStart s)).1.gSnakeSpeed = 0 then
          if (snakeMove (snakeAddApple 8 0 (spawnStart s)).1).2 then
            (snakeMove (snakeAddApple 8 0 (spawnStart s)).1).1
          else snakeRedrawDisplay (snakeMove (snakeAddApple 8 0 (spawnStart s)).1).1
        else snakeRedrawDisplay (snakeAddApple 8 0 (spawnStart s)).1 :=
        snakeBgMode_spawn s hc j hf
      have hR : (snakeBgMode s).rng = s.rng.drop 2 := by
        rw [hE, gate_rng, hrng]
      rcases gate_ring _ hinv2 _ _ hE with h | h | h
      · exact Or.inl ⟨h.1, h.2, Or.inr hR⟩
      · right
        obtain ⟨h1, h2, h3, h4, h5, h6, h7, h8⟩ := h
        rw [hnh, hns, g1, g2, g7, g8, b2] at *
        exact ⟨_, Or.inr ⟨hc, j, rfl, rfl, hR⟩, Or.inl ⟨h2, h6, h7⟩⟩
      · right
        obtain ⟨h1, h2, h3, h4, h5, h6, h7, h8⟩ := h
        rw [g1, g2, g3, g7, g8, b2] at *
        exact ⟨_, Or.inr ⟨hc, j, rfl, rfl, hR⟩, Or.inr ⟨h5, h6, h7⟩⟩
  · have hinv2 : SnakeInv (s.set_gSnakeTime ((s.gSnakeTime + 1) % 256)) :=
      snakeInv_of_fields s _ hinv rfl rfl rfl rfl rfl
    have hnh : newHead (s.set_gSnakeTime ((s.gSnakeTime + 1) % 256)) = newHead s :=
      newHead_congr s _ rfl rfl rfl
    have hns : nextSlot (s.set_gSnakeTime ((s.gSnakeTime + 1) % 256)) = nextSlot s :=
      nextSlot_congr s _ rfl
    have hE := snakeBgMode_plain s hc
    have hR : (snakeBgMode s).rng = s.rng := by
      have := gate_rng (s.set_gSnakeTime ((s.gSnakeTime + 1) % 256)) ((s.gSnakeTime + 1) % 256)
      simp only [set_gSnakeTime_gSnakeSpeed, set_gSnakeTime_rng] at this
      rw [hE]
      exact this
    have h := gate_ring (s.set_gSnakeTime ((s.gSnakeTime + 1) % 256)) hinv2
      ((s.gSnakeTime + 1) % 256) (snakeBgMode s)
      (by rw [hE]; simp only [set_gSnakeTime_gSnakeSpeed])
    simp only [set_gSnakeTime_gSnakeSpeed, set_gSnakeTime_gSnakeScore,
      set_gSnakeTime_gSnakeTime, set_gSnakeTime_gSnake, set_gSnakeTime_gSnakeBufferPos,
      set_gSnakeTime_gSnakeLen, set_gSnakeTime_gApples, hnh, hns] at h
    rcases h with h | h | h
    · exact Or.inl ⟨h.1, h.2, Or.inl hR⟩
    · right
      obtain ⟨h1, h2, h3, h4, h5, h6, h7, h8⟩ := h
      exact ⟨_, Or.inl ⟨hc, rfl, hR⟩, Or.inl ⟨h2, h6, h7⟩⟩
    · right
      obtain ⟨h1, h2, h3, h4, h5, h6, h7, h8⟩ := h
      exact ⟨_, Or.inl ⟨hc, rfl, hR⟩, Or.inr ⟨h5, h6, h7⟩⟩

/-! ## Counting the apples in the slots -/

theorem applesAt_sum (p : Point) (apples : List Point) :
    applesAt p 8 0 apples = Finset.sum (Finset.range 8)
      (fun i => if (apples.getD i ⟨0, 0⟩).x ≠ -1 ∧ p = apples.getD i ⟨0, 0⟩ then 1 else 0) := by
  simp only [applesAt, Finset.sum_range_succ, Finset.sum_range_zero, Nat.zero_add,
    Nat.reduceAdd]
  omega

theorem getD_set_slot (apples : List Point) (j i : Nat) (a : Point) (hj : j < apples.length) :
    (apples.set j a).getD i ⟨0, 0⟩ = if i = j then a else apples.getD i ⟨0, 0⟩ := by
  rw [List.getD_eq_getElem?_getD, List.getElem?_set]
  split_ifs with h1 h2 h2
  · subst h1; simp [hj] at *
  · exact absurd h1.symm h2
  · exact absurd h2.symm h1
  · rw [List.getD_eq_getElem?_getD]

theorem spawnApple_x (rng : List Nat) : 0 ≤ (spawnApple rng).x ∧ (spawnApple rng).x ≤ 63 := by
  have h : rng.headD 0 % 64 < 64 := Nat.mod_lt _ (by decide)
  unfold spawnApple
  simp only []
  rw [toInt8_small _ (by omega)]
  omega

/-- A spawn into an empty slot: one more slot is occupied, and one more holds
an apple in column 0 or 63 when the new apple is there. -/
theorem count_spawn (apples : List Point) (j : Nat) (a : Point) (h8 : apples.length = 8)
    (hj : j < 8) (hfree : (apples.getD j ⟨0, 0⟩).x = -1) (ha : a.x ≠ -1) :
    occupied (apples.set j a) = occupied apples + 1 ∧
    edgeApples (apples.set j a) = edgeApples apples + (if inEdgeColumn a then 1 else 0) := by
  have hone : Finset.sum (Finset.range 8) (fun i => if i = j then 1 else 0) = 1 := by
    rw [Finset.sum_ite_eq' (Finset.range 8) j (fun _ => 1), if_pos (Finset.mem_range.mpr hj)]
  have hedge : inEdgeColumn (apples.getD j ⟨0, 0⟩) = false := by
    unfold inEdgeColumn
    rw [hfree]; decide
  have hnot : ¬ (apples.getD j ⟨0, 0⟩).x ≠ -1 := not_not.mpr hfree
  constructor
  · unfold occupied
    have key : Finset.sum (Finset.range 8)
        (fun i => if ((apples.set j a).getD i ⟨0, 0⟩).x ≠ -1 then 1 else 0)
        = Finset.sum (Finset.range 8) (fun i =>
            (if (apples.getD i ⟨0, 0⟩).x ≠ -1 then 1 else 0) + (if i = j then 1 else 0)) := by
      apply Finset.sum_congr rfl
      intro i _
      rw [getD_set_slot _ _ _ _ (by omega)]
      by_cases hij : i = j
      · rw [hij]
        simp only [if_true, if_pos ha, if_neg hnot]
      · simp only [if_neg hij, Nat.add_zero]
    rw [key, Finset.sum_add_distrib, hone]
  · unfold edgeApples
    have hone2 : Finset.sum (Finset.range 8)
        (fun i => if i = j then (if inEdgeColumn a then 1 else 0) else 0)
        = if inEdgeColumn a then 1 else 0 := by
      rw [Finset.sum_ite_eq' (Finset.range 8) j (fun _ => if inEdgeColumn a then 1 else 0),
        if_pos (Finset.mem_range.mpr hj)]
    have key : Finset.sum (Finset.range 8)
        (fun i => if inEdgeColumn ((apples.set j a).getD i ⟨0, 0⟩) then 1 else 0)
        = Finset.sum (Finset.range 8) (fun i =>
            (if inEdgeColumn (apples.getD i ⟨0, 0⟩) then 1 else 0)
              + (if i = j then (if inEdgeColumn a then 1 else 0) else 0)) := by
      apply Finset.sum_congr rfl
      intro i _
      rw [getD_set_slot _ _ _ _ (by omega)]
      by_cases hij : i = j
      · rw [hij]
        simp only [if_true, hedge, Bool.false_eq_true, if_false, Nat.zero_add]
      · simp only [if_neg hij, Nat.add_zero]
    rw [key, Finset.sum_add_distrib, hone2]

/-- The apple loop with the head at a cell of the board: every apple is
eaten or still in its slot, and the apples in column 0 or 63 are all still
there. -/
theorem count_clear (apples : List Point) (p : Point) (h8 : apples.length = 8)
    (hp : playable p) :
    occupied (clearApples p 8 0 apples) + applesAt p 8 0 apples = occupied apples ∧
    edgeApples (clearApples p 8 0 apples) = edgeApples apples := by
  have hslot : ∀ i, i < 8 → (clearApples p 8 0 apples).getD i ⟨0, 0⟩
      = if (apples.getD i ⟨0, 0⟩).x ≠ -1 ∧ p = apples.getD i ⟨0, 0⟩
        then ⟨-1, (apples.getD i ⟨0, 0⟩).y⟩ else apples.getD i ⟨0, 0⟩ := by
    intro i hi
    rw [clearApples_getD p 8 0 apples (by omega) i]
    by_cases hc : (apples.getD i ⟨0, 0⟩).x ≠ -1 ∧ p = apples.getD i ⟨0, 0⟩
    · rw [if_pos hc, if_pos ⟨Nat.zero_le _, by omega, hc.1, hc.2⟩]
    · rw [if_neg hc, if_neg (fun h => hc ⟨h.2.2.1, h.2.2.2⟩)]
  constructor
  · rw [applesAt_sum]
    unfold occupied
    rw [← Finset.sum_add_distrib]
    apply Finset.sum_congr rfl
    intro i hi
    rw [hslot i (Finset.mem_range.mp hi)]
    by_cases hc : (apples.getD i ⟨0, 0⟩).x ≠ -1 ∧ p = apples.getD i ⟨0, 0⟩
    · have hx : ¬ (⟨-1, (apples.getD i ⟨0, 0⟩).y⟩ : Point).x ≠ -1 := not_not.mpr rfl
      simp only [if_pos hc, if_neg hx, if_pos hc.1, Nat.zero_add]
    · simp only [if_neg hc, Nat.add_zero]
  · unfold edgeApples
    apply Finset.sum_congr rfl
    intro i hi
    rw [hslot i (Finset.mem_range.mp hi)]
    by_cases hc : (apples.getD i ⟨0, 0⟩).x ≠ -1 ∧ p = apples.getD i ⟨0, 0⟩
    · have h1 : inEdgeColumn (apples.getD i ⟨0, 0⟩) = false := by
        rw [← hc.2]
        unfold inEdgeColumn
        have := hp.1
        have := hp.2.1
        simp only [Bool.or_eq_false_iff, beq_eq_false_iff_ne, ne_eq]
        constructor <;> omega
      have h2 : inEdgeColumn (⟨-1, (apples.getD i ⟨0, 0⟩).y⟩ : Point) = false := rfl
      simp only [if_pos hc, h1, h2]
    · simp only [if_neg hc]

/-- No slot is occupied in the start state. -/
theorem count_start :
    occupied (List.replicate 8 ⟨-1, -1⟩) = 0 ∧ edgeApples (List.replicate 8 ⟨-1, -1⟩) = 0 := by
  constructor <;> decide

/-- With an empty slot at most 7 slots hold an apple in column 0 or 63. -/
theorem edgeApples_free (apples : List Point) (j : Nat) (hj : j < 8)
    (hfree : (apples.getD j ⟨0, 0⟩).x = -1) : edgeApples apples ≤ 7 := by
  have hsum : Finset.sum (Finset.range 8) (fun i => if i = j then 0 else 1) + 1 = 8 := by
    have h1 : Finset.sum (Finset.range 8) (fun i => if i = j then 1 else 0) = 1 := by
      rw [Finset.sum_ite_eq' (Finset.range 8) j (fun _ => 1), if_pos (Finset.mem_range.mpr hj)]
    have h2 : Finset.sum (Finset.range 8) (fun i => (if i = j then 0 else 1) +
        (if i = j then 1 else 0)) = 8 := by
      have : ∀ i ∈ Finset.range 8, ((if i = j then 0 else 1) + (if i = j then 1 else 0) : Nat)
          = 1 := by
        intro i _
        split_ifs <;> rfl
      rw [Finset.sum_congr rfl this]
      simp
    rw [Finset.sum_add_distrib, h1] at h2
    exact h2
  have hle : edgeApples apples ≤ Finset.sum (Finset.range 8) (fun i => if i = j then 0 else 1) := by
    unfold edgeApples
    apply Finset.sum_le_sum
    intro i _
    by_cases hij : i = j
    · subst hij
      have : inEdgeColumn (apples.getD i ⟨0, 0⟩) = false := by
        unfold inEdgeColumn; rw [hfree]; decide
      simp only [this, Bool.false_eq_true, if_false, if_true, le_refl]
    · rw [if_neg hij]
      split_ifs <;> omega
  omega

theorem edgeSpawns_mono (rng : List Nat) (m k n : Nat) (h : k ≤ n) :
    edgeSpawns rng m k ≤ edgeSpawns rng m n := by
  induction n with
  | zero =>
    have : k = 0 := by omega
    rw [this]
  | succ n ih =>
    by_cases hk : k = n + 1
    · rw [hk]
    · have := ih (by omega)
      simp only [edgeSpawns]
      omega

/-! ## The score of a session cannot wrap when apples keep landing in the edge columns -/

theorem startState_session (rng : List Nat) (w n : Nat) (d : Device) (hs : StartState d)
    (hr : d.rng = rng.drop (2 * n)) : InSession rng w d := by
  obtain ⟨-, -, -, -, -, -, a7, a8, -, a10⟩ := hs
  refine ⟨n, 0, hr, Nat.zero_le _, Nat.zero_le _, ?_, ?_⟩
  · rw [a8, a10, count_start.1]
  · rw [a7, a8]; rfl

/-- A tick keeps the session inside `InSession`. -/
theorem tick_session (rng : List Nat) (w : Nat) (hw : w < 65536) (hdense : EdgeDense w rng)
    (s : Device) (hinv : SnakeInv s) (h : InSession rng w s) :
    InSession rng w (snakeBgMode s) := by
  obtain ⟨m, k, hr, hk, hedge, hsc, hsp⟩ := h
  have h8 : s.gApples.length = 8 := hinv.1.2.2.2.2.1
  rcases tick_stream s hinv with ⟨q1, -, q3⟩ | ⟨apples2, hspawn, hmove⟩
  · rcases q3 with q3 | q3
    · exact startState_session rng w (m + k) _ q1 (by rw [q3, hr])
    · refine startState_session rng w (m + k + 1) _ q1 ?_
      rw [q3, hr, List.drop_drop]
      congr 1
  · -- the apples, the results to come and the count after the spawn part
    have hmid : ∃ k2, (snakeBgMode s).rng = rng.drop (2 * (m + k2)) ∧ k2 ≤ w ∧
        edgeSpawns rng m k2 ≤ edgeApples apples2 ∧ s.gSnakeScore + occupied apples2 ≤ k2 ∧
        apples2.length = 8 := by
      rcases hspawn with ⟨-, ha, hrng⟩ | ⟨-, j, hf, ha, hrng⟩
      · exact ⟨k, by rw [hrng, hr], hk, by rw [ha]; exact hedge, by rw [ha]; exact hsc,
          by rw [ha]; exact h8⟩
      · obtain ⟨-, hj, hfree, -⟩ := freeSlot_some s.gApples 8 0 j hf
        have hj8 : j < 8 := by omega
        have hx := spawnApple_x s.rng
        obtain ⟨c1, c2⟩ := count_spawn s.gApples j (spawnApple s.rng) h8 hj8 hfree (by omega)
        have hle7 := edgeApples_free s.gApples j hj8 hfree
        have hkw : k < w := by
          by_contra hge
          have h1 := edgeSpawns_mono rng m w k (by omega)
          have h2 := hdense m
          omega
        refine ⟨k + 1, ?_, by omega, ?_, ?_, ?_⟩
        · rw [hrng, hr, List.drop_drop]
          congr 1
        · rw [ha, c2]
          simp only [edgeSpawns]
          rw [← hr]
          omega
        · rw [ha, c1]
          omega
        · rw [ha, List.length_set]
          exact h8
    obtain ⟨k2, m1, m2, m3, m4, m5⟩ := hmid
    rcases hmove with ⟨hp, hpair, happles⟩ | ⟨e1, e2, e3⟩
    · obtain ⟨d1, d2⟩ := count_clear apples2 (newHead s) m5 hp
      have hlt : s.gSnakeScore + applesAt (newHead s) 8 0 apples2 < 65536 := by omega
      rw [hsp, eatScore_iter _ _ hlt] at hpair
      have p1 := congrArg Prod.fst hpair
      have p2 := congrArg Prod.snd hpair
      simp only at p1 p2
      refine ⟨m, k2, m1, m2, ?_, ?_, ?_⟩
      · rw [happles, d2]; exact m3
      · rw [happles, p1]; omega
      · rw [p2, p1]
    · refine ⟨m, k2, m1, m2, ?_, ?_, ?_⟩
      · rw [e3]; exact m3
      · rw [e3, e1]; exact m4
      · rw [e2, e1]; exact hsp

/-- Every input keeps the session inside `InSession`. -/
theorem step_session (rng : List Nat) (w : Nat) (hw : w < 65536) (hdense : EdgeDense w rng)
    (s : Device) (i : SnakeInput) (hinv : SnakeInv s) (h : InSession rng w s) :
    InSession rng w (snakeStep s i) := by
  cases i with
  | tick => exact tick_session rng w hw hdense s hinv h
  | up => exact h
  | down => exact h
  | left => exact h
  | right => exact h

theorem run_session (rng : List Nat) (w : Nat) (hw : w < 65536) (hdense : EdgeDense w rng)
    (is : List SnakeInput) (s : Device) (hinv : SnakeInv s) (h : InSession rng w s) :
    InSession rng w (snakeRun s is) := by
  induction is generalizing s with
  | nil => exact h
  | cons i is ih =>
    exact ih _ (snakeStep_inv s i hinv) (step_session rng w hw hdense s i hinv h)

theorem snakeInit_session (d : Device) (w : Nat) (h16 : d.gSnake.length = 16)
    (h8 : d.gApples.length = 8) : InSession d.rng w (snakeInit d) :=
  startState_session d.rng w 0 _ (snakeInit_start d h16 h8).1 (by rw [snakeInit_rng]; rfl)

/-- With two `random` results and nothing after them, every spawn but the
first puts its apple at (0, 0): at least 8 of every 9 spawns in a row land in
column 0. -/
theorem edgeDense_oneApple : EdgeDense 9 oneAppleDevice.rng := by
  intro m
  have hr : oneAppleDevice.rng = [16807, 282475249] := rfl
  rw [hr]
  cases m with
  | zero => decide
  | succ n =>
    have hnil : ∀ k, ([16807, 282475249] : List Nat).drop (2 * (n + 1 + k)) = [] := by
      intro k
      apply List.drop_eq_nil_of_le
      simp only [List.length_cons, List.length_nil]
      omega
    simp only [edgeSpawns, hnil]
    decide

/-! ## Claims -/

/-- C1. An unlock attempt made while locked, at any challenge mode 0..3 and
for any store content, unlocks exactly when the submitted value equals
`readPinFromRam(challengeMode)`: for the button confirm `unlockBHandler` the
submitted value is the assembled guess, for `commandUnlock` it is the value
parsed from the typed line (a timeout leaves the device locked).  When the bus
performs the read that PIN is the low 16 bits of the 4-byte PIN field of the
slot.  With challenge mode 1, stored PIN 4242 and the typed line "4242" the
device unlocks. -/
theorem unlock_iff_pin_matches (s : Device) (hm : s.gChallengeMode ≤ 3)
    (hl : s.gIsLocked = true) :
    ((unlockBHandler s).gIsLocked = false ↔
        s.gCurrentPinGuess = (readPinFromRam s s.gChallengeMode).2) ∧
    (∀ t0 input p, (readString 6 30 t0 input).ret ≠ -1 →
        parsePin (readString 6 30 t0 input).buf (beyond s).2 = p →
        ((commandUnlock s t0 input).1.gIsLocked = false ↔
          p = (readPinFromRam s s.gChallengeMode).2)) ∧
    (∀ t0 input, (readString 6 30 t0 input).ret = -1 →
        (commandUnlock s t0 input).1.gIsLocked = true) ∧
    (s.bus.headD .ok = .ok →
        (readPinFromRam s s.gChallengeMode).2 = pinField s.ram s.gChallengeMode) ∧
    (∀ t0 t rest, s.gChallengeMode = 1 → s.bus.headD .ok = .ok → pinField s.ram 1 = 4242 →
        t < readStringDeadline t0 30 →
        (commandUnlock s t0 (typed t "4242\n" ++ rest)).1.gIsLocked = false) := by
  refine ⟨?_, ?_, ?_, ?_, ?_⟩
  · rw [unlockBHandler_gIsLocked, hl]
    split_ifs with h <;> simp [h]
  · intro t0 input p hr hp
    rw [commandUnlock_gIsLocked, if_neg hr, hp, hl]
    split_ifs with h <;> simp [h]
  · intro t0 input hr
    rw [commandUnlock_gIsLocked, if_pos hr, hl]
  · intro hb
    rw [readPinFromRam_snd, hb, pinRead_ok _ _ hm]
  · intro t0 t rest hmode hb hpin ht
    have hread : (readString 6 30 t0 (typed t "4242\n" ++ rest)).ret = 4 ∧
        (readString 6 30 t0 (typed t "4242\n" ++ rest)).buf = [52, 50, 52, 50, 0, 0] := by
      simp [readString, typed, bytes, readStringLoop, ht]
    have hne : (readString 6 30 t0 (typed t "4242\n" ++ rest)).ret ≠ -1 := by
      rw [hread.1]; decide
    rw [commandUnlock_gIsLocked, if_neg hne, hread.2, readPinFromRam_snd, hb, hmode,
      pinRead_ok _ _ (by decide), hpin]
    have : parsePin [52, 50, 52, 50, 0, 0] (beyond s).2 = 4242 := by
      simp [parsePin, strtoul, cstr, isspace, strtoulLoop]
    rw [if_pos this]

/-- C1, on the provisioned badge switched to challenge 1. -/
theorem unlock_iff_pin_matches_witness :
    (demoDevice.set_gChallengeMode 1).gChallengeMode ≤ 3 ∧
    (demoDevice.set_gChallengeMode 1).gIsLocked = true ∧
    (commandUnlock (demoDevice.set_gChallengeMode 1) 5000
      (typed 5001 "4242\n" ++ [])).1.gIsLocked = false :=
  ⟨by decide, by rfl,
   (unlock_iff_pin_matches (demoDevice.set_gChallengeMode 1) (by decide) (by rfl)).2.2.2.2
     5000 5001 [] rfl rfl (by decide) (by decide)⟩

/-- C2 fails on the code: the provisioned badge is unlocked with its PIN,
stepped up to the Flag display and given the `lock` command there; it is then
locked with the Flag display still active, and in the next round of the main
loop the background task renders the flag on the display (the text was not in
the output before that round) while the device is locked. -/
theorem flag_shown_while_locked :
    (run demoDevice lockOnFlagTrace).gIsLocked = true ∧
    (run demoDevice lockOnFlagTrace).gBgMode = 3 ∧
    Effect.oledText (bytes "wildcat\x7balpha\x7d") 0 0 ∉ (run demoDevice lockOnFlagTrace).log ∧
    Effect.oledText (bytes "wildcat\x7balpha\x7d") 0 0 ∈
      (run (run demoDevice lockOnFlagTrace) (idle 1)).log ∧
    (run (run demoDevice lockOnFlagTrace) (idle 1)).gIsLocked = true := by
  decide!

/-- C3. For every challenge mode 0..3 whose flag is provisioned, on a bus that
performs the read, `commandGetFlags` prints the flag text of the slot selected
by the current challenge mode exactly when the device is unlocked (at challenge
0 preceded by the I2C traffic of that same slot, which `clockRead` prints);
when locked its whole output is the refusal "Must unlock device first!", which
holds no byte of the store. -/
theorem getflg_discloses_iff_unlocked (s : Device) (hm : s.gChallengeMode ≤ 3)
    (hb : s.bus.headD .ok = .ok)
    (hp : s.gChallengeMode = 3 ∨ 0 ∈ flagField s.ram s.gChallengeMode) :
    (s.gIsLocked = false →
      (commandGetFlags s).log = s.log ++
        (if s.gChallengeMode = 3 then [] else
          readTraffic s.ram s.gChallengeMode
            (FLAG_0_ADDR + (FLAG_LEN + PIN_CODE_LEN) * s.gChallengeMode) FLAG_LEN)
        ++ [.print "Flag ", .printNum s.gChallengeMode, .print ": wildcat\x7b",
            .printStr (flagText s.ram s.gChallengeMode), .println "\x7d"]) ∧
    (s.gIsLocked = true →
      (commandGetFlags s).log = s.log ++ [.println "Must unlock device first!"]) ∧
    (Effect.printStr (flagText s.ram s.gChallengeMode) ∈
        (commandGetFlags s).log.drop s.log.length ↔ s.gIsLocked = false) := by
  have hu : s.gIsLocked = false →
      (commandGetFlags s).log = s.log ++
        (if s.gChallengeMode = 3 then [] else
          readTraffic s.ram s.gChallengeMode
            (FLAG_0_ADDR + (FLAG_LEN + PIN_CODE_LEN) * s.gChallengeMode) FLAG_LEN)
        ++ [.print "Flag ", .printNum s.gChallengeMode, .print ": wildcat\x7b",
            .printStr (flagText s.ram s.gChallengeMode), .println "\x7d"] := by
    intro hl
    unfold commandGetFlags
    rw [if_pos hl]
    exact printFlagToSerial_log s _ hm hb hp
  have hk : s.gIsLocked = true →
      (commandGetFlags s).log = s.log ++ [.println "Must unlock device first!"] := by
    intro hl
    unfold commandGetFlags
    rw [if_neg (by rw [hl]; decide)]
    rfl
  refine ⟨hu, hk, ?_⟩
  cases hl : s.gIsLocked with
  | false =>
    rw [hu hl, List.append_assoc, List.drop_left]
    simp
  | true =>
    rw [hk hl, List.drop_left]
    simp

/-- C3, on the provisioned badge at challenge 1, unlocked: the output is the
flag "bravo" of slot 1. -/
theorem getflg_discloses_iff_unlocked_witness :
    ((demoDevice.set_gChallengeMode 1).set_gIsLocked false).gChallengeMode ≤ 3 ∧
    0 ∈ flagField ((demoDevice.set_gChallengeMode 1).set_gIsLocked false).ram 1 ∧
    flagText ((demoDevice.set_gChallengeMode 1).set_gIsLocked false).ram 1 = bytes "bravo" ∧
    (Effect.printStr
        (flagText ((demoDevice.set_gChallengeMode 1).set_gIsLocked false).ram
          ((demoDevice.set_gChallengeMode 1).set_gIsLocked false).gChallengeMode) ∈
      (commandGetFlags ((demoDevice.set_gChallengeMode 1).set_gIsLocked false)).log.drop
        ((demoDevice.set_gChallengeMode 1).set_gIsLocked false).log.length ↔
      ((demoDevice.set_gChallengeMode 1).set_gIsLocked false).gIsLocked = false) :=
  ⟨by decide, by decide, by decide,
   (getflg_discloses_iff_unlocked ((demoDevice.set_gChallengeMode 1).set_gIsLocked false)
      (by decide) (by rfl) (Or.inr (by decide))).2.2⟩

/-- C8 as stated fails: after the rounds of `lockScreenTrace` the provisioned
badge is locked (by the Lock display) while the display mode is Lock(4), which
is none of Clock(0), Unlock(1), Version(2). -/
theorem locked_on_lock_screen_counterexample :
    Reachable (run demoDevice lockScreenTrace) ∧
    (run demoDevice lockScreenTrace).gIsLocked = true ∧
    (run demoDevice lockScreenTrace).gBgMode = 4 ∧
    ¬ ((run demoDevice lockScreenTrace).gBgMode = 0 ∨
       (run demoDevice lockScreenTrace).gBgMode = 1 ∨
       (run demoDevice lockScreenTrace).gBgMode = 2) :=
  ⟨⟨demoRam, [], [], [], lockScreenTrace, rfl⟩, by decide!, by decide!, by decide!⟩

/-- C8, amended. In every state reachable from power-up the display mode is one
of the six modes 0..5; whenever `modeUp` or `modeDown` runs on a locked device
the resulting mode is one of Clock(0), Unlock(1), Version(2); and re-locking
through the Lock display or through advance-challenge sets the lock without
changing the display mode, so the fold into the locked subset takes place at
the next navigation step. -/
theorem locked_subset_after_navigation (s : Device) (h : Reachable s) :
    (0 ≤ s.gBgMode ∧ s.gBgMode ≤ 5) ∧
    (s.gIsLocked = true →
      (0 ≤ (modeUp s).gBgMode ∧ (modeUp s).gBgMode ≤ 2) ∧
      (0 ≤ (modeDown s).gBgMode ∧ (modeDown s).gBgMode ≤ 2)) ∧
    ((displayLock s).gIsLocked = true ∧ (displayLock s).gBgMode = s.gBgMode) ∧
    (∀ t0 input, (commandNextChallenge s t0 input).1.gBgMode = s.gBgMode) ∧
    (0 ≤ (modeUp (displayLock s)).gBgMode ∧ (modeUp (displayLock s)).gBgMode ≤ 2) ∧
    (0 ≤ (modeDown (displayLock s)).gBgMode ∧ (modeDown (displayLock s)).gBgMode ≤ 2) :=
  ⟨reachable_modeOk s h,
   fun hl => ⟨modeUp_locked_subset s hl, modeDown_locked_subset s hl⟩,
   ⟨displayLock_gIsLocked s, displayLock_gBgMode s⟩,
   fun t0 input => commandNextChallenge_gBgMode s t0 input,
   modeUp_locked_subset _ (displayLock_gIsLocked s),
   modeDown_locked_subset _ (displayLock_gIsLocked s)⟩

/-- C8 amended, on the badge locked on the Lock screen: the next `modeUp`
folds the mode into the locked subset. -/
theorem locked_subset_after_navigation_witness :
    Reachable (run demoDevice lockScreenTrace) ∧
    (0 ≤ (modeUp (run demoDevice lockScreenTrace)).gBgMode ∧
      (modeUp (run demoDevice lockScreenTrace)).gBgMode ≤ 2) :=
  ⟨⟨demoRam, [], [], [], lockScreenTrace, rfl⟩,
   ((locked_subset_after_navigation (run demoDevice lockScreenTrace)
      ⟨demoRam, [], [], [], lockScreenTrace, rfl⟩).2.1 (by decide!)).1⟩

/-- C5. Off the Flag screen and with the confirmation "yes" read (the three
characters and a fourth one, such as the line terminator, all before the
deadline), `commandNextChallenge` sets the challenge mode to (old + 1) mod 4 for
every old value 0..3, sets locked, and issues a write of the new mode to the
challenge-mode register; on a bus that performs the write the register holds
the new mode, and when the write is not acknowledged the registers are
unchanged while the mode in memory is advanced and the device locked. -/
theorem advance_challenge_confirmed (s : Device) (t0 t1 t2 t3 t4 c : Nat)
    (rest : List (Nat × Nat)) (hmode : s.gBgMode ≠ 3) (hcm : s.gChallengeMode ≤ 3)
    (h1 : t1 < readStringDeadline t0 30) (h2 : t2 < readStringDeadline t0 30)
    (h3 : t3 < readStringDeadline t0 30) (h4 : t4 < readStringDeadline t0 30) :
    (commandNextChallenge s t0 ((t1, 121) :: (t2, 101) :: (t3, 115) :: (t4, c) :: rest)).1.gChallengeMode
      = (s.gChallengeMode + 1) % 4 ∧
    (commandNextChallenge s t0 ((t1, 121) :: (t2, 101) :: (t3, 115) :: (t4, c) :: rest)).1.gIsLocked
      = true ∧
    (∃ pre post,
      (commandNextChallenge s t0 ((t1, 121) :: (t2, 101) :: (t3, 115) :: (t4, c) :: rest)).1.log
        = s.log ++ pre ++ [.i2cWrite CHAL_MODE_ADDR [(s.gChallengeMode + 1) % 4]] ++ post) ∧
    (s.bus.headD .ok = .ok →
      (commandNextChallenge s t0 ((t1, 121) :: (t2, 101) :: (t3, 115) :: (t4, c) :: rest)).1.ram
        = s.ram.set CHAL_MODE_ADDR ((s.gChallengeMode + 1) % 4)) ∧
    (∀ e br d, s.bus.headD .ok = .fault e br d → e ≠ 0 →
      (commandNextChallenge s t0 ((t1, 121) :: (t2, 101) :: (t3, 115) :: (t4, c) :: rest)).1.ram
        = s.ram) := by
  have hq := (readString_yes_iff t0 ((t1, 121) :: (t2, 101) :: (t3, 115) :: (t4, c) :: rest)).mpr
    ⟨t1, t2, t3, t4, c, rest, rfl, h1, h2, h3, h4⟩
  have hm : (if (s.gChallengeMode + 1) % 256 = 4 then 0 else (s.gChallengeMode + 1) % 256)
      = (s.gChallengeMode + 1) % 4 := by
    generalize s.gChallengeMode = m at hcm
    interval_cases m <;> rfl
  rw [commandNextChallenge_confirmed _ _ _ hmode hq, hm]
  refine ⟨by simp, rfl, ?_, ?_, ?_⟩
  · obtain ⟨post, hpost⟩ := clockWrite_log
      (emit ((emit (emit s [.println "You really want to goto next challenge?",
            .println "Type yes to confirm"])
            ((readString 4 30 t0
              ((t1, 121) :: (t2, 101) :: (t3, 115) :: (t4, c) :: rest)).out ++
                [.println ""])).set_gChallengeMode ((s.gChallengeMode + 1) % 4))
          [.println "Mode changed to ", .printlnNum (((s.gChallengeMode + 1) % 4 : Nat) : Int),
           .printlnStr (getVersionString ((s.gChallengeMode + 1) % 4))])
      CHAL_MODE_ADDR CHAL_MODE_LEN [(s.gChallengeMode + 1) % 4]
    refine ⟨[.println "You really want to goto next challenge?", .println "Type yes to confirm"]
      ++ ((readString 4 30 t0 ((t1, 121) :: (t2, 101) :: (t3, 115) :: (t4, c) :: rest)).out ++
        [.println ""])
      ++ [.println "Mode changed to ", .printlnNum (((s.gChallengeMode + 1) % 4 : Nat) : Int),
        .printlnStr (getVersionString ((s.gChallengeMode + 1) % 4)), .println "clockWrite"],
      post, ?_⟩
    rw [set_gIsLocked_log, hpost]
    simp only [emit_log, set_gChallengeMode_log, List.append_assoc, CHAL_MODE_LEN, List.take,
      List.cons_append, List.nil_append]
  · intro hb
    rw [set_gIsLocked_ram, clockWrite_ram_ok _ _ _ _ (by simpa using hb)]
    simp [CHAL_MODE_LEN, ramWrite, CHAL_MODE_ADDR]
  · intro e br d hb he
    rw [set_gIsLocked_ram, clockWrite_ram_fault _ _ _ _ e br d (by simpa using hb) he]
    simp

/-- C5, on the provisioned badge with "yes" and a carriage return typed at
once. -/
theorem advance_challenge_confirmed_witness :
    demoDevice.gBgMode ≠ 3 ∧ demoDevice.gChallengeMode ≤ 3 ∧
    5001 < readStringDeadline 5000 30 ∧
    (commandNextChallenge demoDevice 5000
      ((5001, 121) :: (5001, 101) :: (5001, 115) :: (5001, 13) :: [])).1.gChallengeMode
      = (demoDevice.gChallengeMode + 1) % 4 :=
  ⟨by decide, by decide, by decide,
   (advance_challenge_confirmed demoDevice 5000 5001 5001 5001 5001 13 [] (by decide)
      (by decide) (by decide) (by decide) (by decide) (by decide)).1⟩

/-- C6 as stated fails: the four characters 'y', 'e', 's', 'z', without any
line terminator, advance the challenge mode of the provisioned badge from 0 to
1 and change the challenge-mode register. -/
theorem advance_without_terminator_counterexample :
    demoDevice.gBgMode ≠ 3 ∧
    typed 5001 "yesz" = [(5001, 121), (5001, 101), (5001, 115), (5001, 122)] ∧
    5001 < readStringDeadline 5000 30 ∧
    demoDevice.gChallengeMode = 0 ∧
    (commandNextChallenge demoDevice 5000 (typed 5001 "yesz")).1.gChallengeMode = 1 ∧
    (commandNextChallenge demoDevice 5000 (typed 5001 "yesz")).1.ram ≠ demoDevice.ram := by
  refine ⟨by decide, by decide, by decide, by decide, by decide, by decide⟩

/-- C6, amended. Unless the input at the confirmation prompt starts with 'y',
'e', 's' and a fourth character (a line terminator or any other), all read
before the deadline, `commandNextChallenge` leaves the challenge mode, the lock
state and the registers unchanged; this covers every other character sequence
and the timeout. -/
theorem advance_needs_yes (s : Device) (t0 : Nat) (input : List (Nat × Nat))
    (h : ¬ ∃ t1 t2 t3 t4 c rest,
      input = (t1, 121) :: (t2, 101) :: (t3, 115) :: (t4, c) :: rest ∧
      t1 < readStringDeadline t0 30 ∧ t2 < readStringDeadline t0 30 ∧
      t3 < readStringDeadline t0 30 ∧ t4 < readStringDeadline t0 30) :
    (commandNextChallenge s t0 input).1.gChallengeMode = s.gChallengeMode ∧
    (commandNextChallenge s t0 input).1.gIsLocked = s.gIsLocked ∧
    (commandNextChallenge s t0 input).1.ram = s.ram := by
  by_cases hm : s.gBgMode = 3
  · rw [commandNextChallenge_refused _ _ _ hm]
    exact ⟨rfl, rfl, rfl⟩
  · rw [commandNextChallenge_unconfirmed _ _ _ hm (fun hq => h ((readString_yes_iff _ _).mp hq))]
    exact ⟨rfl, rfl, rfl⟩

/-- C6 amended, on the provisioned badge with the line "no". -/
theorem advance_needs_yes_witness :
    (¬ ∃ t1 t2 t3 t4 c rest,
      typed 5001 "no\n" = (t1, 121) :: (t2, 101) :: (t3, 115) :: (t4, c) :: rest ∧
      t1 < readStringDeadline 5000 30 ∧ t2 < readStringDeadline 5000 30 ∧
      t3 < readStringDeadline 5000 30 ∧ t4 < readStringDeadline 5000 30) ∧
    (commandNextChallenge demoDevice 5000 (typed 5001 "no\n")).1.gChallengeMode
      = demoDevice.gChallengeMode :=
  ⟨by simp [typed, bytes],
   (advance_needs_yes demoDevice 5000 (typed 5001 "no\n") (by simp [typed, bytes])).1⟩

/-- C7. On the Flag screen `commandNextChallenge` is refused: whatever the
serial input holds, the challenge mode, the lock state and the registers are
unchanged, the input is left untouched (no confirmation is read) and the only
output is the refusal. -/
theorem advance_refused_on_flag_screen (s : Device) (t0 : Nat) (input : List (Nat × Nat))
    (h : s.gBgMode = 3) :
    (commandNextChallenge s t0 input).1.gChallengeMode = s.gChallengeMode ∧
    (commandNextChallenge s t0 input).1.gIsLocked = s.gIsLocked ∧
    (commandNextChallenge s t0 input).1.ram = s.ram ∧
    (commandNextChallenge s t0 input).2 = input ∧
    (commandNextChallenge s t0 input).1.log = s.log ++ [.println "Can't be on flag screen!"] := by
  rw [commandNextChallenge_refused _ _ _ h]
  exact ⟨rfl, rfl, rfl, rfl, rfl⟩

/-- C7, on the unlocked badge showing the Flag screen, with "yes" typed. -/
theorem advance_refused_on_flag_screen_witness :
    ((demoDevice.set_gIsLocked false).set_gBgMode 3).gBgMode = 3 ∧
    (commandNextChallenge ((demoDevice.set_gIsLocked false).set_gBgMode 3) 5000
      (typed 5001 "yes\n")).1.gChallengeMode
      = ((demoDevice.set_gIsLocked false).set_gBgMode 3).gChallengeMode ∧
    (commandNextChallenge ((demoDevice.set_gIsLocked false).set_gBgMode 3) 5000
      (typed 5001 "yes\n")).2 = typed 5001 "yes\n" :=
  ⟨rfl,
   (advance_refused_on_flag_screen ((demoDevice.set_gIsLocked false).set_gBgMode 3) 5000
      (typed 5001 "yes\n") rfl).1,
   (advance_refused_on_flag_screen ((demoDevice.set_gIsLocked false).set_gBgMode 3) 5000
      (typed 5001 "yes\n") rfl).2.2.2.1⟩

/-- C9 as stated fails: on the locked badge at Clock(0), five consecutive
`modeUp` calls leave the display mode at Version(2), not at Clock(0). -/
theorem five_modeUp_counterexample :
    demoDevice.gIsLocked = true ∧ demoDevice.gBgMode = 0 ∧
    (modeUp (modeUp (modeUp (modeUp (modeUp demoDevice))))).gBgMode = 2 ∧
    (modeUp (modeUp (modeUp (modeUp (modeUp demoDevice))))).gBgMode ≠ 0 := by
  refine ⟨by rfl, by rfl, ?_, ?_⟩ <;>
    simp only [modeUp_gBgMode, modeUp_gIsLocked, show demoDevice.gIsLocked = true from rfl,
      show demoDevice.gBgMode = 0 from rfl] <;> decide

/-- C9, amended. Starting locked at Clock(0), three consecutive `modeUp` calls
return the display mode to Clock(0) (the cycle has length 3 while locked), and
so do six; five calls leave it at Version(2). -/
theorem three_modeUp_return_to_clock (s : Device) (hl : s.gIsLocked = true)
    (hm : s.gBgMode = 0) :
    (modeUp (modeUp (modeUp s))).gBgMode = 0 ∧
    (modeUp (modeUp (modeUp (modeUp (modeUp (modeUp s)))))).gBgMode = 0 ∧
    (modeUp (modeUp (modeUp (modeUp (modeUp s))))).gBgMode = 2 := by
  refine ⟨?_, ?_, ?_⟩ <;>
    simp only [modeUp_gBgMode, modeUp_gIsLocked, hl, hm] <;> decide

/-- C9 amended, on the provisioned badge after `setup`. -/
theorem three_modeUp_return_to_clock_witness :
    demoDevice.gIsLocked = true ∧ demoDevice.gBgMode = 0 ∧
    (modeUp (modeUp (modeUp demoDevice))).gBgMode = 0 :=
  ⟨rfl, rfl, (three_modeUp_return_to_clock demoDevice rfl rfl).1⟩

/-- C10. With the lock state held fixed (neither function changes it), `modeUp`
and `modeDown` are mutually inverse cyclic steps on the legal subset.  Locked,
for every mode m in 0..2: `modeUp` gives (m + 1) mod 3, `modeDown` gives
(m + 2) mod 3, each undoes the other, and the third `modeUp` is the first that
returns to m.  Unlocked, for every m in 0..5: `modeUp` gives (m + 1) mod 6,
`modeDown` gives (m + 5) mod 6, each undoes the other, and the sixth `modeUp` is
the first that returns to m. -/
theorem modeUp_modeDown_cycle (s : Device) (hlo : 0 ≤ s.gBgMode) :
    (modeUp s).gIsLocked = s.gIsLocked ∧ (modeDown s).gIsLocked = s.gIsLocked ∧
    (s.gIsLocked = true → s.gBgMode ≤ 2 →
      (modeUp s).gBgMode = (s.gBgMode + 1) % 3 ∧
      (modeDown s).gBgMode = (s.gBgMode + 2) % 3 ∧
      (modeDown (modeUp s)).gBgMode = s.gBgMode ∧
      (modeUp (modeDown s)).gBgMode = s.gBgMode ∧
      (modeUp s).gBgMode ≠ s.gBgMode ∧
      (modeUp (modeUp s)).gBgMode ≠ s.gBgMode ∧
      (modeUp (modeUp (modeUp s))).gBgMode = s.gBgMode) ∧
    (s.gIsLocked = false → s.gBgMode ≤ 5 →
      (modeUp s).gBgMode = (s.gBgMode + 1) % 6 ∧
      (modeDown s).gBgMode = (s.gBgMode + 5) % 6 ∧
      (modeDown (modeUp s)).gBgMode = s.gBgMode ∧
      (modeUp (modeDown s)).gBgMode = s.gBgMode ∧
      (modeUp s).gBgMode ≠ s.gBgMode ∧
      (modeUp (modeUp s)).gBgMode ≠ s.gBgMode ∧
      (modeUp (modeUp (modeUp s))).gBgMode ≠ s.gBgMode ∧
      (modeUp (modeUp (modeUp (modeUp s)))).gBgMode ≠ s.gBgMode ∧
      (modeUp (modeUp (modeUp (modeUp (modeUp s))))).gBgMode ≠ s.gBgMode ∧
      (modeUp (modeUp (modeUp (modeUp (modeUp (modeUp s)))))).gBgMode = s.gBgMode) := by
  refine ⟨modeUp_gIsLocked s, modeDown_gIsLocked s, ?_, ?_⟩
  · intro hl hhi
    generalize hm : s.gBgMode = m at hlo hhi
    simp only [modeUp_gBgMode, modeDown_gBgMode, modeUp_gIsLocked, modeDown_gIsLocked, hl, hm]
    interval_cases m <;> decide
  · intro hl hhi
    generalize hm : s.gBgMode = m at hlo hhi
    simp only [modeUp_gBgMode, modeDown_gBgMode, modeUp_gIsLocked, modeDown_gIsLocked, hl, hm]
    interval_cases m <;> decide

/-- C10, on the provisioned badge after `setup` (locked, Clock): `modeDown`
wraps Clock to Version. -/
theorem modeUp_modeDown_cycle_witness :
    0 ≤ demoDevice.gBgMode ∧ demoDevice.gIsLocked = true ∧ demoDevice.gBgMode ≤ 2 ∧
    (modeDown demoDevice).gBgMode = (demoDevice.gBgMode + 2) % 3 :=
  ⟨by decide, rfl, by decide,
   ((modeUp_modeDown_cycle demoDevice (by decide)).2.2.1 rfl (by decide)).2.1⟩

/-- C11 (counterexample). At challenge 2 with stored PIN 777, a confirm press
with the wrong guess 0 keeps the badge locked and spends no time in `delay`;
a confirm press with the right guess straight afterwards unlocks, still with
no time spent in `delay`. -/
theorem wrong_button_pin_no_delay_counterexample :
    buttonsDevice.gChallengeMode = 2 ∧ buttonsDevice.gIsLocked = true ∧
    buttonsDevice.gCurrentPinGuess = 0 ∧ (readPinFromRam buttonsDevice 2).2 = 777 ∧
    (unlockBHandler buttonsDevice).gIsLocked = true ∧
    delayOf (unlockBHandler buttonsDevice).log = delayOf buttonsDevice.log ∧
    (unlockBHandler ((unlockBHandler buttonsDevice).set_gCurrentPinGuess 777)).gIsLocked
      = false ∧
    delayOf (unlockBHandler ((unlockBHandler buttonsDevice).set_gCurrentPinGuess 777)).log
      = delayOf buttonsDevice.log := by
  decide!

/-- C11 (amended). A confirm press in Unlock mode (`unlockBHandler`) whose
assembled guess differs from the stored PIN leaves the lock as it was; at
challenge 3 it blocks for the countdown 20..0, which is 21 waits of 1000 ms,
and at every other challenge mode, 2 included, it does not wait at all. -/
theorem wrong_button_pin_delay (s : Device)
    (hw : s.gCurrentPinGuess ≠ (readPinFromRam s s.gChallengeMode).2) :
    (unlockBHandler s).gIsLocked = s.gIsLocked ∧
    (s.gChallengeMode = 3 → delayOf (unlockBHandler s).log = delayOf s.log + 21 * 1000) ∧
    (s.gChallengeMode ≠ 3 → delayOf (unlockBHandler s).log = delayOf s.log) := by
  refine ⟨?_, ?_, ?_⟩
  · rw [unlockBHandler_gIsLocked, if_neg hw]
  · intro h3
    rw [delayOf_unlockBHandler, if_neg hw, if_pos h3]
  · intro h2
    rw [delayOf_unlockBHandler, if_neg hw, if_neg h2]; rfl

/-- C11 (amended), on the provisioned badge at challenge 3 (stored PIN 31337)
with guess 0. -/
theorem wrong_button_pin_delay_witness :
    (demoDevice.set_gChallengeMode 3).gCurrentPinGuess
      ≠ (readPinFromRam (demoDevice.set_gChallengeMode 3) 3).2 ∧
    (unlockBHandler (demoDevice.set_gChallengeMode 3)).gIsLocked = true ∧
    delayOf (unlockBHandler (demoDevice.set_gChallengeMode 3)).log
      = delayOf (demoDevice.set_gChallengeMode 3).log + 21 * 1000 :=
  ⟨by decide!,
   (wrong_button_pin_delay (demoDevice.set_gChallengeMode 3) (by decide!)).1,
   (wrong_button_pin_delay (demoDevice.set_gChallengeMode 3) (by decide!)).2.1 rfl⟩

/-- C12. A failed text-entry unlock (`commandUnlock` reads a line whose parsed
value differs from the stored PIN) leaves the lock as it was and spends in
`delay` exactly 5000 ms if the challenge mode is 2 or more and nothing at
challenge 0 and 1.  (The time spent waiting for the typed bytes is in the time
stamps of the input and is not part of this.) -/
theorem failed_text_unlock_delay (s : Device) (t0 : Nat) (input : List (Nat × Nat))
    (hr : (readString 6 30 t0 input).ret ≠ -1)
    (hw : parsePin (readString 6 30 t0 input).buf (beyond s).2
      ≠ (readPinFromRam s s.gChallengeMode).2) :
    (commandUnlock s t0 input).1.gIsLocked = s.gIsLocked ∧
    (delayOf (commandUnlock s t0 input).1.log = delayOf s.log + 5000 ↔ s.gChallengeMode ≥ 2) ∧
    (s.gChallengeMode < 2 → delayOf (commandUnlock s t0 input).1.log = delayOf s.log) := by
  refine ⟨?_, ?_, ?_⟩
  · rw [commandUnlock_gIsLocked, if_neg hr, if_neg hw]
  · rw [delayOf_commandUnlock, if_neg hr, if_neg hw]
    split_ifs with h
    · simp [h]
    · simp [h]
  · intro h
    rw [delayOf_commandUnlock, if_neg hr, if_neg hw, if_neg (by omega)]; rfl

/-- C12, on the provisioned badge at challenge 2 (stored PIN 777) with the
typed line "1". -/
theorem failed_text_unlock_delay_witness :
    (readString 6 30 5000 (typed 5001 "1\n")).ret ≠ -1 ∧
    parsePin (readString 6 30 5000 (typed 5001 "1\n")).buf
      (beyond (demoDevice.set_gChallengeMode 2)).2
      ≠ (readPinFromRam (demoDevice.set_gChallengeMode 2) 2).2 ∧
    (commandUnlock (demoDevice.set_gChallengeMode 2) 5000 (typed 5001 "1\n")).1.gIsLocked
      = true ∧
    delayOf (commandUnlock (demoDevice.set_gChallengeMode 2) 5000 (typed 5001 "1\n")).1.log
      = delayOf (demoDevice.set_gChallengeMode 2).log + 5000 :=
  ⟨by decide!, by decide!,
   (failed_text_unlock_delay (demoDevice.set_gChallengeMode 2) 5000 (typed 5001 "1\n")
      (by decide!) (by decide!)).1,
   (failed_text_unlock_delay (demoDevice.set_gChallengeMode 2) 5000 (typed 5001 "1\n")
      (by decide!) (by decide!)).2.1.2 (by decide)⟩

/-- C13 (counterexample). None of the lines "+1234", "" and "abc" is a
non-empty string of at most 5 decimal digits, yet `commandUnlock` unlocks the
provisioned badge (stored PIN 1234) on "+1234" and unlocks a badge whose
stored PIN is 0 on the empty line and on "abc". -/
theorem malformed_pin_line_unlocks_counterexample :
    wellFormedPin (bytes "+1234") = false ∧ demoDevice.gIsLocked = true ∧
    (commandUnlock demoDevice 5000 (typed 5001 "+1234\n")).1.gIsLocked = false ∧
    wellFormedPin (bytes "") = false ∧ wellFormedPin (bytes "abc") = false ∧
    blankDevice.gIsLocked = true ∧
    (commandUnlock blankDevice 5000 (typed 5001 "\n")).1.gIsLocked = false ∧
    (commandUnlock blankDevice 5000 (typed 5001 "abc\n")).1.gIsLocked = false := by
  decide!

/-- C13 (amended). `commandUnlock` does not validate the typed line.  For a
line of at most 5 bytes ended by a line feed, each of its bytes read at a time
of its own before the timeout, it unlocks exactly when `strtoul` of the line
equals the stored PIN and otherwise leaves the lock as it was; an empty line,
and a line whose first byte is neither white space, a sign nor a digit (a
letter, say), has the `strtoul` value 0, so such a line leaves a locked badge
locked exactly when the stored PIN is not 0. -/
theorem unlock_line_not_validated (s : Device) (t0 : Nat) (line : List (Nat × Nat))
    (txt : List Nat) (rest : List (Nat × Nat))
    (ht : ∀ p ∈ line, p.1 < readStringDeadline t0 30)
    (hb : line.map Prod.snd = txt ++ [10])
    (hc : ∀ c ∈ txt, c ≠ 10 ∧ c ≠ 13) (hlen : txt.length ≤ 5) :
    (commandUnlock s t0 (line ++ rest)).1.gIsLocked
      = (if strtoul txt = (readPinFromRam s s.gChallengeMode).2 then false else s.gIsLocked) ∧
    (commandUnlock s t0 (line ++ rest)).2 = rest ∧
    ((txt = [] ∨ ∃ c cs, txt = c :: cs ∧ isspace c = false ∧ c ≠ 43 ∧ c ≠ 45 ∧
        ¬ (48 ≤ c ∧ c ≤ 57)) → strtoul txt = 0) := by
  have hline := readString_line_stamped 6 30 t0 line txt rest ht hb hc (by omega) (by omega)
  refine ⟨?_, ?_, ?_⟩
  · rw [commandUnlock_gIsLocked, hline]
    simp only []
    rw [if_neg (by omega), parsePin_line _ _ hlen]
  · unfold commandUnlock
    simp only [PIN_CODE_DIGITS, hline]
    split_ifs <;> rfl
  · rintro (rfl | ⟨c, cs, rfl, hs, hp, hm, hd⟩)
    · exact strtoul_nil
    · exact strtoul_no_number c cs hs hp hm hd

/-- C13 (amended), on the provisioned badge (stored PIN 1234) with the line
"abc", its bytes read 1 ms, 1.2 s and 2.4 s after the call: the badge stays
locked. -/
theorem unlock_line_not_validated_witness :
    (∀ p ∈ [(5001, 97), (6200, 98), (7400, 99), (7400, 10)], p.1 < readStringDeadline 5000 30) ∧
    [(5001, 97), (6200, 98), (7400, 99), (7400, 10)].map Prod.snd = bytes "abc" ++ [10] ∧
    (∀ c ∈ bytes "abc", c ≠ 10 ∧ c ≠ 13) ∧
    (bytes "abc").length ≤ 5 ∧ strtoul (bytes "abc") = 0 ∧
    (commandUnlock demoDevice 5000
        ([(5001, 97), (6200, 98), (7400, 99), (7400, 10)] ++ [])).1.gIsLocked
      = (if strtoul (bytes "abc") = (readPinFromRam demoDevice demoDevice.gChallengeMode).2
          then false else demoDevice.gIsLocked) ∧
    (commandUnlock demoDevice 5000
        ([(5001, 97), (6200, 98), (7400, 99), (7400, 10)] ++ [])).1.gIsLocked = true :=
  ⟨by decide, by decide, by decide, by decide,
   (unlock_line_not_validated demoDevice 5000 [(5001, 97), (6200, 98), (7400, 99), (7400, 10)]
      (bytes "abc") [] (by decide) (by decide) (by decide) (by decide)).2.2
      (Or.inr ⟨97, [98, 99], rfl, rfl, by decide, by decide, by decide⟩),
   (unlock_line_not_validated demoDevice 5000 [(5001, 97), (6200, 98), (7400, 99), (7400, 10)]
      (bytes "abc") [] (by decide) (by decide) (by decide) (by decide)).1,
   by decide!⟩

/-- C14 (counterexample). With the guess 9 and the cursor on the last digit
(position 4) the increase action gives 10: the digit under the cursor goes
from 9 to 0 and the digit to its left changes from 0 to 1.  With the guess 0
the decrease action gives 65535: all five displayed digits change. -/
theorem unlock_up_carries_counterexample :
    ((unlockUpHandler ((demoDevice.set_gCurrentPinGuess 9).set_gCurrentPinGuessPos
        4)).gCurrentPinGuess = 10 ∧
      digitAt 9 1 = 0 ∧ digitAt 10 1 = 1) ∧
    ((unlockDownHandler ((demoDevice.set_gCurrentPinGuess 0).set_gCurrentPinGuessPos
        4)).gCurrentPinGuess = 65535 ∧
      (List.range 5).map (digitAt 0) = [0, 0, 0, 0, 0] ∧
      (List.range 5).map (digitAt 65535) = [5, 3, 5, 5, 6]) := by
  decide!

/-- C14 (amended). In button PIN entry with the cursor at position `c` in 0..4
the increase action adds the place value `10 ^ (4 - c)` to the 16-bit guess and
the decrease action subtracts it, both modulo 65536.  While the digit under
the cursor is below 9 (and the sum fits in 16 bits) the increase raises that
digit by one and leaves the other four displayed digits unchanged, and while
it is above 0 the decrease lowers it by one and leaves the others unchanged.
From 9 the increase carries: the digit becomes 0 and the next higher digit
goes up by one; from 0 the decrease borrows: the digit becomes 9 and the next
higher digit goes down by one. -/
theorem unlock_up_down_digits (s : Device) (hc : s.gCurrentPinGuessPos ≤ 4)
    (hg : s.gCurrentPinGuess < 65536) :
    (unlockUpHandler s).gCurrentPinGuess
      = (s.gCurrentPinGuess + 10 ^ (4 - s.gCurrentPinGuessPos)) % 65536 ∧
    (unlockDownHandler s).gCurrentPinGuess
      = (s.gCurrentPinGuess + 65536 - 10 ^ (4 - s.gCurrentPinGuessPos)) % 65536 ∧
    (digitAt s.gCurrentPinGuess (4 - s.gCurrentPinGuessPos) < 9 →
      s.gCurrentPinGuess + 10 ^ (4 - s.gCurrentPinGuessPos) < 65536 →
      ∀ i, i ≤ 4 → digitAt (unlockUpHandler s).gCurrentPinGuess i
        = if i = 4 - s.gCurrentPinGuessPos then digitAt s.gCurrentPinGuess i + 1
          else digitAt s.gCurrentPinGuess i) ∧
    (0 < digitAt s.gCurrentPinGuess (4 - s.gCurrentPinGuessPos) →
      ∀ i, i ≤ 4 → digitAt (unlockDownHandler s).gCurrentPinGuess i
        = if i = 4 - s.gCurrentPinGuessPos then digitAt s.gCurrentPinGuess i - 1
          else digitAt s.gCurrentPinGuess i) ∧
    (digitAt s.gCurrentPinGuess (4 - s.gCurrentPinGuessPos) = 9 →
      s.gCurrentPinGuess + 10 ^ (4 - s.gCurrentPinGuessPos) < 65536 →
      digitAt (unlockUpHandler s).gCurrentPinGuess (4 - s.gCurrentPinGuessPos) = 0 ∧
      digitAt (unlockUpHandler s).gCurrentPinGuess (5 - s.gCurrentPinGuessPos)
        = (digitAt s.gCurrentPinGuess (5 - s.gCurrentPinGuessPos) + 1) % 10) ∧
    (digitAt s.gCurrentPinGuess (4 - s.gCurrentPinGuessPos) = 0 →
      10 ^ (4 - s.gCurrentPinGuessPos) ≤ s.gCurrentPinGuess →
      digitAt (unlockDownHandler s).gCurrentPinGuess (4 - s.gCurrentPinGuessPos) = 9 ∧
      digitAt (unlockDownHandler s).gCurrentPinGuess (5 - s.gCurrentPinGuessPos)
        = (digitAt s.gCurrentPinGuess (5 - s.gCurrentPinGuessPos) + 9) % 10) := by
  rw [unlockUpHandler_guess, unlockDownHandler_guess, curPosVal_eq s hc]
  generalize s.gCurrentPinGuess = g at hg
  generalize s.gCurrentPinGuessPos = c at hc
  refine ⟨rfl, rfl, ?_, ?_, ?_, ?_⟩
  · intro hd hs i hi
    interval_cases c <;> interval_cases i <;> simp [digitAt] at hd hs ⊢ <;> omega
  · intro hd i hi
    have hge : 10 ^ (4 - c) ≤ g := by
      interval_cases c <;> simp [digitAt] at hd ⊢ <;> omega
    obtain ⟨r, rfl⟩ : ∃ r, g = r + 10 ^ (4 - c) := ⟨g - 10 ^ (4 - c), by omega⟩
    rw [sub_place_mod r _ hg]
    interval_cases c <;> interval_cases i <;> simp [digitAt] at hd ⊢ <;> omega
  · intro hd hs
    rw [Nat.mod_eq_of_lt hs]
    interval_cases c <;> simp [digitAt] at hd hs ⊢ <;> omega
  · intro hd hge
    obtain ⟨r, rfl⟩ : ∃ r, g = r + 10 ^ (4 - c) := ⟨g - 10 ^ (4 - c), by omega⟩
    rw [sub_place_mod r _ hg]
    interval_cases c <;> simp [digitAt] at hd ⊢ <;> omega

/-- C14 (amended), at the guess 1234 with the cursor at position 2 (the
hundreds): the increase action gives 1334. -/
theorem unlock_up_down_digits_witness :
    ((demoDevice.set_gCurrentPinGuess 1234).set_gCurrentPinGuessPos 2).gCurrentPinGuessPos ≤ 4 ∧
    ((demoDevice.set_gCurrentPinGuess 1234).set_gCurrentPinGuessPos 2).gCurrentPinGuess
      < 65536 ∧
    (unlockUpHandler ((demoDevice.set_gCurrentPinGuess 1234).set_gCurrentPinGuessPos
      2)).gCurrentPinGuess = (1234 + 10 ^ (4 - 2)) % 65536 :=
  ⟨by decide, by decide,
   (unlock_up_down_digits ((demoDevice.set_gCurrentPinGuess 1234).set_gCurrentPinGuessPos 2)
      (by decide) (by decide)).1⟩

/-- C15. Over a bus that performs every transfer, for all slot numbers `n`,
`n2` and every 32-bit value `v`: after `writePinToRam(n, v)`,
`readPinFromRam(n2)` returns `v mod 65536` when `n2 mod 4 = n mod 4` and its
previous result otherwise; the 4 registers at `9 + 16 * (n mod 4)` hold the
bytes of `v` and every other register is unchanged, so the challenge-mode
byte, the three flag fields and the high score are unchanged; the fields of
the layout follow each other without overlap inside 0x08..0x3F, and the slot
addresses the functions compute are the fields of the layout. -/
theorem pin_write_read (s : Device) (n n2 v : Nat) (hv : v < 4294967296)
    (hram : s.ram.length = 64) (hbus : Faultless s.bus) :
    (readPinFromRam (writePinToRam s n v) n2).2
      = (if n2 % 4 = n % 4 then v % 65536 else (readPinFromRam s n2).2) ∧
    ramRead (writePinToRam s n v).ram (9 + 16 * (n % 4)) 4 = bytes32 v ∧
    (∀ a, a < 64 → ¬ (9 + 16 * (n % 4) ≤ a ∧ a < 9 + 16 * (n % 4) + 4) →
      (writePinToRam s n v).ram.getD a 0 = s.ram.getD a 0) ∧
    ramRead (writePinToRam s n v).ram CHAL_MODE_ADDR CHAL_MODE_LEN
      = ramRead s.ram CHAL_MODE_ADDR CHAL_MODE_LEN ∧
    (∀ k, k < 3 → flagField (writePinToRam s n v).ram k = flagField s.ram k) ∧
    highScore (writePinToRam s n v).ram = highScore s.ram ∧
    storeFields.Pairwise (fun f g => f.1 + f.2 ≤ g.1) ∧
    (∀ f ∈ storeFields, 8 ≤ f.1 ∧ f.1 + f.2 ≤ 64) ∧
    (∀ k, k < 4 → (PIN_CODE_0_ADDR + (PIN_CODE_LEN + FLAG_LEN) * k, PIN_CODE_LEN)
      ∈ storeFields) ∧
    (∀ k, k < 3 → (FLAG_0_ADDR + (FLAG_LEN + PIN_CODE_LEN) * k, FLAG_LEN) ∈ storeFields) := by
  have hn : n % 4 < 4 := Nat.mod_lt _ (by decide)
  have hn2 : n2 % 4 < 4 := Nat.mod_lt _ (by decide)
  have hlen : (bytes32 v).length = 4 := rfl
  have hw : (writePinToRam s n v).ram = ramWrite s.ram (9 + 16 * (n % 4)) (bytes32 v) :=
    writePinToRam_ram s n v (faultless_head _ hbus)
  have hget : ∀ a, ¬ (9 + 16 * (n % 4) ≤ a ∧ a < 9 + 16 * (n % 4) + 4) →
      (writePinToRam s n v).ram.getD a 0 = s.ram.getD a 0 := by
    intro a h
    rw [hw, ramWrite_getD _ _ _ _ hram (by rw [hlen]; omega), hlen, if_neg h]
  refine ⟨?_, ?_, fun a _ h => hget a h, ?_, ?_, ?_, by decide, by decide, ?_, ?_⟩
  · rw [readPinFromRam_snd, readPinFromRam_snd, writePinToRam_bus,
      faultless_head _ (faultless_tail _ hbus), faultless_head _ hbus, pinRead_mod,
      pinRead_mod _ s.ram, pinRead_ok _ _ (by omega), pinRead_ok _ _ (by omega), hw]
    unfold pinField
    split_ifs with h
    · have h2 := ramRead_ramWrite_same s.ram (9 + 16 * (n % 4)) (bytes32 v) hram
        (by rw [hlen]; omega)
      rw [hlen] at h2
      rw [h]
      show le32 (ramRead _ (9 + 16 * (n % 4)) 4) % 65536 = _
      rw [h2, le32_bytes32 v hv]
    · show le32 (ramRead _ (9 + 16 * (n2 % 4)) 4) % 65536
        = le32 (ramRead _ (9 + 16 * (n2 % 4)) 4) % 65536
      rw [ramRead_ramWrite_apart _ _ _ _ _ hram (by rw [hlen]; omega) (by omega)
        (by rw [hlen]; omega)]
  · rw [hw]
    have h2 := ramRead_ramWrite_same s.ram (9 + 16 * (n % 4)) (bytes32 v) hram
      (by rw [hlen]; omega)
    rw [hlen] at h2
    exact h2
  · apply ramRead_eq_of_getD _ _ _ _ (by decide)
    intro j h1 h2
    apply hget
    simp only [CHAL_MODE_ADDR, CHAL_MODE_LEN] at h1 h2
    omega
  · intro k hk
    unfold flagField
    apply ramRead_eq_of_getD _ _ _ _
      (by simp only [FLAG_0_ADDR, PIN_CODE_0_ADDR, CHAL_MODE_ADDR, CHAL_MODE_LEN, PIN_CODE_LEN,
        FLAG_LEN]; omega)
    intro j h1 h2
    apply hget
    simp only [FLAG_0_ADDR, PIN_CODE_0_ADDR, CHAL_MODE_ADDR, CHAL_MODE_LEN, PIN_CODE_LEN,
      FLAG_LEN] at h1 h2
    omega
  · unfold highScore
    rw [hget _ (by simp only [HIGH_SCORE_ADDR, PIN_CODE_3_ADDR, FLAG_2_ADDR, PIN_CODE_2_ADDR,
        FLAG_1_ADDR, PIN_CODE_1_ADDR, FLAG_0_ADDR, PIN_CODE_0_ADDR, CHAL_MODE_ADDR, CHAL_MODE_LEN,
        PIN_CODE_LEN, FLAG_LEN]; omega),
      hget _ (by simp only [HIGH_SCORE_ADDR, PIN_CODE_3_ADDR, FLAG_2_ADDR, PIN_CODE_2_ADDR,
        FLAG_1_ADDR, PIN_CODE_1_ADDR, FLAG_0_ADDR, PIN_CODE_0_ADDR, CHAL_MODE_ADDR, CHAL_MODE_LEN,
        PIN_CODE_LEN, FLAG_LEN]; omega)]
  · intro k hk
    interval_cases k <;> decide
  · intro k hk
    interval_cases k <;> decide

/-- C15, on the provisioned badge: writing 70000 to slot 6 makes slot 2 read
4464 (70000 mod 65536). -/
theorem pin_write_read_witness :
    (70000 : Nat) < 4294967296 ∧ demoDevice.ram.length = 64 ∧ Faultless demoDevice.bus ∧
    (readPinFromRam (writePinToRam demoDevice 6 70000) 2).2 = 4464 :=
  ⟨by decide, by decide!, by decide!,
   (pin_write_read demoDevice 6 2 70000 (by decide) (by decide!) (by decide!)).1⟩

/-- C16 (counterexample). At challenge 0, with twelve letters "A" in flag
field 0, `printFlagToSerial(0)` prints the twelve bytes of the field in
hexadecimal ("41" each) ahead of the error message. -/
theorem unterminated_flag_dumped_counterexample :
    unterminatedDevice.gChallengeMode = 0 ∧
    flagField unterminatedDevice.ram 0 = List.replicate 12 65 ∧
    (printFlagToSerial unterminatedDevice 0).log = unterminatedDevice.log ++
      [.print "Read ", .printNum 13, .print ": "] ++
      (List.replicate 12 [Effect.printChar 52, Effect.printChar 49]).flatten ++
      [.println "", .println "Error. Flag data lacks null terminator"] := by
  decide!

/-- C16 (amended). For every slot in 0..2 and every store content, on a bus
that performs the read, `printFlagToSerial` prints the flag line with the
text of the field exactly when the 12-byte field of the slot holds a zero
byte, and otherwise prints the "Flag data lacks null terminator" error in its
place; ahead of either goes what `clockRead` prints: nothing at challenge 1
to 3, and at challenge 0 the line with the twelve bytes of the field in
hexadecimal. -/
theorem flag_print_needs_terminator (s : Device) (n : Nat) (hn : n ≤ 2)
    (hb : s.bus.headD .ok = .ok) :
    (printFlagToSerial s n).log = s.log ++
      readTraffic s.ram s.gChallengeMode (FLAG_0_ADDR + (FLAG_LEN + PIN_CODE_LEN) * n) FLAG_LEN
      ++ (if 0 ∈ flagField s.ram n then
          [.print "Flag ", .printNum n, .print ": wildcat\x7b",
            .printStr (cstr (flagField s.ram n)), .println "\x7d"]
        else [.println "Error. Flag data lacks null terminator"]) ∧
    (s.gChallengeMode ≠ 0 → readTraffic s.ram s.gChallengeMode
        (FLAG_0_ADDR + (FLAG_LEN + PIN_CODE_LEN) * n) FLAG_LEN = []) ∧
    (s.gChallengeMode = 0 → readTraffic s.ram s.gChallengeMode
        (FLAG_0_ADDR + (FLAG_LEN + PIN_CODE_LEN) * n) FLAG_LEN
      = [.print "Read ", .printNum (FLAG_0_ADDR + (FLAG_LEN + PIN_CODE_LEN) * n), .print ": "]
        ++ hexDump (flagField s.ram n) ++ [.println ""]) := by
  refine ⟨?_, ?_, ?_⟩
  · split_ifs with h
    · rw [printFlagToSerial_log s n (by omega) hb (Or.inr h), if_neg (by omega)]
      have : flagText s.ram n = cstr (flagField s.ram n) := by
        unfold flagText; rw [if_neg (by omega)]
      rw [this]
    · exact printFlagToSerial_log_bad s n hn hb h
  · intro h
    unfold readTraffic; rw [if_neg h]
  · intro h
    unfold readTraffic; rw [if_pos h]; rfl

/-- C16 (amended), on the provisioned badge at challenge 1 with twelve letters
"A" in flag field 1: only the error is printed. -/
theorem flag_print_needs_terminator_witness :
    (1 : Nat) ≤ 2 ∧
    (printFlagToSerial ((demoDevice.set_ram (ramWrite demoRam FLAG_1_ADDR
        (List.replicate 12 65))).set_gChallengeMode 1) 1).log
      = demoDevice.log ++ [.println "Error. Flag data lacks null terminator"] :=
  ⟨by decide,
   ((flag_print_needs_terminator ((demoDevice.set_ram (ramWrite demoRam FLAG_1_ADDR
        (List.replicate 12 65))).set_gChallengeMode 1) 1 (by decide) (by decide!)).1).trans
     (by decide!)⟩

/-- C17. Over a bus that performs every transfer, for every slot number `n`
and every typed text (with no line end among its first 12 bytes; the serial
input holds its bytes, and a line feed behind them when it is shorter than 12
bytes), each byte `writeFlag` reads arriving at a time of its own before the
timeout:
`writeFlag(n)` stores in the 12-byte field at `13 + 16 * (n mod 3)` the first
12 bytes of the text when it has 12 bytes or more, and the text followed by
zero padding when it is shorter; a following `getFlag(n mod 3)` returns these
12 bytes (and a NUL behind them); every PIN field, the challenge-mode byte,
the high score and the other two flag fields are unchanged; and `getFlag` of a
slot 3 or above returns the compiled-in flag on every device. -/
theorem flag_write_read (s : Device) (n t0 : Nat) (txt : List Nat)
    (line rest : List (Nat × Nat)) (hram : s.ram.length = 64) (hbus : Faultless s.bus)
    (hb : line.map Prod.snd = if FLAG_LEN ≤ txt.length then txt else txt ++ [10])
    (ht : ∀ p ∈ line.take FLAG_LEN, p.1 < readStringDeadline t0 30)
    (hc : ∀ c ∈ txt.take FLAG_LEN, c ≠ 10 ∧ c ≠ 13) :
    (FLAG_LEN ≤ txt.length →
      ramRead (writeFlag s n t0 (line ++ rest)).1.ram (13 + 16 * (n % 3)) 12
        = txt.take 12) ∧
    (txt.length < FLAG_LEN →
      ramRead (writeFlag s n t0 (line ++ rest)).1.ram (13 + 16 * (n % 3)) 12
        = txt ++ List.replicate (12 - txt.length) 0) ∧
    (∀ buf, (getFlag (writeFlag s n t0 (line ++ rest)).1 (n % 3) buf).2
      = ramRead (writeFlag s n t0 (line ++ rest)).1.ram (13 + 16 * (n % 3)) 12
        ++ 0 :: buf.drop 13) ∧
    (∀ k, k < 4 →
      ramRead (writeFlag s n t0 (line ++ rest)).1.ram (PIN_CODE_0_ADDR + 16 * k) 4
        = ramRead s.ram (PIN_CODE_0_ADDR + 16 * k) 4) ∧
    ramRead (writeFlag s n t0 (line ++ rest)).1.ram CHAL_MODE_ADDR CHAL_MODE_LEN
      = ramRead s.ram CHAL_MODE_ADDR CHAL_MODE_LEN ∧
    highScore (writeFlag s n t0 (line ++ rest)).1.ram = highScore s.ram ∧
    (∀ k, k < 3 → k ≠ n % 3 →
      flagField (writeFlag s n t0 (line ++ rest)).1.ram k = flagField s.ram k) ∧
    (∀ (e : Device) (m : Nat) (buf : List Nat), 3 ≤ m →
      getFlag e m buf = (e, flag_4 ++ 0 :: buf.drop 9)) := by
  have hn : n % 3 < 3 := Nat.mod_lt _ (by decide)
  obtain ⟨hret, hbuf, -⟩ := readString_flag_stamped t0 line rest txt hb ht hc
  obtain ⟨hw0, hwb⟩ := writeFlag_ram s n t0 (line ++ rest) hret (faultless_head _ hbus)
  have hlen := fitFlag_length txt
  have htk : (fitFlag txt ++ [0]).take FLAG_LEN = fitFlag txt := by
    rw [show FLAG_LEN = 12 from rfl, ← hlen, List.take_left]
  rw [hbuf, htk] at hw0
  have hw : (writeFlag s n t0 (line ++ rest)).1.ram
      = ramWrite s.ram (13 + 16 * (n % 3)) (fitFlag txt) := hw0
  have hget : ∀ a, ¬ (13 + 16 * (n % 3) ≤ a ∧ a < 13 + 16 * (n % 3) + 12) →
      (writeFlag s n t0 (line ++ rest)).1.ram.getD a 0 = s.ram.getD a 0 := by
    intro a h
    rw [hw, ramWrite_getD _ _ _ _ hram (by rw [hlen]; omega), hlen, if_neg h]
  have hsame : ramRead (writeFlag s n t0 (line ++ rest)).1.ram (13 + 16 * (n % 3)) 12
      = fitFlag txt := by
    have h2 := ramRead_ramWrite_same s.ram (13 + 16 * (n % 3)) (fitFlag txt) hram
      (by rw [hlen]; omega)
    rw [hlen] at h2
    rw [hw, h2]
  refine ⟨?_, ?_, ?_, ?_, ?_, ?_, ?_, ?_⟩
  · intro h
    rw [hsame]; unfold fitFlag; rw [if_pos h]; rfl
  · intro h
    rw [hsame]; unfold fitFlag; rw [if_neg (by omega)]; rfl
  · intro buf
    have h1 := (getFlag_ok (writeFlag s n t0 (line ++ rest)).1 (n % 3) buf (by omega)
      (by rw [hwb]; exact faultless_head _ (faultless_tail _ hbus))).1
    rw [h1]; rfl
  · intro k hk
    apply ramRead_eq_of_getD _ _ _ _
      (by simp only [PIN_CODE_0_ADDR, CHAL_MODE_ADDR, CHAL_MODE_LEN]; omega)
    intro j h1 h2
    apply hget
    simp only [PIN_CODE_0_ADDR, CHAL_MODE_ADDR, CHAL_MODE_LEN] at h1 h2
    omega
  · apply ramRead_eq_of_getD _ _ _ _ (by decide)
    intro j h1 h2
    apply hget
    simp only [CHAL_MODE_ADDR, CHAL_MODE_LEN] at h1 h2
    omega
  · unfold highScore
    rw [hget _ (by simp only [HIGH_SCORE_ADDR, PIN_CODE_3_ADDR, FLAG_2_ADDR, PIN_CODE_2_ADDR,
        FLAG_1_ADDR, PIN_CODE_1_ADDR, FLAG_0_ADDR, PIN_CODE_0_ADDR, CHAL_MODE_ADDR, CHAL_MODE_LEN,
        PIN_CODE_LEN, FLAG_LEN]; omega),
      hget _ (by simp only [HIGH_SCORE_ADDR, PIN_CODE_3_ADDR, FLAG_2_ADDR, PIN_CODE_2_ADDR,
        FLAG_1_ADDR, PIN_CODE_1_ADDR, FLAG_0_ADDR, PIN_CODE_0_ADDR, CHAL_MODE_ADDR, CHAL_MODE_LEN,
        PIN_CODE_LEN, FLAG_LEN]; omega)]
  · intro k hk hne
    unfold flagField
    apply ramRead_eq_of_getD _ _ _ _
      (by simp only [FLAG_0_ADDR, PIN_CODE_0_ADDR, CHAL_MODE_ADDR, CHAL_MODE_LEN, PIN_CODE_LEN,
        FLAG_LEN]; omega)
    intro j h1 h2
    apply hget
    simp only [FLAG_0_ADDR, PIN_CODE_0_ADDR, CHAL_MODE_ADDR, CHAL_MODE_LEN, PIN_CODE_LEN,
      FLAG_LEN] at h1 h2
    omega
  · intro e m buf hm
    exact getFlag_hard e m buf hm

/-- C17, on the provisioned badge: the text "delta" typed for slot 4, its
bytes read between 1 ms and 9 s after the call, is stored, zero padded, in
flag field 1. -/
theorem flag_write_read_witness :
    demoDevice.ram.length = 64 ∧ Faultless demoDevice.bus ∧
    [(5001, 100), (6200, 101), (7400, 108), (9000, 116), (12000, 97), (14000, 10)].map Prod.snd
      = (if FLAG_LEN ≤ (bytes "delta").length then bytes "delta" else bytes "delta" ++ [10]) ∧
    (∀ p ∈ [(5001, 100), (6200, 101), (7400, 108), (9000, 116), (12000, 97),
        (14000, 10)].take FLAG_LEN, p.1 < readStringDeadline 5000 30) ∧
    (∀ c ∈ (bytes "delta").take FLAG_LEN, c ≠ 10 ∧ c ≠ 13) ∧
    ramRead (writeFlag demoDevice 4 5000
        ([(5001, 100), (6200, 101), (7400, 108), (9000, 116), (12000, 97), (14000, 10)]
          ++ [])).1.ram (13 + 16 * (4 % 3)) 12
      = bytes "delta" ++ List.replicate (12 - (bytes "delta").length) 0 :=
  ⟨by decide!, by decide!, by decide, by decide, by decide,
   (flag_write_read demoDevice 4 5000 (bytes "delta")
      [(5001, 100), (6200, 101), (7400, 108), (9000, 116), (12000, 97), (14000, 10)] []
      (by decide!) (by decide!) (by decide) (by decide) (by decide)).2.1 (by decide)⟩

/-- C18. The challenge mode is always in 0..3: in every state the main loop
reaches it is at most 3, and it stays so across the advance-challenge command
and every other event; after boot on a bus that performs the read it is the
stored challenge-mode byte when that byte is at most 3 and 0 for every other
byte value, and it is 0 when the read delivers no byte. -/
theorem challenge_mode_in_range (s : Device) (hs : Reachable s) :
    s.gChallengeMode ≤ 3 ∧
    (∀ t0 input, (commandNextChallenge s t0 input).1.gChallengeMode ≤ 3) ∧
    (∀ e, (step s e).gChallengeMode ≤ 3) ∧
    (∀ ram bus rng junk, bus.headD .ok = .ok →
      (setup (powerOn ram bus rng junk)).gChallengeMode
        = if ram.getD CHAL_MODE_ADDR 0 % 256 ≤ 3 then ram.getD CHAL_MODE_ADDR 0 % 256 else 0) ∧
    (∀ ram e data rest rng junk,
      (setup (powerOn ram (.fault e 0 data :: rest) rng junk)).gChallengeMode = 0) ∧
    (∀ ram e br rest rng junk,
      (setup (powerOn ram (.fault e br [] :: rest) rng junk)).gChallengeMode = 0) := by
  have hboot : ∀ ram bus rng junk, (setup (powerOn ram bus rng junk)).gChallengeMode ≤ 3 := by
    intro ram bus rng junk
    rw [setup_gChallengeMode]
    split_ifs with h
    · omega
    · omega
  have hr : s.gChallengeMode ≤ 3 := by
    obtain ⟨ram, bus, rng, junk, es, rfl⟩ := hs
    exact run_range es _ (hboot ram bus rng junk)
  refine ⟨hr, fun t0 input => commandNextChallenge_range s t0 input hr,
    fun e => step_range s e hr, ?_, ?_, ?_⟩
  · intro ram bus rng junk hb
    rw [setup_gChallengeMode]
    have h1 : (powerOn ram bus rng junk).bus.headD .ok = .ok := hb
    have h2 : (busRead .ok (powerOn ram bus rng junk).ram CHAL_MODE_ADDR CHAL_MODE_LEN
        [(powerOn ram bus rng junk).gChallengeMode]).2 = [ram.getD CHAL_MODE_ADDR 0] := by
      simp [busRead, ramRead, clockReadLoop, CHAL_MODE_LEN, CHAL_MODE_ADDR, powerOn,
        List.range, List.range.loop]
    rw [h1, h2]
    simp only [List.getD_cons_zero]
    split_ifs with h3 h4 h4
    · omega
    · rfl
    · rfl
    · omega
  · intro ram e data rest rng junk
    rw [setup_gChallengeMode]
    have h1 : (powerOn ram (.fault e 0 data :: rest) rng junk).bus.headD .ok
        = .fault e 0 data := rfl
    have h2 : (busRead (.fault e 0 data) (powerOn ram (.fault e 0 data :: rest) rng junk).ram
        CHAL_MODE_ADDR CHAL_MODE_LEN
        [(powerOn ram (.fault e 0 data :: rest) rng junk).gChallengeMode]).2 = [0] := by
      simp [busRead, clockReadLoop, CHAL_MODE_LEN, powerOn]
    rw [h1, h2]
    rfl
  · intro ram e br rest rng junk
    rw [setup_gChallengeMode]
    have h1 : (powerOn ram (.fault e br [] :: rest) rng junk).bus.headD .ok
        = .fault e br [] := rfl
    have h2 : (busRead (.fault e br []) (powerOn ram (.fault e br [] :: rest) rng junk).ram
        CHAL_MODE_ADDR CHAL_MODE_LEN
        [(powerOn ram (.fault e br [] :: rest) rng junk).gChallengeMode]).2 = [0] := by
      cases br with
      | zero => simp [busRead, clockReadLoop, CHAL_MODE_LEN, powerOn]
      | succ k =>
        have : min (k + 1) 1 = 1 := by omega
        simp [busRead, clockReadLoop, CHAL_MODE_LEN, powerOn, this]
    rw [h1, h2]
    rfl

/-- C18, on a badge whose stored challenge-mode byte is 3, after two
advance-challenge commands with a button press between them. -/
theorem challenge_mode_in_range_witness :
    (run (setup (powerOn (ramWrite demoRam CHAL_MODE_ADDR [3]) [] [] []))
      [.shell .nxtchl 5000 (typed 5001 "yes\n"), .buttons upPressed, .bgTask,
       .shell .nxtchl 9000 (typed 9001 "yes\n")]).gChallengeMode ≤ 3 :=
  (challenge_mode_in_range _ ⟨ramWrite demoRam CHAL_MODE_ADDR [3], [], [], [], _, rfl⟩).1

/-- C19. Over a bus that performs every transfer, for every final score `S`
and every persisted high score `H`, after the session end (`snakeReset`) the
persisted high score is `max S H`: the two high score registers are
overwritten with `S` when `S > H` and the registers stay as they were when
`S ≤ H`; no other register changes, and the high score never goes down. -/
theorem high_score_is_max (s : Device) (b : Bool) (hS : s.gSnakeScore < 65536)
    (hram : s.ram.length = 64) (hbus : Faultless s.bus) :
    highScore (snakeReset s b).ram = max s.gSnakeScore (highScore s.ram) ∧
    (highScore s.ram < s.gSnakeScore →
      ramRead (snakeReset s b).ram HIGH_SCORE_ADDR HIGH_SCORE_LEN
        = [s.gSnakeScore % 256, s.gSnakeScore / 256]) ∧
    (s.gSnakeScore ≤ highScore s.ram → (snakeReset s b).ram = s.ram) ∧
    (∀ a, a ≠ HIGH_SCORE_ADDR → a ≠ HIGH_SCORE_ADDR + 1 →
      (snakeReset s b).ram.getD a 0 = s.ram.getD a 0) ∧
    highScore s.ram ≤ highScore (snakeReset s b).ram := by
  have hr := snakeReset_ram s b hS hram hbus
  have hfit : HIGH_SCORE_ADDR + [s.gSnakeScore % 256, s.gSnakeScore / 256 % 256].length ≤ 64 := by
    simp only [List.length_cons, List.length_nil]; decide
  have hmax : highScore (snakeReset s b).ram = max s.gSnakeScore (highScore s.ram) := by
    rw [hr]
    split_ifs with h
    · rw [highScore_ramWrite _ _ hram hS]; omega
    · omega
  refine ⟨hmax, ?_, ?_, ?_, ?_⟩
  · intro h
    rw [hr, if_pos h]
    have h2 := ramRead_ramWrite_same s.ram HIGH_SCORE_ADDR
      [s.gSnakeScore % 256, s.gSnakeScore / 256 % 256] hram hfit
    have h3 : s.gSnakeScore / 256 % 256 = s.gSnakeScore / 256 := Nat.mod_eq_of_lt (by omega)
    rw [h3]
    rw [h3] at h2
    exact h2
  · intro h
    rw [hr, if_neg (by omega)]
  · intro a h1 h2
    rw [hr]
    split_ifs with h
    · rw [ramWrite_getD _ _ _ _ hram hfit, if_neg]
      simp only [List.length_cons, List.length_nil]
      omega
    · rfl
  · rw [hmax]; omega

/-- C19, on the provisioned badge with high score 7: a session ending with
score 12 leaves 12, one ending with score 5 leaves 7. -/
theorem high_score_is_max_witness :
    ((demoDevice.set_ram (ramWrite demoRam HIGH_SCORE_ADDR [7, 0])).set_gSnakeScore 12).gSnakeScore
      < 65536 ∧
    highScore (snakeReset
      ((demoDevice.set_ram (ramWrite demoRam HIGH_SCORE_ADDR [7, 0])).set_gSnakeScore 12) true).ram
      = max 12 7 ∧
    highScore (snakeReset
      ((demoDevice.set_ram (ramWrite demoRam HIGH_SCORE_ADDR [7, 0])).set_gSnakeScore 5) true).ram
      = max 5 7 :=
  ⟨by decide,
   (high_score_is_max
      ((demoDevice.set_ram (ramWrite demoRam HIGH_SCORE_ADDR [7, 0])).set_gSnakeScore 12) true
      (by decide) (by decide!) (by decide!)).1,
   (high_score_is_max
      ((demoDevice.set_ram (ramWrite demoRam HIGH_SCORE_ADDR [7, 0])).set_gSnakeScore 5) true
      (by decide) (by decide!) (by decide!)).1⟩

/-- C20 (counterexample). Starting from the initial length 3, thirteen
successive eats (each with one apple at the head) bring the length to 15, not
to 16; and an eat at length 15, which is below 16, leaves the length at 15. -/
theorem snake_never_sixteen_counterexample :
    (snakeInit demoDevice).gSnakeLen = 3 ∧
    ((fun d : Device => snakeEatLoop ⟨5, 5⟩ 8 0 (d.set_gApples oneApple))^[13]
      (snakeInit demoDevice)).gSnakeLen = 15 ∧
    (snakeEatLoop ⟨5, 5⟩ 8 0
      ((demoDevice.set_gSnakeLen 15).set_gApples oneApple)).gSnakeLen = 15 := by
  decide!

/-- C20 (amended). The snake grows by one per apple up to a hard cap of 15
segments: `snakeInit` sets the length 3; an apple-eat (the apple loop of
`snakeBgMode` with one apple at the head) at a length below 15 increases the
length by exactly one, so twelve successive eats bring the length from 3 to
15; an eat at length 15 leaves the length at 15 and still adds one to the
score. -/
theorem snake_growth_cap (s : Device) (p : Point) (h1 : applesAt p 8 0 s.gApples = 1) :
    (s.gSnakeLen < 15 → (snakeEatLoop p 8 0 s).gSnakeLen = s.gSnakeLen + 1) ∧
    (s.gSnakeLen = 15 → (snakeEatLoop p 8 0 s).gSnakeLen = 15) ∧
    (snakeEatLoop p 8 0 s).gSnakeScore = (s.gSnakeScore + 1) % 65536 ∧
    (snakeEatLoop p 8 0 s).gSnakeLen = growLen s.gSnakeLen ∧
    (∀ d : Device, (snakeInit d).gSnakeLen = 3) ∧
    growLen^[12] 3 = 15 ∧ growLen 15 = 15 := by
  obtain ⟨e1, e2⟩ := snakeEatLoop_len p 8 0 s
  rw [h1] at e1 e2
  have e3 : (snakeEatLoop p 8 0 s).gSnakeLen = growLen s.gSnakeLen := e1
  refine ⟨?_, ?_, e2, e3, fun d => rfl, by decide, by decide⟩
  · intro h
    rw [e3]
    unfold growLen SNAKE_LEN_MAX
    rw [if_neg (by omega)]
    omega
  · intro h
    rw [e3, h]
    decide

/-- C20 (amended), at the initial length 3 with one apple, at (5, 5), under the
head: the length becomes 4. -/
theorem snake_growth_cap_witness :
    applesAt ⟨5, 5⟩ 8 0 ((snakeInit demoDevice).set_gApples oneApple).gApples = 1 ∧
    (snakeEatLoop ⟨5, 5⟩ 8 0 ((snakeInit demoDevice).set_gApples oneApple)).gSnakeLen
      = ((snakeInit demoDevice).set_gApples oneApple).gSnakeLen + 1 :=
  ⟨by decide!,
   (snake_growth_cap ((snakeInit demoDevice).set_gApples oneApple) ⟨5, 5⟩ (by decide!)).1
     (by decide!)⟩

/-- C21. Every apple eaten (an occupied slot whose apple is at the head when
the apple loop of `snakeBgMode` runs) is removed, the slot becoming empty
(`x = -1`), every other slot stays as it was, and the score goes up by one for
every apple eaten, in `uint16_t`.  This holds also at the cap: with the length
at 15 an eaten apple leaves the length at 15 and still adds one to the score.
Eating does not end the session: the apple loop leaves ring, head slot,
direction and tick counter as they are, and a move without collision does
not return from inside. -/
theorem apple_eaten_removed_and_scored (s : Device) (p : Point) (h8 : s.gApples.length = 8)
    (hS : s.gSnakeScore < 65536) :
    (∀ j, j < 8 → (s.gApples.getD j ⟨0, 0⟩).x ≠ -1 → p = s.gApples.getD j ⟨0, 0⟩ →
      ((snakeEatLoop p 8 0 s).gApples.getD j ⟨0, 0⟩).x = -1) ∧
    (∀ j, ¬ ((s.gApples.getD j ⟨0, 0⟩).x ≠ -1 ∧ p = s.gApples.getD j ⟨0, 0⟩) →
      (snakeEatLoop p 8 0 s).gApples.getD j ⟨0, 0⟩ = s.gApples.getD j ⟨0, 0⟩) ∧
    (snakeEatLoop p 8 0 s).gSnakeScore
      = (s.gSnakeScore + applesAt p 8 0 s.gApples) % 65536 ∧
    (s.gSnakeScore + applesAt p 8 0 s.gApples < 65536 →
      (snakeEatLoop p 8 0 s).gSnakeScore = s.gSnakeScore + applesAt p 8 0 s.gApples) ∧
    (s.gSnakeLen = 15 → applesAt p 8 0 s.gApples = 1 →
      (snakeEatLoop p 8 0 s).gSnakeLen = 15 ∧
      (snakeEatLoop p 8 0 s).gSnakeScore = (s.gSnakeScore + 1) % 65536) ∧
    ((snakeEatLoop p 8 0 s).gSnake = s.gSnake ∧
      (snakeEatLoop p 8 0 s).gSnakeBufferPos = s.gSnakeBufferPos ∧
      (snakeEatLoop p 8 0 s).gSnakeDir = s.gSnakeDir ∧
      (snakeEatLoop p 8 0 s).gSnakeTime = s.gSnakeTime) ∧
    (∀ (s3 : Device) (nb : Nat),
      (snakeHitLoop s3 (snakeAt s3 nb) (s3.gSnakeLen - 1)
        ((s3.gSnakeBufferPos : Int) - 1)).1 = false →
      (snakeMoved s3 nb).2 = false) := by
  have hsc : (snakeEatLoop p 8 0 s).gSnakeScore
      = (s.gSnakeScore + applesAt p 8 0 s.gApples) % 65536 := by
    have h := congrArg Prod.fst (snakeEatLoop_scores p 8 0 s)
    rw [eatScore_fst _ _ _ hS] at h
    exact h
  obtain ⟨k1, k2, k3, k4, -⟩ := snakeEatLoop_keeps p 8 0 s
  refine ⟨?_, ?_, hsc, ?_, ?_, ⟨k1, k2, k3, k4⟩, ?_⟩
  · intro j hj h1 h2
    rw [snakeEatLoop_apples p 8 0 s (by omega) j, if_pos ⟨by omega, by omega, h1, h2⟩]
  · intro j h
    rw [snakeEatLoop_apples p 8 0 s (by omega) j, if_neg (fun hh => h hh.2.2)]
  · intro h
    rw [hsc, Nat.mod_eq_of_lt h]
  · intro hl h1
    refine ⟨?_, ?_⟩
    · rw [(snakeEatLoop_len p 8 0 s).1, h1, hl]; decide
    · rw [hsc, h1]
  · intro s3 nb h
    obtain ⟨d, hd, -⟩ := snakeMoved_clear s3 nb h
    rw [hd]

/-- C21, for a snake of length 15 and score 40 with one apple, at (5, 5),
under the head: the slot becomes empty and the score 41. -/
theorem apple_eaten_removed_and_scored_witness :
    (((demoDevice.set_gApples oneApple).set_gSnakeLen 15).set_gSnakeScore 40).gApples.length = 8 ∧
    (((demoDevice.set_gApples oneApple).set_gSnakeLen 15).set_gSnakeScore 40).gSnakeScore
      < 65536 ∧
    ((snakeEatLoop ⟨5, 5⟩ 8 0
      (((demoDevice.set_gApples oneApple).set_gSnakeLen 15).set_gSnakeScore 40)).gApples.getD 0
        ⟨0, 0⟩).x = -1 ∧
    (snakeEatLoop ⟨5, 5⟩ 8 0
      (((demoDevice.set_gApples oneApple).set_gSnakeLen 15).set_gSnakeScore 40)).gSnakeScore
      = (40 + 1) % 65536 :=
  ⟨by decide!, by decide!,
   (apple_eaten_removed_and_scored
      (((demoDevice.set_gApples oneApple).set_gSnakeLen 15).set_gSnakeScore 40) ⟨5, 5⟩
      (by decide!) (by decide!)).1 0 (by decide) (by decide!) (by decide!),
   ((apple_eaten_removed_and_scored
      (((demoDevice.set_gApples oneApple).set_gSnakeLen 15).set_gSnakeScore 40) ⟨5, 5⟩
      (by decide!) (by decide!)).2.2.2.2.1 (by decide!) (by decide!)).2⟩

/-- C22. In every snake state `r` reached from `snakeInit` by ticks and
direction presses (the arrays having their declared sizes 16 and 8) the body
length is at least 3 and at most 15, so below the 16 slots of the ring, and
the head slot is inside the ring.  Consequently the slot `nextSlot r` into
which a movement advance stores the new head is inside the ring and is no slot
of the live body: the store leaves the cells of the body as they were.  The
self-collision scan compares a point with the cells of the body behind the
head and with nothing else; it does not read the slot of the new head:
whatever is stored there, the scan gives what it gives on the ring before the
store. -/
theorem ring_never_overrun (d : Device) (h16 : d.gSnake.length = 16)
    (h8 : d.gApples.length = 8) (is : List SnakeInput) (r : Device)
    (hr : r = snakeRun (snakeInit d) is) :
    3 ≤ r.gSnakeLen ∧ r.gSnakeLen ≤ 15 ∧ r.gSnakeLen < MAX_SNAKE_LEN ∧
    r.gSnake.length = MAX_SNAKE_LEN ∧ r.gSnakeBufferPos < MAX_SNAKE_LEN ∧
    nextSlot r < MAX_SNAKE_LEN ∧
    (∀ j, j < r.gSnakeLen → bodySlot r j < MAX_SNAKE_LEN ∧ bodySlot r j ≠ nextSlot r) ∧
    (∀ q, body (snakePut r (nextSlot r) q) = body r) ∧
    (∀ p, (snakeHitLoop r p (r.gSnakeLen - 1) ((r.gSnakeBufferPos : Int) - 1)).1 = true
      ↔ ∃ j, 1 ≤ j ∧ j < r.gSnakeLen ∧ p = snakeAt r (bodySlot r j)) ∧
    (∀ p q, snakeHitLoop (snakePut r (nextSlot r) q) p (r.gSnakeLen - 1)
        ((r.gSnakeBufferPos : Int) - 1)
      = snakeHitLoop r p (r.gSnakeLen - 1) ((r.gSnakeBufferPos : Int) - 1)) := by
  have hinv : SnakeInv r := by
    rw [hr]
    exact snakeRun_inv _ is (snakeInit_inv d h16 h8)
  obtain ⟨⟨k3, k15, kbp, k16, -, -⟩, -⟩ := hinv
  refine ⟨k3, k15, ?_, k16, kbp, nextSlot_lt r kbp, ?_, ?_, ?_, ?_⟩
  · unfold MAX_SNAKE_LEN; omega
  · intro j hj
    exact ⟨bodySlot_lt r j, bodySlot_ne_nextSlot r k15 kbp j hj⟩
  · intro q
    exact body_snakePut r k15 kbp q
  · intro p
    exact scan_iff r p (by omega) (by omega) kbp
  · intro p q
    exact scan_ignores_new_head r k15 kbp p q

/-- C22, on the provisioned badge after a tick, a press of Up and two more
ticks. -/
theorem ring_never_overrun_witness :
    demoDevice.gSnake.length = 16 ∧ demoDevice.gApples.length = 8 ∧
    3 ≤ (snakeRun (snakeInit demoDevice) [.tick, .up, .tick, .tick]).gSnakeLen ∧
    (snakeRun (snakeInit demoDevice) [.tick, .up, .tick, .tick]).gSnakeLen ≤ 15 :=
  ⟨by decide!, by decide!,
   (ring_never_overrun demoDevice (by decide!) (by decide!) [.tick, .up, .tick, .tick] _ rfl).1,
   (ring_never_overrun demoDevice (by decide!) (by decide!) [.tick, .up, .tick, .tick] _
      rfl).2.1⟩

/-- C23. What `readString` returns for input typed in time, for every buffer
length `len` from 1 to 255.  A line of fewer than `len` characters ended by a
line feed: the return value is the number of characters, the buffer holds them
without the line feed and a NUL follows at `strBuf[n]`.  A text whose first
`len` bytes hold no line end: `readString` stores all `len` of them and returns
`len - 1`; the buffer holds `len` characters, the last one at `strBuf[len - 1]`
where the NUL should be, so when these bytes are not NUL the buffer has no NUL,
and the return value is one less than the number of characters read. -/
theorem readString_full_buffer_unterminated (len tv t0 t : Nat) (txt : List Nat)
    (rest : List (Nat × Nat)) (ht : t < readStringDeadline t0 tv) (h0 : 0 < len)
    (h256 : len < 256) :
    ((∀ c ∈ txt, c ≠ 10 ∧ c ≠ 13) → txt.length < len →
      (readString len tv t0 (typedBytes t (txt ++ [10]) ++ rest)).ret = txt.length ∧
      (readString len tv t0 (typedBytes t (txt ++ [10]) ++ rest)).buf.take txt.length = txt ∧
      (readString len tv t0 (typedBytes t (txt ++ [10]) ++ rest)).buf.getD txt.length 1 = 0 ∧
      (readString len tv t0 (typedBytes t (txt ++ [10]) ++ rest)).buf.length = len) ∧
    ((∀ c ∈ txt.take len, c ≠ 10 ∧ c ≠ 13) → len ≤ txt.length →
      (readString len tv t0 (typedBytes t txt ++ rest)).ret = (len : Int) - 1 ∧
      (readString len tv t0 (typedBytes t txt ++ rest)).buf = txt.take len ∧
      (readString len tv t0 (typedBytes t txt ++ rest)).rest
        = typedBytes t (txt.drop len) ++ rest ∧
      (readString len tv t0 (typedBytes t txt ++ rest)).buf.getD (len - 1) 0
        = txt.getD (len - 1) 0 ∧
      (0 ∉ txt.take len → 0 ∉ (readString len tv t0 (typedBytes t txt ++ rest)).buf)) := by
  constructor
  · intro hc hlen
    rw [readString_line len tv t0 t txt rest ht hc (by omega) hlen]
    refine ⟨rfl, ?_, ?_, ?_⟩
    · simp
    · show (txt ++ List.replicate (len - txt.length) 0).getD txt.length 1 = 0
      obtain ⟨k, hk⟩ : ∃ k, len - txt.length = k + 1 := ⟨len - txt.length - 1, by omega⟩
      rw [hk, List.replicate_succ, List.getD_eq_getElem?_getD,
        List.getElem?_append_right (by omega)]
      simp
    · show (txt ++ List.replicate (len - txt.length) 0).length = len
      rw [List.length_append, List.length_replicate]; omega
  · intro hc hlen
    rw [readString_long len tv t0 t txt rest ht hc h256 h0 hlen]
    refine ⟨rfl, rfl, rfl, ?_, fun h => h⟩
    show (txt.take len).getD (len - 1) 0 = txt.getD (len - 1) 0
    rw [List.getD_eq_getElem?_getD, List.getD_eq_getElem?_getD, List.getElem?_take]
    rw [if_pos (by omega)]

/-- C23, with a 4-byte buffer and the bytes "abcd": `readString` returns 3 and
the buffer is "abcd", with "d" in the place of the NUL. -/
theorem readString_full_buffer_unterminated_witness :
    5001 < readStringDeadline 5000 30 ∧
    (readString 4 30 5000 (typedBytes 5001 (bytes "abcd") ++ [])).ret = (4 : Int) - 1 ∧
    (readString 4 30 5000 (typedBytes 5001 (bytes "abcd") ++ [])).buf
      = (bytes "abcd").take 4 :=
  ⟨by decide,
   ((readString_full_buffer_unterminated 4 30 5000 5001 (bytes "abcd") [] (by decide)
      (by decide) (by decide)).2 (by decide) (by decide)).1,
   ((readString_full_buffer_unterminated 4 30 5000 5001 (bytes "abcd") [] (by decide)
      (by decide) (by decide)).2 (by decide) (by decide)).2.1⟩

/-- C24. The deadline of `readString` is the product `t0 * (timeoutVal * 1000)`
modulo `2^32`, not the sum `t0 + 1000 * timeoutVal`: a byte that arrives when
`millis()` has reached the product is reported as a timeout, whatever the sum
is, and a line feed that arrives before the product is accepted, however long
after the sum.  With `timeoutVal = 30` a call at `t0 = 143166` ms has the
deadline 12704 ms, which is in the past, and a call at `t0 = 5000` ms has the
deadline 150 000 000 ms, more than 41 hours later. -/
theorem readString_deadline_is_product (len tv t0 t c : Nat) (rest : List (Nat × Nat))
    (hlate : (t0 * (tv * 1000)) % 4294967296 ≤ t) :
    readStringDeadline t0 tv = (t0 * (tv * 1000)) % 4294967296 ∧
    readString len tv t0 ((t, c) :: rest)
      = ⟨-1, List.replicate len 0, (t, c) :: rest, [.println "\nTIMEOUT"]⟩ ∧
    (∀ t2, t2 < (t0 * (tv * 1000)) % 4294967296 →
      (readString len tv t0 ((t2, 10) :: rest)).ret = 0) ∧
    readStringDeadline 143166 30 = 12704 ∧ readStringDeadline 5000 30 = 150000000 := by
  have hd : readStringDeadline t0 tv = (t0 * (tv * 1000)) % 4294967296 := by
    unfold readStringDeadline
    rw [← Nat.mul_mod]
  refine ⟨hd, ?_, ?_, by decide, by decide⟩
  · unfold readString
    rw [readStringLoop_late _ _ _ _ _ _ _ _ (by rw [hd]; omega)]
    rfl
  · intro t2 h2
    unfold readString
    rw [readStringLoop_eol _ _ _ _ _ _ _ _ (by rw [hd]; exact h2) (Or.inl rfl)]
    rfl

/-- C24, for a call at `millis() = 143166` with a 30 second timeout: the digit
"1" typed one millisecond later, 29.999 s before `t0 + 1000 * 30`, is reported
as a timeout. -/
theorem readString_deadline_is_product_witness :
    (143166 * (30 * 1000)) % 4294967296 ≤ 143167 ∧ 143167 < 143166 + 1000 * 30 ∧
    readString 6 30 143166 ((143167, 49) :: typed 143168 "234\n")
      = ⟨-1, List.replicate 6 0, (143167, 49) :: typed 143168 "234\n",
          [.println "\nTIMEOUT"]⟩ :=
  ⟨by decide, by decide,
   (readString_deadline_is_product 6 30 143166 143167 49 (typed 143168 "234\n")
      (by decide)).2.1⟩

/-- C25. After a mode change (`modeUp` or `modeDown`) the banner counter is 20
and the mode is one of the six.  Each of the next 20 runs of the background
task draws only the banner (it clears the display, writes the name of the mode
at (10, 20) and shows it) and lowers the counter by one: after `k` of them the
state is that of the mode change with `k` banners in the output and the counter
at `20 - k`, nothing else changed.  After the 20 runs the counter is 0, the
mode is as it was, and the next run draws the body of the mode.  While
the counter is not 0 every new button edge runs the default handler whatever
the mode, so a sample of the buttons leaves the PIN guess, the cursor and the
snake unchanged: an Up press in Unlock mode moves on to mode 2 with guess and
cursor as they were, and no press in Snake mode changes the snake's
direction. -/
theorem banner_after_mode_change (s d : Device) (hd : d = modeUp s ∨ d = modeDown s) :
    d.gFreshModeChange = 20 ∧
    (0 ≤ d.gBgMode ∧ d.gBgMode ≤ 5) ∧
    (∀ k, k ≤ 20 → doBGTask^[k] d
      = (emit d (bannerLog d.gBgMode k)).set_gFreshModeChange (20 - k)) ∧
    (∀ k, k ≤ 20 → (doBGTask^[k] d).log = d.log ++ bannerLog d.gBgMode k) ∧
    (∀ k, k < 20 → (doBGTask (doBGTask^[k] d)).log = (doBGTask^[k] d).log ++
      [.oledClear, .oledText (bytes (mode_string_array.getD d.gBgMode.toNat "")) 10 20,
        .oledShow]) ∧
    (∀ k, k < 20 → doBGTask (doBGTask^[k] d)
      = (displayChangeModes (doBGTask^[k] d)).set_gFreshModeChange (19 - k)) ∧
    (doBGTask^[20] d).gFreshModeChange = 0 ∧ (doBGTask^[20] d).gBgMode = d.gBgMode ∧
    (∀ e : Device, e.gFreshModeChange = 0 →
      (e.gBgMode = 0 → doBGTask e = displayClock e) ∧
      (e.gBgMode = 1 → doBGTask e = displayUnlock e) ∧
      (e.gBgMode = 2 → doBGTask e = displayVersion e) ∧
      (e.gBgMode = 3 → doBGTask e = displayFlag e) ∧
      (e.gBgMode = 4 → doBGTask e = displayLock e) ∧
      (e.gBgMode = 5 → doBGTask e = snakeBgMode e)) ∧
    (∀ (e : Device) (bit : Nat) (dflt : Device → Device)
        (pick : ButtonHandler → Device → Device),
      e.gFreshModeChange ≠ 0 → e.gOldButtonStates &&& bit = 0 →
      buttonBlock true bit dflt pick e
        = (dflt e).set_gOldButtonStates ((dflt e).gOldButtonStates ||| bit)) ∧
    (∀ (e : Device) (b : Buttons), e.gFreshModeChange ≠ 0 →
      play (readDigitalButtons e b) = play e) ∧
    (∀ e : Device, e.gFreshModeChange ≠ 0 → e.gBgMode = 1 →
      e.gOldButtonStates &&& OLD_BUTTON_STATE_UP = 0 →
      (readDigitalButtons e upPressed).gBgMode = 2 ∧
      (readDigitalButtons e upPressed).gCurrentPinGuess = e.gCurrentPinGuess ∧
      (readDigitalButtons e upPressed).gCurrentPinGuessPos = e.gCurrentPinGuessPos) ∧
    (∀ (e : Device) (b : Buttons), e.gFreshModeChange ≠ 0 → e.gBgMode = 5 →
      (readDigitalButtons e b).gSnakeDir = e.gSnakeDir) := by
  have h20 : d.gFreshModeChange = 20 := by
    rcases hd with rfl | rfl
    · exact modeUp_gFreshModeChange s
    · exact modeDown_gFreshModeChange s
  have hm : ModeOk d := by
    rcases hd with rfl | rfl
    · exact modeUp_modeOk s
    · exact modeDown_modeOk s
  have hst := fun k hk => doBGTask_banner_state k d h20 hm hk
  have hlog : ∀ k, k ≤ 20 → (doBGTask^[k] d).log = d.log ++ bannerLog d.gBgMode k := by
    intro k hk
    rw [hst k hk]
    rfl
  refine ⟨h20, hm, hst, hlog, ?_, ?_, (doBGTask_banner_count 20 20 d h20 (by omega)).1,
    (doBGTask_banner_count 20 20 d h20 (by omega)).2, ?_, ?_, ?_, ?_, ?_⟩
  · intro k hk
    have h1 := hlog (k + 1) (by omega)
    rw [Function.iterate_succ_apply'] at h1
    rw [h1, hlog k (by omega)]
    simp only [bannerLog, List.append_assoc]
  · intro k hk
    obtain ⟨h1, -⟩ := doBGTask_banner_count 20 k d h20 (by omega)
    rw [doBGTask_banner _ (by rw [h1]; omega), h1]
    have : 20 - k - 1 = 19 - k := by omega
    rw [this]
  · intro e h0
    have hn : ¬ e.gFreshModeChange ≠ 0 := not_not.mpr h0
    refine ⟨?_, ?_, ?_, ?_, ?_, ?_⟩ <;> intro hm <;> unfold doBGTask <;> rw [if_neg hn, hm] <;>
      simp
  · intro e bit dflt pick hb he
    exact buttonBlock_banner bit dflt pick e hb he
  · intro e b hb
    exact (readDigitalButtons_banner e b hb).1
  · intro e hb hm he
    have hp := (readDigitalButtons_banner e upPressed hb).1
    refine ⟨?_, play_gCurrentPinGuess hp, play_gCurrentPinGuessPos hp⟩
    have h2 : toInt8 (1 + 1) = 2 := by decide
    rw [readDigitalButtons_banner_up e hb he, modeUp_gBgMode, hm, h2]
    split_ifs <;> first | decide | omega
  · intro e b hb _
    exact play_gSnakeDir (readDigitalButtons_banner e b hb).1

/-- C25, on the provisioned badge after `modeUp` (from Clock to Unlock): the
first run of the background task draws the banner "unlock" and leaves the
counter at 19, and the output of the 20 runs is 20 banners. -/
theorem banner_after_mode_change_witness :
    (modeUp demoDevice).gFreshModeChange = 20 ∧
    (modeUp demoDevice).gBgMode = 1 ∧
    (doBGTask (doBGTask^[0] (modeUp demoDevice))).log = (doBGTask^[0] (modeUp demoDevice)).log ++
      [.oledClear, .oledText (bytes "unlock") 10 20, .oledShow] ∧
    doBGTask (doBGTask^[0] (modeUp demoDevice))
      = (displayChangeModes (doBGTask^[0] (modeUp demoDevice))).set_gFreshModeChange (19 - 0) ∧
    (doBGTask^[20] (modeUp demoDevice)).log
      = (modeUp demoDevice).log ++ bannerLog (modeUp demoDevice).gBgMode 20 ∧
    (doBGTask^[20] (modeUp demoDevice)).gFreshModeChange = 0 :=
  ⟨(banner_after_mode_change demoDevice (modeUp demoDevice) (Or.inl rfl)).1,
   by decide!,
   (banner_after_mode_change demoDevice (modeUp demoDevice) (Or.inl rfl)).2.2.2.2.1 0
     (by decide),
   (banner_after_mode_change demoDevice (modeUp demoDevice) (Or.inl rfl)).2.2.2.2.2.1 0
     (by decide),
   (banner_after_mode_change demoDevice (modeUp demoDevice) (Or.inl rfl)).2.2.2.1 20
     (by decide),
   (banner_after_mode_change demoDevice (modeUp demoDevice) (Or.inl rfl)).2.2.2.2.2.2.1⟩

/-- C26. A movement advance (`snakeMove`) from a snake state with its head on
the board (columns 1 to 62, rows 0 to 31: the cells the wall tests let a head
stay on) ends the session if and only if the new head cell, the cell next to
the head in the facing direction, is off the board or is the cell of a segment
of the current body.  When it ends, the state left is the start state: length
3, segments (32,16), (33,16), (34,16) with the head last, facing right, speed
mask 5, score 0, tick counter 0 and all 8 apple slots empty; and, the bus
performing its transfers, the high score registers then hold the larger of the
score accrued and the high score they held: the score of the ended session is
the one that was compared. -/
theorem session_end_iff (s : Device) (hok : SnakeOk s) (hp : playable (snakeHead s)) :
    ((snakeMove s).2 = true ↔ ¬ playable (newHead s) ∨ newHead s ∈ body s) ∧
    ((snakeMove s).2 = true →
      StartState (snakeMove s).1 ∧
      (snakeMove s).1.gSnakeLen = 3 ∧
      body (snakeMove s).1 = [⟨34, 16⟩, ⟨33, 16⟩, ⟨32, 16⟩] ∧
      snakeHead (snakeMove s).1 = ⟨34, 16⟩ ∧
      (snakeMove s).1.gSnakeDir = SNAKE_RIGHT ∧ (snakeMove s).1.gSnakeSpeed = 0x5 ∧
      (snakeMove s).1.gSnakeScore = 0 ∧ (snakeMove s).1.gSnakeTime = 0 ∧
      (snakeMove s).1.gApples = List.replicate 8 ⟨-1, -1⟩ ∧
      (s.gSnakeScore < 65536 → s.ram.length = 64 → Faultless s.bus →
        highScore (snakeMove s).1.ram = max s.gSnakeScore (highScore s.ram))) ∧
    ((snakeMove s).2 = false →
      snakeHead (snakeMove s).1 = newHead s ∧ (snakeMove s).1.gSnakeTime = s.gSnakeTime) := by
  obtain ⟨ha, hb, hc⟩ := snakeMove_spec s hok hp
  refine ⟨ha, fun h => ?_, fun h => ?_⟩
  · obtain ⟨b1, -, b3⟩ := hb h
    obtain ⟨c1, c2⟩ := startState_body _ b1
    exact ⟨b1, b1.1, c1, c2, b1.2.2.2.2.2.1, b1.2.2.2.2.2.2.1, b1.2.2.2.2.2.2.2.1,
      b1.2.2.2.2.2.2.2.2.1, b1.2.2.2.2.2.2.2.2.2, b3⟩
  · obtain ⟨f1, f2, -, f4, -⟩ := hc h
    refine ⟨?_, f4⟩
    unfold snakeHead snakeAt
    rw [f1, f2, List.getD_eq_getElem?_getD, List.getElem?_set]
    have : nextSlot s < s.gSnake.length := by
      rw [hok.2.2.2.1]; exact nextSlot_lt s hok.2.2.1
    simp only [this, if_true, Option.getD_some]

/-- C26, on the provisioned badge in its start state after a press of Left:
the new head (33,16) is the cell of the second segment, the session ends. -/
theorem session_end_iff_witness :
    SnakeOk (snakeLeftHandler demoDevice) ∧ playable (snakeHead (snakeLeftHandler demoDevice)) ∧
    newHead (snakeLeftHandler demoDevice) ∈ body (snakeLeftHandler demoDevice) ∧
    (snakeMove (snakeLeftHandler demoDevice)).2 = true :=
  ⟨by decide!, by decide!, by decide!,
   (session_end_iff (snakeLeftHandler demoDevice) (by decide!) (by decide!)).1.mpr
     (Or.inr (by decide!))⟩

/-- C28. An apple spawn is attempted exactly on the ticks whose counter value
`c` has `c mod 64 = 63`: on every other tick `snakeBgMode` goes straight to the
movement gate.  On a spawn tick with an empty slot the apple loop puts exactly
one apple, into the lowest empty slot, at a cell with `0 ≤ x < 64` and
`0 ≤ y < 32`; every other slot is unchanged (and, the speed mask being 1, 3 or
5, the snake does not move on that tick).  On a spawn tick with all 8 slots
occupied the session ends with `snakeReset` and nothing else happens: the
start state is left. -/
theorem apple_spawn (s : Device) (h8 : s.gApples.length = 8) (h16 : s.gSnake.length = 16) :
    (curTime s &&& 0x3f = 0x3f ↔ curTime s % 64 = 63) ∧
    (curTime s % 64 ≠ 63 → snakeBgMode s =
      if curTime s &&& s.gSnakeSpeed = 0 then
        if (snakeMove (s.set_gSnakeTime (curTime s))).2 then
          (snakeMove (s.set_gSnakeTime (curTime s))).1
        else snakeRedrawDisplay (snakeMove (s.set_gSnakeTime (curTime s))).1
      else snakeRedrawDisplay (s.set_gSnakeTime (curTime s))) ∧
    (curTime s % 64 = 63 → ∀ j, freeSlot s.gApples 8 0 = some j →
      j < 8 ∧ (s.gApples.getD j ⟨0, 0⟩).x = -1 ∧
      (∀ k, k < j → (s.gApples.getD k ⟨0, 0⟩).x ≠ -1) ∧
      (snakeAddApple 8 0 (spawnStart s)).2 = false ∧
      (∃ x y : Nat, x < 64 ∧ y < 32 ∧
        (snakeAddApple 8 0 (spawnStart s)).1.gApples = s.gApples.set j ⟨x, y⟩ ∧
        (snakeAddApple 8 0 (spawnStart s)).1.gApples.getD j ⟨0, 0⟩ = ⟨x, y⟩) ∧
      (∀ k, k ≠ j → (snakeAddApple 8 0 (spawnStart s)).1.gApples.getD k ⟨0, 0⟩
        = s.gApples.getD k ⟨0, 0⟩) ∧
      (s.gSnakeSpeed = 1 ∨ s.gSnakeSpeed = 3 ∨ s.gSnakeSpeed = 5 →
        snakeBgMode s = snakeRedrawDisplay (snakeAddApple 8 0 (spawnStart s)).1)) ∧
    (freeSlot s.gApples 8 0 = none ↔ ∀ k, k < 8 → (s.gApples.getD k ⟨0, 0⟩).x ≠ -1) ∧
    (curTime s % 64 = 63 → freeSlot s.gApples 8 0 = none →
      snakeBgMode s = snakeReset (emit (spawnStart s)
        [.println "Too many apples!", .led RED_LED 1]) true ∧
      StartState (snakeBgMode s)) := by
  refine ⟨by rw [and_63], fun hc => snakeBgMode_plain s hc, ?_, ?_, ?_⟩
  · intro hc j hf
    obtain ⟨a1, a2, a3, a4⟩ := freeSlot_some _ _ _ _ hf
    obtain ⟨b1, b2, b3, -⟩ := snakeAddApple_free 8 0 j (spawnStart s) hf
    have hx := random_lt (spawnStart s) SNAKE_SCREEN_WIDTH.toNat (by decide)
    have hy := random_lt (random (spawnStart s) SNAKE_SCREEN_WIDTH.toNat).1
      SNAKE_SCREEN_HEIGHT.toNat (by decide)
    have hx2 : (random (spawnStart s) SNAKE_SCREEN_WIDTH.toNat).2 < 64 := hx
    have hy2 : (random (random (spawnStart s) SNAKE_SCREEN_WIDTH.toNat).1
      SNAKE_SCREEN_HEIGHT.toNat).2 < 32 := hy
    rw [toInt8_small _ (by omega), toInt8_small _ (by omega)] at b2
    have b2s : (snakeAddApple 8 0 (spawnStart s)).1.gApples = s.gApples.set j
        ⟨((random (spawnStart s) SNAKE_SCREEN_WIDTH.toNat).2 : Int),
         ((random (random (spawnStart s) SNAKE_SCREEN_WIDTH.toNat).1
            SNAKE_SCREEN_HEIGHT.toNat).2 : Int)⟩ := b2
    refine ⟨by omega, a3, fun k hk => a4 k (Nat.zero_le _) hk, b1, ⟨_, _, hx2, hy2, b2s, ?_⟩,
      ?_, ?_⟩
    · rw [b2s, List.getD_eq_getElem?_getD, List.getElem?_set]
      have : j < s.gApples.length := by omega
      simp [this]
    · intro k hk
      rw [b2s, List.getD_eq_getElem?_getD, List.getD_eq_getElem?_getD, List.getElem?_set]
      rw [if_neg (fun e => hk e.symm)]
    · intro hsp
      have hsame : (snakeAddApple 8 0 (spawnStart s)).1.gSnakeSpeed = s.gSnakeSpeed := by
        have h := play_gSnakeSpeed (b3 [])
        rw [set_gApples_gSnakeSpeed, set_gApples_gSnakeSpeed, spawnStart_gSnakeSpeed] at h
        exact h
      have hc256 : curTime s < 256 := Nat.mod_lt _ (by decide)
      obtain ⟨n1, n3, n5⟩ := spawn_tick_no_move (curTime s) hc256 hc
      have hne : ¬ (s.gSnakeTime + 1) % 256 &&& (snakeAddApple 8 0 (spawnStart s)).1.gSnakeSpeed
          = 0 := by
        rw [hsame]
        rcases hsp with h | h | h <;> rw [h]
        · exact n1
        · exact n3
        · exact n5
      rw [snakeBgMode_spawn s hc j hf]
      exact if_neg hne
  · have := freeSlot_none s.gApples 8 0
    constructor
    · intro h k hk
      exact this.mp h k (Nat.zero_le _) (by omega)
    · intro h
      exact this.mpr (fun k _ hk => h k (by omega))
  · intro hc hf
    have he := snakeBgMode_full s hc hf
    refine ⟨he, ?_⟩
    rw [he]
    exact (snakeReset_start _ true (by simpa [emit_gSnake] using h16)
      (by simpa [emit_gApples] using h8)).1

/-- C28, on the provisioned badge in its start state at tick 63: the apple
goes into slot 0. -/
theorem apple_spawn_witness :
    (demoDevice.set_gSnakeTime 62).gApples.length = 8 ∧
    (demoDevice.set_gSnakeTime 62).gSnake.length = 16 ∧
    curTime (demoDevice.set_gSnakeTime 62) % 64 = 63 ∧
    freeSlot (demoDevice.set_gSnakeTime 62).gApples 8 0 = some 0 ∧
    (snakeAddApple 8 0 (spawnStart (demoDevice.set_gSnakeTime 62))).2 = false :=
  ⟨by decide!, by decide!, by decide!, by decide!,
   ((apple_spawn (demoDevice.set_gSnakeTime 62) (by decide!) (by decide!)).2.2.1
      (by decide!) 0 (by decide!)).2.2.2.1⟩

/-- C29. A failed PIN read never unlocks the device: when `clockRead` delivers
fewer than 4 bytes for the PIN field, `readPinFromRam` returns `0xFFFFFFFF`;
then for every button guess (a `uint16_t`, below 65536) the confirm press
leaves the device locked, and for every typed line whose parsed value is below
`2^32 - 1` (and on a timeout) `commandUnlock` leaves it locked. -/
theorem failed_pin_read_keeps_locked (s : Device) (hl : s.gIsLocked = true)
    (hf : (clockRead s (PIN_CODE_0_ADDR + (PIN_CODE_LEN + FLAG_LEN) * (s.gChallengeMode % 4)) 4
      (List.replicate 4 0)).2.1 ≠ 4) :
    (readPinFromRam s s.gChallengeMode).2 = 4294967295 ∧
    (s.gCurrentPinGuess < 65536 → (unlockBHandler s).gIsLocked = true) ∧
    (∀ t0 input, parsePin (readString 6 30 t0 input).buf (beyond s).2 < 4294967295 →
      (commandUnlock s t0 input).1.gIsLocked = true) ∧
    (∀ t0 input, (readString 6 30 t0 input).ret = -1 →
      (commandUnlock s t0 input).1.gIsLocked = true) := by
  have hp := readPinFromRam_failed s s.gChallengeMode hf
  refine ⟨hp, ?_, ?_, ?_⟩
  · intro hg
    rw [unlockBHandler_gIsLocked, hp, if_neg (by omega), hl]
  · intro t0 input hv
    rw [commandUnlock_gIsLocked, hp, hl]
    split_ifs with h1 h2
    · rfl
    · omega
    · rfl
  · intro t0 input hr
    rw [commandUnlock_gIsLocked, if_pos hr, hl]

/-- C29, on the provisioned badge with a bus that delivers two bytes of the
four: the typed line "1234" (the stored PIN) does not unlock. -/
theorem failed_pin_read_keeps_locked_witness :
    shortReadDevice.gIsLocked = true ∧
    (clockRead shortReadDevice
      (PIN_CODE_0_ADDR + (PIN_CODE_LEN + FLAG_LEN) * (shortReadDevice.gChallengeMode % 4)) 4
      (List.replicate 4 0)).2.1 ≠ 4 ∧
    (readPinFromRam shortReadDevice shortReadDevice.gChallengeMode).2 = 4294967295 ∧
    (commandUnlock shortReadDevice 5000 (typed 5001 "1234\n")).1.gIsLocked = true :=
  ⟨by decide!, by decide!,
   (failed_pin_read_keeps_locked shortReadDevice (by decide!) (by decide!)).1,
   (failed_pin_read_keeps_locked shortReadDevice (by decide!) (by decide!)).2.2.1 5000
     (typed 5001 "1234\n") (by decide!)⟩

/-- C30. In every state the main loop reaches (from mode 0 and cursor 0, by
button samples, background task runs and shell commands) the display mode is
in 0..5 and the PIN cursor is in 0..4; so the table of button handlers has an
entry for the mode, and the place value of the digit handlers is
`10 ^ (4 - cursor)`, one of 1, 10, 100, 1000, 10000.  The left action at
cursor 0 and the right action at cursor 4 change nothing, elsewhere they move
the cursor by one, and they never change the guess. -/
theorem mode_and_cursor_in_range (s : Device) (hs : Reachable s) :
    0 ≤ s.gBgMode ∧ s.gBgMode ≤ 5 ∧ s.gCurrentPinGuessPos ≤ 4 ∧
    (∃ h, gButtonHandlersForMode s.gBgMode = some h) ∧
    curPosVal s = 10 ^ (4 - s.gCurrentPinGuessPos) ∧
    curPosVal s ∈ [1, 10, 100, 1000, 10000] ∧
    (s.gCurrentPinGuessPos = 0 → unlockLeftHandler s = s) ∧
    (s.gCurrentPinGuessPos = 4 → unlockRightHandler s = s) ∧
    (0 < s.gCurrentPinGuessPos →
      (unlockLeftHandler s).gCurrentPinGuessPos = s.gCurrentPinGuessPos - 1) ∧
    (s.gCurrentPinGuessPos < 4 →
      (unlockRightHandler s).gCurrentPinGuessPos = s.gCurrentPinGuessPos + 1) ∧
    (unlockLeftHandler s).gCurrentPinGuess = s.gCurrentPinGuess ∧
    (unlockRightHandler s).gCurrentPinGuess = s.gCurrentPinGuess := by
  obtain ⟨hm0, hm5⟩ := reachable_modeOk s hs
  have hc := reachable_cursor s hs
  have hv := curPosVal_eq s hc
  refine ⟨hm0, hm5, hc, ?_, hv, ?_, ?_, ?_, ?_, ?_, unlockLeftHandler_guess s,
    unlockRightHandler_guess s⟩
  · unfold gButtonHandlersForMode
    split_ifs
    all_goals first
      | exact ⟨_, rfl⟩
      | (exfalso; omega)
  · rw [hv]
    generalize s.gCurrentPinGuessPos = c at hc
    interval_cases c <;> simp
  · intro h
    unfold unlockLeftHandler
    rw [if_pos h]
  · intro h
    unfold unlockRightHandler
    rw [if_pos (by omega)]
  · intro _
    exact unlockLeftHandler_pos s
  · intro h
    rw [unlockRightHandler_pos, if_neg (by omega)]

/-- C30, on the provisioned badge after stepping to the Unlock screen and six
presses of Right: the cursor has stopped at 4. -/
theorem mode_and_cursor_in_range_witness :
    (run demoDevice cursorTrace).gBgMode = 1 ∧
    (run demoDevice cursorTrace).gCurrentPinGuessPos = 4 ∧
    (run demoDevice cursorTrace).gCurrentPinGuessPos ≤ 4 ∧
    curPosVal (run demoDevice cursorTrace)
      = 10 ^ (4 - (run demoDevice cursorTrace).gCurrentPinGuessPos) :=
  ⟨by decide!, by decide!,
   (mode_and_cursor_in_range (run demoDevice cursorTrace)
      ⟨demoRam, [], [], [], cursorTrace, rfl⟩).2.2.1,
   (mode_and_cursor_in_range (run demoDevice cursorTrace)
      ⟨demoRam, [], [], [], cursorTrace, rfl⟩).2.2.2.2.1⟩

/-- C31. In every snake state `r` reached from `snakeInit` by ticks and
direction presses (the arrays having their declared sizes 16 and 8) every
segment of the live body, the `gSnakeLen` ring entries back from the head, is
a cell with `1 ≤ x ≤ 62` and `0 ≤ y ≤ 31`.  Consequently an apple in column 0
or 63 is never eaten: a tick leaves it in its slot unless the session ends
with that tick (the start state is left), and through every further run of
ticks and presses it is still in its slot unless the session has ended on the
way. -/
theorem body_on_board (d : Device) (h16 : d.gSnake.length = 16) (h8 : d.gApples.length = 8)
    (is : List SnakeInput) (r : Device) (hr : r = snakeRun (snakeInit d) is) :
    (∀ p ∈ body r, 1 ≤ p.x ∧ p.x ≤ 62 ∧ 0 ≤ p.y ∧ p.y ≤ 31) ∧
    (∀ j, j < r.gSnakeLen → playable (snakeAt r (bodySlot r j))) ∧
    (∀ i, i < 8 →
      ((r.gApples.getD i ⟨0, 0⟩).x = 0 ∨ (r.gApples.getD i ⟨0, 0⟩).x = 63) →
      (StartState (snakeBgMode r) ∨
        (snakeBgMode r).gApples.getD i ⟨0, 0⟩ = r.gApples.getD i ⟨0, 0⟩) ∧
      ∀ is2, (snakeRun r is2).gApples.getD i ⟨0, 0⟩ = r.gApples.getD i ⟨0, 0⟩ ∨
        ∃ pre, pre ≠ [] ∧ pre <+: is2 ∧ StartState (snakeRun r pre)) := by
  have hb : BodyInv r := by
    rw [hr]
    exact run_bodyInv _ is (snakeInit_bodyInv d h16 h8)
  have hp := body_playable r hb
  refine ⟨hp, ?_, ?_⟩
  · intro j hj
    exact hp _ ((mem_body r _).mpr ⟨j, hj, rfl⟩)
  · intro i hi hx
    exact ⟨apple_tick r hb.1 i hi hx, fun is2 => apple_run is2 r hb.1 i hi hx⟩

/-- C31, on the provisioned badge, whose `random` results are 0, after 63
ticks: the apple of the first spawn is at (0, 0), in slot 0; the body is on
the board and the next tick leaves the apple where it is. -/
theorem body_on_board_witness :
    demoDevice.gSnake.length = 16 ∧ demoDevice.gApples.length = 8 ∧
    (snakeRun (snakeInit demoDevice) (List.replicate 63 .tick)).gApples.getD 0 ⟨0, 0⟩
      = ⟨0, 0⟩ ∧
    (StartState (snakeBgMode (snakeRun (snakeInit demoDevice) (List.replicate 63 .tick))) ∨
      (snakeBgMode (snakeRun (snakeInit demoDevice) (List.replicate 63 .tick))).gApples.getD 0
          ⟨0, 0⟩
        = (snakeRun (snakeInit demoDevice) (List.replicate 63 .tick)).gApples.getD 0 ⟨0, 0⟩) :=
  ⟨by decide!, by decide!, by decide!,
   ((body_on_board demoDevice (by decide!) (by decide!) (List.replicate 63 .tick) _ rfl).2.2 0
      (by decide) (Or.inl (by decide!))).1⟩

/-- C32. What `setPin(n)` followed by `commandUnlock` at challenge mode `n`
does with the same line of 3 to 5 decimal digits, typed in time, on a locked
badge over a bus that performs every transfer; `d` is the badge after
`setPin`.  The line has the value its digits write, below `10 ^ length`.
A line of three digits is refused: the validation loop tests the first
four bytes of the buffer and the fourth is the NUL; `setPin` prints "Pin code
is invalid", writes nothing, and the unlock succeeds exactly when the value is
the PIN the slot held before.  A line of four or five digits is stored, the
four bytes of its value going to the PIN field of the slot; `readPinFromRam`
then returns the value modulo 65536, so the unlock succeeds exactly when the
value is below 65536: always for four digits, and not for the five-digit
values from 65536 on. -/
theorem setPin_then_unlock (s : Device) (n t0 t t1 t2 : Nat) (txt : List Nat)
    (hn : n ≤ 3) (hm : s.gChallengeMode = n) (hl : s.gIsLocked = true)
    (hram : s.ram.length = 64) (hbus : Faultless s.bus)
    (hd : ∀ c ∈ txt, 48 ≤ c ∧ c ≤ 57) (h3 : 3 ≤ txt.length) (h5 : txt.length ≤ 5)
    (ht : t < readStringDeadline t0 30) (ht2 : t2 < readStringDeadline t1 30)
    (d : Device) (hdd : d = (setPin s n t0 (typedBytes t (txt ++ [10]))).1) :
    strtoul txt = digitsValue txt ∧ digitsValue txt < 10 ^ txt.length ∧
    (txt.length = 3 →
      d.ram = s.ram ∧
      d.log = s.log ++ [.println "Give me a pin to write (no mor than 5 digits)"]
        ++ (txt ++ [10]).map .printChar ++ [.println "Pin code is invalid"] ∧
      ((commandUnlock d t1 (typedBytes t2 (txt ++ [10]))).1.gIsLocked = false
        ↔ digitsValue txt = pinField s.ram n)) ∧
    (4 ≤ txt.length →
      d.ram = ramWrite s.ram (PIN_CODE_0_ADDR + 16 * n) (bytes32 (digitsValue txt)) ∧
      (readPinFromRam d n).2 = digitsValue txt % 65536 ∧
      ((commandUnlock d t1 (typedBytes t2 (txt ++ [10]))).1.gIsLocked = false
        ↔ digitsValue txt < 65536)) ∧
    (txt.length = 4 →
      (commandUnlock d t1 (typedBytes t2 (txt ++ [10]))).1.gIsLocked = false) := by
  obtain ⟨hv1, hv2⟩ := strtoul_digits txt hd (by omega)
  have hnl := digits_no_line_end txt hd
  have hin : ∀ u : Nat, typedBytes u (txt ++ [10]) = typedBytes u (txt ++ [10]) ++ [] :=
    fun u => (List.append_nil _).symm
  have hun : ∀ e : Device, (commandUnlock e t1 (typedBytes t2 (txt ++ [10]))).1.gIsLocked
      = (if strtoul txt = (readPinFromRam e e.gChallengeMode).2 then false
          else e.gIsLocked) := by
    intro e
    rw [hin t2]
    exact commandUnlock_line e t1 t2 txt [] ht2 hnl h5
  have h45 : 4 ≤ txt.length →
      d.ram = ramWrite s.ram (PIN_CODE_0_ADDR + 16 * n) (bytes32 (digitsValue txt)) ∧
      (readPinFromRam d n).2 = digitsValue txt % 65536 ∧
      ((commandUnlock d t1 (typedBytes t2 (txt ++ [10]))).1.gIsLocked = false
        ↔ digitsValue txt < 65536) := by
    intro h4
    have hval : digitsValue txt < 4294967296 := by
      have : 10 ^ txt.length ≤ 10 ^ 5 := Nat.pow_le_pow_right (by decide) h5
      omega
    have hs := setPin_stored s n t0 t txt [] ht hd h4 h5
    rw [← hin t, hv1] at hs
    rw [hs] at hdd
    simp only at hdd
    obtain ⟨r1, r2⟩ := readPin_after_write (emit (beyond (emit (emit s
        [.println "Give me a pin to write (no mor than 5 digits)"])
        ((txt ++ [10]).map .printChar))).1
        [.print "Writing pin #", .printNum n, .print " as ", .printlnNum (digitsValue txt)])
      n (digitsValue txt) hn hval
      (by rw [emit_ram, beyond_ram, emit_ram, emit_ram]; exact hram)
      (by rw [emit_bus, beyond_bus, emit_bus, emit_bus]; exact hbus)
    rw [emit_ram, beyond_ram, emit_ram, emit_ram] at r2
    rw [← hdd] at r1 r2
    have hcm : d.gChallengeMode = n := by
      rw [hdd, writePinToRam_gChallengeMode, emit_gChallengeMode, beyond_gChallengeMode,
        emit_gChallengeMode, emit_gChallengeMode, hm]
    have hlk : d.gIsLocked = true := by
      rw [hdd, writePinToRam_gIsLocked, emit_gIsLocked, beyond_gIsLocked, emit_gIsLocked,
        emit_gIsLocked, hl]
    refine ⟨r2, r1, ?_⟩
    rw [hun d, hcm, r1, hlk, hv1]
    constructor
    · intro h
      split_ifs at h with hq
      omega
    · intro h
      rw [if_pos (Nat.mod_eq_of_lt h).symm]
  refine ⟨hv1, hv2, ?_, h45, ?_⟩
  · intro hlen3
    have hs := setPin_three s n t0 t txt [] ht hd hlen3
    rw [← hin t] at hs
    rw [hs] at hdd
    simp only at hdd
    have hr : d.ram = s.ram := by rw [hdd]; rfl
    have hb : d.bus = s.bus := by rw [hdd]; rfl
    have hcm : d.gChallengeMode = n := by rw [hdd]; exact hm
    have hlk : d.gIsLocked = true := by rw [hdd]; exact hl
    refine ⟨hr, by rw [hdd]; rfl, ?_⟩
    rw [hun d, hcm, readPinFromRam_snd, hb, faultless_head _ hbus, pinRead_ok _ _ hn, hr, hlk,
      hv1]
    constructor
    · intro h
      split_ifs at h with hq
      exact hq
    · intro h
      rw [if_pos h]
  · intro hlen4
    have hlt : digitsValue txt < 65536 := by
      rw [hlen4] at hv2
      omega
    exact (h45 (by omega)).2.2.mpr hlt

/-- C32, on the provisioned badge (challenge 0, PIN 1234): with the line
"123" `setPin(0)` writes nothing and the unlock with "123" leaves the badge
locked; with the line "70000" the value is stored and the unlock with "70000"
leaves the badge locked as well. -/
theorem setPin_then_unlock_witness :
    demoDevice.gChallengeMode = 0 ∧ demoDevice.gIsLocked = true ∧
    demoDevice.ram.length = 64 ∧ Faultless demoDevice.bus ∧
    (∀ c ∈ bytes "123", 48 ≤ c ∧ c ≤ 57) ∧
    5001 < readStringDeadline 5000 30 ∧ 9001 < readStringDeadline 9000 30 ∧
    (setPin demoDevice 0 5000 (typedBytes 5001 (bytes "123" ++ [10]))).1.ram
      = demoDevice.ram ∧
    digitsValue (bytes "123") ≠ pinField demoDevice.ram 0 ∧
    ((commandUnlock (setPin demoDevice 0 5000 (typedBytes 5001 (bytes "123" ++ [10]))).1 9000
        (typedBytes 9001 (bytes "123" ++ [10]))).1.gIsLocked = false
      ↔ digitsValue (bytes "123") = pinField demoDevice.ram 0) ∧
    ¬ digitsValue (bytes "70000") < 65536 ∧
    ((commandUnlock (setPin demoDevice 0 5000 (typedBytes 5001 (bytes "70000" ++ [10]))).1 9000
        (typedBytes 9001 (bytes "70000" ++ [10]))).1.gIsLocked = false
      ↔ digitsValue (bytes "70000") < 65536) :=
  ⟨by decide!, by decide!, by decide!, by decide!, by decide, by decide, by decide,
   ((setPin_then_unlock demoDevice 0 5000 5001 9000 9001 (bytes "123") (by decide)
      (by decide!) (by decide!) (by decide!) (by decide!) (by decide) (by decide) (by decide)
      (by decide) (by decide) _ rfl).2.2.1 (by decide)).1,
   by decide!,
   ((setPin_then_unlock demoDevice 0 5000 5001 9000 9001 (bytes "123") (by decide)
      (by decide!) (by decide!) (by decide!) (by decide!) (by decide) (by decide) (by decide)
      (by decide) (by decide) _ rfl).2.2.1 (by decide)).2.2,
   by decide,
   ((setPin_then_unlock demoDevice 0 5000 5001 9000 9001 (bytes "70000") (by decide)
      (by decide!) (by decide!) (by decide!) (by decide!) (by decide) (by decide) (by decide)
      (by decide) (by decide) _ rfl).2.2.2.1 (by decide)).2.2⟩

end Vault
